import Mathlib

/-! RobotArena: the combat engine (`Game`, `Robot`) as a shallow embedding.

The definitions below are translated from `src/robot.h`, `src/robot.cpp`,
`src/game.h` and `src/game.cpp`.

Conventions of the embedding.

* `QPoint` coordinates, health, moves and hit-points are C++ `int`; they are
  `Int` here (all values the engine computes stay far from the 32-bit limits).
* `arena` and `wallHealth` are `std::vector<std::vector<_>>` indexed `[y][x]`;
  they are functions `Int → Int → _` applied to `y` then `x`.  The engine reads
  and writes them only at positions it has checked with `isValidPosition` (or
  at cells of the grid computed from `gridSize`).
* The three robots owned by `Game` are addressed by `RobotId`; a pointer
  comparison such as `robot == aiRobot.get()` is the comparison of ids.
* Qt signals are not part of the state.  `attackWall` additionally returns the
  list of `wallDestroyed` signals it emits.
* `QRandomGenerator::global()->bounded(n)` reads the next raw value of a list
  of draws.  A run of an initialisation routine that would need more draws than
  the list holds yields `none`.
* The `float` multipliers 0.7f / 1.0f / 1.3f are kept in tenths (7 / 10 / 13);
  `static_cast<int>(v * m)` is `v * m / 10`.  For every product the engine
  forms (15, 20, 25, 30, 35, 70, 80, 150 times a multiplier) the single
  precision product is the exact decimal value, so truncation agrees.
* `executeAiTurn` obtains its command from `RobotAI::calculateMove`, which only
  reads the game through `const` queries; the chosen command is an argument.
-/

namespace RobotArena

set_option linter.unnecessarySeqFocus false
set_option linter.constructorNameAsVariable false

/-! ## Data model -/

/-- A grid position (`QPoint`). -/
structure QPoint where
  x : Int
  y : Int
  deriving DecidableEq, Repr

/-- The four cardinal facings (`enum class Direction`). -/
inductive Direction where
  | North | East | South | West
  deriving DecidableEq, Repr

/-- Robot archetypes (`enum class RobotType`). -/
inductive RobotType where
  | Scout | Tank | Sniper
  deriving DecidableEq, Repr

/-- The power-up a robot holds (`enum class RobotPowerUp`). -/
inductive RobotPowerUp where
  | None | Laser | Missile | Bomb
  deriving DecidableEq, Repr

/-- Turn state (`enum class GameState`). -/
inductive GameState where
  | PlayerTurn | Player2Turn | AiTurn | GameOver
  deriving DecidableEq, Repr

/-- Commands (`enum class Command`). -/
inductive Command where
  | MoveForward | TurnLeft | TurnRight | Attack | None
  deriving DecidableEq, Repr

/-- Cell kinds (`enum class CellType`). -/
inductive CellType where
  | Empty | Wall | HealthPickup | LaserPowerUp | MissilePowerUp | BombPowerUp
  deriving DecidableEq, Repr

/-- Difficulty levels (`enum class GameDifficulty`). -/
inductive GameDifficulty where
  | Easy | Medium | Hard
  deriving DecidableEq, Repr

/-- Map templates (`enum class MapType`). -/
inductive MapType where
  | Random | Open | Maze | Fortress
  deriving DecidableEq, Repr

/-- The fields of `class Robot` that the engine reads or writes (the two
animation fields `moving` and `animationFrame` are left out). -/
structure Robot where
  position : QPoint
  direction : Direction
  type : RobotType
  health : Int
  maxHealth : Int
  attackRange : Int
  attackDamage : Int
  maxMovesPerTurn : Int
  movesLeft : Int
  currentPowerUp : RobotPowerUp
  deriving DecidableEq

/-- Which of the three robots owned by `Game` a pointer designates. -/
inductive RobotId where
  | player | player2 | ai
  deriving DecidableEq, Repr

/-- The fields of `class Game`.  The multipliers are in tenths and
`aiRandomMoveChance` is in hundredths. -/
structure Game where
  playerRobot : Robot
  player2Robot : Robot
  aiRobot : Robot
  state : GameState
  gridSize : Int
  arena : Int → Int → CellType
  wallHealth : Int → Int → Int
  difficulty : GameDifficulty
  mapType : MapType
  multiplayerMode : Bool
  aiHealthModifier : Int
  aiDamageModifier : Int
  aiRandomMoveChance : Int

/-! ## `Robot` -/

/-- Constructor `Robot::Robot(type)`: position (0,0), facing East, stats by
archetype, full health and full move budget, no power-up. -/
def Robot.new (t : RobotType) : Robot :=
  match t with
  | RobotType.Scout =>
      { position := ⟨0, 0⟩, direction := Direction.East, type := t, health := 70,
        maxHealth := 70, attackRange := 1, attackDamage := 15, maxMovesPerTurn := 3,
        movesLeft := 3, currentPowerUp := RobotPowerUp.None }
  | RobotType.Tank =>
      { position := ⟨0, 0⟩, direction := Direction.East, type := t, health := 150,
        maxHealth := 150, attackRange := 1, attackDamage := 25, maxMovesPerTurn := 2,
        movesLeft := 2, currentPowerUp := RobotPowerUp.None }
  | RobotType.Sniper =>
      { position := ⟨0, 0⟩, direction := Direction.East, type := t, health := 80,
        maxHealth := 80, attackRange := 3, attackDamage := 35, maxMovesPerTurn := 2,
        movesLeft := 2, currentPowerUp := RobotPowerUp.None }

/-- Method `Robot::turnLeft`. -/
def Robot.turnLeft (r : Robot) : Robot :=
  match r.direction with
  | Direction.North => { r with direction := Direction.West }
  | Direction.West => { r with direction := Direction.South }
  | Direction.South => { r with direction := Direction.East }
  | Direction.East => { r with direction := Direction.North }

/-- Method `Robot::turnRight`. -/
def Robot.turnRight (r : Robot) : Robot :=
  match r.direction with
  | Direction.North => { r with direction := Direction.East }
  | Direction.East => { r with direction := Direction.South }
  | Direction.South => { r with direction := Direction.West }
  | Direction.West => { r with direction := Direction.North }

/-- Method `Robot::useMove`: decrement the move budget when it is positive. -/
def Robot.useMove (r : Robot) : Robot :=
  if r.movesLeft > 0 then { r with movesLeft := r.movesLeft - 1 } else r

/-- Method `Robot::resetMoves`. -/
def Robot.resetMoves (r : Robot) : Robot :=
  { r with movesLeft := r.maxMovesPerTurn }

/-- Method `Robot::setHealth`. -/
def Robot.setHealth (r : Robot) (h : Int) : Robot :=
  { r with health := h }

/-- Method `Robot::setPosition`. -/
def Robot.setPosition (r : Robot) (p : QPoint) : Robot :=
  { r with position := p }

/-- Method `Robot::setPowerUp`. -/
def Robot.setPowerUp (r : Robot) (pu : RobotPowerUp) : Robot :=
  { r with currentPowerUp := pu }

/-- Method `Robot::isDead`. -/
def Robot.isDead (r : Robot) : Bool :=
  decide (r.health ≤ 0)

/-! ## `Game`: queries and small mutators -/

/-- The robot a pointer designates. -/
def Game.robot (g : Game) : RobotId → Robot
  | RobotId.player => g.playerRobot
  | RobotId.player2 => g.player2Robot
  | RobotId.ai => g.aiRobot

/-- Write through a robot pointer. -/
def Game.setRobot (g : Game) (id : RobotId) (r : Robot) : Game :=
  match id with
  | RobotId.player => { g with playerRobot := r }
  | RobotId.player2 => { g with player2Robot := r }
  | RobotId.ai => { g with aiRobot := r }

/-- Assignment `arena[p.y][p.x] = c`. -/
def Game.setCell (g : Game) (p : QPoint) (c : CellType) : Game :=
  { g with arena := fun y x => if y = p.y ∧ x = p.x then c else g.arena y x }

/-- Assignment `wallHealth[p.y][p.x] = h`. -/
def Game.setWallHealth (g : Game) (p : QPoint) (h : Int) : Game :=
  { g with wallHealth := fun y x => if y = p.y ∧ x = p.x then h else g.wallHealth y x }

/-- Constant `Game::INITIAL_WALL_HEALTH`. -/
def INITIAL_WALL_HEALTH : Int := 3

/-- Constant `Game::HEALTH_PICKUP_AMOUNT`. -/
def HEALTH_PICKUP_AMOUNT : Int := 20

/-- Constant `Game::NUM_HEALTH_PICKUPS`. -/
def NUM_HEALTH_PICKUPS : Nat := 5

/-- Method `Game::isValidPosition`. -/
def isValidPosition (g : Game) (pos : QPoint) : Bool :=
  decide (pos.x ≥ 0) && decide (pos.x < g.gridSize) &&
    decide (pos.y ≥ 0) && decide (pos.y < g.gridSize)

/-- Method `Game::isValidMove`: in bounds, not a wall, and not the position of
either robot taking part in the current mode. -/
def isValidMove (g : Game) (pos : QPoint) : Bool :=
  if !isValidPosition g pos then false
  else if g.arena pos.y pos.x = CellType.Wall then false
  else if g.multiplayerMode then
    if pos = g.playerRobot.position ∨ pos = g.player2Robot.position then false else true
  else
    if pos = g.playerRobot.position ∨ pos = g.aiRobot.position then false else true

/-- Method `Game::getCellType`. -/
def getCellType (g : Game) (pos : QPoint) : CellType :=
  if !isValidPosition g pos then CellType.Wall else g.arena pos.y pos.x

/-- Method `Game::getWallHealth`. -/
def getWallHealth (g : Game) (pos : QPoint) : Int :=
  if !isValidPosition g pos || g.arena pos.y pos.x ≠ CellType.Wall then 0
  else g.wallHealth pos.y pos.x

/-- The cell `step` cells away from `p` in direction `d` (the `switch` on the
facing used by the move and by the normal-attack scan). -/
def stepFrom (p : QPoint) (d : Direction) (step : Int) : QPoint :=
  match d with
  | Direction.North => ⟨p.x, p.y - step⟩
  | Direction.East => ⟨p.x + step, p.y⟩
  | Direction.South => ⟨p.x, p.y + step⟩
  | Direction.West => ⟨p.x - step, p.y⟩

/-- Method `Game::attackWall`: the new game, the returned flag, and the
`wallDestroyed` signals emitted by the call. -/
def attackWall (g : Game) (pos : QPoint) (damage : Int) : Game × Bool × List QPoint :=
  if !isValidPosition g pos || g.arena pos.y pos.x ≠ CellType.Wall then (g, false, [])
  else
    let g1 := g.setWallHealth pos (g.wallHealth pos.y pos.x - damage)
    if g1.wallHealth pos.y pos.x ≤ 0 then
      (((g1.setCell pos CellType.Empty).setWallHealth pos 0), true, [pos])
    else (g1, false, [])

/-- Method `Game::hasLineOfSight`: same row or column and no wall strictly
between the two cells. -/
def hasLineOfSight (g : Game) (src dst : QPoint) : Bool :=
  if src.x ≠ dst.x ∧ src.y ≠ dst.y then false
  else if src.x = dst.x then
    let startY := min src.y dst.y
    let endY := max src.y dst.y
    (List.range (endY - startY - 1).toNat).all
      (fun i => decide (g.arena (startY + 1 + (i : Int)) src.x ≠ CellType.Wall))
  else
    let startX := min src.x dst.x
    let endX := max src.x dst.x
    (List.range (endX - startX - 1).toNat).all
      (fun i => decide (g.arena dst.y (startX + 1 + (i : Int)) ≠ CellType.Wall))

/-- The value `static_cast<int>(v * modifier)` for a multiplier in tenths. -/
def scaleByModifier (v : Int) (modifier : Int) : Int :=
  v * modifier / 10

/-- Method `Game::attack`: within range and with line of sight the target loses
the attacker's damage (scaled when the attacker is the AI robot), floored at 0. -/
def attack (g : Game) (attacker target : RobotId) : Game × Bool :=
  let attackerPos := (g.robot attacker).position
  let targetPos := (g.robot target).position
  let dx := targetPos.x - attackerPos.x
  let dy := targetPos.y - attackerPos.y
  let distance := |dx| + |dy|
  let maxRange : Int := if (g.robot attacker).type = RobotType.Sniper then 3 else 1
  if distance ≤ maxRange ∧ hasLineOfSight g attackerPos targetPos = true then
    let damage := (g.robot attacker).attackDamage
    let damage := if attacker = RobotId.ai then scaleByModifier damage g.aiDamageModifier
                  else damage
    let newHealth := max 0 ((g.robot target).health - damage)
    (g.setRobot target ((g.robot target).setHealth newHealth), true)
  else (g, false)

/-- Method `Game::setRobotPowerUp`. -/
def setRobotPowerUp (g : Game) (id : RobotId) (pu : RobotPowerUp) : Game :=
  g.setRobot id ((g.robot id).setPowerUp pu)

/-- Method `Game::getRobotPowerUp`. -/
def getRobotPowerUp (g : Game) (id : RobotId) : RobotPowerUp :=
  (g.robot id).currentPowerUp

/-- Method `Game::collectHealthPickup`. -/
def collectHealthPickup (g : Game) (pos : QPoint) (id : RobotId) : Game :=
  if !isValidPosition g pos || g.arena pos.y pos.x ≠ CellType.HealthPickup then g
  else
    let maxHealth := (g.robot id).maxHealth
    let maxHealth := if !g.multiplayerMode && id = RobotId.ai
                     then scaleByModifier maxHealth g.aiHealthModifier else maxHealth
    let newHealth := min ((g.robot id).health + HEALTH_PICKUP_AMOUNT) maxHealth
    (g.setRobot id ((g.robot id).setHealth newHealth)).setCell pos CellType.Empty

/-- Method `Game::collectPowerUp`. -/
def collectPowerUp (g : Game) (pos : QPoint) (id : RobotId) (cellType : CellType) : Game :=
  if !isValidPosition g pos then g
  else
    match cellType with
    | CellType.LaserPowerUp =>
        (setRobotPowerUp g id RobotPowerUp.Laser).setCell pos CellType.Empty
    | CellType.MissilePowerUp =>
        (setRobotPowerUp g id RobotPowerUp.Missile).setCell pos CellType.Empty
    | CellType.BombPowerUp =>
        (setRobotPowerUp g id RobotPowerUp.Bomb).setCell pos CellType.Empty
    | _ => g

/-- Method `Game::checkGameOver`. -/
def checkGameOver (g : Game) : Game :=
  if g.multiplayerMode then
    if g.playerRobot.isDead || g.player2Robot.isDead
    then { g with state := GameState.GameOver } else g
  else
    if g.playerRobot.isDead || g.aiRobot.isDead
    then { g with state := GameState.GameOver } else g

/-- Method `Game::switchTurn`. -/
def switchTurn (g : Game) : Game :=
  if g.multiplayerMode then
    if g.state = GameState.PlayerTurn then
      { g with state := GameState.Player2Turn, player2Robot := g.player2Robot.resetMoves }
    else
      { g with state := GameState.PlayerTurn, playerRobot := g.playerRobot.resetMoves }
  else
    if g.state = GameState.PlayerTurn then
      { g with state := GameState.AiTurn, aiRobot := g.aiRobot.resetMoves }
    else
      { g with state := GameState.PlayerTurn, playerRobot := g.playerRobot.resetMoves }

/-! ## Commands -/

/-- The `switch` on the facing that sets `dx`, `dy` in the power-up branches. -/
def dirDelta : Direction → Int × Int
  | Direction.North => (0, -1)
  | Direction.South => (0, 1)
  | Direction.East => (1, 0)
  | Direction.West => (-1, 0)

/-- The `MoveForward` case of `executeCommand` / `executeAiTurn` (the two
blocks are the same code on `activeRobot` and on `ai`): the moved game and the
`commandExecuted` flag. -/
def moveForwardCommand (g : Game) (active : RobotId) : Game × Bool :=
  let oldPos := (g.robot active).position
  let newPos := stepFrom oldPos (g.robot active).direction 1
  if isValidMove g newPos then
    let g1 := g.setRobot active ((g.robot active).setPosition newPos)
    let g2 := g1.setRobot active ((g1.robot active).useMove)
    let g3 :=
      if g2.arena newPos.y newPos.x = CellType.HealthPickup then
        collectHealthPickup g2 newPos active
      else if g2.arena newPos.y newPos.x = CellType.LaserPowerUp ∨
          g2.arena newPos.y newPos.x = CellType.MissilePowerUp ∨
          g2.arena newPos.y newPos.x = CellType.BombPowerUp then
        collectPowerUp g2 newPos active (g2.arena newPos.y newPos.x)
      else g2
    (g3, true)
  else (g, false)

/-- The scan loop of the normal attack, `for (step = 1; step <= attackRange;
++step)`: `fuel` is the number of iterations left, the result is `hitPos`. -/
def normalScan (g : Game) (startPos : QPoint) (dir : Direction) (targetPos : QPoint) :
    Nat → Int → QPoint → QPoint
  | 0, _, hitPos => hitPos
  | fuel + 1, step, hitPos =>
      let nextPos := stepFrom startPos dir step
      if !isValidPosition g nextPos then hitPos
      else if g.arena nextPos.y nextPos.x = CellType.Wall then nextPos
      else if nextPos = targetPos then nextPos
      else normalScan g startPos dir targetPos fuel (step + 1) nextPos

/-- The test of the normal attack that the target lies strictly on the side the
attacker faces. -/
def facesTarget (a t : Robot) : Bool :=
  (decide (a.direction = Direction.North) && decide (t.position.y < a.position.y)) ||
  (decide (a.direction = Direction.South) && decide (t.position.y > a.position.y)) ||
  (decide (a.direction = Direction.East) && decide (t.position.x > a.position.x)) ||
  (decide (a.direction = Direction.West) && decide (t.position.x < a.position.x))

/-- The branch `powerUp == RobotPowerUp::None` of the `Attack` case. -/
def normalAttack (g : Game) (active target : RobotId) : Game :=
  let a := g.robot active
  let attackRange : Int := if a.type = RobotType.Sniper then 3 else 1
  let startPos := a.position
  let hitPos := normalScan g startPos a.direction (g.robot target).position
    attackRange.toNat 1 startPos
  if isValidPosition g hitPos && decide (g.arena hitPos.y hitPos.x = CellType.Wall) then
    let wallDamage : Int :=
      if a.type = RobotType.Tank then 3 else if a.type = RobotType.Sniper then 2 else 1
    (attackWall g hitPos wallDamage).1
  else if hasLineOfSight g a.position (g.robot target).position &&
      facesTarget a (g.robot target) then
    (attack g active target).1
  else g

/-- The per-cell body shared by the Laser sweep (damage 15) and the Bomb blast
(damage 30): a wall is attacked, otherwise each participating robot standing on
the cell is damaged (the AI robot by the scaled amount). -/
def powerUpDamageAt (g : Game) (cur : QPoint) (dmg : Int) : Game :=
  if g.arena cur.y cur.x = CellType.Wall then (attackWall g cur dmg).1
  else if g.multiplayerMode then
    let g1 :=
      if cur = g.playerRobot.position then
        { g with playerRobot := g.playerRobot.setHealth (max 0 (g.playerRobot.health - dmg)) }
      else g
    if cur = g1.player2Robot.position then
      { g1 with player2Robot :=
          g1.player2Robot.setHealth (max 0 (g1.player2Robot.health - dmg)) }
    else g1
  else
    let g1 :=
      if cur = g.playerRobot.position then
        { g with playerRobot := g.playerRobot.setHealth (max 0 (g.playerRobot.health - dmg)) }
      else g
    if cur = g1.aiRobot.position then
      { g1 with aiRobot := g1.aiRobot.setHealth
                  (max 0 (g1.aiRobot.health - scaleByModifier dmg g1.aiDamageModifier)) }
    else g1

/-- The `while (true)` loop of the Laser branch, started with `cur = startPos`.
`fuel` bounds the number of iterations. -/
def laserLoop (dir : Direction) : Nat → Game → QPoint → Game
  | 0, g, _ => g
  | fuel + 1, g, cur =>
      let cur1 : QPoint := ⟨cur.x + (dirDelta dir).1, cur.y + (dirDelta dir).2⟩
      if !isValidPosition g cur1 then g
      else laserLoop dir fuel (powerUpDamageAt g cur1 15) cur1

/-- The `while (true)` loop of the Missile branch, started with
`hitPos = startPos`: the first wall or robot met is damaged by 20. -/
def missileLoop (dir : Direction) : Nat → Game → QPoint → Game
  | 0, g, _ => g
  | fuel + 1, g, hitPos =>
      let nextPos : QPoint := ⟨hitPos.x + (dirDelta dir).1, hitPos.y + (dirDelta dir).2⟩
      if !isValidPosition g nextPos then g
      else if g.arena nextPos.y nextPos.x = CellType.Wall then (attackWall g nextPos 20).1
      else if g.multiplayerMode then
        if nextPos = g.playerRobot.position ∨ nextPos = g.player2Robot.position then
          if nextPos = g.playerRobot.position then
            { g with playerRobot := g.playerRobot.setHealth (max 0 (g.playerRobot.health - 20)) }
          else
            { g with player2Robot :=
                g.player2Robot.setHealth (max 0 (g.player2Robot.health - 20)) }
        else missileLoop dir fuel g nextPos
      else
        if nextPos = g.playerRobot.position then
          { g with playerRobot := g.playerRobot.setHealth (max 0 (g.playerRobot.health - 20)) }
        else if nextPos = g.aiRobot.position then
          { g with aiRobot := g.aiRobot.setHealth
                    (max 0 (g.aiRobot.health - scaleByModifier 20 g.aiDamageModifier)) }
        else missileLoop dir fuel g nextPos

/-- The travel loop of the Bomb branch, started with `hitPos = startPos`: the
detonation cell. -/
def bombTravel (g : Game) (dir : Direction) : Nat → QPoint → QPoint
  | 0, hitPos => hitPos
  | fuel + 1, hitPos =>
      let nextPos : QPoint := ⟨hitPos.x + (dirDelta dir).1, hitPos.y + (dirDelta dir).2⟩
      if !isValidPosition g nextPos then hitPos
      else if g.arena nextPos.y nextPos.x = CellType.Wall then nextPos
      else if g.multiplayerMode then
        if nextPos = g.playerRobot.position ∨ nextPos = g.player2Robot.position then nextPos
        else bombTravel g dir fuel nextPos
      else
        if nextPos = g.playerRobot.position ∨ nextPos = g.aiRobot.position then nextPos
        else bombTravel g dir fuel nextPos

/-- The blast of the Bomb branch: the two nested loops over `dy2`, `dx2` in
`-1 .. 1` around `hitPos`, skipping offsets outside the grid. -/
def bombBlast (g : Game) (hitPos : QPoint) : Game :=
  ([-1, 0, 1] : List Int).foldl
    (fun g1 dy2 =>
      ([-1, 0, 1] : List Int).foldl
        (fun g2 dx2 =>
          let areaPos : QPoint := ⟨hitPos.x + dx2, hitPos.y + dy2⟩
          if !isValidPosition g2 areaPos then g2 else powerUpDamageAt g2 areaPos 30)
        g1)
    g

/-- Number of iterations after which every `while (true)` ray loop has left the
grid: a ray crosses at most `gridSize` cells before the out-of-bounds test. -/
def rayFuel (g : Game) : Nat :=
  g.gridSize.toNat + 1

/-- The `Attack` case of `executeCommand` / `executeAiTurn` (the same code on
`activeRobot` / `targetRobot` and on `ai` / `playerRobot`): the branch on the held
power-up, then `useMove`. -/
def attackCommand (g : Game) (active target : RobotId) : Game :=
  let startPos := (g.robot active).position
  let dir := (g.robot active).direction
  let g1 :=
    match getRobotPowerUp g active with
    | RobotPowerUp.None => normalAttack g active target
    | RobotPowerUp.Laser =>
        setRobotPowerUp (laserLoop dir (rayFuel g) g startPos) active RobotPowerUp.None
    | RobotPowerUp.Missile =>
        setRobotPowerUp (missileLoop dir (rayFuel g) g startPos) active RobotPowerUp.None
    | RobotPowerUp.Bomb =>
        setRobotPowerUp (bombBlast g (bombTravel g dir (rayFuel g) startPos)) active
          RobotPowerUp.None
  g1.setRobot active ((g1.robot active).useMove)

/-- The tail of `executeCommand` / `executeAiTurn` run when `commandExecuted`
is set: with no moves left, check for game over and otherwise switch turn. -/
def finishCommand (g : Game) (active : RobotId) : Game :=
  if (g.robot active).movesLeft ≤ 0 then
    let g1 := checkGameOver g
    if g1.state ≠ GameState.GameOver then switchTurn g1 else g1
  else g

/-- The body of `executeCommand` once `activeRobot` and `targetRobot` are
chosen. -/
def executeFor (g : Game) (active target : RobotId) (cmd : Command) : Game :=
  match cmd with
  | Command.MoveForward =>
      if (moveForwardCommand g active).2 then finishCommand (moveForwardCommand g active).1 active
      else g
  | Command.TurnLeft => finishCommand (g.setRobot active (g.robot active).turnLeft) active
  | Command.TurnRight => finishCommand (g.setRobot active (g.robot active).turnRight) active
  | Command.Attack => finishCommand (attackCommand g active target) active
  | Command.None => checkGameOver g

/-- Method `Game::executeCommand`. -/
def executeCommand (g : Game) (cmd : Command) : Game :=
  if g.state = GameState.PlayerTurn then
    executeFor g RobotId.player (if g.multiplayerMode then RobotId.player2 else RobotId.ai) cmd
  else if g.state = GameState.Player2Turn ∧ g.multiplayerMode = true then
    executeFor g RobotId.player2 RobotId.player cmd
  else g

/-- Method `Game::executeAiTurn`; `aiMove` is the command returned by
`robotAI->calculateMove(this, ai, playerRobot.get())`. -/
def executeAiTurn (g : Game) (aiMove : Command) : Game :=
  if g.state ≠ GameState.AiTurn then g
  else if g.aiRobot.movesLeft > 0 then
    match aiMove with
    | Command.MoveForward =>
        if (moveForwardCommand g RobotId.ai).2 then
          finishCommand (moveForwardCommand g RobotId.ai).1 RobotId.ai
        else g
    | Command.TurnLeft => finishCommand (g.setRobot RobotId.ai g.aiRobot.turnLeft) RobotId.ai
    | Command.TurnRight => finishCommand (g.setRobot RobotId.ai g.aiRobot.turnRight) RobotId.ai
    | Command.Attack => finishCommand (attackCommand g RobotId.ai RobotId.player) RobotId.ai
    | Command.None => g
  else g

/-! ## Initialisation -/

/-- The value of `QRandomGenerator::global()->bounded(n)` for the raw draw
`raw`: a number in `0 .. n-1` (0 when `n` is not positive). -/
def bounded (raw : Nat) (n : Int) : Int :=
  if n ≤ 0 then 0 else (raw : Int) % n

/-- Qt `qBound(lo, v, hi)`. -/
def qBound (lo v hi : Int) : Int :=
  max lo (min hi v)

/-- The two `std::fill` loops at the start of both initialisation routines:
every cell of the grid becomes `Empty` with hit-points 0. -/
def clearArena (g : Game) : Game :=
  { g with
    arena := fun y x =>
      if 0 ≤ y ∧ y < g.gridSize ∧ 0 ≤ x ∧ x < g.gridSize then CellType.Empty
      else g.arena y x,
    wallHealth := fun y x =>
      if 0 ≤ y ∧ y < g.gridSize ∧ 0 ≤ x ∧ x < g.gridSize then 0 else g.wallHealth y x }

/-- The statement pair `arena[y][x] = Wall; wallHealth[y][x] = 3`. -/
def placeWall (g : Game) (p : QPoint) : Game :=
  (g.setCell p CellType.Wall).setWallHealth p INITIAL_WALL_HEALTH

/-- The loop of `Game::generateObstacles`, `numWalls` iterations of two draws. -/
def generateObstaclesLoop : Nat → Game → List Nat → Option (Game × List Nat)
  | 0, g, rng => some (g, rng)
  | n + 1, g, rx :: ry :: rng =>
      let x := bounded rx g.gridSize
      let y := bounded ry g.gridSize
      generateObstaclesLoop n
        (if g.arena y x = CellType.Empty then placeWall g ⟨x, y⟩ else g) rng
  | _ + 1, _, _ => none

/-- Method `Game::generateObstacles`. -/
def generateObstacles (g : Game) (rng : List Nat) : Option (Game × List Nat) :=
  generateObstaclesLoop (g.gridSize * g.gridSize / 4).toNat g rng

/-- The loop of `Game::generateOpenMap`. -/
def generateOpenMapLoop (centerX centerY radius : Int) :
    Nat → Game → List Nat → Option (Game × List Nat)
  | 0, g, rng => some (g, rng)
  | n + 1, g, rx :: ry :: rng =>
      let x := qBound 0 (centerX + bounded rx (radius * 2) - radius) (g.gridSize - 1)
      let y := qBound 0 (centerY + bounded ry (radius * 2) - radius) (g.gridSize - 1)
      generateOpenMapLoop centerX centerY radius n
        (if g.arena y x = CellType.Empty then placeWall g ⟨x, y⟩ else g) rng
  | _ + 1, _, _ => none

/-- Method `Game::generateOpenMap`. -/
def generateOpenMap (g : Game) (rng : List Nat) : Option (Game × List Nat) :=
  generateOpenMapLoop (g.gridSize / 2) (g.gridSize / 2) (g.gridSize / 4)
    (g.gridSize * g.gridSize / 10).toNat g rng

/-- The first double loop of `Game::generateMazeMap`: every grid cell whose
coordinates are both even or both odd becomes a wall with 3 hit-points. -/
def mazePattern (g : Game) : Game :=
  { g with
    arena := fun y x =>
      if 0 ≤ y ∧ y < g.gridSize ∧ 0 ≤ x ∧ x < g.gridSize ∧
          ((x % 2 = 0 ∧ y % 2 = 0) ∨ (x % 2 = 1 ∧ y % 2 = 1)) then CellType.Wall
      else g.arena y x,
    wallHealth := fun y x =>
      if 0 ≤ y ∧ y < g.gridSize ∧ 0 ≤ x ∧ x < g.gridSize ∧
          ((x % 2 = 0 ∧ y % 2 = 0) ∨ (x % 2 = 1 ∧ y % 2 = 1)) then INITIAL_WALL_HEALTH
      else g.wallHealth y x }

/-- The extra-wall loop of `Game::generateMazeMap`; a draw on one of the two
start corners is skipped. -/
def mazeExtraWallsLoop : Nat → Game → List Nat → Option (Game × List Nat)
  | 0, g, rng => some (g, rng)
  | n + 1, g, rx :: ry :: rng =>
      let x := bounded rx g.gridSize
      let y := bounded ry g.gridSize
      if (x = 0 ∧ y = g.gridSize - 1) ∨ (x = g.gridSize - 1 ∧ y = 0) then
        mazeExtraWallsLoop n g rng
      else
        mazeExtraWallsLoop n
          (if g.arena y x = CellType.Empty then placeWall g ⟨x, y⟩ else g) rng
  | _ + 1, _, _ => none

/-- The zigzag loop of `Game::generateMazeMap`, `for (i = 1; i < gridSize - 1;
i++)`: `arena[i][i]` and one neighbour become `Empty` (hit-points are not
touched). -/
def mazeZigzagLoop : Nat → Int → Game → Game
  | 0, _, g => g
  | n + 1, i, g =>
      mazeZigzagLoop n (i + 1)
        (if i % 2 = 0 then
          (g.setCell ⟨i, i⟩ CellType.Empty).setCell ⟨i + 1, i⟩ CellType.Empty
        else
          (g.setCell ⟨i, i⟩ CellType.Empty).setCell ⟨i, i + 1⟩ CellType.Empty)

/-- Method `Game::generateMazeMap`. -/
def generateMazeMap (g : Game) (rng : List Nat) : Option (Game × List Nat) :=
  match mazeExtraWallsLoop (g.gridSize * 2).toNat (mazePattern g) rng with
  | none => none
  | some (g1, rng1) => some (mazeZigzagLoop (g1.gridSize - 2).toNat 1 g1, rng1)

/-- The double loop of `Game::generateFortressMap` over `1 .. gridSize-2`:
perimeter ring and central block become walls with 3 hit-points. -/
def fortressWalls (g : Game) : Game :=
  let centerX := g.gridSize / 2
  let centerY := g.gridSize / 2
  let fortressSize := g.gridSize / 3
  { g with
    arena := fun y x =>
      if 1 ≤ y ∧ y < g.gridSize - 1 ∧ 1 ≤ x ∧ x < g.gridSize - 1 ∧
          ((x = 1 ∨ x = g.gridSize - 2 ∨ y = 1 ∨ y = g.gridSize - 2) ∨
            (|x - centerX| < fortressSize / 2 ∧ |y - centerY| < fortressSize / 2))
      then CellType.Wall else g.arena y x,
    wallHealth := fun y x =>
      if 1 ≤ y ∧ y < g.gridSize - 1 ∧ 1 ≤ x ∧ x < g.gridSize - 1 ∧
          ((x = 1 ∨ x = g.gridSize - 2 ∨ y = 1 ∨ y = g.gridSize - 2) ∨
            (|x - centerX| < fortressSize / 2 ∧ |y - centerY| < fortressSize / 2))
      then INITIAL_WALL_HEALTH else g.wallHealth y x }

/-- Method `Game::generateFortressMap`: the walls, then the four entrances. -/
def generateFortressMap (g : Game) : Game :=
  let entrancePos := g.gridSize / 2
  ((((fortressWalls g).setCell ⟨entrancePos, 1⟩ CellType.Empty).setCell
    ⟨entrancePos, g.gridSize - 2⟩ CellType.Empty).setCell
    ⟨1, entrancePos⟩ CellType.Empty).setCell ⟨g.gridSize - 2, entrancePos⟩ CellType.Empty

/-- The `switch (mapType)` of both initialisation routines. -/
def generateMap (g : Game) (rng : List Nat) : Option (Game × List Nat) :=
  match g.mapType with
  | MapType.Random => generateObstacles g rng
  | MapType.Open => generateOpenMap g rng
  | MapType.Maze => generateMazeMap g rng
  | MapType.Fortress => some (generateFortressMap g, rng)

/-- Method `Game::applyDifficultySettings`. -/
def applyDifficultySettings (g : Game) : Game :=
  let g1 :=
    match g.difficulty with
    | GameDifficulty.Easy =>
        { g with aiHealthModifier := 7, aiDamageModifier := 7, aiRandomMoveChance := 50 }
    | GameDifficulty.Medium =>
        { g with aiHealthModifier := 10, aiDamageModifier := 10, aiRandomMoveChance := 20 }
    | GameDifficulty.Hard =>
        { g with aiHealthModifier := 13, aiDamageModifier := 13, aiRandomMoveChance := 5 }
  { g1 with aiRobot :=
      g1.aiRobot.setHealth (scaleByModifier g1.aiRobot.maxHealth g1.aiHealthModifier) }

/-- The test used by every pickup placement: the drawn cell is `Empty` and is
not the position of a robot taking part in the current mode. -/
def isFreeForPickup (g : Game) (pos : QPoint) : Bool :=
  decide (g.arena pos.y pos.x = CellType.Empty) && decide (pos ≠ g.playerRobot.position) &&
    decide (pos ≠ (if g.multiplayerMode then g.player2Robot.position
                    else g.aiRobot.position))

/-- The loop of `Game::placeHealthPickups`, `while (pickupsPlaced < count)`;
each iteration takes two draws. -/
def placeHealthPickupsLoop (count : Nat) : List Nat → Game → Nat → Option (Game × List Nat)
  | rx :: ry :: rng, g, pickupsPlaced =>
      if pickupsPlaced < count then
        let pos : QPoint := ⟨bounded rx g.gridSize, bounded ry g.gridSize⟩
        if isFreeForPickup g pos then
          placeHealthPickupsLoop count rng (g.setCell pos CellType.HealthPickup)
            (pickupsPlaced + 1)
        else placeHealthPickupsLoop count rng g pickupsPlaced
      else some (g, rx :: ry :: rng)
  | rng, g, pickupsPlaced => if pickupsPlaced < count then none else some (g, rng)

/-- Method `Game::placeHealthPickups`. -/
def placeHealthPickups (g : Game) (rng : List Nat) : Option (Game × List Nat) :=
  placeHealthPickupsLoop NUM_HEALTH_PICKUPS rng g 0

/-- Method `Game::placeSinglePowerUp`: draw cells until a free one is found. -/
def placeSinglePowerUp (powerUpType : CellType) : List Nat → Game → Option (Game × List Nat)
  | rx :: ry :: rng, g =>
      let pos : QPoint := ⟨bounded rx g.gridSize, bounded ry g.gridSize⟩
      if isFreeForPickup g pos then some (g.setCell pos powerUpType, rng)
      else placeSinglePowerUp powerUpType rng g
  | _, _ => none

/-- Method `Game::placeSpecialPickups`: one Laser, one Missile, one Bomb. -/
def placeSpecialPickups (g : Game) (rng : List Nat) : Option (Game × List Nat) :=
  match placeSinglePowerUp CellType.LaserPowerUp rng g with
  | none => none
  | some (g1, rng1) =>
    match placeSinglePowerUp CellType.MissilePowerUp rng1 g1 with
    | none => none
    | some (g2, rng2) => placeSinglePowerUp CellType.BombPowerUp rng2 g2

/-- Method `Game::initializeArena`. -/
def initializeArena (g : Game) (playerType aiType : RobotType) (diff : GameDifficulty)
    (map : MapType) (rng : List Nat) : Option Game :=
  let g1 := clearArena { g with difficulty := diff, mapType := map, multiplayerMode := false }
  match generateMap g1 rng with
  | none => none
  | some (g2, rng2) =>
    let g3 := applyDifficultySettings
      { g2 with playerRobot := Robot.new playerType, aiRobot := Robot.new aiType }
    let g4 := { g3 with
      playerRobot := g3.playerRobot.setPosition ⟨0, g3.gridSize - 1⟩,
      aiRobot := g3.aiRobot.setPosition ⟨g3.gridSize - 1, 0⟩ }
    let g5 := (g4.setCell ⟨0, g4.gridSize - 1⟩ CellType.Empty).setCell
      ⟨g4.gridSize - 1, 0⟩ CellType.Empty
    match placeHealthPickups g5 rng2 with
    | none => none
    | some (g6, rng3) =>
      match placeSpecialPickups g6 rng3 with
      | none => none
      | some (g7, _) => some { g7 with state := GameState.PlayerTurn }

/-- Method `Game::initializeMultiplayerArena`. -/
def initializeMultiplayerArena (g : Game) (player1Type player2Type : RobotType)
    (map : MapType) (rng : List Nat) : Option Game :=
  let g1 := clearArena { g with mapType := map, multiplayerMode := true }
  match generateMap g1 rng with
  | none => none
  | some (g2, rng2) =>
    let g3 := { g2 with playerRobot := Robot.new player1Type,
                        player2Robot := Robot.new player2Type }
    let g4 := { g3 with
      playerRobot := g3.playerRobot.setPosition ⟨0, g3.gridSize - 1⟩,
      player2Robot := g3.player2Robot.setPosition ⟨g3.gridSize - 1, 0⟩ }
    let g5 := (g4.setCell ⟨0, g4.gridSize - 1⟩ CellType.Empty).setCell
      ⟨g4.gridSize - 1, 0⟩ CellType.Empty
    match placeHealthPickups g5 rng2 with
    | none => none
    | some (g6, rng3) =>
      match placeSpecialPickups g6 rng3 with
      | none => none
      | some (g7, _) => some { g7 with state := GameState.PlayerTurn }

/-- The member initialisers and the three statements of the constructor
`Game::Game(size)` that precede its call of `initializeArena`. -/
def Game.blank (size : Int) : Game :=
  { playerRobot := Robot.new RobotType.Scout,
    player2Robot := Robot.new RobotType.Scout,
    aiRobot := Robot.new RobotType.Scout,
    state := GameState.PlayerTurn,
    gridSize := size,
    arena := fun _ _ => CellType.Empty,
    wallHealth := fun _ _ => 0,
    difficulty := GameDifficulty.Medium,
    mapType := MapType.Random,
    multiplayerMode := false,
    aiHealthModifier := 10,
    aiDamageModifier := 10,
    aiRandomMoveChance := 20 }

/-- Constructor `Game::Game(size)`. -/
def Game.new (size : Int) (rng : List Nat) : Option Game :=
  initializeArena (Game.blank size) (Game.blank size).playerRobot.type
    (Game.blank size).aiRobot.type (Game.blank size).difficulty (Game.blank size).mapType rng

/-! ## Reachable states -/

/-- The states of a `Game` object of grid side at least 2: the state the
constructor leaves, and every state obtained from one by `initializeArena`,
`initializeMultiplayerArena`, `executeCommand` or `executeAiTurn` (with any
command the AI may choose).  The draws are arbitrary. -/
inductive Reachable : Game → Prop where
  | construct (size : Int) (rng : List Nat) (g : Game) :
      2 ≤ size → Game.new size rng = some g → Reachable g
  | init (g0 : Game) (playerType aiType : RobotType) (diff : GameDifficulty) (map : MapType)
      (rng : List Nat) (g : Game) :
      Reachable g0 → initializeArena g0 playerType aiType diff map rng = some g → Reachable g
  | initMulti (g0 : Game) (player1Type player2Type : RobotType) (map : MapType)
      (rng : List Nat) (g : Game) :
      Reachable g0 → initializeMultiplayerArena g0 player1Type player2Type map rng = some g →
      Reachable g
  | command (g : Game) (cmd : Command) : Reachable g → Reachable (executeCommand g cmd)
  | aiTurn (g : Game) (aiMove : Command) : Reachable g → Reachable (executeAiTurn g aiMove)

/-! ## Predicates used by the statements -/

attribute [simp] Game.robot Game.setRobot Game.setCell Game.setWallHealth Robot.setHealth
  Robot.setPosition Robot.setPowerUp Robot.resetMoves

/-- `g1` is `g` after some damage was dealt: robots kept everything but their
health, walls can only have become `Empty`, nothing else changed. -/
structure DamageOnly (g g1 : Game) : Prop where
  state : g1.state = g.state
  gridSize : g1.gridSize = g.gridSize
  multiplayerMode : g1.multiplayerMode = g.multiplayerMode
  difficulty : g1.difficulty = g.difficulty
  mapType : g1.mapType = g.mapType
  aiHealthModifier : g1.aiHealthModifier = g.aiHealthModifier
  aiDamageModifier : g1.aiDamageModifier = g.aiDamageModifier
  aiRandomMoveChance : g1.aiRandomMoveChance = g.aiRandomMoveChance
  player : g1.playerRobot = g.playerRobot.setHealth g1.playerRobot.health
  player2 : g1.player2Robot = g.player2Robot.setHealth g1.player2Robot.health
  ai : g1.aiRobot = g.aiRobot.setHealth g1.aiRobot.health
  arena : ∀ y x, g1.arena y x = g.arena y x ∨
    (g.arena y x = CellType.Wall ∧ g1.arena y x = CellType.Empty)

/-- The robot that takes part in the match besides the player robot: the
second player in multiplayer mode, the AI robot otherwise. -/
def Game.opponent (g : Game) : RobotId :=
  if g.multiplayerMode then RobotId.player2 else RobotId.ai

/-- The robot's fixed stats are those its constructor gave its archetype. -/
def Robot.WellFormed (r : Robot) : Prop :=
  r.maxHealth = (Robot.new r.type).maxHealth ∧
  r.attackRange = (Robot.new r.type).attackRange ∧
  r.attackDamage = (Robot.new r.type).attackDamage ∧
  r.maxMovesPerTurn = (Robot.new r.type).maxMovesPerTurn

/-- The robot stands on a cell of the grid that is not a wall. -/
def standsOnFloor (g : Game) (id : RobotId) : Prop :=
  isValidPosition g (g.robot id).position = true ∧
  g.arena (g.robot id).position.y (g.robot id).position.x ≠ CellType.Wall

/-- The part of the invariant that does not mention the turn: grid side at
least 2, both participating robots on floor cells, fixed stats intact. -/
structure Grounded (g : Game) : Prop where
  size : 2 ≤ g.gridSize
  playerPos : standsOnFloor g RobotId.player
  opponentPos : standsOnFloor g g.opponent
  wfPlayer : g.playerRobot.WellFormed
  wfPlayer2 : g.player2Robot.WellFormed
  wfAi : g.aiRobot.WellFormed

/-- The invariant of the engine used throughout: `Grounded`, and the robot
whose turn it is has a move left (with `Player2Turn` only in multiplayer mode
and `AiTurn` only in single-player mode). -/
structure Inv (g : Game) : Prop where
  grounded : Grounded g
  turnPlayer : g.state = GameState.PlayerTurn → 1 ≤ g.playerRobot.movesLeft
  turnPlayer2 : g.state = GameState.Player2Turn →
    g.multiplayerMode = true ∧ 1 ≤ g.player2Robot.movesLeft
  turnAi : g.state = GameState.AiTurn →
    g.multiplayerMode = false ∧ 1 ≤ g.aiRobot.movesLeft

/-- `g1` differs from `g` at most in the arena and the wall hit-points. -/
structure ArenaOnly (g g1 : Game) : Prop where
  playerRobot : g1.playerRobot = g.playerRobot
  player2Robot : g1.player2Robot = g.player2Robot
  aiRobot : g1.aiRobot = g.aiRobot
  state : g1.state = g.state
  gridSize : g1.gridSize = g.gridSize
  multiplayerMode : g1.multiplayerMode = g.multiplayerMode
  difficulty : g1.difficulty = g.difficulty
  mapType : g1.mapType = g.mapType
  aiHealthModifier : g1.aiHealthModifier = g.aiHealthModifier
  aiDamageModifier : g1.aiDamageModifier = g.aiDamageModifier
  aiRandomMoveChance : g1.aiRandomMoveChance = g.aiRandomMoveChance

/-- `g1` is `g` after pickups were placed: only `Empty` cells changed, and none
of them into a wall. -/
structure PickupsOnly (g g1 : Game) : Prop where
  frame : ArenaOnly g g1
  wallHealth : g1.wallHealth = g.wallHealth
  arena : ∀ y x, g1.arena y x = g.arena y x ∨
    (g.arena y x = CellType.Empty ∧ g1.arena y x ≠ CellType.Wall)

/-- `g1` is `g` after robot `id` collected whatever lies on `pos`: the robot
kept everything but health and power-up, the cell may have become `Empty`,
nothing else changed. -/
structure PickupCollected (g g1 : Game) (id : RobotId) (pos : QPoint) : Prop where
  robot : g1.robot id =
    ((g.robot id).setHealth (g1.robot id).health).setPowerUp (g1.robot id).currentPowerUp
  others : ∀ id1, id1 ≠ id → g1.robot id1 = g.robot id1
  state : g1.state = g.state
  gridSize : g1.gridSize = g.gridSize
  multiplayerMode : g1.multiplayerMode = g.multiplayerMode
  difficulty : g1.difficulty = g.difficulty
  mapType : g1.mapType = g.mapType
  aiHealthModifier : g1.aiHealthModifier = g.aiHealthModifier
  aiDamageModifier : g1.aiDamageModifier = g.aiDamageModifier
  aiRandomMoveChance : g1.aiRandomMoveChance = g.aiRandomMoveChance
  wallHealth : g1.wallHealth = g.wallHealth
  arena : ∀ y x, g1.arena y x = g.arena y x ∨
    ((y = pos.y ∧ x = pos.x) ∧ g.arena y x ≠ CellType.Wall ∧ g1.arena y x = CellType.Empty)

/-- The human-controlled robot whose turn it is, and its target: the two
pointers `activeRobot`, `targetRobot` chosen at the start of `executeCommand`
(`none` where `executeCommand` returns at once). -/
def activeHuman (g : Game) : Option (RobotId × RobotId) :=
  if g.state = GameState.PlayerTurn then
    some (RobotId.player, if g.multiplayerMode then RobotId.player2 else RobotId.ai)
  else if g.state = GameState.Player2Turn ∧ g.multiplayerMode = true then
    some (RobotId.player2, RobotId.player)
  else none

/-- The cell directly ahead of a robot. -/
def cellAhead (r : Robot) : QPoint :=
  stepFrom r.position r.direction 1

/-- The cell is out of bounds, a wall, or occupied by a robot taking part in
the match. -/
def cellBlocked (g : Game) (p : QPoint) : Prop :=
  isValidPosition g p = false ∨ g.arena p.y p.x = CellType.Wall ∨
  p = g.playerRobot.position ∨ p = (g.robot g.opponent).position

/-! ## Example states -/

/-- Draws for a run of the constructor on a 4 x 4 grid: four wall draws, five
health pickups, three power-ups. -/
def exampleDraws : List Nat :=
  [1, 1, 1, 1, 1, 1, 1, 1, 2, 2, 1, 2, 2, 1, 3, 3, 3, 2, 1, 3, 2, 3, 3, 1]

/-- The state the constructor leaves on a 4 x 4 grid with `exampleDraws`. -/
def exampleStart : Game :=
  (Game.new 4 exampleDraws).getD (Game.blank 4)

/-- Draws for an initialisation with the Open template on a 4 x 4 grid: one
wall draw, five health pickups, three power-ups. -/
def exampleOpenDraws : List Nat :=
  [1, 1, 1, 1, 1, 2, 2, 1, 3, 3, 3, 2, 1, 3, 2, 3, 3, 1]

/-- A run of a list of human commands. -/
def runCommands (g : Game) (cmds : List Command) : Game :=
  cmds.foldl executeCommand g

/-- The constructor state after the player turned right: the player robot
stands in the bottom-left corner facing South, the grid edge. -/
def exampleFacingEdge : Game :=
  executeCommand exampleStart Command.TurnRight

/-- The constructor state with the turn state set to `GameOver`. -/
def exampleGameOver : Game :=
  { exampleStart with state := GameState.GameOver }

/-- Robot `active` is the one whose turn it is and `target` is the robot it
fights: the pointer pairs used by `executeCommand` (human turns) and by
`executeAiTurn` (`ai`, `playerRobot`). -/
def TurnOf (g : Game) (active target : RobotId) : Prop :=
  (g.state = GameState.PlayerTurn ∧ active = RobotId.player ∧ target = g.opponent) ∨
  (g.state = GameState.Player2Turn ∧ g.multiplayerMode = true ∧
    active = RobotId.player2 ∧ target = RobotId.player) ∨
  (g.state = GameState.AiTurn ∧ g.multiplayerMode = false ∧
    active = RobotId.ai ∧ target = RobotId.player)

/-- One of the two robots taking part in the match has health at most 0. -/
def anyParticipantDead (g : Game) : Prop :=
  g.playerRobot.health ≤ 0 ∨ (g.robot g.opponent).health ≤ 0

/-- The side that plays next, as the specification lists it: PlayerTurn to
AiTurn and back in single-player mode, PlayerTurn to Player2Turn and back in
multiplayer mode. -/
def otherSide (multiplayer : Bool) : GameState → GameState
  | GameState.PlayerTurn => if multiplayer then GameState.Player2Turn else GameState.AiTurn
  | GameState.Player2Turn => GameState.PlayerTurn
  | GameState.AiTurn => GameState.PlayerTurn
  | GameState.GameOver => GameState.GameOver

/-- The column MovesPerTurn of the specification's archetype table. -/
def MovesPerTurn : RobotType → Int
  | RobotType.Scout => 3
  | RobotType.Tank => 2
  | RobotType.Sniper => 2

/-- A command that consumes a move when robot `active` issues it: `Attack`, or
`MoveForward` towards a cell that is not blocked. -/
def moveConsuming (g : Game) (active : RobotId) (cmd : Command) : Prop :=
  cmd = Command.Attack ∨
  (cmd = Command.MoveForward ∧ ¬ cellBlocked g (cellAhead (g.robot active)))

/-- The entry point that accepts a command in the current state:
`executeAiTurn` (with the command the AI chose) during the AI's turn,
`executeCommand` otherwise. -/
def engineStep (g : Game) (cmd : Command) : Game :=
  if g.state = GameState.AiTurn then executeAiTurn g cmd else executeCommand g cmd

/-- Draws as in `exampleOpenDraws`, used for a multiplayer match Sniper against
Scout on a 4 x 4 grid (Open template). -/
def exampleDuel : Game :=
  (initializeMultiplayerArena exampleStart RobotType.Sniper RobotType.Scout MapType.Open
    exampleOpenDraws).getD (Game.blank 4)

/-- The duel after the Sniper walked to the top-left corner, turned East and
hit the Scout (which spent its turns on attacks into the grid edge) once: it is
the Sniper's turn with two moves left, the Scout has 35 health left. -/
def exampleDuelBeforeKill : Game :=
  runCommands exampleDuel
    [Command.TurnLeft, Command.MoveForward, Command.MoveForward,
     Command.Attack, Command.Attack, Command.Attack,
     Command.MoveForward, Command.TurnRight, Command.Attack,
     Command.Attack, Command.Attack, Command.Attack]

/-- The duel after the Sniper turned North and moved once: one move left. -/
def exampleDuelLastMove : Game :=
  runCommands exampleDuel [Command.TurnLeft, Command.MoveForward]

/-- The duel after the second hit: the Scout has 0 health, the Sniper has one
move left. -/
def exampleDuelAfterKill : Game :=
  executeCommand exampleDuelBeforeKill Command.Attack

/-- Cell `p` lies strictly ahead of cell `a` in direction `dir`, on the row or
column through `a`. -/
def aheadOf (a : QPoint) (dir : Direction) (p : QPoint) : Prop :=
  match dir with
  | Direction.North => p.x = a.x ∧ p.y < a.y
  | Direction.South => p.x = a.x ∧ a.y < p.y
  | Direction.East => p.y = a.y ∧ a.x < p.x
  | Direction.West => p.y = a.y ∧ p.x < a.x

/-- Manhattan distance between two cells. -/
def manhattan (a b : QPoint) : Int :=
  |b.x - a.x| + |b.y - a.y|

/-- The column AttackRange of the specification's archetype table. -/
def AttackRange : RobotType → Int
  | RobotType.Scout => 1
  | RobotType.Tank => 1
  | RobotType.Sniper => 3

/-- Cell `q` lies strictly between `a` and `b` on a row or column they share. -/
def strictlyBetween (a b q : QPoint) : Prop :=
  (a.x = b.x ∧ q.x = a.x ∧ min a.y b.y < q.y ∧ q.y < max a.y b.y) ∨
  (a.y = b.y ∧ q.y = a.y ∧ min a.x b.x < q.x ∧ q.x < max a.x b.x)

/-- The condition under which the specification lets a normal attack of robot
`a` hit robot `t`: `t` is in `a`'s row or column strictly on the side `a`
faces, within the archetype's range, with no wall strictly between them. -/
def canHit (g : Game) (a t : Robot) : Prop :=
  aheadOf a.position a.direction t.position ∧
  manhattan a.position t.position ≤ AttackRange a.type ∧
  ∀ q, strictlyBetween a.position t.position q → g.arena q.y q.x ≠ CellType.Wall

/-- A multiplayer match Scout against Tank on a 4 x 4 grid (Open template,
`exampleOpenDraws`). -/
def exampleSkirmish : Game :=
  (initializeMultiplayerArena exampleStart RobotType.Scout RobotType.Tank MapType.Open
    exampleOpenDraws).getD (Game.blank 4)

/-- Scenario A: the Scout has walked to the top-left corner, the Tank stands on
the cell east of it, and the Scout has turned East to face it. -/
def exampleScoutFacesTank : Game :=
  runCommands exampleSkirmish
    [Command.TurnLeft, Command.MoveForward, Command.MoveForward, Command.MoveForward,
     Command.TurnLeft, Command.TurnLeft, Command.MoveForward, Command.MoveForward,
     Command.TurnRight]

/-- Scenario B: the Sniper stands in the top-left corner facing East, the Scout
three cells east of it with no wall between them. -/
def exampleSniperFacesScout : Game :=
  runCommands exampleDuel
    [Command.TurnLeft, Command.MoveForward, Command.MoveForward,
     Command.Attack, Command.Attack, Command.Attack,
     Command.MoveForward, Command.TurnRight]

/-- The robot takes part in the match: it is the player robot or its
opponent. -/
def isParticipant (g : Game) (id : RobotId) : Prop :=
  id = RobotId.player ∨ id = g.opponent

instance (g : Game) (id : RobotId) : Decidable (isParticipant g id) := by
  unfold isParticipant; infer_instance

/-- The health a power-up of base damage `base` takes from robot `id`: the
scaled amount `static_cast<int>(base * aiDamageModifier)` for the AI robot in
single-player mode, `base` for every other robot. -/
def powerUpDamageTo (g : Game) (id : RobotId) (base : Int) : Int :=
  if g.multiplayerMode = false ∧ id = RobotId.ai then scaleByModifier base g.aiDamageModifier
  else base

/-- One iteration of a power-up sweep over cell `p`: cells outside the grid are
skipped, the others get `powerUpDamageAt`. -/
def blastStep (dmg : Int) (g : Game) (p : QPoint) : Game :=
  if !isValidPosition g p then g else powerUpDamageAt g p dmg

/-- The cells the Laser loop visits from `cur` with the given fuel, on a grid
of side `n`. -/
def rayCells (n : Int) (dir : Direction) : Nat → QPoint → List QPoint
  | 0, _ => []
  | fuel + 1, cur =>
      let cur1 : QPoint := ⟨cur.x + (dirDelta dir).1, cur.y + (dirDelta dir).2⟩
      if 0 ≤ cur1.x ∧ cur1.x < n ∧ 0 ≤ cur1.y ∧ cur1.y < n then
        cur1 :: rayCells n dir fuel cur1
      else []

/-- The nine cells of the 3 x 3 block around `c`, in the order of the blast
loops. -/
def blockCells (c : QPoint) : List QPoint :=
  [⟨c.x + -1, c.y + -1⟩, ⟨c.x + 0, c.y + -1⟩, ⟨c.x + 1, c.y + -1⟩,
   ⟨c.x + -1, c.y + 0⟩, ⟨c.x + 0, c.y + 0⟩, ⟨c.x + 1, c.y + 0⟩,
   ⟨c.x + -1, c.y + 1⟩, ⟨c.x + 0, c.y + 1⟩, ⟨c.x + 1, c.y + 1⟩]

/-- A power-up sweep over a list of cells. -/
def blast (dmg : Int) (g : Game) (ps : List QPoint) : Game :=
  ps.foldl (blastStep dmg) g

/-- The AI multiplier of a difficulty, in tenths. -/
def modifierTenths : GameDifficulty → Int
  | GameDifficulty.Easy => 7
  | GameDifficulty.Medium => 10
  | GameDifficulty.Hard => 13

/-- The two AI multipliers are those of the stored difficulty. -/
def Calibrated (g : Game) : Prop :=
  g.aiDamageModifier = modifierTenths g.difficulty ∧
  g.aiHealthModifier = modifierTenths g.difficulty

/-- `g1` has the settings of `g`: difficulty and both multipliers. -/
def SameSettings (g g1 : Game) : Prop :=
  g1.difficulty = g.difficulty ∧ g1.aiDamageModifier = g.aiDamageModifier ∧
  g1.aiHealthModifier = g.aiHealthModifier

/-- Cell `p` is a cell of the grid on the forward ray of robot `a`: strictly
ahead of it on its row or column. -/
def onRay (g : Game) (a : RobotId) (p : QPoint) : Prop :=
  isValidPosition g p = true ∧ aheadOf (g.robot a).position (g.robot a).direction p

/-- A wall or a robot taking part in the match occupies cell `p`. -/
def obstacleAt (g : Game) (p : QPoint) : Prop :=
  g.arena p.y p.x = CellType.Wall ∨ ∃ id, isParticipant g id ∧ (g.robot id).position = p

/-- Cell `p` is the first wall or robot on the forward ray of robot `a`: it is
on the ray, it holds an obstacle, and no cell of the ray before it does. -/
def firstObstacle (g : Game) (a : RobotId) (p : QPoint) : Prop :=
  onRay g a p ∧ obstacleAt g p ∧
  ∀ q, onRay g a q → aheadOf q (g.robot a).direction p → ¬ obstacleAt g q

/-- The forward ray of robot `a` meets neither wall nor robot. -/
def rayClear (g : Game) (a : RobotId) : Prop :=
  ∀ q, onRay g a q → ¬ obstacleAt g q

/-- Cell `c` is the last in-bounds cell of the forward ray of robot `a`: the
robot's own cell or a cell of the ray, with the next cell out of bounds. -/
def lastInBounds (g : Game) (a : RobotId) (c : QPoint) : Prop :=
  (c = (g.robot a).position ∨ onRay g a c) ∧
  isValidPosition g (stepFrom c (g.robot a).direction 1) = false

/-- Cell `p` lies in the 3 x 3 block centred on `c`. -/
def inBlock (c p : QPoint) : Prop :=
  |p.x - c.x| ≤ 1 ∧ |p.y - c.y| ≤ 1

/-- The test of the Missile and Bomb loops for a robot on cell `p`. -/
def robotAt (g : Game) (p : QPoint) : Prop :=
  if g.multiplayerMode then p = g.playerRobot.position ∨ p = g.player2Robot.position
  else p = g.playerRobot.position ∨ p = g.aiRobot.position

instance (g : Game) (p : QPoint) : Decidable (robotAt g p) := by
  unfold robotAt; infer_instance

/-- The two loop variables `hitPos`, `hitSomething` of the Missile loop (in the
Bomb loop `hitPos`, `bombDetonated`) when the loop ends. -/
def rayScan (g : Game) (dir : Direction) : Nat → QPoint → QPoint × Bool
  | 0, hitPos => (hitPos, false)
  | fuel + 1, hitPos =>
      let nextPos : QPoint := ⟨hitPos.x + (dirDelta dir).1, hitPos.y + (dirDelta dir).2⟩
      if !isValidPosition g nextPos then (hitPos, false)
      else if g.arena nextPos.y nextPos.x = CellType.Wall ∨ robotAt g nextPos then
        (nextPos, true)
      else rayScan g dir fuel nextPos

/-- The damage statement of the Missile loop at the cell it hits. -/
def missileHit (g : Game) (p : QPoint) : Game :=
  if g.arena p.y p.x = CellType.Wall then (attackWall g p 20).1
  else if g.multiplayerMode then
    if p = g.playerRobot.position then
      { g with playerRobot := g.playerRobot.setHealth (max 0 (g.playerRobot.health - 20)) }
    else
      { g with player2Robot := g.player2Robot.setHealth (max 0 (g.player2Robot.health - 20)) }
  else
    if p = g.playerRobot.position then
      { g with playerRobot := g.playerRobot.setHealth (max 0 (g.playerRobot.health - 20)) }
    else
      { g with aiRobot := g.aiRobot.setHealth
                  (max 0 (g.aiRobot.health - scaleByModifier 20 g.aiDamageModifier)) }

instance (a : QPoint) (dir : Direction) (p : QPoint) : Decidable (aheadOf a dir p) := by
  unfold aheadOf; cases dir <;> infer_instance

instance (g : Game) (a : RobotId) (p : QPoint) : Decidable (onRay g a p) := by
  unfold onRay; infer_instance

instance (g : Game) (a t : RobotId) : Decidable (TurnOf g a t) := by
  unfold TurnOf; infer_instance

instance (c p : QPoint) : Decidable (inBlock c p) := by
  unfold inBlock; infer_instance

/-- The cell the ray loops step to from `p`: `p` moved by `(dx, dy)`. -/
def nextCell (p : QPoint) (dir : Direction) : QPoint :=
  ⟨p.x + (dirDelta dir).1, p.y + (dirDelta dir).2⟩

/-- The obstacle test of the Missile and Bomb loops on cell `q`. -/
def scanObstacle (g : Game) (q : QPoint) : Prop :=
  g.arena q.y q.x = CellType.Wall ∨ robotAt g q

instance (g : Game) (q : QPoint) : Decidable (scanObstacle g q) := by
  unfold scanObstacle; infer_instance

/-- Cell `c` is where a Bomb fired by robot `a` detonates according to the
specification: the first wall or robot on the forward ray, or, when the ray
meets none, its last in-bounds cell (the robot's own cell if it faces the
edge). -/
def detonationCell (g : Game) (a : RobotId) (c : QPoint) : Prop :=
  firstObstacle g a c ∨ (rayClear g a ∧ lastInBounds g a c)

/-- A two-player game on the Open template of a 4 x 4 grid, Sniper against
Scout, in which the Sniper fetched the Laser from (1,3) and stepped to (1,2),
the Scout walked down the right-hand column to (3,2), and the Sniper then
turned East: its ray crosses the wall at (2,2) and ends on the Scout. -/
def exampleLaserShot : Game :=
  runCommands exampleDuel
    [Command.MoveForward, Command.TurnLeft, Command.MoveForward,
     Command.Attack, Command.TurnRight, Command.MoveForward, Command.MoveForward,
     Command.TurnRight]

/-- Raw draws for a two-player Random-template game on a 4 x 4 grid: one wall
at (3,3), health pickups in the two top rows, Laser at (0,2), Missile at (3,1)
and Bomb at (1,2). -/
def exampleMissileDraws : List Nat :=
  [3, 3, 3, 3, 3, 3, 3, 3, 0, 0, 1, 0, 2, 0, 0, 1, 1, 1, 0, 2, 3, 1, 1, 2]

/-- The two-player game, Tank against Scout, drawn from `exampleMissileDraws`. -/
def exampleMissileStart : Game :=
  (initializeMultiplayerArena exampleStart RobotType.Tank RobotType.Scout MapType.Random
    exampleMissileDraws).getD (Game.blank 4)

/-- The Tank walked to (3,2), the cell in front of the wall at (3,3); the Scout
fetched the Missile from (3,1) and faces South: the Tank is adjacent, the wall
directly behind it. -/
def exampleMissileShot : Game :=
  runCommands exampleMissileStart
    [Command.MoveForward, Command.MoveForward,
     Command.Attack, Command.Attack, Command.Attack,
     Command.TurnLeft, Command.MoveForward, Command.TurnRight, Command.MoveForward,
     Command.TurnRight, Command.MoveForward]

/-- The two-player game on the Open template, Tank against Scout, drawn from
`exampleOpenDraws`. -/
def exampleBombStart : Game :=
  (initializeMultiplayerArena exampleStart RobotType.Tank RobotType.Scout MapType.Open
    exampleOpenDraws).getD (Game.blank 4)

/-- The Tank walked to (2,3); the Scout fetched the Bomb from (3,1), stepped to
(3,2) and faces South, one cell from the bottom edge: the Bomb will detonate on
(3,3), next to the Tank, the Scout itself and the wall at (2,2). -/
def exampleBombShot : Game :=
  runCommands exampleBombStart
    [Command.MoveForward, Command.MoveForward,
     Command.TurnRight, Command.MoveForward, Command.MoveForward]

/-- The wall hit-point grid is sound: no cell has negative hit-points and every
`Wall` cell has at least one. -/
def WallsSound (g : Game) : Prop :=
  ∀ y x, 0 ≤ g.wallHealth y x ∧ (g.arena y x = CellType.Wall → 0 < g.wallHealth y x)

/-- No robot owned by the game has negative health. -/
def HealthSound (g : Game) : Prop :=
  ∀ id, 0 ≤ (g.robot id).health

/-- The facing a quarter turn to the left of `d`, as the specification
understands turning: North, West, South, East, North. -/
def quarterLeft : Direction → Direction
  | Direction.North => Direction.West
  | Direction.West => Direction.South
  | Direction.South => Direction.East
  | Direction.East => Direction.North

/-- The facing a quarter turn to the right of `d`: North, East, South, West,
North. -/
def quarterRight : Direction → Direction
  | Direction.North => Direction.East
  | Direction.East => Direction.South
  | Direction.South => Direction.West
  | Direction.West => Direction.North

/-- A run of a list of commands through `engineStep`: human commands on human
turns, the AI's chosen commands on the AI's turns. -/
def runSteps (g : Game) (cmds : List Command) : Game :=
  cmds.foldl engineStep g

/-- The column MaxHealth of the specification's archetype table. -/
def MaxHealth : RobotType → Int
  | RobotType.Scout => 70
  | RobotType.Tank => 150
  | RobotType.Sniper => 80

/-- The health cap of the specification for robot `id`: the archetype's
MaxHealth, multiplied by the difficulty's health multiplier and truncated for
the AI robot in single-player mode. -/
def effectiveMaxHealth (g : Game) (id : RobotId) : Int :=
  if g.multiplayerMode = false ∧ id = RobotId.ai then
    scaleByModifier (MaxHealth (g.robot id).type) (modifierTenths g.difficulty)
  else MaxHealth (g.robot id).type

/-- The power-up a pickup cell gives, as the specification lists it (`None`
for the other cell kinds). -/
def powerUpOfCell : CellType → RobotPowerUp
  | CellType.LaserPowerUp => RobotPowerUp.Laser
  | CellType.MissilePowerUp => RobotPowerUp.Missile
  | CellType.BombPowerUp => RobotPowerUp.Bomb
  | _ => RobotPowerUp.None

/-- The `switch (powerUp)` of the `Attack` case without the final clearing of
the slot: the game after the held power-up's loops alone (the game itself when
no power-up is held). -/
def powerUpShot (g : Game) (a : RobotId) : Game :=
  match (g.robot a).currentPowerUp with
  | RobotPowerUp.None => g
  | RobotPowerUp.Laser => laserLoop (g.robot a).direction (rayFuel g) g (g.robot a).position
  | RobotPowerUp.Missile => missileLoop (g.robot a).direction (rayFuel g) g (g.robot a).position
  | RobotPowerUp.Bomb =>
      bombBlast g (bombTravel g (g.robot a).direction (rayFuel g) (g.robot a).position)

/-- A single-player game at Hard difficulty on a 4 x 4 grid, Scout against
Scout (Open template, `exampleOpenDraws`): the AI Scout starts with 91 health. -/
def exampleHard : Game :=
  (initializeArena exampleStart RobotType.Scout RobotType.Scout GameDifficulty.Hard
    MapType.Open exampleOpenDraws).getD (Game.blank 4)

/-- The Hard game after the player fetched the Laser from (1,3) and turned
North, and the AI walked west along the top row to (1,0): the AI robot stands
on the player's ray. -/
def exampleHardLaserShot : Game :=
  runSteps exampleHard
    [Command.Attack, Command.Attack, Command.MoveForward,
     Command.TurnLeft, Command.TurnLeft, Command.MoveForward, Command.MoveForward,
     Command.Attack, Command.TurnLeft]

/-- The Hard game after the Laser shot (AI at 72 health), two further attacks
of the player into the air, and the AI's turn South towards the health pickup
at (1,1). -/
def exampleHardPickup : Game :=
  runSteps exampleHardLaserShot
    [Command.Attack, Command.Attack, Command.Attack, Command.TurnLeft]

/-- The Hard game after the player fetched the Missile from (2,3) and the AI
walked down the right-hand column to (3,3), the cell east of the player. -/
def exampleHardMissileShot : Game :=
  runSteps exampleHard
    [Command.Attack, Command.MoveForward, Command.MoveForward,
     Command.TurnRight, Command.MoveForward, Command.MoveForward, Command.MoveForward]

/-- The Hard game after one attack into the air and one step: the player
stands on (1,3) holding the Laser it found there, one move left, with the
Missile pickup on the cell ahead. -/
def exampleHardOverwrite : Game :=
  runSteps exampleHard [Command.Attack, Command.MoveForward]

/-- Draws for an initialisation with the Maze template on a 4 x 4 grid: eight
extra-wall draws that all fall on the wall at (0,0), then five health pickups
and three power-ups on the eight free cells. -/
def exampleMazeDraws : List Nat :=
  [0, 0, 0, 0, 0, 0, 0, 0, 0, 0, 0, 0, 0, 0, 0, 0,
   1, 0, 0, 1, 2, 1, 1, 1, 1, 2, 3, 2, 2, 2, 2, 3]

/-- A single-player game on the Maze template of a 4 x 4 grid, drawn from
`exampleMazeDraws`. -/
def exampleMaze : Game :=
  (initializeArena exampleStart RobotType.Scout RobotType.Scout GameDifficulty.Medium
    MapType.Maze exampleMazeDraws).getD (Game.blank 4)

/-- The hit-points a normal attack takes from a wall, by attacker archetype, as
the specification lists them. -/
def WallDamage : RobotType → Int
  | RobotType.Tank => 3
  | RobotType.Sniper => 2
  | RobotType.Scout => 1

/-- The forward scan of a normal attack by robot `a` (whose opponent is `t`)
first meets the wall on cell `w`: `w` is a wall on `a`'s ray within its
archetype's range, and no cell strictly between them is a wall or holds the
opponent. -/
def wallFirstMet (g : Game) (a t : RobotId) (w : QPoint) : Prop :=
  onRay g a w ∧ manhattan (g.robot a).position w ≤ AttackRange (g.robot a).type ∧
  g.arena w.y w.x = CellType.Wall ∧
  ∀ q, strictlyBetween (g.robot a).position w q →
    g.arena q.y q.x ≠ CellType.Wall ∧ q ≠ (g.robot t).position

/-- The constructor state after the player Scout walked up the left-hand
column to (0,1), spent its last move on an attack into the air, the AI spent
its turn on attacks into the grid edge, and the player turned East: the Scout
has 3 moves and faces the fresh wall at (1,1). -/
def exampleScoutAtWall : Game :=
  runSteps exampleStart
    [Command.TurnLeft, Command.MoveForward, Command.MoveForward, Command.Attack,
     Command.Attack, Command.Attack, Command.Attack, Command.TurnRight]

/-- Every wall of the grid has the hit-points generation gives a wall. -/
def WallsFresh (g : Game) : Prop :=
  ∀ y x, isValidPosition g ⟨x, y⟩ = true → g.arena y x = CellType.Wall →
    g.wallHealth y x = INITIAL_WALL_HEALTH

/-- One call of an entry point of the engine: `executeCommand(cmd)`, or
`executeAiTurn()` together with the command the AI strategy chose. -/
inductive EngineCall where
  | command (cmd : Command)
  | aiTurn (aiMove : Command)

/-- The game after one call of an entry point. -/
def EngineCall.run (g : Game) : EngineCall → Game
  | EngineCall.command cmd => executeCommand g cmd
  | EngineCall.aiTurn aiMove => executeAiTurn g aiMove

/-- The game after a sequence of calls of `executeCommand` and
`executeAiTurn`, in the order of the list. -/
def runCalls (g : Game) (calls : List EngineCall) : Game :=
  calls.foldl EngineCall.run g

/-- The turn state fits the mode: `Player2Turn` only with the multiplayer flag
set, `AiTurn` only with the flag clear. -/
def ModeSound (g : Game) : Prop :=
  (g.state = GameState.Player2Turn → g.multiplayerMode = true) ∧
  (g.state = GameState.AiTurn → g.multiplayerMode = false)

/-- Every robot owned by the game has health between 0 and the cap given for
it. -/
def HealthWithin (cap : RobotId → Int) (g : Game) : Prop :=
  ∀ id, 0 ≤ (g.robot id).health ∧ (g.robot id).health ≤ cap id

/-- The cap the code enforces on a robot's health: the robot's `maxHealth`,
for the AI robot `static_cast<int>(maxHealth * aiHealthModifier)`, the value
`applyDifficultySettings` sets and `collectHealthPickup` clamps to. -/
def healthCap (g : Game) (id : RobotId) : Int :=
  if id = RobotId.ai then scaleByModifier (g.robot id).maxHealth g.aiHealthModifier
  else (g.robot id).maxHealth

/-- The bound on a robot's health in terms of the archetype table: MaxHealth
of its archetype, for the AI robot multiplied by the difficulty's health
multiplier (0.7, 1.0, 1.3) and truncated. -/
def healthBound (g : Game) (id : RobotId) : Int :=
  if id = RobotId.ai then
    scaleByModifier (MaxHealth (g.robot id).type) (modifierTenths g.difficulty)
  else MaxHealth (g.robot id).type

/-- The turn state with the player's and the AI's turn exchanged. -/
def GameState.mirrored : GameState → GameState
  | GameState.PlayerTurn => GameState.AiTurn
  | GameState.AiTurn => GameState.PlayerTurn
  | GameState.Player2Turn => GameState.Player2Turn
  | GameState.GameOver => GameState.GameOver

/-- The robot pointer with the player robot and the AI robot exchanged. -/
def RobotId.mirrored : RobotId → RobotId
  | RobotId.player => RobotId.ai
  | RobotId.ai => RobotId.player
  | RobotId.player2 => RobotId.player2

/-- The mirrored state of a single-player game: the AI robot and the player
robot are exchanged, and so are `AiTurn` and `PlayerTurn`; the grids and the
settings are kept. -/
def mirror (g : Game) : Game :=
  { g with playerRobot := g.aiRobot, aiRobot := g.playerRobot, state := g.state.mirrored }

/-- The two robots taking part in the match stand on different cells. -/
def Apart (g : Game) : Prop :=
  g.playerRobot.position ≠ (g.robot g.opponent).position

/-- The state `exampleStart` after the player spent its three moves on attacks
that hit nothing: it is the AI's turn, at Medium difficulty. -/
def exampleAiTurn : Game :=
  runCommands exampleStart [Command.Attack, Command.Attack, Command.Attack]

/-- A single-player game in which both AI multipliers are 1.0, as
`applyDifficultySettings` sets them at Medium difficulty. -/
structure MediumSingle (g : Game) : Prop where
  single : g.multiplayerMode = false
  damage : g.aiDamageModifier = 10
  health : g.aiHealthModifier = 10

/-! ## The AI strategy classes: helpers

`ScoutAI`, `TankAI` and `SniperAI` each define the helper methods of this
section with the same bodies; they are embedded once. -/

/-- The value `static_cast<int>(dir)` for
`enum class Direction { North, East, South, West }`. -/
def Direction.toInt : Direction → Int
  | Direction.North => 0
  | Direction.East => 1
  | Direction.South => 2
  | Direction.West => 3

/-- The value `static_cast<Direction>(n)` for `n` in `0 .. 3`. -/
def Direction.ofInt (n : Int) : Direction :=
  if n = 0 then Direction.North
  else if n = 1 then Direction.East
  else if n = 2 then Direction.South
  else Direction.West

/-- The directions `static_cast<Direction>(i)` visited by the loops
`for (int i = 0; i < 4; i++)`, in loop order. -/
def loopDirections : List Direction :=
  [Direction.ofInt 0, Direction.ofInt 1, Direction.ofInt 2, Direction.ofInt 3]

/-- Helper `isInDirection(dx, dy, dir)`: the offset lies in the quarter-plane
cone around direction `dir`. -/
def isInDirection (dx dy : Int) (dir : Direction) : Bool :=
  match dir with
  | Direction.North => decide (dy < 0) && decide (|dy| ≥ |dx|)
  | Direction.East => decide (dx > 0) && decide (|dx| ≥ |dy|)
  | Direction.South => decide (dy > 0) && decide (|dy| ≥ |dx|)
  | Direction.West => decide (dx < 0) && decide (|dx| ≥ |dy|)

/-- Helper `manhattanDistance(p1, p2)`. -/
def manhattanDistance (p1 p2 : QPoint) : Int :=
  |p1.x - p2.x| + |p1.y - p2.y|

/-- Helper `getDirectionTowards(dx, dy)`. -/
def getDirectionTowards (dx dy : Int) : Direction :=
  if |dx| > |dy| then (if dx > 0 then Direction.East else Direction.West)
  else (if dy > 0 then Direction.South else Direction.North)

/-- Helper `getDirectionAway(dx, dy)`. -/
def getDirectionAway (dx dy : Int) : Direction :=
  if |dx| > |dy| then (if dx > 0 then Direction.West else Direction.East)
  else (if dy > 0 then Direction.North else Direction.South)

/-- Helper `getTurnCommand(currentDir, targetDir)`: a right turn for a quarter
or half turn clockwise, a left turn otherwise. -/
def getTurnCommand (currentDir targetDir : Direction) : Command :=
  let diff := (targetDir.toInt - currentDir.toInt + 4) % 4
  if diff = 1 then Command.TurnRight
  else if diff = 2 then Command.TurnRight
  else Command.TurnLeft

/-- Helper `getPositionInDirection(pos, dir, steps)` (`steps` defaults to 1 in
the source). -/
def getPositionInDirection (pos : QPoint) (dir : Direction) (steps : Int) : QPoint :=
  match dir with
  | Direction.North => ⟨pos.x, pos.y - steps⟩
  | Direction.East => ⟨pos.x + steps, pos.y⟩
  | Direction.South => ⟨pos.x, pos.y + steps⟩
  | Direction.West => ⟨pos.x - steps, pos.y⟩

/-- The values `lo, lo + 1, .., hi` of a loop `for (v = lo; v <= hi; ++v)`. -/
def loopRange (lo hi : Int) : List Int :=
  (List.range (hi - lo + 1).toNat).map (fun i => lo + (i : Int))

/-- Helper `findNearestHealthPickup(game, pos, searchRadius)`: the two nested
loops over the clamped window, rows outermost, keeping the first cell of
strictly smallest distance; `(-1, -1)` when there is none. -/
def findNearestHealthPickup (g : Game) (pos : QPoint) (searchRadius : Int) : QPoint :=
  let size := g.gridSize
  ((loopRange (max 0 (pos.y - searchRadius)) (min (size - 1) (pos.y + searchRadius))).foldl
    (fun acc y =>
      (loopRange (max 0 (pos.x - searchRadius)) (min (size - 1) (pos.x + searchRadius))).foldl
        (fun (acc1 : QPoint × Int) x =>
          let check : QPoint := ⟨x, y⟩
          if getCellType g check = CellType.HealthPickup then
            let d := manhattanDistance pos check
            if d < acc1.2 then (check, d) else acc1
          else acc1)
        acc)
    ((⟨-1, -1⟩ : QPoint), (999999 : Int))).1

/-- Helper `findNearestPowerUp(game, pos, searchRadius)`. -/
def findNearestPowerUp (g : Game) (pos : QPoint) (searchRadius : Int) : QPoint :=
  let size := g.gridSize
  ((loopRange (max 0 (pos.y - searchRadius)) (min (size - 1) (pos.y + searchRadius))).foldl
    (fun acc y =>
      (loopRange (max 0 (pos.x - searchRadius)) (min (size - 1) (pos.x + searchRadius))).foldl
        (fun (acc1 : QPoint × Int) x =>
          let check : QPoint := ⟨x, y⟩
          let ctype := getCellType g check
          if ctype = CellType.LaserPowerUp ∨ ctype = CellType.MissilePowerUp ∨
              ctype = CellType.BombPowerUp then
            let d := manhattanDistance pos check
            if d < acc1.2 then (check, d) else acc1
          else acc1)
        acc)
    ((⟨-1, -1⟩ : QPoint), (999999 : Int))).1

/-- The members of `TankAI` and of `SniperAI` that `calculateMove` reads or
writes (the members `consecutiveTurnCount`, `moveCounter`, `turnCounter` and
`isCirclingClockwise` are never used by these two classes). -/
structure AIState where
  lastPlayerPosition : QPoint
  lastPlayerHealth : Int
  lastAiPosition : QPoint
  samePositionCounter : Int

/-- The member initialisers of the constructors `TankAI::TankAI` and
`SniperAI::SniperAI`. -/
def AIState.new : AIState :=
  { lastPlayerPosition := ⟨-1, -1⟩, lastPlayerHealth := 0, lastAiPosition := ⟨-1, -1⟩,
    samePositionCounter := 0 }

/-- The members of `ScoutAI` that `calculateMove` reads or writes, and the two
function-static variables `lastTurnDir`, `justTurned` of
`ScoutAI::findSafePath` (the members `consecutiveTurnCount`, `moveCounter` and
`isCirclingClockwise` are never used). -/
structure ScoutAIState where
  lastPlayerPosition : QPoint
  lastPlayerHealth : Int
  lastAiPosition : QPoint
  samePositionCounter : Int
  turnCounter : Int
  lastTurnDir : Direction
  justTurned : Bool

/-- The member initialisers of the constructor `ScoutAI::ScoutAI` and the
initial values of the two static variables. -/
def ScoutAIState.new : ScoutAIState :=
  { lastPlayerPosition := ⟨-1, -1⟩, lastPlayerHealth := 0, lastAiPosition := ⟨-1, -1⟩,
    samePositionCounter := 0, turnCounter := 0, lastTurnDir := Direction.North,
    justTurned := false }

/-! ## `TankAI`

The random draws available to one call of `calculateMove` are the list `rng`;
a call that needs a draw when none is left has no result. -/

/-- The loop `for (int i = 0; i < 4; i++)` of `TankAI::tryMoveOrBreakWall`,
with the `return Command::Attack` that follows it; `fuel` is the number of
iterations left. -/
def TankAI.tryMoveOrBreakWallLoop (g : Game) (aiPos : QPoint) :
    Nat → Direction → List Nat → Option Command
  | 0, _, _ => some Command.Attack
  | fuel + 1, currentDir, rng =>
      let rightDir := Direction.ofInt ((currentDir.toInt + 1) % 4)
      let rightPos := getPositionInDirection aiPos rightDir 1
      let leftDir := Direction.ofInt ((currentDir.toInt + 3) % 4)
      let leftPos := getPositionInDirection aiPos leftDir 1
      if isValidMove g leftPos && isValidMove g rightPos then
        match rng with
        | [] => none
        | r :: _ =>
            some (if bounded r 2 = 0 then getTurnCommand currentDir leftDir
                  else getTurnCommand currentDir rightDir)
      else if isValidMove g leftPos then some (getTurnCommand currentDir leftDir)
      else if isValidPosition g leftPos && decide (getCellType g leftPos = CellType.Wall) then
        some (getTurnCommand currentDir leftDir)
      else if isValidMove g rightPos then some (getTurnCommand currentDir rightDir)
      else if isValidPosition g rightPos && decide (getCellType g rightPos = CellType.Wall) then
        some (getTurnCommand currentDir rightDir)
      else
        TankAI.tryMoveOrBreakWallLoop g aiPos fuel
          (Direction.ofInt ((currentDir.toInt + 1) % 4)) rng

/-- Method `TankAI::tryMoveOrBreakWall`. -/
def TankAI.tryMoveOrBreakWall (g : Game) (ai : RobotId) (rng : List Nat) : Option Command :=
  let aiPos := (g.robot ai).position
  let currentDir := (g.robot ai).direction
  let forwardPos := getPositionInDirection aiPos currentDir 1
  if isValidMove g forwardPos then some Command.MoveForward
  else if isValidPosition g forwardPos && decide (getCellType g forwardPos = CellType.Wall) then
    some Command.Attack
  else TankAI.tryMoveOrBreakWallLoop g aiPos 4 currentDir rng

/-- Method `TankAI::tryCollectPickup`. -/
def TankAI.tryCollectPickup (g : Game) (ai : RobotId) (preferHealthIfLow : Bool)
    (rng : List Nat) : Option Command :=
  let aiPos := (g.robot ai).position
  let hpPos := findNearestHealthPickup g aiPos 5
  let distHP : Int := if hpPos.x ≠ -1 then manhattanDistance aiPos hpPos else 999999
  let puPos := findNearestPowerUp g aiPos 5
  let distPU : Int := if puPos.x ≠ -1 then manhattanDistance aiPos puPos else 999999
  if hpPos.x = -1 ∧ puPos.x = -1 then some Command.None
  else
    let goHealth : Bool :=
      if preferHealthIfLow = true ∧ hpPos.x ≠ -1 then true
      else if hpPos.x ≠ -1 ∧ puPos.x ≠ -1 then decide (distHP ≤ distPU)
      else if puPos.x = -1 then true
      else false
    let targetPos := if goHealth then hpPos else puPos
    let dx := targetPos.x - aiPos.x
    let dy := targetPos.y - aiPos.y
    let targetDir := getDirectionTowards dx dy
    if (g.robot ai).direction ≠ targetDir then
      some (getTurnCommand (g.robot ai).direction targetDir)
    else TankAI.tryMoveOrBreakWall g ai rng

/-- Method `TankAI::directLineAttack`.  The threshold
`static_cast<int>(maxHealth * 0.3)` is `maxHealth * 3 / 10` (45 for the
Tank's 150). -/
def TankAI.directLineAttack (g : Game) (ai player : RobotId) (rng : List Nat) :
    Option Command :=
  let aiPos := (g.robot ai).position
  let playerPos := (g.robot player).position
  let dx := playerPos.x - aiPos.x
  let dy := playerPos.y - aiPos.y
  let distance := |dx| + |dy|
  if distance ≤ 1 ∧ (aiPos.x = playerPos.x ∨ aiPos.y = playerPos.y) then
    let desiredDir := getDirectionTowards dx dy
    if (g.robot ai).health < (g.robot ai).maxHealth * 3 / 10 ∧
        (findNearestHealthPickup g aiPos 5).x ≠ -1 then
      TankAI.tryCollectPickup g ai true rng
    else if (g.robot ai).direction ≠ desiredDir then
      some (getTurnCommand (g.robot ai).direction desiredDir)
    else if (g.robot player).health < (g.robot ai).attackDamage then some Command.Attack
    else some Command.Attack
  else some Command.None

/-- Method `TankAI::calculateTankNormal`. -/
def TankAI.calculateTankNormal (g : Game) (ai player : RobotId) (rng : List Nat) :
    Option Command :=
  let aiPos := (g.robot ai).position
  let plrPos := (g.robot player).position
  let dx := plrPos.x - aiPos.x
  let dy := plrPos.y - aiPos.y
  let towardDir := getDirectionTowards dx dy
  if (g.robot ai).direction ≠ towardDir then
    some (getTurnCommand (g.robot ai).direction towardDir)
  else TankAI.tryMoveOrBreakWall g ai rng

/-- Method `TankAI::vsScout`. -/
def TankAI.vsScout (g : Game) (ai scout : RobotId) (rng : List Nat) : Option Command :=
  let aiPos := (g.robot ai).position
  let plrPos := (g.robot scout).position
  let dx := plrPos.x - aiPos.x
  let dy := plrPos.y - aiPos.y
  let distance := |dx| + |dy|
  let rest : Option Command :=
    if distance ≥ 2 ∧ distance ≤ 5 then
      let towardDir := getDirectionTowards dx dy
      if (g.robot ai).direction ≠ towardDir then
        some (getTurnCommand (g.robot ai).direction towardDir)
      else TankAI.tryMoveOrBreakWall g ai rng
    else
      match TankAI.tryCollectPickup g ai false rng with
      | none => none
      | some c =>
        if c ≠ Command.None then some c
        else
          let towardDir := getDirectionTowards dx dy
          if (g.robot ai).direction ≠ towardDir then
            some (getTurnCommand (g.robot ai).direction towardDir)
          else TankAI.tryMoveOrBreakWall g ai rng
  if (g.robot ai).health < (g.robot ai).maxHealth / 2 then
    match TankAI.tryCollectPickup g ai true rng with
    | none => none
    | some c => if c ≠ Command.None then some c else rest
  else rest

/-- Method `TankAI::vsSniper`. -/
def TankAI.vsSniper (g : Game) (ai sniper : RobotId) (rng : List Nat) : Option Command :=
  let aiPos := (g.robot ai).position
  let plrPos := (g.robot sniper).position
  let dx := plrPos.x - aiPos.x
  let dy := plrPos.y - aiPos.y
  let rest : Option Command :=
    let towardDir := getDirectionTowards dx dy
    if (g.robot ai).direction ≠ towardDir then
      some (getTurnCommand (g.robot ai).direction towardDir)
    else TankAI.tryMoveOrBreakWall g ai rng
  if (g.robot ai).health < (g.robot ai).maxHealth / 2 then
    match TankAI.tryCollectPickup g ai true rng with
    | none => none
    | some c => if c ≠ Command.None then some c else rest
  else rest

/-- Method `TankAI::vsTank`. -/
def TankAI.vsTank (g : Game) (ai otherTank : RobotId) (rng : List Nat) : Option Command :=
  let aiPos := (g.robot ai).position
  let plrPos := (g.robot otherTank).position
  let dx := plrPos.x - aiPos.x
  let dy := plrPos.y - aiPos.y
  let distance := |dx| + |dy|
  let rest : Option Command :=
    if distance ≥ 2 ∧ distance ≤ 5 then
      let towardDir := getDirectionTowards dx dy
      if (g.robot ai).direction ≠ towardDir then
        some (getTurnCommand (g.robot ai).direction towardDir)
      else TankAI.tryMoveOrBreakWall g ai rng
    else
      match TankAI.tryCollectPickup g ai false rng with
      | none => none
      | some c =>
        if c ≠ Command.None then some c
        else
          let towardDir := getDirectionTowards dx dy
          if (g.robot ai).direction ≠ towardDir then
            some (getTurnCommand (g.robot ai).direction towardDir)
          else TankAI.tryMoveOrBreakWall g ai rng
  if (g.robot ai).health < (g.robot ai).maxHealth / 2 then
    match TankAI.tryCollectPickup g ai true rng with
    | none => none
    | some c => if c ≠ Command.None then some c else rest
  else rest

/-- The stuck detection at the top of `TankAI::calculateMove`: the counter is
incremented when the position is the recorded one, otherwise it is reset and
the position recorded. -/
def TankAI.trackPosition (s : AIState) (aiPos : QPoint) : AIState :=
  if aiPos = s.lastAiPosition then { s with samePositionCounter := s.samePositionCounter + 1 }
  else { s with samePositionCounter := 0, lastAiPosition := aiPos }

/-- The command chosen by the block `if (samePositionCounter > 5) { .. }` of
`TankAI::calculateMove` (the break-out). -/
def TankAI.breakOut (g : Game) (ai player : RobotId) : Command :=
  let aiPos := (g.robot ai).position
  let frontPos := getPositionInDirection aiPos (g.robot ai).direction 1
  if isValidPosition g frontPos && decide (getCellType g frontPos = CellType.Wall) then
    Command.Attack
  else
    let plrPos := (g.robot player).position
    let dx := plrPos.x - aiPos.x
    let dy := plrPos.y - aiPos.y
    let distance := |dx| + |dy|
    let canSee := hasLineOfSight g aiPos plrPos
    let playerInDir := isInDirection dx dy (g.robot ai).direction
    if canSee && playerInDir && decide (distance ≤ 3) then Command.Attack
    else if isValidMove g frontPos then Command.MoveForward
    else Command.Attack

/-- The part of `TankAI::calculateMove` after the break-out block: the direct
line attack, then the logic for the difficulty and the opponent's archetype. -/
def TankAI.strategy (g : Game) (ai player : RobotId) (rng : List Nat) : Option Command :=
  match TankAI.directLineAttack g ai player rng with
  | none => none
  | some directAttackCmd =>
    if directAttackCmd ≠ Command.None then some directAttackCmd
    else if g.difficulty = GameDifficulty.Easy then TankAI.calculateTankNormal g ai player rng
    else
      match (g.robot player).type with
      | RobotType.Scout => TankAI.vsScout g ai player rng
      | RobotType.Sniper => TankAI.vsSniper g ai player rng
      | RobotType.Tank => TankAI.vsTank g ai player rng

/-- Method `TankAI::calculateMove`: the returned command (none when the call
runs out of draws) and the members after the call. -/
def TankAI.calculateMove (s : AIState) (g : Game) (ai player : RobotId) (rng : List Nat) :
    Option Command × AIState :=
  let aiPos := (g.robot ai).position
  let s1 := TankAI.trackPosition s aiPos
  if s1.samePositionCounter > 5 then
    (some (TankAI.breakOut g ai player), { s1 with samePositionCounter := 0 })
  else
    (TankAI.strategy g ai player rng,
      { s1 with lastPlayerPosition := (g.robot player).position,
                lastPlayerHealth := (g.robot player).health })

/-! ## `SniperAI` -/

/-- The loop `for (int i = 0; i < 4; i++)` of `SniperAI::tryMoveOrBreakWall`,
with the `return Command::Attack` that follows it; `fuel` is the number of
iterations left. -/
def SniperAI.tryMoveOrBreakWallLoop (g : Game) (aiPos : QPoint) :
    Nat → Direction → List Nat → Option Command
  | 0, _, _ => some Command.Attack
  | fuel + 1, currentDir, rng =>
      let rightDir := Direction.ofInt ((currentDir.toInt + 1) % 4)
      let rightPos := getPositionInDirection aiPos rightDir 1
      let leftDir := Direction.ofInt ((currentDir.toInt + 3) % 4)
      let leftPos := getPositionInDirection aiPos leftDir 1
      if isValidMove g leftPos && isValidMove g rightPos then
        match rng with
        | [] => none
        | r :: _ =>
            some (if bounded r 2 = 0 then getTurnCommand currentDir leftDir
                  else getTurnCommand currentDir rightDir)
      else if isValidMove g leftPos then some (getTurnCommand currentDir leftDir)
      else if isValidPosition g leftPos && decide (getCellType g leftPos = CellType.Wall) then
        some (getTurnCommand currentDir leftDir)
      else if isValidMove g rightPos then some (getTurnCommand currentDir rightDir)
      else if isValidPosition g rightPos && decide (getCellType g rightPos = CellType.Wall) then
        some (getTurnCommand currentDir rightDir)
      else
        SniperAI.tryMoveOrBreakWallLoop g aiPos fuel
          (Direction.ofInt ((currentDir.toInt + 1) % 4)) rng

/-- Method `SniperAI::tryMoveOrBreakWall`. -/
def SniperAI.tryMoveOrBreakWall (g : Game) (ai : RobotId) (rng : List Nat) : Option Command :=
  let aiPos := (g.robot ai).position
  let currentDir := (g.robot ai).direction
  let forwardPos := getPositionInDirection aiPos currentDir 1
  if isValidMove g forwardPos then some Command.MoveForward
  else if isValidPosition g forwardPos && decide (getCellType g forwardPos = CellType.Wall) then
    some Command.Attack
  else SniperAI.tryMoveOrBreakWallLoop g aiPos 4 currentDir rng

/-- Method `SniperAI::tryCollectPickup`. -/
def SniperAI.tryCollectPickup (g : Game) (ai : RobotId) (preferHealthIfLow : Bool)
    (rng : List Nat) : Option Command :=
  let aiPos := (g.robot ai).position
  let hpPos := findNearestHealthPickup g aiPos 6
  let distHP : Int := if hpPos.x ≠ -1 then manhattanDistance aiPos hpPos else 999999
  let puPos := findNearestPowerUp g aiPos 6
  let distPU : Int := if puPos.x ≠ -1 then manhattanDistance aiPos puPos else 999999
  if hpPos.x = -1 ∧ puPos.x = -1 then some Command.None
  else
    let goHealth : Bool :=
      if preferHealthIfLow = true ∧ hpPos.x ≠ -1 then true
      else if hpPos.x ≠ -1 ∧ puPos.x ≠ -1 then decide (distHP ≤ distPU)
      else if puPos.x = -1 then true
      else false
    let targetPos := if goHealth then hpPos else puPos
    let dx := targetPos.x - aiPos.x
    let dy := targetPos.y - aiPos.y
    let targetDir := getDirectionTowards dx dy
    if (g.robot ai).direction ≠ targetDir then
      some (getTurnCommand (g.robot ai).direction targetDir)
    else SniperAI.tryMoveOrBreakWall g ai rng

/-- Method `SniperAI::directLineAttack`.  The threshold
`static_cast<int>(maxHealth * 0.5)` is `maxHealth * 5 / 10` (40 for the
Sniper's 80). -/
def SniperAI.directLineAttack (g : Game) (ai player : RobotId) (rng : List Nat) :
    Option Command :=
  let aiPos := (g.robot ai).position
  let playerPos := (g.robot player).position
  let dx := playerPos.x - aiPos.x
  let dy := playerPos.y - aiPos.y
  let distance := |dx| + |dy|
  if distance ≤ 3 ∧ (aiPos.x = playerPos.x ∨ aiPos.y = playerPos.y) then
    let desiredDir := getDirectionTowards dx dy
    if (g.robot ai).health < (g.robot ai).maxHealth * 5 / 10 ∧
        (findNearestHealthPickup g aiPos 5).x ≠ -1 then
      SniperAI.tryCollectPickup g ai true rng
    else if (g.robot ai).direction ≠ desiredDir then
      some (getTurnCommand (g.robot ai).direction desiredDir)
    else if (g.robot player).health < (g.robot ai).attackDamage then some Command.Attack
    else some Command.Attack
  else some Command.None

/-- Method `SniperAI::calculateSniperNormal`. -/
def SniperAI.calculateSniperNormal (g : Game) (ai player : RobotId) (rng : List Nat) :
    Option Command :=
  let aiPos := (g.robot ai).position
  let plrPos := (g.robot player).position
  let dx := plrPos.x - aiPos.x
  let dy := plrPos.y - aiPos.y
  let towardDir := getDirectionTowards dx dy
  if (g.robot ai).direction ≠ towardDir then
    some (getTurnCommand (g.robot ai).direction towardDir)
  else SniperAI.tryMoveOrBreakWall g ai rng

/-- Method `SniperAI::vsScout`. -/
def SniperAI.vsScout (g : Game) (ai scout : RobotId) (rng : List Nat) : Option Command :=
  let aiPos := (g.robot ai).position
  let plrPos := (g.robot scout).position
  let dx := plrPos.x - aiPos.x
  let dy := plrPos.y - aiPos.y
  let distance := |dx| + |dy|
  let rest : Option Command :=
    if distance ≤ 3 then
      let awayDir := getDirectionAway dx dy
      if (g.robot ai).direction ≠ awayDir then
        some (getTurnCommand (g.robot ai).direction awayDir)
      else SniperAI.tryMoveOrBreakWall g ai rng
    else if distance ≥ 4 ∧ distance ≤ 7 then
      let towardDir := getDirectionTowards dx dy
      if (g.robot ai).direction ≠ towardDir then
        some (getTurnCommand (g.robot ai).direction towardDir)
      else SniperAI.tryMoveOrBreakWall g ai rng
    else
      match SniperAI.tryCollectPickup g ai false rng with
      | none => none
      | some c =>
        if c ≠ Command.None then some c
        else
          let towardDir := getDirectionTowards dx dy
          if (g.robot ai).direction ≠ towardDir then
            some (getTurnCommand (g.robot ai).direction towardDir)
          else SniperAI.tryMoveOrBreakWall g ai rng
  if (g.robot ai).health < (g.robot ai).maxHealth / 2 then
    match SniperAI.tryCollectPickup g ai true rng with
    | none => none
    | some c => if c ≠ Command.None then some c else rest
  else rest

/-- Method `SniperAI::vsTank`. -/
def SniperAI.vsTank (g : Game) (ai tank : RobotId) (rng : List Nat) : Option Command :=
  let aiPos := (g.robot ai).position
  let plrPos := (g.robot tank).position
  let dx := plrPos.x - aiPos.x
  let dy := plrPos.y - aiPos.y
  let distance := |dx| + |dy|
  let rest : Option Command :=
    if distance ≤ 3 then
      let awayDir := getDirectionAway dx dy
      if (g.robot ai).direction ≠ awayDir then
        some (getTurnCommand (g.robot ai).direction awayDir)
      else SniperAI.tryMoveOrBreakWall g ai rng
    else if distance ≥ 4 ∧ distance ≤ 7 then
      let towardDir := getDirectionTowards dx dy
      if (g.robot ai).direction ≠ towardDir then
        some (getTurnCommand (g.robot ai).direction towardDir)
      else SniperAI.tryMoveOrBreakWall g ai rng
    else
      match SniperAI.tryCollectPickup g ai false rng with
      | none => none
      | some c =>
        if c ≠ Command.None then some c
        else
          let towardDir := getDirectionTowards dx dy
          if (g.robot ai).direction ≠ towardDir then
            some (getTurnCommand (g.robot ai).direction towardDir)
          else SniperAI.tryMoveOrBreakWall g ai rng
  if (g.robot ai).health < (g.robot ai).maxHealth / 2 then
    match SniperAI.tryCollectPickup g ai true rng with
    | none => none
    | some c => if c ≠ Command.None then some c else rest
  else rest

/-- Method `SniperAI::vsSniper`. -/
def SniperAI.vsSniper (g : Game) (ai enemySniper : RobotId) (rng : List Nat) :
    Option Command :=
  let aiPos := (g.robot ai).position
  let plrPos := (g.robot enemySniper).position
  let dx := plrPos.x - aiPos.x
  let dy := plrPos.y - aiPos.y
  let distance := |dx| + |dy|
  let rest : Option Command :=
    if distance ≥ 4 ∧ distance ≤ 7 then
      let towardDir := getDirectionTowards dx dy
      if (g.robot ai).direction ≠ towardDir then
        some (getTurnCommand (g.robot ai).direction towardDir)
      else SniperAI.tryMoveOrBreakWall g ai rng
    else
      match SniperAI.tryCollectPickup g ai false rng with
      | none => none
      | some c =>
        if c ≠ Command.None then some c
        else
          let towardDir := getDirectionTowards dx dy
          if (g.robot ai).direction ≠ towardDir then
            some (getTurnCommand (g.robot ai).direction towardDir)
          else SniperAI.tryMoveOrBreakWall g ai rng
  if (g.robot ai).health < (g.robot ai).maxHealth / 2 then
    match SniperAI.tryCollectPickup g ai true rng with
    | none => none
    | some c => if c ≠ Command.None then some c else rest
  else rest

/-- The stuck detection at the top of `SniperAI::calculateMove`: the counter is
incremented when the position is the recorded one, otherwise it is reset and
the position recorded. -/
def SniperAI.trackPosition (s : AIState) (aiPos : QPoint) : AIState :=
  if aiPos = s.lastAiPosition then { s with samePositionCounter := s.samePositionCounter + 1 }
  else { s with samePositionCounter := 0, lastAiPosition := aiPos }

/-- The command chosen by the block `if (samePositionCounter > 5) { .. }` of
`SniperAI::calculateMove` (the break-out). -/
def SniperAI.breakOut (g : Game) (ai player : RobotId) : Command :=
  let aiPos := (g.robot ai).position
  let frontPos := getPositionInDirection aiPos (g.robot ai).direction 1
  if isValidPosition g frontPos && decide (getCellType g frontPos = CellType.Wall) then
    Command.Attack
  else
    let plrPos := (g.robot player).position
    let dx := plrPos.x - aiPos.x
    let dy := plrPos.y - aiPos.y
    let distance := |dx| + |dy|
    let canSee := hasLineOfSight g aiPos plrPos
    let playerInDir := isInDirection dx dy (g.robot ai).direction
    if canSee && playerInDir && decide (distance ≤ 3) then Command.Attack
    else if isValidMove g frontPos then Command.MoveForward
    else Command.Attack

/-- The part of `SniperAI::calculateMove` after the break-out block: the direct
line attack, then the logic for the difficulty and the opponent's archetype. -/
def SniperAI.strategy (g : Game) (ai player : RobotId) (rng : List Nat) : Option Command :=
  match SniperAI.directLineAttack g ai player rng with
  | none => none
  | some directAttackCmd =>
    if directAttackCmd ≠ Command.None then some directAttackCmd
    else if g.difficulty = GameDifficulty.Easy then SniperAI.calculateSniperNormal g ai player rng
    else
      match (g.robot player).type with
      | RobotType.Scout => SniperAI.vsScout g ai player rng
      | RobotType.Tank => SniperAI.vsTank g ai player rng
      | RobotType.Sniper => SniperAI.vsSniper g ai player rng

/-- Method `SniperAI::calculateMove`: the returned command (none when the call
runs out of draws) and the members after the call. -/
def SniperAI.calculateMove (s : AIState) (g : Game) (ai player : RobotId) (rng : List Nat) :
    Option Command × AIState :=
  let aiPos := (g.robot ai).position
  let s1 := SniperAI.trackPosition s aiPos
  if s1.samePositionCounter > 5 then
    (some (SniperAI.breakOut g ai player), { s1 with samePositionCounter := 0 })
  else
    (SniperAI.strategy g ai player rng,
      { s1 with lastPlayerPosition := (g.robot player).position,
                lastPlayerHealth := (g.robot player).health })

/-! ## `ScoutAI` -/

/-- The choice of `opponent` made by the break-out block and by
`ScoutAI::tryMoveOrBreakWall`: the player robot, unless `ai` is the player
robot itself (then the second player's robot in multiplayer mode, the AI robot
otherwise). -/
def ScoutAI.opponentOf (g : Game) (ai : RobotId) : RobotId :=
  if ai = RobotId.player then
    (if g.multiplayerMode then RobotId.player2 else RobotId.ai)
  else RobotId.player

/-- Method `ScoutAI::wouldEndAdjacentToOpponent`. -/
def ScoutAI.wouldEndAdjacentToOpponent (g : Game) (ai opponent : RobotId) (newPos : QPoint) :
    Bool :=
  if (g.robot ai).movesLeft > 1 then false
  else decide (manhattanDistance newPos (g.robot opponent).position = 1)

/-- The loop `for (int i = 0; i < 4; i++)` of `ScoutAI::tryMoveOrBreakWall`,
with the two `return` statements that follow it; `fuel` is the number of
iterations left. -/
def ScoutAI.tryMoveOrBreakWallLoop (g : Game) (ai opponent : RobotId) (aiPos : QPoint) :
    Nat → Direction → List Nat → Option Command
  | 0, _, _ =>
      if (g.robot ai).movesLeft = 1 then some Command.None else some Command.Attack
  | fuel + 1, currentDir, rng =>
      let rightDir := Direction.ofInt ((currentDir.toInt + 1) % 4)
      let rightPos := getPositionInDirection aiPos rightDir 1
      let leftDir := Direction.ofInt ((currentDir.toInt + 3) % 4)
      let leftPos := getPositionInDirection aiPos leftDir 1
      let rightSafe := isValidMove g rightPos &&
        !ScoutAI.wouldEndAdjacentToOpponent g ai opponent rightPos
      let leftSafe := isValidMove g leftPos &&
        !ScoutAI.wouldEndAdjacentToOpponent g ai opponent leftPos
      if leftSafe && rightSafe then
        match rng with
        | [] => none
        | r :: _ =>
            some (if bounded r 2 = 0 then getTurnCommand currentDir leftDir
                  else getTurnCommand currentDir rightDir)
      else if leftSafe then some (getTurnCommand currentDir leftDir)
      else if isValidMove g leftPos && decide ((g.robot ai).movesLeft > 1) then
        some (getTurnCommand currentDir leftDir)
      else if isValidPosition g leftPos && decide (getCellType g leftPos = CellType.Wall) then
        some (getTurnCommand currentDir leftDir)
      else if rightSafe then some (getTurnCommand currentDir rightDir)
      else if isValidMove g rightPos && decide ((g.robot ai).movesLeft > 1) then
        some (getTurnCommand currentDir rightDir)
      else if isValidPosition g rightPos && decide (getCellType g rightPos = CellType.Wall) then
        some (getTurnCommand currentDir rightDir)
      else
        ScoutAI.tryMoveOrBreakWallLoop g ai opponent aiPos fuel
          (Direction.ofInt ((currentDir.toInt + 1) % 4)) rng

/-- Method `ScoutAI::tryMoveOrBreakWall`. -/
def ScoutAI.tryMoveOrBreakWall (g : Game) (ai : RobotId) (rng : List Nat) : Option Command :=
  let aiPos := (g.robot ai).position
  let currentDir := (g.robot ai).direction
  let opponent := ScoutAI.opponentOf g ai
  let forwardPos := getPositionInDirection aiPos currentDir 1
  if isValidMove g forwardPos then
    if ScoutAI.wouldEndAdjacentToOpponent g ai opponent forwardPos then
      let leftDir := Direction.ofInt ((currentDir.toInt + 3) % 4)
      let leftPos := getPositionInDirection aiPos leftDir 1
      let rightDir := Direction.ofInt ((currentDir.toInt + 1) % 4)
      let rightPos := getPositionInDirection aiPos rightDir 1
      if isValidMove g leftPos &&
          !ScoutAI.wouldEndAdjacentToOpponent g ai opponent leftPos then
        some (getTurnCommand currentDir leftDir)
      else if isValidMove g rightPos &&
          !ScoutAI.wouldEndAdjacentToOpponent g ai opponent rightPos then
        some (getTurnCommand currentDir rightDir)
      else
        let awayDir := getDirectionAway ((g.robot opponent).position.x - aiPos.x)
          ((g.robot opponent).position.y - aiPos.y)
        if awayDir ≠ currentDir then some (getTurnCommand currentDir awayDir)
        else if (g.robot ai).movesLeft > 1 then some Command.MoveForward
        else some Command.None
    else some Command.MoveForward
  else if isValidPosition g forwardPos && decide (getCellType g forwardPos = CellType.Wall) then
    some Command.Attack
  else ScoutAI.tryMoveOrBreakWallLoop g ai opponent aiPos 4 currentDir rng

/-- Method `ScoutAI::tryCollectPickup`. -/
def ScoutAI.tryCollectPickup (g : Game) (ai : RobotId) (preferHealthIfLow : Bool)
    (rng : List Nat) : Option Command :=
  let aiPos := (g.robot ai).position
  let hpPos := findNearestHealthPickup g aiPos 5
  let distHP : Int := if hpPos.x ≠ -1 then manhattanDistance aiPos hpPos else 999999
  let puPos := findNearestPowerUp g aiPos 5
  let distPU : Int := if puPos.x ≠ -1 then manhattanDistance aiPos puPos else 999999
  if hpPos.x = -1 ∧ puPos.x = -1 then some Command.None
  else
    let goHealth : Bool :=
      if preferHealthIfLow = true ∧ hpPos.x ≠ -1 then true
      else if hpPos.x ≠ -1 ∧ puPos.x ≠ -1 then decide (distHP ≤ distPU)
      else if puPos.x = -1 then true
      else false
    let targetPos := if goHealth then hpPos else puPos
    let dx := targetPos.x - aiPos.x
    let dy := targetPos.y - aiPos.y
    let targetDir := getDirectionTowards dx dy
    if (g.robot ai).direction ≠ targetDir then
      some (getTurnCommand (g.robot ai).direction targetDir)
    else ScoutAI.tryMoveOrBreakWall g ai rng

/-- Method `ScoutAI::calculateScoutNormal`. -/
def ScoutAI.calculateScoutNormal (g : Game) (ai player : RobotId) (rng : List Nat) :
    Option Command :=
  let aiPos := (g.robot ai).position
  let playerPos := (g.robot player).position
  let dx := playerPos.x - aiPos.x
  let dy := playerPos.y - aiPos.y
  let towardDir := getDirectionTowards dx dy
  if (g.robot ai).direction ≠ towardDir then
    some (getTurnCommand (g.robot ai).direction towardDir)
  else ScoutAI.tryMoveOrBreakWall g ai rng

/-- The end of `ScoutAI::findSafePath`, from the comment "we need to find ANY
valid move as a fallback" on. -/
def ScoutAI.findSafePathFallback (s : ScoutAIState) (g : Game) (ai : RobotId) :
    Command × ScoutAIState :=
  let aiPos := (g.robot ai).position
  let currentDir := (g.robot ai).direction
  let forwardPos := getPositionInDirection aiPos currentDir 1
  if isValidMove g forwardPos then
    (Command.MoveForward, { s with turnCounter := 0, justTurned := false })
  else
    match loopDirections.find? (fun testDir =>
        decide (testDir ≠ currentDir) &&
          isValidMove g (getPositionInDirection aiPos testDir 1)) with
    | some testDir =>
        (getTurnCommand currentDir testDir, { s with lastTurnDir := testDir, justTurned := true })
    | none => (Command.None, { s with turnCounter := 0, justTurned := false })

/-- One iteration of the search loop of the branch `currentDistance > 2` of
`ScoutAI::findSafePath`; the accumulator is `bestDir`, `bestDist`,
`foundBetter` and whether the `break` was taken. -/
def ScoutAI.findSafePathBestStep (g : Game) (aiPos opponentPos : QPoint)
    (currentDir : Direction) (acc : Direction × Int × Bool × Bool) (testDir : Direction) :
    Direction × Int × Bool × Bool :=
  if acc.2.2.2 then acc
  else if testDir = currentDir then acc
  else
    let newPos := getPositionInDirection aiPos testDir 1
    if isValidMove g newPos then
      let newDist := manhattanDistance newPos opponentPos
      if newDist = 2 then (testDir, newDist, true, true)
      else if newDist > 1 ∧ newDist < acc.2.1 then (testDir, newDist, true, false)
      else acc
    else acc

/-- The part of `ScoutAI::findSafePath` from `int currentDistance = ..` on:
the three branches on the distance, then the fallback. -/
def ScoutAI.findSafePathLastMove (s : ScoutAIState) (g : Game) (ai opponent : RobotId) :
    Command × ScoutAIState :=
  let aiPos := (g.robot ai).position
  let opponentPos := (g.robot opponent).position
  let currentDir := (g.robot ai).direction
  let currentDistance := manhattanDistance aiPos opponentPos
  let forwardPos := getPositionInDirection aiPos currentDir 1
  if currentDistance = 2 ∧ isValidMove g forwardPos = true ∧
      manhattanDistance forwardPos opponentPos = 2 then
    (Command.MoveForward, { s with turnCounter := 0, justTurned := false })
  else
    match (if currentDistance = 2 then
        loopDirections.find? (fun testDir =>
          decide (testDir ≠ currentDir) &&
            isValidMove g (getPositionInDirection aiPos testDir 1) &&
            decide (manhattanDistance (getPositionInDirection aiPos testDir 1) opponentPos = 2))
      else none) with
    | some testDir =>
        (getTurnCommand currentDir testDir, { s with lastTurnDir := testDir, justTurned := true })
    | none =>
      if currentDistance > 2 ∧ isValidMove g forwardPos = true ∧
          (manhattanDistance forwardPos opponentPos = 2 ∨
            (manhattanDistance forwardPos opponentPos < currentDistance ∧
              manhattanDistance forwardPos opponentPos > 1)) then
        (Command.MoveForward, { s with turnCounter := 0, justTurned := false })
      else
        let best := loopDirections.foldl
          (ScoutAI.findSafePathBestStep g aiPos opponentPos currentDir)
          (currentDir, (999 : Int), false, false)
        if currentDistance > 2 ∧ best.2.2.1 = true then
          (getTurnCommand currentDir best.1, { s with lastTurnDir := best.1, justTurned := true })
        else
          let awayDir := getDirectionAway (opponentPos.x - aiPos.x) (opponentPos.y - aiPos.y)
          if currentDistance = 1 ∧ currentDir = awayDir ∧
              isValidMove g (getPositionInDirection aiPos awayDir 1) = true then
            (Command.MoveForward, { s with turnCounter := 0, justTurned := false })
          else if currentDistance = 1 ∧ currentDir ≠ awayDir then
            (getTurnCommand currentDir awayDir, { s with lastTurnDir := awayDir, justTurned := true })
          else ScoutAI.findSafePathFallback s g ai

/-- The part of `ScoutAI::findSafePath` from the comment "Only worry about
adjacency on the last move" on: with more than one move left, turn toward the
opponent or step forward. -/
def ScoutAI.findSafePathApproach (s : ScoutAIState) (g : Game) (ai opponent : RobotId) :
    Command × ScoutAIState :=
  let aiPos := (g.robot ai).position
  let opponentPos := (g.robot opponent).position
  let currentDir := (g.robot ai).direction
  let towardDir := getDirectionTowards (opponentPos.x - aiPos.x) (opponentPos.y - aiPos.y)
  if (g.robot ai).movesLeft > 1 ∧ currentDir ≠ towardDir then
    (getTurnCommand currentDir towardDir, { s with lastTurnDir := towardDir, justTurned := true })
  else if (g.robot ai).movesLeft > 1 ∧
      isValidMove g (getPositionInDirection aiPos currentDir 1) = true then
    (Command.MoveForward, { s with justTurned := false, turnCounter := 0 })
  else ScoutAI.findSafePathLastMove s g ai opponent

/-- The part of `ScoutAI::findSafePath` from `turnCounter++` on: after more
than three calls without a move, force a movement. -/
def ScoutAI.findSafePathForced (s : ScoutAIState) (g : Game) (ai opponent : RobotId) :
    Command × ScoutAIState :=
  let aiPos := (g.robot ai).position
  let currentDir := (g.robot ai).direction
  let s1 : ScoutAIState := { s with turnCounter := s.turnCounter + 1 }
  if s1.turnCounter > 3 then
    let s2 : ScoutAIState := { s1 with turnCounter := 0 }
    let forwardPos := getPositionInDirection aiPos currentDir 1
    if isValidMove g forwardPos then (Command.MoveForward, s2)
    else
      match loopDirections.find? (fun testDir =>
          decide (testDir ≠ currentDir) &&
            isValidMove g (getPositionInDirection aiPos testDir 1)) with
      | some testDir =>
          (getTurnCommand currentDir testDir,
            { s2 with lastTurnDir := testDir, justTurned := true })
      | none =>
        if isValidPosition g forwardPos &&
            decide (getCellType g forwardPos = CellType.Wall) then
          (Command.Attack, s2)
        else ScoutAI.findSafePathApproach s2 g ai opponent
  else ScoutAI.findSafePathApproach s1 g ai opponent

/-- Method `ScoutAI::findSafePath`: the returned command and the members and
static variables after the call. -/
def ScoutAI.findSafePath (s : ScoutAIState) (g : Game) (ai opponent : RobotId) :
    Command × ScoutAIState :=
  let aiPos := (g.robot ai).position
  let currentDir := (g.robot ai).direction
  if s.justTurned = true ∧ currentDir = s.lastTurnDir then
    let s1 : ScoutAIState := { s with justTurned := false }
    if isValidMove g (getPositionInDirection aiPos currentDir 1) then
      (Command.MoveForward, { s1 with turnCounter := 0 })
    else ScoutAI.findSafePathForced s1 g ai opponent
  else ScoutAI.findSafePathForced s g ai opponent

/-- The block `if (distance == 1) { .. }` of `ScoutAI::vsScout`. -/
def ScoutAI.vsScoutAdjacent (s : ScoutAIState) (g : Game) (ai otherScout : RobotId) : Command :=
  let aiPos := (g.robot ai).position
  let plrPos := (g.robot otherScout).position
  let dx := plrPos.x - aiPos.x
  let dy := plrPos.y - aiPos.y
  let movesUsedThisTurn := (g.robot ai).maxMovesPerTurn - (g.robot ai).movesLeft
  let playerInDir := isInDirection dx dy (g.robot ai).direction
  let canKillWithOneAttack :=
    decide ((g.robot otherScout).health ≤ (g.robot ai).attackDamage)
  if s.samePositionCounter ≥ 3 then
    match loopDirections.find? (fun testDir =>
        isValidMove g (getPositionInDirection aiPos testDir 1)) with
    | some testDir =>
        if (g.robot ai).direction ≠ testDir then
          getTurnCommand (g.robot ai).direction testDir
        else Command.MoveForward
    | none =>
        if playerInDir then Command.Attack
        else getTurnCommand (g.robot ai).direction (getDirectionTowards dx dy)
  else if !playerInDir then
    getTurnCommand (g.robot ai).direction (getDirectionTowards dx dy)
  else
    let hasAttackedThisTurn := decide (movesUsedThisTurn > 0)
    if canKillWithOneAttack && playerInDir then Command.Attack
    else if !hasAttackedThisTurn && decide ((g.robot ai).movesLeft ≥ 2) then Command.Attack
    else if !hasAttackedThisTurn && decide ((g.robot ai).movesLeft = 1) &&
        (decide ((g.robot ai).health > (g.robot otherScout).health) || canKillWithOneAttack) then
      Command.Attack
    else if hasAttackedThisTurn && canKillWithOneAttack && playerInDir then Command.Attack
    else
      let awayDir := getDirectionAway dx dy
      let awayPos := getPositionInDirection aiPos awayDir 1
      let canMoveAway := isValidMove g awayPos
      let retreat :=
        if (g.robot ai).direction ≠ awayDir then getTurnCommand (g.robot ai).direction awayDir
        else Command.MoveForward
      if !canMoveAway then
        let towardDir := getDirectionTowards dx dy
        match loopDirections.find? (fun testDir =>
            decide (testDir ≠ towardDir) &&
              isValidMove g (getPositionInDirection aiPos testDir 1)) with
        | some testDir =>
            if (g.robot ai).direction ≠ testDir then
              getTurnCommand (g.robot ai).direction testDir
            else Command.MoveForward
        | none =>
            if !hasAttackedThisTurn && playerInDir then Command.Attack
            else if !playerInDir then
              getTurnCommand (g.robot ai).direction (getDirectionTowards dx dy)
            else retreat
      else retreat

/-- Method `ScoutAI::vsScout`. -/
def ScoutAI.vsScout (s : ScoutAIState) (g : Game) (ai otherScout : RobotId) (rng : List Nat) :
    Option Command × ScoutAIState :=
  let aiPos := (g.robot ai).position
  let plrPos := (g.robot otherScout).position
  let dx := plrPos.x - aiPos.x
  let dy := plrPos.y - aiPos.y
  let distance := |dx| + |dy|
  let canKillWithOneAttack :=
    decide ((g.robot otherScout).health ≤ (g.robot ai).attackDamage)
  if distance = 1 then (some (ScoutAI.vsScoutAdjacent s g ai otherScout), s)
  else
    let rest : Option Command × ScoutAIState :=
      if canKillWithOneAttack = true ∧ distance ≤ 3 then
        let towardDir := getDirectionTowards dx dy
        if (g.robot ai).direction ≠ towardDir then
          (some (getTurnCommand (g.robot ai).direction towardDir), s)
        else (ScoutAI.tryMoveOrBreakWall g ai rng, s)
      else
        let path := ScoutAI.findSafePath s g ai otherScout
        if path.1 ≠ Command.None then (some path.1, path.2)
        else (ScoutAI.calculateScoutNormal g ai otherScout rng, path.2)
    if (g.robot ai).health < (g.robot ai).maxHealth / 2 ∧
        (g.robot ai).health ≤ (g.robot otherScout).health ∧ canKillWithOneAttack = false then
      match ScoutAI.tryCollectPickup g ai true rng with
      | none => (none, s)
      | some c => if c ≠ Command.None then (some c, s) else rest
    else rest

/-- The block `if (distance == 1) { .. }` of `ScoutAI::vsSniper`. -/
def ScoutAI.vsSniperAdjacent (s : ScoutAIState) (g : Game) (ai sniper : RobotId) : Command :=
  let aiPos := (g.robot ai).position
  let plrPos := (g.robot sniper).position
  let dx := plrPos.x - aiPos.x
  let dy := plrPos.y - aiPos.y
  let movesUsedThisTurn := (g.robot ai).maxMovesPerTurn - (g.robot ai).movesLeft
  let playerInDir := isInDirection dx dy (g.robot ai).direction
  let canKillWithOneAttack :=
    decide ((g.robot sniper).health ≤ (g.robot ai).attackDamage)
  if s.samePositionCounter ≥ 3 then
    match loopDirections.find? (fun testDir =>
        isValidMove g (getPositionInDirection aiPos testDir 1)) with
    | some testDir =>
        if (g.robot ai).direction ≠ testDir then
          getTurnCommand (g.robot ai).direction testDir
        else Command.MoveForward
    | none =>
        if playerInDir then Command.Attack
        else getTurnCommand (g.robot ai).direction (getDirectionTowards dx dy)
  else if !playerInDir then
    getTurnCommand (g.robot ai).direction (getDirectionTowards dx dy)
  else
    let hasAttackedThisTurn := decide (movesUsedThisTurn > 0)
    if canKillWithOneAttack && playerInDir then Command.Attack
    else if !hasAttackedThisTurn then Command.Attack
    else if hasAttackedThisTurn && canKillWithOneAttack && playerInDir then Command.Attack
    else
      let awayDir := getDirectionAway dx dy
      let awayPos := getPositionInDirection aiPos awayDir 1
      let canMoveAway := isValidMove g awayPos
      let retreat :=
        if (g.robot ai).direction ≠ awayDir then getTurnCommand (g.robot ai).direction awayDir
        else Command.MoveForward
      if !canMoveAway then
        let towardDir := getDirectionTowards dx dy
        match loopDirections.find? (fun testDir =>
            decide (testDir ≠ towardDir) &&
              isValidMove g (getPositionInDirection aiPos testDir 1)) with
        | some testDir =>
            if (g.robot ai).direction ≠ testDir then
              getTurnCommand (g.robot ai).direction testDir
            else Command.MoveForward
        | none =>
            if !hasAttackedThisTurn && playerInDir then Command.Attack
            else if !playerInDir then
              getTurnCommand (g.robot ai).direction (getDirectionTowards dx dy)
            else retreat
      else retreat

/-- Method `ScoutAI::vsSniper`. -/
def ScoutAI.vsSniper (s : ScoutAIState) (g : Game) (ai sniper : RobotId) (rng : List Nat) :
    Option Command × ScoutAIState :=
  let aiPos := (g.robot ai).position
  let plrPos := (g.robot sniper).position
  let dx := plrPos.x - aiPos.x
  let dy := plrPos.y - aiPos.y
  let distance := |dx| + |dy|
  let canKillWithOneAttack :=
    decide ((g.robot sniper).health ≤ (g.robot ai).attackDamage)
  if distance = 1 then (some (ScoutAI.vsSniperAdjacent s g ai sniper), s)
  else
    let rest : Option Command × ScoutAIState :=
      if canKillWithOneAttack = true ∧ distance ≤ 4 then
        let towardDir := getDirectionTowards dx dy
        if (g.robot ai).direction ≠ towardDir then
          (some (getTurnCommand (g.robot ai).direction towardDir), s)
        else (ScoutAI.tryMoveOrBreakWall g ai rng, s)
      else
        let path := ScoutAI.findSafePath s g ai sniper
        if path.1 ≠ Command.None then (some path.1, path.2)
        else
          let towardDir := getDirectionTowards dx dy
          if (g.robot ai).direction ≠ towardDir then
            (some (getTurnCommand (g.robot ai).direction towardDir), path.2)
          else (ScoutAI.tryMoveOrBreakWall g ai rng, path.2)
    if (g.robot ai).health < (g.robot ai).maxHealth / 2 ∧ canKillWithOneAttack = false then
      match ScoutAI.tryCollectPickup g ai true rng with
      | none => (none, s)
      | some c => if c ≠ Command.None then (some c, s) else rest
    else rest

/-- The block `if (distance == 1) { .. }` of `ScoutAI::vsTank`. -/
def ScoutAI.vsTankAdjacent (s : ScoutAIState) (g : Game) (ai tank : RobotId) : Command :=
  let aiPos := (g.robot ai).position
  let plrPos := (g.robot tank).position
  let dx := plrPos.x - aiPos.x
  let dy := plrPos.y - aiPos.y
  let movesUsedThisTurn := (g.robot ai).maxMovesPerTurn - (g.robot ai).movesLeft
  let playerInDir := isInDirection dx dy (g.robot ai).direction
  let canKillWithOneAttack :=
    decide ((g.robot tank).health ≤ (g.robot ai).attackDamage)
  if s.samePositionCounter ≥ 3 then
    match loopDirections.find? (fun testDir =>
        isValidMove g (getPositionInDirection aiPos testDir 1)) with
    | some testDir =>
        if (g.robot ai).direction ≠ testDir then
          getTurnCommand (g.robot ai).direction testDir
        else Command.MoveForward
    | none =>
        if playerInDir then Command.Attack
        else getTurnCommand (g.robot ai).direction (getDirectionTowards dx dy)
  else if !playerInDir then
    getTurnCommand (g.robot ai).direction (getDirectionTowards dx dy)
  else
    let hasAttackedThisTurn := decide (movesUsedThisTurn > 0)
    if canKillWithOneAttack && playerInDir then Command.Attack
    else if !hasAttackedThisTurn then Command.Attack
    else if hasAttackedThisTurn && canKillWithOneAttack && playerInDir then Command.Attack
    else
      let awayDir := getDirectionAway dx dy
      let awayPos := getPositionInDirection aiPos awayDir 1
      let canMoveAway := isValidMove g awayPos
      if !canMoveAway then
        let towardDir := getDirectionTowards dx dy
        match loopDirections.find? (fun testDir =>
            decide (testDir ≠ towardDir) &&
              isValidMove g (getPositionInDirection aiPos testDir 1)) with
        | some testDir =>
            if (g.robot ai).direction ≠ testDir then
              getTurnCommand (g.robot ai).direction testDir
            else Command.MoveForward
        | none => Command.Attack
      else if (g.robot ai).direction ≠ awayDir then
        getTurnCommand (g.robot ai).direction awayDir
      else Command.MoveForward

/-- Method `ScoutAI::vsTank`. -/
def ScoutAI.vsTank (s : ScoutAIState) (g : Game) (ai tank : RobotId) (rng : List Nat) :
    Option Command × ScoutAIState :=
  let aiPos := (g.robot ai).position
  let plrPos := (g.robot tank).position
  let dx := plrPos.x - aiPos.x
  let dy := plrPos.y - aiPos.y
  let distance := |dx| + |dy|
  let canKillWithOneAttack :=
    decide ((g.robot tank).health ≤ (g.robot ai).attackDamage)
  if distance = 1 then (some (ScoutAI.vsTankAdjacent s g ai tank), s)
  else
    let towardDir := getDirectionTowards dx dy
    let rest : Option Command × ScoutAIState :=
      if distance ≥ 2 ∧ distance ≤ 5 then
        if canKillWithOneAttack = true ∧ distance = 2 then
          if (g.robot ai).direction ≠ towardDir then
            (some (getTurnCommand (g.robot ai).direction towardDir), s)
          else (some Command.MoveForward, s)
        else
          let path := ScoutAI.findSafePath s g ai tank
          if path.1 ≠ Command.None then (some path.1, path.2)
          else if (g.robot ai).direction ≠ towardDir then
            (some (getTurnCommand (g.robot ai).direction towardDir), path.2)
          else (ScoutAI.tryMoveOrBreakWall g ai rng, path.2)
      else if canKillWithOneAttack then
        if (g.robot ai).direction ≠ towardDir then
          (some (getTurnCommand (g.robot ai).direction towardDir), s)
        else (ScoutAI.tryMoveOrBreakWall g ai rng, s)
      else
        match ScoutAI.tryCollectPickup g ai false rng with
        | none => (none, s)
        | some c =>
          if c ≠ Command.None then (some c, s)
          else if (g.robot ai).direction ≠ towardDir then
            (some (getTurnCommand (g.robot ai).direction towardDir), s)
          else (ScoutAI.tryMoveOrBreakWall g ai rng, s)
    if (g.robot ai).health < (g.robot ai).maxHealth / 2 ∧ canKillWithOneAttack = false then
      match ScoutAI.tryCollectPickup g ai true rng with
      | none => (none, s)
      | some c => if c ≠ Command.None then (some c, s) else rest
    else rest

/-- The stuck detection at the top of `ScoutAI::calculateMove`. -/
def ScoutAI.trackPosition (s : ScoutAIState) (aiPos : QPoint) : ScoutAIState :=
  if aiPos = s.lastAiPosition then { s with samePositionCounter := s.samePositionCounter + 1 }
  else { s with samePositionCounter := 0, lastAiPosition := aiPos }

/-- The loop `do { randomDir = bounded(4) } while (randomDir == currentDir)`
of the break-out block: the first draw that gives another direction. -/
def ScoutAI.randomOtherDirection (currentDir : Direction) : List Nat → Option Direction
  | [] => none
  | r :: rng =>
      if Direction.ofInt (bounded r 4) = currentDir then
        ScoutAI.randomOtherDirection currentDir rng
      else some (Direction.ofInt (bounded r 4))

/-- The command chosen by the block `if (samePositionCounter > 5) { .. }` of
`ScoutAI::calculateMove` (the break-out). -/
def ScoutAI.breakOut (g : Game) (ai : RobotId) (rng : List Nat) : Option Command :=
  let aiPos := (g.robot ai).position
  let opponent := ScoutAI.opponentOf g ai
  let opponentPos := (g.robot opponent).position
  let manhattanDistToOpponent := manhattanDistance aiPos opponentPos
  if manhattanDistToOpponent = 1 ∧
      isInDirection (opponentPos.x - aiPos.x) (opponentPos.y - aiPos.y)
        (g.robot ai).direction = true then
    some Command.Attack
  else
    match loopDirections.find? (fun testDir =>
        isValidMove g (getPositionInDirection aiPos testDir 1)) with
    | some testDir =>
        if (g.robot ai).direction ≠ testDir then
          some (getTurnCommand (g.robot ai).direction testDir)
        else some Command.MoveForward
    | none =>
      let frontPos := getPositionInDirection aiPos (g.robot ai).direction 1
      if isValidPosition g frontPos && decide (getCellType g frontPos = CellType.Wall) then
        some Command.Attack
      else
        match ScoutAI.randomOtherDirection (g.robot ai).direction rng with
        | none => none
        | some randomDir => some (getTurnCommand (g.robot ai).direction randomDir)

/-- The part of `ScoutAI::calculateMove` after the break-out block: the
opponent's position and health are recorded when they changed, then the logic
for the opponent's archetype runs. -/
def ScoutAI.strategy (s : ScoutAIState) (g : Game) (ai player : RobotId) (rng : List Nat) :
    Option Command × ScoutAIState :=
  let playerPos := (g.robot player).position
  let playerHealth := (g.robot player).health
  let s1 : ScoutAIState :=
    if playerPos ≠ s.lastPlayerPosition ∨ playerHealth ≠ s.lastPlayerHealth then
      { s with lastPlayerPosition := playerPos, lastPlayerHealth := playerHealth }
    else s
  match (g.robot player).type with
  | RobotType.Scout => ScoutAI.vsScout s1 g ai player rng
  | RobotType.Tank => ScoutAI.vsTank s1 g ai player rng
  | RobotType.Sniper => ScoutAI.vsSniper s1 g ai player rng

/-- Method `ScoutAI::calculateMove`: the returned command (none when the call
runs out of draws) and the members and static variables after the call. -/
def ScoutAI.calculateMove (s : ScoutAIState) (g : Game) (ai player : RobotId)
    (rng : List Nat) : Option Command × ScoutAIState :=
  let aiPos := (g.robot ai).position
  let s0 : ScoutAIState :=
    if (g.robot ai).movesLeft = (g.robot ai).maxMovesPerTurn then { s with turnCounter := 0 }
    else s
  let s1 := ScoutAI.trackPosition s0 aiPos
  if s1.samePositionCounter > 5 then
    (ScoutAI.breakOut g ai rng, { s1 with samePositionCounter := 0 })
  else ScoutAI.strategy s1 g ai player rng

/-! ## `RobotAI` and the AI's turn -/

/-- The three strategy objects owned by `RobotAI`. -/
structure RobotAI where
  scoutAI : ScoutAIState
  tankAI : AIState
  sniperAI : AIState

/-- Constructor `RobotAI::RobotAI`. -/
def RobotAI.new : RobotAI :=
  { scoutAI := ScoutAIState.new, tankAI := AIState.new, sniperAI := AIState.new }

/-- Method `RobotAI::calculateMove`: the strategy is chosen by the archetype of
`ai`. -/
def RobotAI.calculateMove (r : RobotAI) (g : Game) (ai player : RobotId) (rng : List Nat) :
    Option Command × RobotAI :=
  match (g.robot ai).type with
  | RobotType.Scout =>
      ((ScoutAI.calculateMove r.scoutAI g ai player rng).1,
        { r with scoutAI := (ScoutAI.calculateMove r.scoutAI g ai player rng).2 })
  | RobotType.Tank =>
      ((TankAI.calculateMove r.tankAI g ai player rng).1,
        { r with tankAI := (TankAI.calculateMove r.tankAI g ai player rng).2 })
  | RobotType.Sniper =>
      ((SniperAI.calculateMove r.sniperAI g ai player rng).1,
        { r with sniperAI := (SniperAI.calculateMove r.sniperAI g ai player rng).2 })

/-- Method `Game::executeAiTurn` together with the strategy it consults: in
the AI's turn with a move left, `robotAI->calculateMove(this, ai, playerRobot)`
chooses the command that `executeAiTurn` then carries out.  The result is none
when the strategy runs out of draws. -/
def aiTurnStep (g : Game) (r : RobotAI) (rng : List Nat) : Option (Game × RobotAI) :=
  if g.state ≠ GameState.AiTurn then some (g, r)
  else if g.aiRobot.movesLeft > 0 then
    match (RobotAI.calculateMove r g RobotId.ai RobotId.player rng).1 with
    | none => none
    | some aiMove =>
        some (executeAiTurn g aiMove,
          (RobotAI.calculateMove r g RobotId.ai RobotId.player rng).2)
  else some (g, r)

/-- One event of a single-player match, as `GameGrid` drives it: a command of
the human player, or one timer-driven call of `executeAiTurn`, for which the
strategy has the draws `rng` at its disposal. -/
inductive MatchEvent where
  | command (cmd : Command)
  | aiTurn (rng : List Nat)

/-- The game and the strategy objects after one event. -/
def matchStep (s : Game × RobotAI) : MatchEvent → Option (Game × RobotAI)
  | MatchEvent.command cmd => some (executeCommand s.1 cmd, s.2)
  | MatchEvent.aiTurn rng => aiTurnStep s.1 s.2 rng

/-- The game and the strategy objects after a sequence of events. -/
def runMatch (s : Game × RobotAI) : List MatchEvent → Option (Game × RobotAI)
  | [] => some s
  | e :: es =>
    match matchStep s e with
    | none => none
    | some s1 => runMatch s1 es

/-- The same-position counter of the strategy object in charge of a robot of
archetype `t`. -/
def RobotAI.samePositionCounter (r : RobotAI) : RobotType → Int
  | RobotType.Scout => r.scoutAI.samePositionCounter
  | RobotType.Tank => r.tankAI.samePositionCounter
  | RobotType.Sniper => r.sniperAI.samePositionCounter

/-- The last recorded AI position of the strategy object in charge of a robot
of archetype `t`. -/
def RobotAI.lastAiPosition (r : RobotAI) : RobotType → QPoint
  | RobotType.Scout => r.scoutAI.lastAiPosition
  | RobotType.Tank => r.tankAI.lastAiPosition
  | RobotType.Sniper => r.sniperAI.lastAiPosition

/-- The call `calculateMove(game, ai, ..)` takes the stuck-breakout branch:
the test `samePositionCounter > 5` that the strategy in charge makes after its
stuck detection succeeds. -/
def RobotAI.stuck (r : RobotAI) (g : Game) (ai : RobotId) : Prop :=
  match (g.robot ai).type with
  | RobotType.Scout =>
      (ScoutAI.trackPosition r.scoutAI (g.robot ai).position).samePositionCounter > 5
  | RobotType.Tank =>
      (TankAI.trackPosition r.tankAI (g.robot ai).position).samePositionCounter > 5
  | RobotType.Sniper =>
      (SniperAI.trackPosition r.sniperAI (g.robot ai).position).samePositionCounter > 5

instance (r : RobotAI) (g : Game) (ai : RobotId) : Decidable (RobotAI.stuck r g ai) := by
  unfold RobotAI.stuck
  cases (g.robot ai).type <;> exact inferInstance

/-- The command of the break-out block of the strategy in charge. -/
def RobotAI.breakOut (g : Game) (ai player : RobotId) (rng : List Nat) : Option Command :=
  match (g.robot ai).type with
  | RobotType.Scout => ScoutAI.breakOut g ai rng
  | RobotType.Tank => some (TankAI.breakOut g ai player)
  | RobotType.Sniper => some (SniperAI.breakOut g ai player)

/-- The strategy objects after a sequence of `calculateMove` calls, each given
by the game at the time of the call and the draws at its disposal. -/
def RobotAI.afterCalls (r : RobotAI) (ai player : RobotId) : List (Game × List Nat) → RobotAI
  | [] => r
  | c :: cs => RobotAI.afterCalls (RobotAI.calculateMove r c.1 ai player c.2).2 ai player cs

/-- The two members of the stuck detection are left alone by a state change. -/
def ScoutAIState.SameStuck (s s1 : ScoutAIState) : Prop :=
  s1.samePositionCounter = s.samePositionCounter ∧ s1.lastAiPosition = s.lastAiPosition

/-- A `Wall` cell of the grid lies directly ahead of the robot. -/
def wallAhead (g : Game) (id : RobotId) : Prop :=
  isValidPosition g (cellAhead (g.robot id)) = true ∧
  g.arena (cellAhead (g.robot id)).y (cellAhead (g.robot id)).x = CellType.Wall

instance (g : Game) (id : RobotId) : Decidable (wallAhead g id) := by
  unfold wallAhead
  exact inferInstance

/-- Direction `d` is the first of North, East, South, West (the order of the
enumeration) whose neighbouring cell of `pos` is a valid move. -/
def firstValidDirection (g : Game) (pos : QPoint) (d : Direction) : Prop :=
  isValidMove g (stepFrom pos d 1) = true ∧
  ∀ d1 : Direction, d1.toInt < d.toInt → isValidMove g (stepFrom pos d1 1) = false

/-- None of the four neighbouring cells of `pos` is a valid move. -/
def boxedIn (g : Game) (pos : QPoint) : Prop :=
  ∀ d : Direction, isValidMove g (stepFrom pos d 1) = false

/-- A single-player game at Easy difficulty on a 4 x 4 grid, the player's Tank
against the AI's Sniper (Open template, `exampleOpenDraws`). -/
def exampleSniperEasy : Game :=
  (initializeArena exampleStart RobotType.Tank RobotType.Sniper GameDifficulty.Easy
    MapType.Open exampleOpenDraws).getD (Game.blank 4)

/-- The match on `exampleSniperEasy` in which the Tank walks to (0,1) and then
to (1,2), two cells south of the cell (1,0) that the Sniper has reached, and
from then on spends its moves on attacks; the Sniper turns South and shoots five
times.  The Sniper has been asked six times for a move on (1,0); it is its turn
with one move left. -/
def exampleSniperStuck : Game × RobotAI :=
  (runMatch (exampleSniperEasy, RobotAI.new)
    [MatchEvent.command Command.TurnLeft, MatchEvent.command Command.MoveForward,
     MatchEvent.command Command.MoveForward,
     MatchEvent.aiTurn [0], MatchEvent.aiTurn [0], MatchEvent.aiTurn [0], MatchEvent.aiTurn [0],
     MatchEvent.command Command.TurnLeft, MatchEvent.command Command.TurnLeft,
     MatchEvent.command Command.MoveForward, MatchEvent.command Command.TurnLeft,
     MatchEvent.command Command.MoveForward,
     MatchEvent.aiTurn [0], MatchEvent.aiTurn [0], MatchEvent.aiTurn [0],
     MatchEvent.command Command.Attack, MatchEvent.command Command.Attack,
     MatchEvent.aiTurn [0], MatchEvent.aiTurn [0],
     MatchEvent.command Command.Attack, MatchEvent.command Command.Attack,
     MatchEvent.aiTurn [0]]).getD (Game.blank 4, RobotAI.new)

/-- The same-position counter that the call `calculateMove(game, ai, ..)` of the
strategy in charge works with: the counter after the stuck detection at the top
of the call. -/
def RobotAI.counterNow (r : RobotAI) (g : Game) (ai : RobotId) : Int :=
  match (g.robot ai).type with
  | RobotType.Scout =>
      (ScoutAI.trackPosition r.scoutAI (g.robot ai).position).samePositionCounter
  | RobotType.Tank =>
      (TankAI.trackPosition r.tankAI (g.robot ai).position).samePositionCounter
  | RobotType.Sniper =>
      (SniperAI.trackPosition r.sniperAI (g.robot ai).position).samePositionCounter

/-- A HealthPickup cell of the grid lies at most `radius` columns and at most
`radius` rows away from `pos`. -/
def healthPickupWithin (g : Game) (pos : QPoint) (radius : Int) : Prop :=
  ∃ p : QPoint, isValidPosition g p = true ∧ |p.x - pos.x| ≤ radius ∧ |p.y - pos.y| ≤ radius ∧
    g.arena p.y p.x = CellType.HealthPickup

/-- A single-player game at Easy difficulty on a 4 x 4 grid, the player's Scout
against the AI's Sniper (Open template, `exampleOpenDraws`). -/
def exampleScoutVsSniper : Game :=
  (initializeArena exampleStart RobotType.Scout RobotType.Sniper GameDifficulty.Easy
    MapType.Open exampleOpenDraws).getD (Game.blank 4)

/-- The match on `exampleScoutVsSniper` after which the Sniper, at 35 health
(its `maxHealth` is 80, its health cap at Easy difficulty 56), stands on (3,0)
facing South with the player's Scout, at 12 health, on the cell ahead (3,1); it
is the Sniper's turn. -/
def exampleSniperHurt : Game × RobotAI :=
  (runMatch (exampleScoutVsSniper, RobotAI.new)
    [MatchEvent.command Command.MoveForward, MatchEvent.command Command.MoveForward,
     MatchEvent.command Command.MoveForward, MatchEvent.aiTurn [0], MatchEvent.aiTurn [0],
     MatchEvent.aiTurn [0], MatchEvent.command Command.TurnLeft,
     MatchEvent.command Command.MoveForward, MatchEvent.command Command.MoveForward,
     MatchEvent.command Command.Attack]).getD (Game.blank 4, RobotAI.new)

/-- A single-player game at Easy difficulty on a 4 x 4 grid, the player's Scout
against the AI's Tank (Open template, `exampleOpenDraws`). -/
def exampleScoutVsTank : Game :=
  (initializeArena exampleStart RobotType.Scout RobotType.Tank GameDifficulty.Easy
    MapType.Open exampleOpenDraws).getD (Game.blank 4)

/-- The match on `exampleScoutVsTank` after which the Tank, at 9 health (its
`maxHealth` is 150, its health cap at Easy difficulty 105), stands on (3,2)
facing South with the player's Scout, at 23 health, on the cell ahead (3,3); it
is the Tank's turn. -/
def exampleTankHurt : Game × RobotAI :=
  (runMatch (exampleScoutVsTank, RobotAI.new)
    [MatchEvent.command Command.MoveForward, MatchEvent.command Command.MoveForward,
     MatchEvent.command Command.MoveForward, MatchEvent.aiTurn [0], MatchEvent.aiTurn [0],
     MatchEvent.aiTurn [0], MatchEvent.command Command.Attack,
     MatchEvent.command Command.TurnLeft, MatchEvent.command Command.Attack,
     MatchEvent.command Command.Attack, MatchEvent.aiTurn [0], MatchEvent.aiTurn [0],
     MatchEvent.command Command.Attack, MatchEvent.command Command.Attack,
     MatchEvent.command Command.Attack]).getD (Game.blank 4, RobotAI.new)

/-- The match on `exampleMaze` (Scout against Scout, Medium difficulty) after
which the AI's Scout stands on (3,1) facing South for the fourth call in a row,
with the player's Scout, at 10 health, on the cell ahead (3,2). -/
def exampleScoutPinned : Game × RobotAI :=
  (runMatch (exampleMaze, RobotAI.new)
    [MatchEvent.command Command.Attack, MatchEvent.command Command.Attack,
     MatchEvent.command Command.Attack, MatchEvent.aiTurn [0], MatchEvent.aiTurn [0],
     MatchEvent.aiTurn [0], MatchEvent.aiTurn [0], MatchEvent.command Command.MoveForward,
     MatchEvent.command Command.MoveForward, MatchEvent.command Command.Attack,
     MatchEvent.aiTurn [0], MatchEvent.aiTurn [0], MatchEvent.aiTurn [0],
     MatchEvent.command Command.Attack, MatchEvent.command Command.Attack,
     MatchEvent.command Command.Attack, MatchEvent.aiTurn [0], MatchEvent.aiTurn [0],
     MatchEvent.aiTurn [0], MatchEvent.aiTurn [0], MatchEvent.aiTurn [0],
     MatchEvent.command Command.MoveForward, MatchEvent.command Command.TurnLeft,
     MatchEvent.command Command.MoveForward, MatchEvent.command Command.Attack,
     MatchEvent.aiTurn [0], MatchEvent.aiTurn [0], MatchEvent.aiTurn [0]]).getD (Game.blank 4, RobotAI.new)

/-- The match on `exampleScoutVsSniper` after which the Sniper, at 56 health
(its `maxHealth` is 80, its health cap at Easy difficulty 56), stands on (3,0)
facing South with a clear line to the player's Scout, at 22 health, three cells
ahead on (3,3); it is the Sniper's turn. -/
def exampleSniperKill : Game × RobotAI :=
  (runMatch (exampleScoutVsSniper, RobotAI.new)
    [MatchEvent.command Command.MoveForward, MatchEvent.command Command.MoveForward,
     MatchEvent.command Command.MoveForward, MatchEvent.aiTurn [0], MatchEvent.aiTurn [0],
     MatchEvent.aiTurn [0], MatchEvent.command Command.Attack, MatchEvent.command Command.Attack,
     MatchEvent.command Command.Attack]).getD (Game.blank 4, RobotAI.new)

/-- A single-player game at Medium difficulty on a 4 x 4 grid, the player's
Sniper against the AI's Sniper (Open template, `exampleOpenDraws`). -/
def exampleSniperDuel : Game :=
  (initializeArena exampleStart RobotType.Sniper RobotType.Sniper GameDifficulty.Medium
    MapType.Open exampleOpenDraws).getD (Game.blank 4)

/-- The match on `exampleSniperDuel` after which the AI's Sniper, at full
health, stands on (3,1) facing West and the player's Sniper on (2,3), at
Manhattan distance 3 and in neither the row nor the column of the AI's robot;
it is the AI's turn. -/
def exampleSniperClose : Game × RobotAI :=
  (runMatch (exampleSniperDuel, RobotAI.new)
    [MatchEvent.command Command.MoveForward, MatchEvent.command Command.MoveForward,
     MatchEvent.aiTurn [0], MatchEvent.aiTurn [0], MatchEvent.aiTurn [0]]).getD (Game.blank 4, RobotAI.new)

/-- A single-player game at Medium difficulty on a 4 x 4 grid, the player's
Scout against the AI's Sniper (Open template, `exampleOpenDraws`). -/
def exampleScoutVsSniperMedium : Game :=
  (initializeArena exampleStart RobotType.Scout RobotType.Sniper GameDifficulty.Medium
    MapType.Open exampleOpenDraws).getD (Game.blank 4)

/-- The match on `exampleScoutVsSniperMedium` after which the AI's Sniper, at
full health, stands on (3,1) facing South and the player's Scout on (2,3), at
Manhattan distance 3; it is the AI's turn. -/
def exampleSniperRetreat : Game × RobotAI :=
  (runMatch (exampleScoutVsSniperMedium, RobotAI.new)
    [MatchEvent.command Command.MoveForward, MatchEvent.command Command.MoveForward,
     MatchEvent.command Command.Attack, MatchEvent.aiTurn [0], MatchEvent.aiTurn [0]]).getD (Game.blank 4, RobotAI.new)

/-- The low-health pickup branch of the Scout's matchup logic is taken: the
Scout is below half of its `maxHealth` (against a Scout, also at no more health
than the opponent) and `tryCollectPickup(game, ai, true)` does not return
`Command::None`. -/
def ScoutAI.lowHealthPickup (g : Game) (ai player : RobotId) (rng : List Nat) : Prop :=
  (g.robot ai).health < (g.robot ai).maxHealth / 2 ∧
  ((g.robot player).type = RobotType.Scout → (g.robot ai).health ≤ (g.robot player).health) ∧
  ScoutAI.tryCollectPickup g ai true rng ≠ some Command.None

instance (g : Game) (ai player : RobotId) (rng : List Nat) :
    Decidable (ScoutAI.lowHealthPickup g ai player rng) := by
  unfold ScoutAI.lowHealthPickup
  exact inferInstance

/-- A single-player game at Medium difficulty on a 4 x 4 grid, Scout against
Scout (Open template, `exampleOpenDraws`). -/
def exampleScoutMatch : Game :=
  (initializeArena exampleStart RobotType.Scout RobotType.Scout GameDifficulty.Medium
    MapType.Open exampleOpenDraws).getD (Game.blank 4)

/-- The match on `exampleScoutMatch` after which the AI's Scout, at 5 health
with one move left, stands on (3,0) facing South and the player's Scout, at 40
health, on (3,2); the cell ahead (3,1) is a valid move next to the player. -/
def exampleScoutLow : Game × RobotAI :=
  (runMatch (exampleScoutMatch, RobotAI.new)
    [MatchEvent.command Command.MoveForward, MatchEvent.command Command.MoveForward,
     MatchEvent.command Command.MoveForward, MatchEvent.aiTurn [0], MatchEvent.aiTurn [0],
     MatchEvent.aiTurn [0], MatchEvent.aiTurn [0], MatchEvent.aiTurn [0], MatchEvent.aiTurn [0],
     MatchEvent.aiTurn [0], MatchEvent.aiTurn [0], MatchEvent.command Command.TurnLeft,
     MatchEvent.command Command.MoveForward, MatchEvent.command Command.Attack,
     MatchEvent.command Command.Attack, MatchEvent.aiTurn [0], MatchEvent.aiTurn [0],
     MatchEvent.aiTurn [0], MatchEvent.aiTurn [0], MatchEvent.aiTurn [0], MatchEvent.aiTurn [0],
     MatchEvent.aiTurn [0], MatchEvent.aiTurn [0]]).getD (Game.blank 4, RobotAI.new)

/-- The match `exampleScoutLow` four calls later: the AI's Scout has turned on
the spot and faces South again; it has been asked six times for a move on
(3,0). -/
def exampleScoutStuck : Game × RobotAI :=
  (runMatch exampleScoutLow
    [MatchEvent.aiTurn [0], MatchEvent.aiTurn [0], MatchEvent.aiTurn [0], MatchEvent.aiTurn [0]]).getD (Game.blank 4, RobotAI.new)

/-- The match on `exampleScoutMatch` after which the AI's Scout, at full
health with one move left, stands on (3,2) facing South and the player's Scout
on (2,3), at Manhattan distance 2. -/
def exampleScoutNear : Game × RobotAI :=
  (runMatch (exampleScoutMatch, RobotAI.new)
    [MatchEvent.command Command.MoveForward, MatchEvent.command Command.MoveForward,
     MatchEvent.command Command.Attack, MatchEvent.aiTurn [0], MatchEvent.aiTurn [0],
     MatchEvent.aiTurn [0]]).getD (Game.blank 4, RobotAI.new)

/-- The number of clockwise quarter turns (0 to 3) that lead from facing `c` to
facing `t`, counted on the cycle North, East, South, West of the specification
(`quarterRight`). -/
def clockwiseQuarterTurns (c t : Direction) : Nat :=
  if t = c then 0
  else if t = quarterRight c then 1
  else if t = quarterRight (quarterRight c) then 2
  else 3

/-- The robot after it carried out the command `getTurnCommand(facing, target)`
through `Robot::turnRight` / `Robot::turnLeft`. -/
def Robot.turnToward (r : Robot) (target : Direction) : Robot :=
  match getTurnCommand r.direction target with
  | Command.TurnRight => r.turnRight
  | Command.TurnLeft => r.turnLeft
  | _ => r

/-- Every robot of the game has a number of moves left between 0 and its
`maxMovesPerTurn`. -/
def MovesSound (g : Game) : Prop :=
  ∀ id : RobotId, 0 ≤ (g.robot id).movesLeft ∧
    (g.robot id).movesLeft ≤ (g.robot id).maxMovesPerTurn

/-- The command `c` of a strategy is not a MoveForward that the engine would
reject: if it is MoveForward, the cell ahead of robot `ai` passes
`Game::isValidMove`. -/
def forwardIsValid (g : Game) (ai : RobotId) (c : Option Command) : Prop :=
  c = some Command.MoveForward → isValidMove g (cellAhead (g.robot ai)) = true

/-- The match on `exampleHard` (Scout against Scout, Hard difficulty) after
which the AI's Scout, at 46 health, stands on (3,3) holding the Bomb it fetched
from (3,1), with the player's Scout, at 70 health, on (2,3); it is the AI's
turn. -/
def exampleHardAiShot : Game × RobotAI :=
  (runMatch (exampleHard, RobotAI.new)
    [MatchEvent.command Command.MoveForward, MatchEvent.command Command.MoveForward,
     MatchEvent.command Command.Attack, MatchEvent.aiTurn [0], MatchEvent.aiTurn [0],
     MatchEvent.aiTurn [0], MatchEvent.aiTurn [0], MatchEvent.command Command.Attack,
     MatchEvent.command Command.Attack, MatchEvent.command Command.Attack,
     MatchEvent.aiTurn [0]]).getD (Game.blank 4, RobotAI.new)

/-- The two-player game of `exampleBombShot` after the Scout stepped to (3,3),
at the bottom edge facing South, and the Tank on (2,3) fired its power-up and a
normal attack at it: the Scout holds the Bomb at 25 health. -/
def exampleBombEdge : Game :=
  runCommands exampleBombShot [Command.MoveForward, Command.Attack, Command.Attack]

/-- The Scout of `exampleBombEdge` walked back to (3,2) and faces West, towards
the wall at (2,2). -/
def exampleBombWall : Game :=
  runCommands exampleBombEdge
    [Command.TurnLeft, Command.TurnLeft, Command.MoveForward, Command.TurnLeft]

/-- The Scout of `exampleBombEdge` turned West, towards the Tank on (2,3). -/
def exampleBombFacing : Game :=
  runCommands exampleBombEdge [Command.TurnRight]

/-- Cells `p` and `q` are orthogonally adjacent. -/
def orthAdjacent (p q : QPoint) : Prop :=
  (q.x = p.x ∧ (q.y = p.y + 1 ∨ q.y = p.y - 1)) ∨ (q.y = p.y ∧ (q.x = p.x + 1 ∨ q.x = p.x - 1))

/-- Cell `p` is a cell of the grid that holds no wall. -/
def openCell (g : Game) (p : QPoint) : Prop :=
  isValidPosition g p = true ∧ g.arena p.y p.x ≠ CellType.Wall

/-- A path of orthogonally adjacent non-Wall cells of the grid leads from `p`
to `q`. -/
inductive PathBetween (g : Game) (p : QPoint) : QPoint → Prop where
  | start : openCell g p → PathBetween g p p
  | step (q r : QPoint) : PathBetween g p q → orthAdjacent q r → openCell g r →
      PathBetween g p r

/-- Draws for the constructor on the 12 x 12 grid of the application
(`GRID_SIZE`). -/
def exampleGridDraws : List Nat :=
  [5, 2, 6, 10, 0, 1, 8, 1, 5, 9, 0, 8, 3, 0, 1, 6, 6, 1, 3, 1, 8, 6, 0, 9, 1, 3, 10, 10, 9,
   0, 9, 9, 6, 0, 3, 0, 8, 2, 4, 6, 2, 8, 1, 9, 4, 8, 10, 2, 1, 9, 9, 10, 3, 5, 1, 8, 11, 1,
   9, 0, 9, 3, 7, 10, 8, 6, 5, 7, 9, 7, 5, 4, 3, 2, 11, 3, 1, 9, 4, 8, 7, 5, 11, 7, 4, 9, 1,
   1, 8, 6, 2, 5, 2, 7]

/-- The state the constructor leaves on a 12 x 12 grid with `exampleGridDraws`. -/
def exampleGridStart : Game :=
  (Game.new 12 exampleGridDraws).getD (Game.blank 12)

/-- Draws for `initializeArena` with the Maze template on the 12 x 12 grid. -/
def exampleGridMazeDraws : List Nat :=
  [9, 10, 7, 4, 11, 6, 10, 5, 0, 7, 5, 2, 9, 1, 7, 0, 3, 4, 2, 11, 3, 6, 6, 7, 1, 2, 7, 6, 8,
   4, 2, 6, 8, 4, 11, 6, 5, 10, 6, 3, 2, 1, 2, 2, 3, 10, 3, 0, 7, 9, 2, 4, 4, 0, 2, 6, 8, 5,
   9, 9, 5, 2, 11, 8, 9, 10, 10, 11, 0, 7, 10, 8, 6, 6, 6, 6, 1, 7, 10, 6, 0, 3, 1, 3, 7, 2]

/-- A single-player game on the Maze template of the 12 x 12 grid, Scout
against Tank at Medium difficulty, drawn from `exampleGridMazeDraws`. -/
def exampleGridMaze : Game :=
  (initializeArena exampleGridStart RobotType.Scout RobotType.Tank GameDifficulty.Medium
    MapType.Maze exampleGridMazeDraws).getD (Game.blank 12)

/-- Cell `p` is a cell of the grid at most `radius` columns and at most
`radius` rows away from `pos`: the window the nearest-pickup searches scan. -/
def inSearchWindow (g : Game) (pos : QPoint) (radius : Int) (p : QPoint) : Prop :=
  isValidPosition g p = true ∧ |p.x - pos.x| ≤ radius ∧ |p.y - pos.y| ≤ radius

/-- Cell `p` holds one of the three power-ups. -/
def holdsPowerUp (g : Game) (p : QPoint) : Prop :=
  g.arena p.y p.x = CellType.LaserPowerUp ∨ g.arena p.y p.x = CellType.MissilePowerUp ∨
    g.arena p.y p.x = CellType.BombPowerUp

/-- What a nearest-pickup search over the window answers, for the cells
matching `M`: `(-1,-1)` exactly when no cell of the window matches, and
otherwise a matching cell of the window whose Manhattan distance from `pos`
is the smallest among the matching cells of the window. -/
def nearestInWindow (g : Game) (pos : QPoint) (radius : Int) (M : QPoint → Prop)
    (res : QPoint) : Prop :=
  (res = ⟨-1, -1⟩ ↔ ¬ ∃ p, inSearchWindow g pos radius p ∧ M p) ∧
  (res ≠ ⟨-1, -1⟩ →
    inSearchWindow g pos radius res ∧ M res ∧
    manhattanDistance pos res ≤ 2 * radius ∧
    ∀ p, inSearchWindow g pos radius p → M p →
      manhattanDistance pos res ≤ manhattanDistance pos p)

/-- The invariant of the nearest-pickup loops over the set `S` of cells
visited so far. -/
def scanInv (M : QPoint → Prop) (pos : QPoint) (S : QPoint → Prop) (acc : QPoint × Int) :
    Prop :=
  (acc = (⟨-1, -1⟩, 999999) ∧ ∀ p, S p → ¬ M p) ∨
  (S acc.1 ∧ M acc.1 ∧ acc.2 = manhattanDistance pos acc.1 ∧
    ∀ p, S p → M p → acc.2 ≤ manhattanDistance pos p)

/-- A single-player game at Medium difficulty on a 4 x 4 grid, the player's Tank
against the AI's Scout (Random template, `exampleDraws`): one wall, at (1,1). -/
def exampleTankVsScout : Game :=
  (initializeArena exampleStart RobotType.Tank RobotType.Scout GameDifficulty.Medium
    MapType.Random exampleDraws).getD (Game.blank 4)

/-- The match on `exampleTankVsScout` after which the AI's Scout stands on (1,2)
facing North, towards the wall at (1,1), with two moves left, and the player's
Tank, at 15 health, stands on (2,1), at Manhattan distance 2; it is the AI's
turn. -/
def exampleScoutBlocked : Game × RobotAI :=
  (runMatch (exampleTankVsScout, RobotAI.new)
    [MatchEvent.command Command.Attack, MatchEvent.command Command.Attack, MatchEvent.aiTurn [0],
     MatchEvent.aiTurn [0], MatchEvent.aiTurn [0], MatchEvent.aiTurn [0], MatchEvent.aiTurn [0],
     MatchEvent.aiTurn [0], MatchEvent.command Command.MoveForward,
     MatchEvent.command Command.MoveForward, MatchEvent.aiTurn [0], MatchEvent.aiTurn [0],
     MatchEvent.aiTurn [0], MatchEvent.aiTurn [0], MatchEvent.aiTurn [0], MatchEvent.aiTurn [0],
     MatchEvent.aiTurn [0], MatchEvent.command Command.TurnLeft,
     MatchEvent.command Command.MoveForward, MatchEvent.command Command.MoveForward,
     MatchEvent.aiTurn [0], MatchEvent.aiTurn [0], MatchEvent.aiTurn [0], MatchEvent.aiTurn [0],
     MatchEvent.aiTurn [0], MatchEvent.aiTurn [0], MatchEvent.aiTurn [0],
     MatchEvent.command Command.Attack, MatchEvent.command Command.Attack, MatchEvent.aiTurn [0],
     MatchEvent.aiTurn [0], MatchEvent.aiTurn [0], MatchEvent.aiTurn [0], MatchEvent.aiTurn [0],
     MatchEvent.aiTurn [0], MatchEvent.aiTurn [0], MatchEvent.command Command.Attack,
     MatchEvent.command Command.Attack, MatchEvent.aiTurn [0], MatchEvent.aiTurn [0],
     MatchEvent.aiTurn [0], MatchEvent.aiTurn [0], MatchEvent.aiTurn [0], MatchEvent.aiTurn [0],
     MatchEvent.aiTurn [0], MatchEvent.command Command.Attack, MatchEvent.command Command.Attack,
     MatchEvent.aiTurn [0], MatchEvent.aiTurn [0], MatchEvent.aiTurn [0], MatchEvent.aiTurn [0],
     MatchEvent.aiTurn [0], MatchEvent.aiTurn [0], MatchEvent.aiTurn [0],
     MatchEvent.command Command.MoveForward, MatchEvent.command Command.TurnRight,
     MatchEvent.command Command.MoveForward, MatchEvent.aiTurn [0], MatchEvent.aiTurn [0],
     MatchEvent.aiTurn [0], MatchEvent.aiTurn [0], MatchEvent.aiTurn [0], MatchEvent.aiTurn [0],
     MatchEvent.aiTurn [0], MatchEvent.command Command.TurnRight,
     MatchEvent.command Command.MoveForward, MatchEvent.command Command.MoveForward,
     MatchEvent.aiTurn [0], MatchEvent.aiTurn [0], MatchEvent.aiTurn [0], MatchEvent.aiTurn [0],
     MatchEvent.aiTurn [0], MatchEvent.aiTurn [0], MatchEvent.command Command.MoveForward,
     MatchEvent.command Command.TurnRight, MatchEvent.command Command.MoveForward,
     MatchEvent.aiTurn [0], MatchEvent.aiTurn [0], MatchEvent.aiTurn [0], MatchEvent.aiTurn [0],
     MatchEvent.aiTurn [0], MatchEvent.aiTurn [0], MatchEvent.aiTurn [0], MatchEvent.aiTurn [0],
     MatchEvent.command Command.TurnRight, MatchEvent.command Command.MoveForward,
     MatchEvent.command Command.MoveForward, MatchEvent.aiTurn [0], MatchEvent.aiTurn [0],
     MatchEvent.aiTurn [0]]).getD (Game.blank 4, RobotAI.new)

/-- The situation in which `ScoutAI::vsTank` steps towards a Tank it can kill
with one attack: the opponent is at Manhattan distance 2, its health is at most
the Scout's attack damage, and the Scout faces `getDirectionTowards(dx, dy)`. -/
def ScoutAI.killApproach (g : Game) (ai tank : RobotId) : Prop :=
  |(g.robot tank).position.x - (g.robot ai).position.x| +
    |(g.robot tank).position.y - (g.robot ai).position.y| = 2 ∧
  (g.robot tank).health ≤ (g.robot ai).attackDamage ∧
  (g.robot ai).direction =
    getDirectionTowards ((g.robot tank).position.x - (g.robot ai).position.x)
      ((g.robot tank).position.y - (g.robot ai).position.y)

/-- The match on `exampleScoutVsTank` after the player's three steps and the
first call of the AI, a right turn: the Tank stands on (3,0) facing South, it is
still the AI's turn. -/
def exampleTankAdvance : Game × RobotAI :=
  (runMatch (exampleScoutVsTank, RobotAI.new)
    [MatchEvent.command Command.MoveForward, MatchEvent.command Command.MoveForward,
     MatchEvent.command Command.MoveForward, MatchEvent.aiTurn [0]]).getD
    (Game.blank 4, RobotAI.new)

/-! # Lemmas and theorems -/

/-! ## Frame lemmas: operations that only deal damage -/

theorem DamageOnly.dmgRefl (g : Game) : DamageOnly g g := by
  constructor <;> simp

theorem DamageOnly.dmgTrans {g g1 g2 : Game} (h1 : DamageOnly g g1) (h2 : DamageOnly g1 g2) :
    DamageOnly g g2 := by
  constructor
  · rw [h2.state, h1.state]
  · rw [h2.gridSize, h1.gridSize]
  · rw [h2.multiplayerMode, h1.multiplayerMode]
  · rw [h2.difficulty, h1.difficulty]
  · rw [h2.mapType, h1.mapType]
  · rw [h2.aiHealthModifier, h1.aiHealthModifier]
  · rw [h2.aiDamageModifier, h1.aiDamageModifier]
  · rw [h2.aiRandomMoveChance, h1.aiRandomMoveChance]
  · have a := h2.player; have b := h1.player
    rw [a, b]; rfl
  · have a := h2.player2; have b := h1.player2
    rw [a, b]; rfl
  · have a := h2.ai; have b := h1.ai
    rw [a, b]; rfl
  · intro y x
    rcases h2.arena y x with h | ⟨hw, he⟩
    · rw [h]; exact h1.arena y x
    · rcases h1.arena y x with h | ⟨hw1, he1⟩
      · right; exact ⟨by rw [← h]; exact hw, he⟩
      · rw [he1] at hw; cases hw

theorem isValidPosition_iff (g : Game) (p : QPoint) :
    isValidPosition g p = true ↔ 0 ≤ p.x ∧ p.x < g.gridSize ∧ 0 ≤ p.y ∧ p.y < g.gridSize := by
  simp [isValidPosition, and_assoc]

theorem isValidPosition_congr {g g1 : Game} (h : g1.gridSize = g.gridSize) (p : QPoint) :
    isValidPosition g1 p = isValidPosition g p := by
  simp [isValidPosition, h]

theorem attackWall_damageOnly (g : Game) (p : QPoint) (d : Int) :
    DamageOnly g (attackWall g p d).1 := by
  unfold attackWall
  dsimp only
  split_ifs with h1 h2
  · exact DamageOnly.dmgRefl g
  · have hw : g.arena p.y p.x = CellType.Wall := by
      simp at h1; exact h1.2
    refine ⟨rfl, rfl, rfl, rfl, rfl, rfl, rfl, rfl, rfl, rfl, rfl, ?_⟩
    intro y x
    by_cases hyx : y = p.y ∧ x = p.x
    · obtain ⟨rfl, rfl⟩ := hyx
      right; simp [hw]
    · left; simp [hyx]
  · exact ⟨rfl, rfl, rfl, rfl, rfl, rfl, rfl, rfl, rfl, rfl, rfl, fun _ _ => Or.inl rfl⟩

theorem powerUpDamageAt_damageOnly (g : Game) (p : QPoint) (d : Int) :
    DamageOnly g (powerUpDamageAt g p d) := by
  unfold powerUpDamageAt
  dsimp only
  split_ifs <;> first
    | exact attackWall_damageOnly g p d
    | exact ⟨rfl, rfl, rfl, rfl, rfl, rfl, rfl, rfl, rfl, rfl, rfl, fun _ _ => Or.inl rfl⟩

theorem laserLoop_damageOnly (dir : Direction) (n : Nat) :
    ∀ (g : Game) (cur : QPoint), DamageOnly g (laserLoop dir n g cur) := by
  induction n with
  | zero => intro g cur; exact DamageOnly.dmgRefl g
  | succ n ih =>
    intro g cur
    unfold laserLoop
    dsimp only
    split_ifs
    · exact DamageOnly.dmgRefl g
    · exact (powerUpDamageAt_damageOnly g _ 15).dmgTrans (ih _ _)

theorem missileLoop_damageOnly (dir : Direction) (n : Nat) :
    ∀ (g : Game) (cur : QPoint), DamageOnly g (missileLoop dir n g cur) := by
  induction n with
  | zero => intro g cur; exact DamageOnly.dmgRefl g
  | succ n ih =>
    intro g cur
    unfold missileLoop
    dsimp only
    split_ifs <;> first
      | exact DamageOnly.dmgRefl g
      | exact attackWall_damageOnly g _ 20
      | exact ih _ _
      | exact ⟨rfl, rfl, rfl, rfl, rfl, rfl, rfl, rfl, rfl, rfl, rfl, fun _ _ => Or.inl rfl⟩

theorem bombBlast_damageOnly (g : Game) (hitPos : QPoint) :
    DamageOnly g (bombBlast g hitPos) := by
  have step : ∀ (g2 : Game) (p : QPoint), DamageOnly g2
      (if !isValidPosition g2 p then g2 else powerUpDamageAt g2 p 30) := by
    intro g2 p
    split_ifs
    · exact DamageOnly.dmgRefl g2
    · exact powerUpDamageAt_damageOnly g2 p 30
  unfold bombBlast
  simp only [List.foldl]
  repeat first
    | exact DamageOnly.dmgRefl g
    | refine DamageOnly.dmgTrans ?_ (step _ _)

theorem attack_damageOnly (g : Game) (a t : RobotId) : DamageOnly g (attack g a t).1 := by
  unfold attack
  dsimp only
  split_ifs <;> first
    | exact DamageOnly.dmgRefl g
    | (cases t <;>
        exact ⟨rfl, rfl, rfl, rfl, rfl, rfl, rfl, rfl, rfl, rfl, rfl, fun _ _ => Or.inl rfl⟩)

theorem normalAttack_damageOnly (g : Game) (a t : RobotId) :
    DamageOnly g (normalAttack g a t) := by
  unfold normalAttack
  dsimp only
  split_ifs <;> first
    | exact attackWall_damageOnly g _ _
    | exact attack_damageOnly g a t
    | exact DamageOnly.dmgRefl g

/-! ## Initialisation lemmas -/

theorem ArenaOnly.arenaRefl (g : Game) : ArenaOnly g g :=
  ⟨rfl, rfl, rfl, rfl, rfl, rfl, rfl, rfl, rfl, rfl, rfl⟩

theorem ArenaOnly.arenaTrans {g g1 g2 : Game} (h1 : ArenaOnly g g1) (h2 : ArenaOnly g1 g2) :
    ArenaOnly g g2 :=
  ⟨h2.playerRobot.trans h1.playerRobot, h2.player2Robot.trans h1.player2Robot,
    h2.aiRobot.trans h1.aiRobot, h2.state.trans h1.state, h2.gridSize.trans h1.gridSize,
    h2.multiplayerMode.trans h1.multiplayerMode, h2.difficulty.trans h1.difficulty,
    h2.mapType.trans h1.mapType, h2.aiHealthModifier.trans h1.aiHealthModifier,
    h2.aiDamageModifier.trans h1.aiDamageModifier,
    h2.aiRandomMoveChance.trans h1.aiRandomMoveChance⟩

theorem placeWall_arenaOnly (g : Game) (p : QPoint) : ArenaOnly g (placeWall g p) :=
  ⟨rfl, rfl, rfl, rfl, rfl, rfl, rfl, rfl, rfl, rfl, rfl⟩

theorem setCell_arenaOnly (g : Game) (p : QPoint) (c : CellType) : ArenaOnly g (g.setCell p c) :=
  ⟨rfl, rfl, rfl, rfl, rfl, rfl, rfl, rfl, rfl, rfl, rfl⟩

theorem generateObstaclesLoop_arenaOnly (n : Nat) :
    ∀ (g : Game) (rng : List Nat) (g1 : Game) (rng1 : List Nat),
      generateObstaclesLoop n g rng = some (g1, rng1) → ArenaOnly g g1 := by
  induction n with
  | zero =>
    intro g rng g1 rng1 h
    simp only [generateObstaclesLoop, Option.some.injEq, Prod.mk.injEq] at h
    rw [← h.1]; exact ArenaOnly.arenaRefl g
  | succ n ih =>
    intro g rng g1 rng1 h
    match rng, h with
    | rx :: ry :: rest, h =>
      simp only [generateObstaclesLoop] at h
      refine ArenaOnly.arenaTrans ?_ (ih _ _ _ _ h)
      split_ifs
      · exact placeWall_arenaOnly g _
      · exact ArenaOnly.arenaRefl g
    | [], h => simp [generateObstaclesLoop] at h
    | [_], h => simp [generateObstaclesLoop] at h

theorem generateOpenMapLoop_arenaOnly (cx cy r : Int) (n : Nat) :
    ∀ (g : Game) (rng : List Nat) (g1 : Game) (rng1 : List Nat),
      generateOpenMapLoop cx cy r n g rng = some (g1, rng1) → ArenaOnly g g1 := by
  induction n with
  | zero =>
    intro g rng g1 rng1 h
    simp only [generateOpenMapLoop, Option.some.injEq, Prod.mk.injEq] at h
    rw [← h.1]; exact ArenaOnly.arenaRefl g
  | succ n ih =>
    intro g rng g1 rng1 h
    match rng, h with
    | rx :: ry :: rest, h =>
      simp only [generateOpenMapLoop] at h
      refine ArenaOnly.arenaTrans ?_ (ih _ _ _ _ h)
      split_ifs
      · exact placeWall_arenaOnly g _
      · exact ArenaOnly.arenaRefl g
    | [], h => simp [generateOpenMapLoop] at h
    | [_], h => simp [generateOpenMapLoop] at h

theorem mazeExtraWallsLoop_arenaOnly (n : Nat) :
    ∀ (g : Game) (rng : List Nat) (g1 : Game) (rng1 : List Nat),
      mazeExtraWallsLoop n g rng = some (g1, rng1) → ArenaOnly g g1 := by
  induction n with
  | zero =>
    intro g rng g1 rng1 h
    simp only [mazeExtraWallsLoop, Option.some.injEq, Prod.mk.injEq] at h
    rw [← h.1]; exact ArenaOnly.arenaRefl g
  | succ n ih =>
    intro g rng g1 rng1 h
    match rng, h with
    | rx :: ry :: rest, h =>
      simp only [mazeExtraWallsLoop] at h
      split_ifs at h
      · exact ih _ _ _ _ h
      · exact (placeWall_arenaOnly g _).arenaTrans (ih _ _ _ _ h)
      · exact ih _ _ _ _ h
    | [], h => simp [mazeExtraWallsLoop] at h
    | [_], h => simp [mazeExtraWallsLoop] at h

theorem mazeZigzagLoop_arenaOnly (n : Nat) :
    ∀ (i : Int) (g : Game), ArenaOnly g (mazeZigzagLoop n i g) := by
  induction n with
  | zero => intro i g; exact ArenaOnly.arenaRefl g
  | succ n ih =>
    intro i g
    simp only [mazeZigzagLoop]
    refine ArenaOnly.arenaTrans ?_ (ih _ _)
    split_ifs <;> exact ⟨rfl, rfl, rfl, rfl, rfl, rfl, rfl, rfl, rfl, rfl, rfl⟩

theorem generateFortressMap_arenaOnly (g : Game) : ArenaOnly g (generateFortressMap g) := by
  have h0 : ArenaOnly g (fortressWalls g) := by
    unfold fortressWalls
    exact ⟨rfl, rfl, rfl, rfl, rfl, rfl, rfl, rfl, rfl, rfl, rfl⟩
  unfold generateFortressMap
  exact (((h0.arenaTrans (setCell_arenaOnly _ _ _)).arenaTrans
    (setCell_arenaOnly _ _ _)).arenaTrans (setCell_arenaOnly _ _ _)).arenaTrans
    (setCell_arenaOnly _ _ _)

theorem generateMap_arenaOnly (g : Game) (rng : List Nat) (g1 : Game) (rng1 : List Nat)
    (h : generateMap g rng = some (g1, rng1)) : ArenaOnly g g1 := by
  unfold generateMap at h
  split at h
  · exact generateObstaclesLoop_arenaOnly _ _ _ _ _ h
  · exact generateOpenMapLoop_arenaOnly _ _ _ _ _ _ _ _ h
  · unfold generateMazeMap at h
    split at h
    · cases h
    · rename_i g2 rng2 heq
      simp only [Option.some.injEq, Prod.mk.injEq] at h
      rw [← h.1]
      exact ((ArenaOnly.mk rfl rfl rfl rfl rfl rfl rfl rfl rfl rfl rfl : ArenaOnly g
        (mazePattern g)).arenaTrans (mazeExtraWallsLoop_arenaOnly _ _ _ _ _ heq)).arenaTrans
        (mazeZigzagLoop_arenaOnly _ _ _)
  · simp only [Option.some.injEq, Prod.mk.injEq] at h
    rw [← h.1]
    exact generateFortressMap_arenaOnly g

theorem PickupsOnly.pickRefl (g : Game) : PickupsOnly g g :=
  ⟨ArenaOnly.arenaRefl g, rfl, fun _ _ => Or.inl rfl⟩

theorem PickupsOnly.pickTrans {g g1 g2 : Game} (h1 : PickupsOnly g g1) (h2 : PickupsOnly g1 g2) :
    PickupsOnly g g2 := by
  refine ⟨h1.frame.arenaTrans h2.frame, h2.wallHealth.trans h1.wallHealth, ?_⟩
  intro y x
  rcases h2.arena y x with h | ⟨he, hn⟩
  · rw [h]; exact h1.arena y x
  · rcases h1.arena y x with h | ⟨he1, hn1⟩
    · right; exact ⟨by rw [← h]; exact he, hn⟩
    · right; exact ⟨he1, hn⟩

theorem setCell_pickupsOnly (g : Game) (p : QPoint) (c : CellType)
    (hfree : isFreeForPickup g p = true) (hc : c ≠ CellType.Wall) :
    PickupsOnly g (g.setCell p c) := by
  refine ⟨setCell_arenaOnly g p c, rfl, ?_⟩
  intro y x
  by_cases hyx : y = p.y ∧ x = p.x
  · obtain ⟨rfl, rfl⟩ := hyx
    right
    simp only [isFreeForPickup, Bool.and_eq_true, decide_eq_true_eq] at hfree
    exact ⟨hfree.1.1, by simpa using hc⟩
  · left; simp [hyx]

theorem placeHealthPickupsLoop_pickupsOnly (count : Nat) :
    ∀ (rng : List Nat) (g : Game) (placed : Nat) (g1 : Game) (rng1 : List Nat),
      placeHealthPickupsLoop count rng g placed = some (g1, rng1) → PickupsOnly g g1 := by
  intro rng g placed
  induction rng, g, placed using placeHealthPickupsLoop.induct count with
  | case1 rx ry rng g placed hlt pos hfree ih =>
    intro g1 rng1 h
    simp only [placeHealthPickupsLoop, hlt, if_true] at h
    rw [if_pos hfree] at h
    exact (setCell_pickupsOnly g pos _ hfree (by decide)).pickTrans (ih _ _ h)
  | case2 rx ry rng g placed hlt pos hfree ih =>
    intro g1 rng1 h
    simp only [placeHealthPickupsLoop, hlt, if_true] at h
    rw [if_neg hfree] at h
    exact ih _ _ h
  | case3 rx ry rng g placed hlt =>
    intro g1 rng1 h
    simp only [placeHealthPickupsLoop, hlt, if_false, Option.some.injEq, Prod.mk.injEq] at h
    rw [← h.1]; exact PickupsOnly.pickRefl g
  | case4 rng g placed hne hlt =>
    intro g1 rng1 h
    match rng, hne, h with
    | [], _, h => simp [placeHealthPickupsLoop, hlt] at h
    | [_], _, h => simp [placeHealthPickupsLoop, hlt] at h
    | rx :: ry :: rest, hne, _ => exact (hne rx ry rest rfl).elim
  | case5 rng g placed hne hlt =>
    intro g1 rng1 h
    match rng, hne, h with
    | [], _, h =>
      simp only [placeHealthPickupsLoop, hlt, if_false, Option.some.injEq, Prod.mk.injEq] at h
      rw [← h.1]; exact PickupsOnly.pickRefl g
    | [_], _, h =>
      simp only [placeHealthPickupsLoop, hlt, if_false, Option.some.injEq, Prod.mk.injEq] at h
      rw [← h.1]; exact PickupsOnly.pickRefl g
    | rx :: ry :: rest, hne, _ => exact (hne rx ry rest rfl).elim

theorem placeSinglePowerUp_pickupsOnly (c : CellType) (hc : c ≠ CellType.Wall) :
    ∀ (rng : List Nat) (g : Game) (g1 : Game) (rng1 : List Nat),
      placeSinglePowerUp c rng g = some (g1, rng1) → PickupsOnly g g1 := by
  intro rng g
  induction rng, g using placeSinglePowerUp.induct c with
  | case1 rx ry rng g pos hfree =>
    intro g1 rng1 h
    simp only [placeSinglePowerUp] at h
    rw [if_pos hfree] at h
    simp only [Option.some.injEq, Prod.mk.injEq] at h
    rw [← h.1]
    exact setCell_pickupsOnly g pos c hfree hc
  | case2 rx ry rng g pos hfree ih =>
    intro g1 rng1 h
    simp only [placeSinglePowerUp] at h
    rw [if_neg hfree] at h
    exact ih _ _ h
  | case3 rng g hne =>
    intro g1 rng1 h
    match rng, hne, h with
    | [], _, h => simp [placeSinglePowerUp] at h
    | [_], _, h => simp [placeSinglePowerUp] at h
    | rx :: ry :: rest, hne, _ => exact (hne rx ry rest rfl).elim

theorem placeSpecialPickups_pickupsOnly (g : Game) (rng : List Nat) (g1 : Game)
    (rng1 : List Nat) (h : placeSpecialPickups g rng = some (g1, rng1)) : PickupsOnly g g1 := by
  unfold placeSpecialPickups at h
  split at h
  · cases h
  · rename_i ga rnga ha
    split at h
    · cases h
    · rename_i gb rngb hb
      exact ((placeSinglePowerUp_pickupsOnly _ (by decide) _ _ _ _ ha).pickTrans
        (placeSinglePowerUp_pickupsOnly _ (by decide) _ _ _ _ hb)).pickTrans
        (placeSinglePowerUp_pickupsOnly _ (by decide) _ _ _ _ h)

theorem Robot.new_wellFormed (t : RobotType) : (Robot.new t).WellFormed := by
  cases t <;> exact ⟨rfl, rfl, rfl, rfl⟩

theorem Robot.new_movesLeft (t : RobotType) : 2 ≤ (Robot.new t).movesLeft := by
  cases t <;> decide

theorem Robot.new_type (t : RobotType) : (Robot.new t).type = t := by
  cases t <;> rfl

theorem PickupsOnly.not_wall {g g1 : Game} (h : PickupsOnly g g1) {y x : Int}
    (hw : g.arena y x ≠ CellType.Wall) : g1.arena y x ≠ CellType.Wall := by
  rcases h.arena y x with h1 | ⟨_, h2⟩
  · rw [h1]; exact hw
  · exact h2

/-- What `initializeArena` leaves behind when it returns. -/
theorem initializeArena_spec (g : Game) (pt aiT : RobotType) (diff : GameDifficulty)
    (map : MapType) (rng : List Nat) (g1 : Game)
    (h : initializeArena g pt aiT diff map rng = some g1) :
    g1.gridSize = g.gridSize ∧ g1.state = GameState.PlayerTurn ∧
    g1.multiplayerMode = false ∧ g1.difficulty = diff ∧ g1.mapType = map ∧
    g1.playerRobot = (Robot.new pt).setPosition ⟨0, g.gridSize - 1⟩ ∧
    g1.aiRobot = ((applyDifficultySettings
      { g with difficulty := diff, aiRobot := Robot.new aiT }).aiRobot).setPosition
        ⟨g.gridSize - 1, 0⟩ ∧
    g1.player2Robot = g.player2Robot ∧
    g1.aiDamageModifier = (applyDifficultySettings
      { g with difficulty := diff, aiRobot := Robot.new aiT }).aiDamageModifier ∧
    g1.aiHealthModifier = (applyDifficultySettings
      { g with difficulty := diff, aiRobot := Robot.new aiT }).aiHealthModifier ∧
    g1.arena (g.gridSize - 1) 0 ≠ CellType.Wall ∧ g1.arena 0 (g.gridSize - 1) ≠ CellType.Wall := by
  unfold initializeArena at h
  dsimp only at h
  split at h
  · cases h
  · rename_i g2 rng2 hmap
    have f2 := generateMap_arenaOnly _ _ _ _ hmap
    split at h
    · cases h
    · rename_i g6 rng3 hhp
      have f6 := placeHealthPickupsLoop_pickupsOnly _ _ _ _ _ _ hhp
      split at h
      · cases h
      · rename_i g7 rng4 hsp
        have f7 := placeSpecialPickups_pickupsOnly _ _ _ _ hsp
        have f := f6.pickTrans f7
        simp only [Option.some.injEq] at h
        subst h
        have hd : g2.difficulty = diff := f2.difficulty
        have hn : g2.gridSize = g.gridSize := f2.gridSize
        refine ⟨?_, rfl, ?_, ?_, ?_, ?_, ?_, ?_, ?_, ?_, ?_, ?_⟩
        · show g7.gridSize = _
          rw [f.frame.gridSize]; cases diff <;> simp [applyDifficultySettings, hd, hn]
        · show g7.multiplayerMode = _
          rw [f.frame.multiplayerMode]
          cases diff <;> simp [applyDifficultySettings, hd, f2.multiplayerMode, clearArena]
        · show g7.difficulty = _
          rw [f.frame.difficulty]
          cases diff <;> simp [applyDifficultySettings, hd]
        · show g7.mapType = _
          rw [f.frame.mapType]
          cases diff <;> simp [applyDifficultySettings, hd, f2.mapType, clearArena]
        · show g7.playerRobot = _
          rw [f.frame.playerRobot]
          cases diff <;> simp [applyDifficultySettings, hd, hn]
        · show g7.aiRobot = _
          rw [f.frame.aiRobot]
          cases diff <;> simp [applyDifficultySettings, hd, hn]
        · show g7.player2Robot = _
          rw [f.frame.player2Robot]
          cases diff <;> simp [applyDifficultySettings, hd, f2.player2Robot, clearArena]
        · show g7.aiDamageModifier = _
          rw [f.frame.aiDamageModifier]
          cases diff <;> simp [applyDifficultySettings, hd]
        · show g7.aiHealthModifier = _
          rw [f.frame.aiHealthModifier]
          cases diff <;> simp [applyDifficultySettings, hd]
        · show g7.arena _ _ ≠ _
          apply f.not_wall
          cases diff <;> simp [applyDifficultySettings, hd, hn]
        · show g7.arena _ _ ≠ _
          apply f.not_wall
          cases diff <;> simp [applyDifficultySettings, hd, hn]

/-- What `initializeMultiplayerArena` leaves behind when it returns. -/
theorem initializeMultiplayerArena_spec (g : Game) (t1 t2 : RobotType)
    (map : MapType) (rng : List Nat) (g1 : Game)
    (h : initializeMultiplayerArena g t1 t2 map rng = some g1) :
    g1.gridSize = g.gridSize ∧ g1.state = GameState.PlayerTurn ∧
    g1.multiplayerMode = true ∧ g1.difficulty = g.difficulty ∧ g1.mapType = map ∧
    g1.playerRobot = (Robot.new t1).setPosition ⟨0, g.gridSize - 1⟩ ∧
    g1.player2Robot = (Robot.new t2).setPosition ⟨g.gridSize - 1, 0⟩ ∧
    g1.aiRobot = g.aiRobot ∧
    g1.aiDamageModifier = g.aiDamageModifier ∧
    g1.aiHealthModifier = g.aiHealthModifier ∧
    g1.arena (g.gridSize - 1) 0 ≠ CellType.Wall ∧ g1.arena 0 (g.gridSize - 1) ≠ CellType.Wall := by
  unfold initializeMultiplayerArena at h
  dsimp only at h
  split at h
  · cases h
  · rename_i g2 rng2 hmap
    have f2 := generateMap_arenaOnly _ _ _ _ hmap
    split at h
    · cases h
    · rename_i g6 rng3 hhp
      have f6 := placeHealthPickupsLoop_pickupsOnly _ _ _ _ _ _ hhp
      split at h
      · cases h
      · rename_i g7 rng4 hsp
        have f7 := placeSpecialPickups_pickupsOnly _ _ _ _ hsp
        have f := f6.pickTrans f7
        simp only [Option.some.injEq] at h
        subst h
        have hn : g2.gridSize = g.gridSize := f2.gridSize
        refine ⟨?_, rfl, ?_, ?_, ?_, ?_, ?_, ?_, ?_, ?_, ?_, ?_⟩
        · show g7.gridSize = _
          rw [f.frame.gridSize]; simp [hn]
        · show g7.multiplayerMode = _
          rw [f.frame.multiplayerMode]; simp [f2.multiplayerMode, clearArena]
        · show g7.difficulty = _
          rw [f.frame.difficulty]; simp [f2.difficulty, clearArena]
        · show g7.mapType = _
          rw [f.frame.mapType]; simp [f2.mapType, clearArena]
        · show g7.playerRobot = _
          rw [f.frame.playerRobot]; simp [hn]
        · show g7.player2Robot = _
          rw [f.frame.player2Robot]; simp [hn]
        · show g7.aiRobot = _
          rw [f.frame.aiRobot]; simp [f2.aiRobot, clearArena]
        · show g7.aiDamageModifier = _
          rw [f.frame.aiDamageModifier]; simp [f2.aiDamageModifier, clearArena]
        · show g7.aiHealthModifier = _
          rw [f.frame.aiHealthModifier]; simp [f2.aiHealthModifier, clearArena]
        · show g7.arena _ _ ≠ _
          apply f.not_wall
          simp [hn]
        · show g7.arena _ _ ≠ _
          apply f.not_wall
          simp [hn]

theorem Robot.wellFormed_setPosition {r : Robot} (h : r.WellFormed) (p : QPoint) :
    (r.setPosition p).WellFormed := h

theorem Robot.wellFormed_setHealth {r : Robot} (h : r.WellFormed) (v : Int) :
    (r.setHealth v).WellFormed := h

theorem applyDifficultySettings_aiRobot (g : Game) :
    (applyDifficultySettings g).aiRobot =
      g.aiRobot.setHealth (applyDifficultySettings g).aiRobot.health := by
  unfold applyDifficultySettings
  cases g.difficulty <;> rfl

theorem initializeArena_inv (g : Game) (pt aiT : RobotType) (diff : GameDifficulty)
    (map : MapType) (rng : List Nat) (g1 : Game) (hsize : 2 ≤ g.gridSize)
    (hwf : g.player2Robot.WellFormed)
    (h : initializeArena g pt aiT diff map rng = some g1) : Inv g1 := by
  obtain ⟨hn, hs, hm, -, -, hp, ha, hp2, -, -, hc1, hc2⟩ :=
    initializeArena_spec g pt aiT diff map rng g1 h
  have hai : g1.aiRobot = ((Robot.new aiT).setHealth
      (applyDifficultySettings { g with difficulty := diff, aiRobot := Robot.new aiT
        }).aiRobot.health).setPosition ⟨g.gridSize - 1, 0⟩ := by
    rw [ha, applyDifficultySettings_aiRobot]; rfl
  refine ⟨⟨by omega, ?_, ?_, ?_, ?_, ?_⟩, ?_, ?_, ?_⟩
  · refine ⟨?_, ?_⟩
    · rw [isValidPosition_iff]; simp [hp, hn]; omega
    · simpa [hp] using hc1
  · refine ⟨?_, ?_⟩
    · rw [isValidPosition_iff]; simp [Game.opponent, hm, hai, hn]; omega
    · simpa [Game.opponent, hm, hai] using hc2
  · rw [hp]; exact Robot.new_wellFormed pt
  · rw [hp2]; exact hwf
  · rw [hai]; exact Robot.new_wellFormed aiT
  · intro _; rw [hp]; exact le_trans (by decide) (Robot.new_movesLeft pt)
  · intro hst; rw [hs] at hst; cases hst
  · intro hst; rw [hs] at hst; cases hst

theorem initializeMultiplayerArena_inv (g : Game) (t1 t2 : RobotType)
    (map : MapType) (rng : List Nat) (g1 : Game) (hsize : 2 ≤ g.gridSize)
    (hwf : g.aiRobot.WellFormed)
    (h : initializeMultiplayerArena g t1 t2 map rng = some g1) : Inv g1 := by
  obtain ⟨hn, hs, hm, -, -, hp, hp2, ha, -, -, hc1, hc2⟩ :=
    initializeMultiplayerArena_spec g t1 t2 map rng g1 h
  refine ⟨⟨by omega, ?_, ?_, ?_, ?_, ?_⟩, ?_, ?_, ?_⟩
  · refine ⟨?_, ?_⟩
    · rw [isValidPosition_iff]; simp [hp, hn]; omega
    · simpa [hp] using hc1
  · refine ⟨?_, ?_⟩
    · rw [isValidPosition_iff]; simp [Game.opponent, hm, hp2, hn]; omega
    · simpa [Game.opponent, hm, hp2] using hc2
  · rw [hp]; exact Robot.new_wellFormed t1
  · rw [hp2]; exact Robot.new_wellFormed t2
  · rw [ha]; exact hwf
  · intro _; rw [hp]; exact le_trans (by decide) (Robot.new_movesLeft t1)
  · intro hst; rw [hs] at hst; cases hst
  · intro hst; rw [hs] at hst; cases hst

/-! ## Preservation of the invariant by the commands -/

theorem DamageOnly.robot {g g1 : Game} (h : DamageOnly g g1) (id : RobotId) :
    g1.robot id = (g.robot id).setHealth (g1.robot id).health := by
  cases id
  · exact h.player
  · exact h.player2
  · exact h.ai

theorem DamageOnly.wall {g g1 : Game} (h : DamageOnly g g1) {y x : Int}
    (hw : g1.arena y x = CellType.Wall) : g.arena y x = CellType.Wall := by
  rcases h.arena y x with h1 | ⟨h2, h3⟩
  · rw [← h1]; exact hw
  · exact h2

theorem Game.opponent_congr {g g1 : Game} (hm : g1.multiplayerMode = g.multiplayerMode) :
    g1.opponent = g.opponent := by
  simp [Game.opponent, hm]

/-- Transfer of `Grounded` to a state with the same grid side and mode, the
same robot positions and fixed stats, and no new wall. -/
theorem Grounded.transfer {g g1 : Game} (hg : Grounded g) (hn : g1.gridSize = g.gridSize)
    (hm : g1.multiplayerMode = g.multiplayerMode)
    (hpos : ∀ id, (g1.robot id).position = (g.robot id).position)
    (hwall : ∀ y x, g1.arena y x = CellType.Wall → g.arena y x = CellType.Wall)
    (hwf : ∀ id, (g.robot id).WellFormed → (g1.robot id).WellFormed) : Grounded g1 := by
  have floor : ∀ id, standsOnFloor g id → standsOnFloor g1 id := by
    intro id h
    refine ⟨?_, ?_⟩
    · rw [isValidPosition_congr hn, hpos]; exact h.1
    · rw [hpos]; exact fun hw => h.2 (hwall _ _ hw)
  refine ⟨by rw [hn]; exact hg.size, floor _ hg.playerPos, ?_, hwf RobotId.player hg.wfPlayer,
    hwf RobotId.player2 hg.wfPlayer2, hwf RobotId.ai hg.wfAi⟩
  rw [Game.opponent_congr hm]; exact floor _ hg.opponentPos

theorem DamageOnly.groundedAfter {g g1 : Game} (h : DamageOnly g g1) (hg : Grounded g) :
    Grounded g1 := by
  refine hg.transfer h.gridSize h.multiplayerMode ?_ (fun _ _ hw => h.wall hw) ?_
  · intro id; rw [h.robot id]; rfl
  · intro id hw; rw [h.robot id]; exact hw

theorem Robot.useMove_eq (r : Robot) :
    r.useMove = { r with movesLeft := r.useMove.movesLeft } := by
  unfold Robot.useMove; split_ifs <;> rfl

theorem Robot.turnLeft_eq (r : Robot) :
    r.turnLeft = { r with direction := r.turnLeft.direction } := by
  unfold Robot.turnLeft; cases r.direction <;> rfl

theorem Robot.turnRight_eq (r : Robot) :
    r.turnRight = { r with direction := r.turnRight.direction } := by
  unfold Robot.turnRight; cases r.direction <;> rfl

/-- Transfer of `Grounded` when one robot changed only its facing, moves-left,
health or power-up. -/
theorem Grounded.setRobot {g : Game} (hg : Grounded g) (id : RobotId) (r : Robot)
    (hpos : r.position = (g.robot id).position) (hwf : r.WellFormed) :
    Grounded (g.setRobot id r) := by
  refine hg.transfer ?_ ?_ ?_ ?_ ?_
  · cases id <;> rfl
  · cases id <;> rfl
  · intro id1; cases id <;> cases id1 <;> first | rfl | exact hpos
  · intro y x hw; cases id <;> exact hw
  · intro id1 h1; cases id <;> cases id1 <;> first | exact h1 | exact hwf

theorem Grounded.wf {g : Game} (hg : Grounded g) (id : RobotId) : (g.robot id).WellFormed := by
  cases id
  · exact hg.wfPlayer
  · exact hg.wfPlayer2
  · exact hg.wfAi

theorem Robot.WellFormed.maxMoves {r : Robot} (h : r.WellFormed) : 2 ≤ r.maxMovesPerTurn := by
  rw [h.2.2.2]; cases r.type <;> decide

theorem switchTurn_grounded {g : Game} (hg : Grounded g) : Grounded (switchTurn g) := by
  unfold switchTurn
  split_ifs
  · exact hg.transfer rfl rfl (fun id => by cases id <;> rfl) (fun _ _ h => h)
      (fun id h => by cases id <;> exact h)
  · exact hg.transfer rfl rfl (fun id => by cases id <;> rfl) (fun _ _ h => h)
      (fun id h => by cases id <;> exact h)
  · exact hg.transfer rfl rfl (fun id => by cases id <;> rfl) (fun _ _ h => h)
      (fun id h => by cases id <;> exact h)
  · exact hg.transfer rfl rfl (fun id => by cases id <;> rfl) (fun _ _ h => h)
      (fun id h => by cases id <;> exact h)

theorem checkGameOver_eq (g : Game) :
    checkGameOver g = g ∨ checkGameOver g = { g with state := GameState.GameOver } := by
  unfold checkGameOver
  split_ifs <;> simp

theorem checkGameOver_grounded {g : Game} (hg : Grounded g) : Grounded (checkGameOver g) := by
  rcases checkGameOver_eq g with h | h <;> rw [h]
  · exact hg
  · exact hg.transfer rfl rfl (fun id => by cases id <;> rfl) (fun _ _ h => h)
      (fun id h => by cases id <;> exact h)

/-- The tail of a command re-establishes the invariant. -/
theorem finishCommand_inv {g : Game} (active : RobotId) (hg : Grounded g)
    (hturn : (g.state = GameState.PlayerTurn ∧ active = RobotId.player) ∨
      (g.state = GameState.Player2Turn ∧ active = RobotId.player2 ∧ g.multiplayerMode = true) ∨
      (g.state = GameState.AiTurn ∧ active = RobotId.ai ∧ g.multiplayerMode = false)) :
    Inv (finishCommand g active) := by
  unfold finishCommand
  dsimp only
  split_ifs with hmoves hover
  · -- switch turn
    have hg1 := checkGameOver_grounded hg
    have hst : (checkGameOver g) = g := by
      rcases checkGameOver_eq g with h | h
      · exact h
      · rw [h] at hover; exact (hover rfl).elim
    rw [hst] at hg1 ⊢
    refine ⟨switchTurn_grounded hg, ?_, ?_, ?_⟩
    · unfold switchTurn
      have := hg.wfPlayer.maxMoves
      split_ifs <;> simp <;> omega
    · unfold switchTurn
      have := hg.wfPlayer2.maxMoves
      split_ifs with hm <;> simp [hm] <;> omega
    · unfold switchTurn
      have := hg.wfAi.maxMoves
      split_ifs with hm <;> simp [hm] <;> omega
  · -- game over
    simp only [ne_eq, not_not] at hover
    refine ⟨checkGameOver_grounded hg, ?_, ?_, ?_⟩ <;> intro h <;> rw [hover] at h <;> cases h
  · refine ⟨hg, ?_, ?_, ?_⟩
    · intro hs
      rcases hturn with ⟨_, rfl⟩ | ⟨h2, _⟩ | ⟨h2, _⟩
      · simp at hmoves; omega
      · rw [hs] at h2; cases h2
      · rw [hs] at h2; cases h2
    · intro hs
      rcases hturn with ⟨h2, _⟩ | ⟨_, rfl, hm⟩ | ⟨h2, _⟩
      · rw [hs] at h2; cases h2
      · simp at hmoves; exact ⟨hm, by omega⟩
      · rw [hs] at h2; cases h2
    · intro hs
      rcases hturn with ⟨h2, _⟩ | ⟨h2, _⟩ | ⟨_, rfl, hm⟩
      · rw [hs] at h2; cases h2
      · rw [hs] at h2; cases h2
      · simp at hmoves; exact ⟨hm, by omega⟩

theorem isValidMove_iff (g : Game) (p : QPoint) :
    isValidMove g p = true ↔ isValidPosition g p = true ∧ g.arena p.y p.x ≠ CellType.Wall ∧
      p ≠ g.playerRobot.position ∧ p ≠ (g.robot g.opponent).position := by
  unfold isValidMove Game.opponent
  cases hv : isValidPosition g p <;> cases hm : g.multiplayerMode <;>
    by_cases hw : g.arena p.y p.x = CellType.Wall <;> simp [hw, not_or]

theorem PickupCollected.collRefl (g : Game) (id : RobotId) (pos : QPoint) :
    PickupCollected g g id pos :=
  ⟨rfl, fun _ _ => rfl, rfl, rfl, rfl, rfl, rfl, rfl, rfl, rfl, rfl, fun _ _ => Or.inl rfl⟩

theorem setCell_empty_arena (g : Game) (pos : QPoint) (hw : g.arena pos.y pos.x ≠ CellType.Wall) :
    ∀ y x, (g.setCell pos CellType.Empty).arena y x = g.arena y x ∨
      ((y = pos.y ∧ x = pos.x) ∧ g.arena y x ≠ CellType.Wall ∧
        (g.setCell pos CellType.Empty).arena y x = CellType.Empty) := by
  intro y x
  by_cases hyx : y = pos.y ∧ x = pos.x
  · right
    refine ⟨hyx, ?_, ?_⟩
    · rw [hyx.1, hyx.2]; exact hw
    · simp [hyx]
  · left; simp [hyx]

theorem collectHealthPickup_collected (g : Game) (pos : QPoint) (id : RobotId) :
    PickupCollected g (collectHealthPickup g pos id) id pos := by
  unfold collectHealthPickup
  dsimp only
  by_cases h : (!isValidPosition g pos || decide (g.arena pos.y pos.x ≠ CellType.HealthPickup))
      = true
  · rw [if_pos h]; exact PickupCollected.collRefl g id pos
  · rw [if_neg h]
    have hw : g.arena pos.y pos.x ≠ CellType.Wall := by
      simp at h; rw [h.2]; decide
    have ha := setCell_empty_arena g pos hw
    cases id <;>
      exact ⟨rfl, fun id1 h1 => by cases id1 <;> first | rfl | exact (h1 rfl).elim,
        rfl, rfl, rfl, rfl, rfl, rfl, rfl, rfl, rfl, ha⟩

theorem collectPowerUp_collected (g : Game) (pos : QPoint) (id : RobotId) (c : CellType)
    (hw : g.arena pos.y pos.x ≠ CellType.Wall) :
    PickupCollected g (collectPowerUp g pos id c) id pos := by
  have ha := setCell_empty_arena g pos hw
  unfold collectPowerUp setRobotPowerUp
  split_ifs with h
  · exact PickupCollected.collRefl g id pos
  · cases c <;> first
      | exact PickupCollected.collRefl g id pos
      | (cases id <;>
          exact ⟨rfl, fun id1 h1 => by cases id1 <;> first | rfl | exact (h1 rfl).elim,
            rfl, rfl, rfl, rfl, rfl, rfl, rfl, rfl, rfl, ha⟩)

/-- The game after the two statements `setPosition(newPos); useMove()` of a
successful move. -/
theorem moveForwardCommand_eq (g : Game) (active : RobotId)
    (hv : isValidMove g (stepFrom (g.robot active).position (g.robot active).direction 1) = true) :
    (moveForwardCommand g active).2 = true ∧
    PickupCollected
      (g.setRobot active
        (((g.robot active).setPosition
          (stepFrom (g.robot active).position (g.robot active).direction 1)).useMove))
      (moveForwardCommand g active).1 active
      (stepFrom (g.robot active).position (g.robot active).direction 1) := by
  have hnw := ((isValidMove_iff g _).1 hv).2.1
  unfold moveForwardCommand
  dsimp only
  rw [if_pos hv]
  dsimp only
  refine ⟨rfl, ?_⟩
  have e : (g.setRobot active ((g.robot active).setPosition
        (stepFrom (g.robot active).position (g.robot active).direction 1))).setRobot active
        (((g.setRobot active ((g.robot active).setPosition
          (stepFrom (g.robot active).position (g.robot active).direction 1))).robot
            active).useMove) =
      g.setRobot active (((g.robot active).setPosition
          (stepFrom (g.robot active).position (g.robot active).direction 1)).useMove) := by
    cases active <;> rfl
  rw [e]
  split_ifs
  · exact collectHealthPickup_collected _ _ _
  · refine collectPowerUp_collected _ _ _ _ ?_
    cases active <;> exact hnw
  · exact PickupCollected.collRefl _ _ _

theorem PickupCollected.groundedCollected {g g1 : Game} {id : RobotId} {pos : QPoint}
    (h : PickupCollected g g1 id pos) (hg : Grounded g) : Grounded g1 := by
  refine hg.transfer h.gridSize h.multiplayerMode ?_ ?_ ?_
  · intro id1
    by_cases e : id1 = id
    · subst e; rw [h.robot]; rfl
    · rw [h.others id1 e]
  · intro y x hw
    rcases h.arena y x with h1 | ⟨_, _, h3⟩
    · rw [← h1]; exact hw
    · rw [h3] at hw; cases hw
  · intro id1 hwf
    by_cases e : id1 = id
    · subst e; rw [h.robot]; exact hwf
    · rw [h.others id1 e]; exact hwf

theorem Robot.useMove_wellFormed {r : Robot} (h : r.WellFormed) : r.useMove.WellFormed := by
  rw [Robot.useMove_eq]; exact h

theorem Robot.useMove_position (r : Robot) : r.useMove.position = r.position := by
  rw [Robot.useMove_eq]

theorem Robot.useMove_movesLeft (r : Robot) (h : 1 ≤ r.movesLeft) :
    r.useMove.movesLeft = r.movesLeft - 1 := by
  unfold Robot.useMove
  rw [if_pos (by omega)]

/-- A robot that takes part in the match: the player robot or its opponent. -/
theorem participant_cases (g : Game) (active : RobotId)
    (h : active = RobotId.player ∨ active = g.opponent) :
    active = RobotId.player ∨ (active = RobotId.player2 ∧ g.multiplayerMode = true) ∨
      (active = RobotId.ai ∧ g.multiplayerMode = false) := by
  rcases h with h | h
  · exact Or.inl h
  · unfold Game.opponent at h
    cases hm : g.multiplayerMode <;> simp [hm] at h
    · exact Or.inr (Or.inr ⟨h, rfl⟩)
    · exact Or.inr (Or.inl ⟨h, rfl⟩)

theorem moveForwardCommand_grounded {g : Game} (hg : Grounded g) (active : RobotId)
    (hact : active = RobotId.player ∨ active = g.opponent) :
    Grounded (moveForwardCommand g active).1 := by
  by_cases hv : isValidMove g (stepFrom (g.robot active).position (g.robot active).direction 1)
      = true
  · obtain ⟨_, hc⟩ := moveForwardCommand_eq g active hv
    refine hc.groundedCollected ?_
    obtain ⟨hvp, hnw, -, -⟩ := (isValidMove_iff g _).1 hv
    have hwf := Robot.useMove_wellFormed
      (Robot.wellFormed_setPosition (hg.wf active)
        (stepFrom (g.robot active).position (g.robot active).direction 1))
    rcases participant_cases g active hact with rfl | ⟨rfl, hm⟩ | ⟨rfl, hm⟩
    · refine ⟨hg.size, ⟨?_, ?_⟩, ?_, hwf, hg.wfPlayer2, hg.wfAi⟩
      · simpa [isValidPosition, Robot.useMove_position] using hvp
      · simpa [Robot.useMove_position] using hnw
      · have := hg.opponentPos
        unfold Game.opponent at this ⊢
        cases hm : g.multiplayerMode <;> simpa [hm] using this
    · refine ⟨hg.size, hg.playerPos, ⟨?_, ?_⟩, hg.wfPlayer, hwf, hg.wfAi⟩
      · simpa [Game.opponent, hm, isValidPosition, Robot.useMove_position] using hvp
      · simpa [Game.opponent, hm, Robot.useMove_position] using hnw
    · refine ⟨hg.size, hg.playerPos, ⟨?_, ?_⟩, hg.wfPlayer, hg.wfPlayer2, hwf⟩
      · simpa [Game.opponent, hm, isValidPosition, Robot.useMove_position] using hvp
      · simpa [Game.opponent, hm, Robot.useMove_position] using hnw
  · unfold moveForwardCommand
    dsimp only
    rw [if_neg hv]
    exact hg

theorem moveForwardCommand_turn (g : Game) (active : RobotId) :
    (moveForwardCommand g active).1.state = g.state ∧
    (moveForwardCommand g active).1.multiplayerMode = g.multiplayerMode := by
  by_cases hv : isValidMove g (stepFrom (g.robot active).position (g.robot active).direction 1)
      = true
  · obtain ⟨_, hc⟩ := moveForwardCommand_eq g active hv
    refine ⟨hc.state.trans ?_, hc.multiplayerMode.trans ?_⟩ <;> cases active <;> rfl
  · unfold moveForwardCommand
    dsimp only
    rw [if_neg hv]
    exact ⟨rfl, rfl⟩

theorem attackCommand_none (g : Game) (active target : RobotId)
    (hp : (g.robot active).currentPowerUp = RobotPowerUp.None) :
    attackCommand g active target =
      (normalAttack g active target).setRobot active
        ((normalAttack g active target).robot active).useMove := by
  unfold attackCommand getRobotPowerUp
  dsimp only
  rw [hp]

theorem attackCommand_laser (g : Game) (active target : RobotId)
    (hp : (g.robot active).currentPowerUp = RobotPowerUp.Laser) :
    attackCommand g active target =
      (laserLoop (g.robot active).direction (rayFuel g) g (g.robot active).position).setRobot
        active
        (((laserLoop (g.robot active).direction (rayFuel g) g (g.robot active).position).robot
          active).setPowerUp RobotPowerUp.None).useMove := by
  unfold attackCommand getRobotPowerUp setRobotPowerUp
  dsimp only
  rw [hp]
  cases active <;> rfl

theorem attackCommand_missile (g : Game) (active target : RobotId)
    (hp : (g.robot active).currentPowerUp = RobotPowerUp.Missile) :
    attackCommand g active target =
      (missileLoop (g.robot active).direction (rayFuel g) g (g.robot active).position).setRobot
        active
        (((missileLoop (g.robot active).direction (rayFuel g) g (g.robot active).position).robot
          active).setPowerUp RobotPowerUp.None).useMove := by
  unfold attackCommand getRobotPowerUp setRobotPowerUp
  dsimp only
  rw [hp]
  cases active <;> rfl

theorem attackCommand_bomb (g : Game) (active target : RobotId)
    (hp : (g.robot active).currentPowerUp = RobotPowerUp.Bomb) :
    attackCommand g active target =
      (bombBlast g (bombTravel g (g.robot active).direction (rayFuel g)
        (g.robot active).position)).setRobot active
        (((bombBlast g (bombTravel g (g.robot active).direction (rayFuel g)
          (g.robot active).position)).robot active).setPowerUp RobotPowerUp.None).useMove := by
  unfold attackCommand getRobotPowerUp setRobotPowerUp
  dsimp only
  rw [hp]
  cases active <;> rfl

/-- The game reached by the `Attack` case before `useMove`: only damage was
dealt, and the attacker may have lost its power-up. -/
theorem attackCommand_eq (g : Game) (active target : RobotId) :
    ∃ gd : Game, DamageOnly g gd ∧
      (attackCommand g active target =
          gd.setRobot active (gd.robot active).useMove ∨
        attackCommand g active target =
          gd.setRobot active ((gd.robot active).setPowerUp RobotPowerUp.None).useMove) := by
  cases hp : (g.robot active).currentPowerUp
  · exact ⟨_, normalAttack_damageOnly g active target, Or.inl (attackCommand_none g _ _ hp)⟩
  · exact ⟨_, laserLoop_damageOnly _ _ g _, Or.inr (attackCommand_laser g _ target hp)⟩
  · exact ⟨_, missileLoop_damageOnly _ _ g _, Or.inr (attackCommand_missile g _ target hp)⟩
  · exact ⟨_, bombBlast_damageOnly g _, Or.inr (attackCommand_bomb g _ target hp)⟩

theorem attackCommand_grounded {g : Game} (hg : Grounded g) (active target : RobotId) :
    Grounded (attackCommand g active target) := by
  obtain ⟨gd, hd, h | h⟩ := attackCommand_eq g active target <;> rw [h]
  · exact (hd.groundedAfter hg).setRobot active _ (Robot.useMove_position _)
      (Robot.useMove_wellFormed ((hd.groundedAfter hg).wf active))
  · exact (hd.groundedAfter hg).setRobot active _ (Robot.useMove_position _)
      (Robot.useMove_wellFormed ((hd.groundedAfter hg).wf active))

theorem attackCommand_turn (g : Game) (active target : RobotId) :
    (attackCommand g active target).state = g.state ∧
    (attackCommand g active target).multiplayerMode = g.multiplayerMode := by
  obtain ⟨gd, hd, h | h⟩ := attackCommand_eq g active target <;> rw [h] <;>
    refine ⟨Eq.trans ?_ hd.state, Eq.trans ?_ hd.multiplayerMode⟩ <;> cases active <;> rfl

theorem turn_grounded {g : Game} (hg : Grounded g) (active : RobotId) :
    Grounded (g.setRobot active (g.robot active).turnLeft) ∧
    Grounded (g.setRobot active (g.robot active).turnRight) := by
  refine ⟨hg.setRobot active _ ?_ ?_, hg.setRobot active _ ?_ ?_⟩
  · rw [Robot.turnLeft_eq]
  · rw [Robot.turnLeft_eq]; exact hg.wf active
  · rw [Robot.turnRight_eq]
  · rw [Robot.turnRight_eq]; exact hg.wf active

theorem executeFor_inv {g : Game} (hi : Inv g) (active target : RobotId) (cmd : Command)
    (hcmd : cmd ≠ Command.None)
    (hact : active = RobotId.player ∨ active = g.opponent)
    (hturn : (g.state = GameState.PlayerTurn ∧ active = RobotId.player) ∨
      (g.state = GameState.Player2Turn ∧ active = RobotId.player2 ∧ g.multiplayerMode = true) ∨
      (g.state = GameState.AiTurn ∧ active = RobotId.ai ∧ g.multiplayerMode = false)) :
    Inv (executeFor g active target cmd) := by
  have key : ∀ g1 : Game, Grounded g1 → g1.state = g.state →
      g1.multiplayerMode = g.multiplayerMode → Inv (finishCommand g1 active) := by
    intro g1 hg1 hs hm
    apply finishCommand_inv active hg1
    rw [hs, hm]; exact hturn
  unfold executeFor
  cases cmd
  · dsimp only
    split_ifs
    · exact key _ (moveForwardCommand_grounded hi.grounded active hact)
        (moveForwardCommand_turn g active).1 (moveForwardCommand_turn g active).2
    · exact hi
  · exact key _ (turn_grounded hi.grounded active).1 (by cases active <;> rfl)
      (by cases active <;> rfl)
  · exact key _ (turn_grounded hi.grounded active).2 (by cases active <;> rfl)
      (by cases active <;> rfl)
  · exact key _ (attackCommand_grounded hi.grounded active target)
      (attackCommand_turn g active target).1 (attackCommand_turn g active target).2
  · exact (hcmd rfl).elim

theorem checkGameOver_inv {g : Game} (hi : Inv g) : Inv (checkGameOver g) := by
  rcases checkGameOver_eq g with h | h
  · rw [h]; exact hi
  · refine ⟨checkGameOver_grounded hi.grounded, ?_, ?_, ?_⟩ <;> rw [h] <;> intro hs <;> cases hs

theorem executeCommand_inv {g : Game} (hi : Inv g) (cmd : Command) :
    Inv (executeCommand g cmd) := by
  unfold executeCommand
  by_cases h1 : g.state = GameState.PlayerTurn
  · rw [if_pos h1]
    by_cases hc : cmd = Command.None
    · subst hc; exact checkGameOver_inv hi
    · exact executeFor_inv hi _ _ cmd hc (Or.inl rfl) (Or.inl ⟨h1, rfl⟩)
  · rw [if_neg h1]
    by_cases h2 : g.state = GameState.Player2Turn ∧ g.multiplayerMode = true
    · rw [if_pos h2]
      by_cases hc : cmd = Command.None
      · subst hc; exact checkGameOver_inv hi
      · refine executeFor_inv hi _ _ cmd hc (Or.inr ?_) (Or.inr (Or.inl ⟨h2.1, rfl, h2.2⟩))
        simp [Game.opponent, h2.2]
    · rw [if_neg h2]; exact hi

theorem executeAiTurn_eq (g : Game) (aiMove : Command) (h1 : g.state = GameState.AiTurn)
    (h2 : 0 < g.aiRobot.movesLeft) (hc : aiMove ≠ Command.None) :
    executeAiTurn g aiMove = executeFor g RobotId.ai RobotId.player aiMove := by
  unfold executeAiTurn executeFor
  rw [if_neg (by simpa using h1), if_pos (by simpa using h2)]
  cases aiMove <;> first | rfl | exact (hc rfl).elim

theorem executeAiTurn_inv {g : Game} (hi : Inv g) (aiMove : Command) :
    Inv (executeAiTurn g aiMove) := by
  by_cases h1 : g.state = GameState.AiTurn
  · have hm := (hi.turnAi h1).1
    have hmv := (hi.turnAi h1).2
    by_cases hc : aiMove = Command.None
    · subst hc
      unfold executeAiTurn
      rw [if_neg (by simpa using h1)]
      split_ifs <;> exact hi
    · rw [executeAiTurn_eq g aiMove h1 (by omega) hc]
      refine executeFor_inv hi _ _ aiMove hc (Or.inr ?_) (Or.inr (Or.inr ⟨h1, rfl, hm⟩))
      simp [Game.opponent, hm]
  · unfold executeAiTurn
    rw [if_pos (by simpa using h1)]
    exact hi

theorem Game.new_inv (size : Int) (rng : List Nat) (g : Game) (hsize : 2 ≤ size)
    (h : Game.new size rng = some g) : Inv g :=
  initializeArena_inv (Game.blank size) _ _ _ _ rng g hsize (Robot.new_wellFormed _) h

/-- Every reachable state satisfies the invariant. -/
theorem Reachable.inv {g : Game} (h : Reachable g) : Inv g := by
  induction h with
  | construct size rng g hsize hnew => exact Game.new_inv size rng g hsize hnew
  | init g0 pt aiT diff map rng g _ hinit ih =>
    exact initializeArena_inv g0 pt aiT diff map rng g ih.grounded.size ih.grounded.wfPlayer2 hinit
  | initMulti g0 t1 t2 map rng g _ hinit ih =>
    exact initializeMultiplayerArena_inv g0 t1 t2 map rng g ih.grounded.size ih.grounded.wfAi
      hinit
  | command g cmd _ ih => exact executeCommand_inv ih cmd
  | aiTurn g aiMove _ ih => exact executeAiTurn_inv ih aiMove

/-! ## Example states are reachable -/

theorem eq_some_getD {α : Type} (o : Option α) (d : α) (h : o.isSome = true) :
    o = some (o.getD d) := by
  cases o with
  | none => cases h
  | some a => rfl

theorem exampleStart_reachable : Reachable exampleStart :=
  Reachable.construct 4 exampleDraws exampleStart (by decide) (eq_some_getD _ _ (by decide))

theorem runCommands_reachable (cmds : List Command) :
    ∀ g : Game, Reachable g → Reachable (runCommands g cmds) := by
  induction cmds with
  | nil => intro g h; exact h
  | cons c cs ih => intro g h; exact ih _ (Reachable.command g c h)

theorem executeCommand_of_active (g : Game) (cmd : Command) (active target : RobotId)
    (h : activeHuman g = some (active, target)) :
    executeCommand g cmd = executeFor g active target cmd := by
  unfold activeHuman at h
  unfold executeCommand
  by_cases h1 : g.state = GameState.PlayerTurn
  · rw [if_pos h1] at h ⊢
    simp only [Option.some.injEq, Prod.mk.injEq] at h
    rw [h.1, h.2]
  · rw [if_neg h1] at h ⊢
    by_cases h2 : g.state = GameState.Player2Turn ∧ g.multiplayerMode = true
    · rw [if_pos h2] at h ⊢
      simp only [Option.some.injEq, Prod.mk.injEq] at h
      rw [h.1, h.2]
    · rw [if_neg h2] at h; cases h

theorem executeCommand_of_inactive (g : Game) (cmd : Command) (h : activeHuman g = none) :
    executeCommand g cmd = g := by
  unfold activeHuman at h
  unfold executeCommand
  by_cases h1 : g.state = GameState.PlayerTurn
  · rw [if_pos h1] at h; cases h
  · rw [if_neg h1] at h ⊢
    by_cases h2 : g.state = GameState.Player2Turn ∧ g.multiplayerMode = true
    · rw [if_pos h2] at h; cases h
    · rw [if_neg h2]

theorem activeHuman_cases (g : Game) (active target : RobotId)
    (h : activeHuman g = some (active, target)) :
    (g.state = GameState.PlayerTurn ∧ active = RobotId.player ∧ target = g.opponent) ∨
    (g.state = GameState.Player2Turn ∧ g.multiplayerMode = true ∧ active = RobotId.player2 ∧
      target = RobotId.player) := by
  unfold activeHuman at h
  by_cases h1 : g.state = GameState.PlayerTurn
  · rw [if_pos h1] at h
    simp only [Option.some.injEq, Prod.mk.injEq] at h
    exact Or.inl ⟨h1, h.1.symm, h.2.symm⟩
  · rw [if_neg h1] at h
    by_cases h2 : g.state = GameState.Player2Turn ∧ g.multiplayerMode = true
    · rw [if_pos h2] at h
      simp only [Option.some.injEq, Prod.mk.injEq] at h
      exact Or.inr ⟨h2.1, h2.2, h.1.symm, h.2.symm⟩
    · rw [if_neg h2] at h; cases h

/-! ## Claims -/

/-- C2: in every reachable state the player robot and the other robot taking
part in the match (the second player in multiplayer mode, the AI robot in
single-player mode) stand on a cell that is inside the grid and is not a
wall. -/
theorem C2_robot_positions_valid (g : Game) (h : Reachable g) :
    (isValidPosition g g.playerRobot.position = true ∧
      g.arena g.playerRobot.position.y g.playerRobot.position.x ≠ CellType.Wall) ∧
    (g.multiplayerMode = true →
      isValidPosition g g.player2Robot.position = true ∧
      g.arena g.player2Robot.position.y g.player2Robot.position.x ≠ CellType.Wall) ∧
    (g.multiplayerMode = false →
      isValidPosition g g.aiRobot.position = true ∧
      g.arena g.aiRobot.position.y g.aiRobot.position.x ≠ CellType.Wall) := by
  have hi := h.inv
  refine ⟨hi.grounded.playerPos, ?_, ?_⟩
  · intro hm
    have := hi.grounded.opponentPos
    simpa [standsOnFloor, Game.opponent, hm] using this
  · intro hm
    have := hi.grounded.opponentPos
    simpa [standsOnFloor, Game.opponent, hm] using this

/-- Witness for C2: the state left by the constructor on a 4 x 4 grid. -/
theorem C2_robot_positions_valid_witness :
    Reachable exampleStart ∧
    ((isValidPosition exampleStart exampleStart.playerRobot.position = true ∧
      exampleStart.arena exampleStart.playerRobot.position.y
        exampleStart.playerRobot.position.x ≠ CellType.Wall) ∧
    (exampleStart.multiplayerMode = true →
      isValidPosition exampleStart exampleStart.player2Robot.position = true ∧
      exampleStart.arena exampleStart.player2Robot.position.y
        exampleStart.player2Robot.position.x ≠ CellType.Wall) ∧
    (exampleStart.multiplayerMode = false →
      isValidPosition exampleStart exampleStart.aiRobot.position = true ∧
      exampleStart.arena exampleStart.aiRobot.position.y
        exampleStart.aiRobot.position.x ≠ CellType.Wall)) :=
  ⟨exampleStart_reachable, C2_robot_positions_valid exampleStart exampleStart_reachable⟩

/-- C3: when it is a human robot's turn and the cell ahead of it is out of
bounds, a wall, or occupied by a participating robot, `executeCommand
(MoveForward)` returns the game unchanged (robots, arena, wall hit-points and
turn state). -/
theorem C3_blocked_move_rejected (g : Game) (active target : RobotId)
    (hact : activeHuman g = some (active, target))
    (hblocked : cellBlocked g (cellAhead (g.robot active))) :
    executeCommand g Command.MoveForward = g := by
  have hnv : isValidMove g (stepFrom (g.robot active).position (g.robot active).direction 1)
      = false := by
    rw [Bool.eq_false_iff]
    intro hv
    obtain ⟨h1, h2, h3, h4⟩ := (isValidMove_iff g _).1 hv
    rcases hblocked with hb | hb | hb | hb
    · rw [cellAhead, h1] at hb; cases hb
    · exact h2 hb
    · exact h3 hb
    · exact h4 hb
  have hmv : moveForwardCommand g active = (g, false) := by
    unfold moveForwardCommand
    dsimp only
    rw [if_neg (by rw [hnv]; decide)]
  have hex : executeFor g active target Command.MoveForward = g := by
    unfold executeFor
    dsimp only
    rw [hmv]
    rfl
  rw [executeCommand_of_active g _ active target hact]
  exact hex

/-- Witness for C3: the player robot in the bottom-left corner of a 4 x 4 grid
facing South. -/
theorem C3_blocked_move_rejected_witness :
    activeHuman exampleFacingEdge = some (RobotId.player, RobotId.ai) ∧
    cellBlocked exampleFacingEdge (cellAhead (exampleFacingEdge.robot RobotId.player)) ∧
    executeCommand exampleFacingEdge Command.MoveForward = exampleFacingEdge :=
  ⟨by decide, Or.inl (by decide),
    C3_blocked_move_rejected exampleFacingEdge RobotId.player RobotId.ai (by decide)
      (Or.inl (by decide))⟩

/-- C7: in turn state `GameOver` every command given to `executeCommand` and
every command the AI may choose in `executeAiTurn` leaves the whole game
unchanged, so no sequence of them leaves `GameOver`; `initializeArena` and
`initializeMultiplayerArena`, when they return, leave the turn state
`PlayerTurn`. -/
theorem C7_game_over_terminal (g : Game) (h : g.state = GameState.GameOver) :
    (∀ cmd, executeCommand g cmd = g) ∧ (∀ aiMove, executeAiTurn g aiMove = g) ∧
    (∀ cmds, runCommands g cmds = g) ∧
    (∀ pt aiT diff map rng g1, initializeArena g pt aiT diff map rng = some g1 →
      g1.state = GameState.PlayerTurn) ∧
    (∀ t1 t2 map rng g1, initializeMultiplayerArena g t1 t2 map rng = some g1 →
      g1.state = GameState.PlayerTurn) := by
  have hc : ∀ cmd, executeCommand g cmd = g := by
    intro cmd
    apply executeCommand_of_inactive
    unfold activeHuman
    rw [h]; rfl
  refine ⟨hc, ?_, ?_, ?_, ?_⟩
  · intro aiMove
    unfold executeAiTurn
    rw [if_pos (by rw [h]; decide)]
  · intro cmds
    induction cmds with
    | nil => rfl
    | cons c cs ih =>
      show runCommands (executeCommand g c) cs = g
      rw [hc c]; exact ih
  · intro pt aiT diff map rng g1 hinit
    exact (initializeArena_spec g pt aiT diff map rng g1 hinit).2.1
  · intro t1 t2 map rng g1 hinit
    exact (initializeMultiplayerArena_spec g t1 t2 map rng g1 hinit).2.1

/-- Witness for C7: the constructor state with the turn state `GameOver`. -/
theorem C7_game_over_terminal_witness :
    exampleGameOver.state = GameState.GameOver ∧
    ((∀ cmd, executeCommand exampleGameOver cmd = exampleGameOver) ∧
    (∀ aiMove, executeAiTurn exampleGameOver aiMove = exampleGameOver) ∧
    (∀ cmds, runCommands exampleGameOver cmds = exampleGameOver) ∧
    (∀ pt aiT diff map rng g1,
      initializeArena exampleGameOver pt aiT diff map rng = some g1 →
      g1.state = GameState.PlayerTurn) ∧
    (∀ t1 t2 map rng g1,
      initializeMultiplayerArena exampleGameOver t1 t2 map rng = some g1 →
      g1.state = GameState.PlayerTurn)) :=
  ⟨rfl, C7_game_over_terminal exampleGameOver rfl⟩

/-! ## The tail of a command: game-over check and turn switch -/

theorem checkGameOver_dead (g : Game) (h : anyParticipantDead g) :
    checkGameOver g = { g with state := GameState.GameOver } := by
  unfold anyParticipantDead Game.opponent at h
  unfold checkGameOver Robot.isDead
  cases hm : g.multiplayerMode <;> simp only [hm, Bool.false_eq_true, if_false, if_true] at h ⊢
  · rw [if_pos (by simpa [Game.robot] using h)]
  · rw [if_pos (by simpa [Game.robot] using h)]

theorem checkGameOver_alive (g : Game) (h : ¬ anyParticipantDead g) :
    checkGameOver g = g := by
  unfold anyParticipantDead Game.opponent at h
  unfold checkGameOver Robot.isDead
  cases hm : g.multiplayerMode <;> simp only [hm, Bool.false_eq_true, if_false, if_true] at h ⊢
  · rw [if_neg (by simpa [Game.robot] using h)]
  · rw [if_neg (by simpa [Game.robot] using h)]

theorem TurnOf.not_gameOver {g : Game} {a t : RobotId} (h : TurnOf g a t) :
    g.state ≠ GameState.GameOver := by
  rcases h with ⟨h, _⟩ | ⟨h, _⟩ | ⟨h, _⟩ <;> rw [h] <;> decide

theorem TurnOf.ne {g : Game} {a t : RobotId} (h : TurnOf g a t) : t ≠ a := by
  rcases h with ⟨_, rfl, rfl⟩ | ⟨_, _, rfl, rfl⟩ | ⟨_, _, rfl, rfl⟩
  · unfold Game.opponent; split_ifs <;> decide
  · decide
  · decide

theorem TurnOf.participants {g : Game} {a t : RobotId} (h : TurnOf g a t) :
    (a = RobotId.player ∧ t = g.opponent) ∨ (a = g.opponent ∧ t = RobotId.player) := by
  rcases h with ⟨_, rfl, rfl⟩ | ⟨_, hm, rfl, rfl⟩ | ⟨_, hm, rfl, rfl⟩
  · exact Or.inl ⟨rfl, rfl⟩
  · exact Or.inr ⟨by simp [Game.opponent, hm], rfl⟩
  · exact Or.inr ⟨by simp [Game.opponent, hm], rfl⟩

theorem TurnOf.congr {g g1 : Game} {a t : RobotId} (h : TurnOf g a t)
    (hs : g1.state = g.state) (hm : g1.multiplayerMode = g.multiplayerMode) : TurnOf g1 a t := by
  unfold TurnOf at h ⊢
  rw [hs, hm, Game.opponent_congr hm]
  exact h

/-- The switch of turn: the side changes, the robot that acted is untouched and
its target gets its move budget back. -/
theorem switchTurn_spec {g : Game} {a t : RobotId} (h : TurnOf g a t) :
    (switchTurn g).state = otherSide g.multiplayerMode g.state ∧
    (switchTurn g).robot a = g.robot a ∧
    (switchTurn g).robot t = (g.robot t).resetMoves ∧
    (∀ id, id ≠ t → (switchTurn g).robot id = g.robot id) ∧
    (switchTurn g).arena = g.arena ∧ (switchTurn g).wallHealth = g.wallHealth ∧
    (switchTurn g).multiplayerMode = g.multiplayerMode ∧
    (switchTurn g).gridSize = g.gridSize := by
  have others : ∀ (r : Robot) (u : RobotId) (id : RobotId), id ≠ u →
      ((g.setRobot u r).robot id = g.robot id) := by
    intro r u id hid
    cases u <;> cases id <;> first | rfl | exact (hid rfl).elim
  rcases h with ⟨hs, rfl, rfl⟩ | ⟨hs, hm, rfl, rfl⟩ | ⟨hs, hm, rfl, rfl⟩
  · cases hm : g.multiplayerMode
    · have e : switchTurn g =
        { g with state := GameState.AiTurn, aiRobot := g.aiRobot.resetMoves } := by
        unfold switchTurn
        rw [if_neg (by simp [hm]), if_pos hs]
      have ho : g.opponent = RobotId.ai := by simp [Game.opponent, hm]
      rw [e, ho, hs]
      exact ⟨rfl, rfl, rfl, fun id hid => others g.aiRobot.resetMoves RobotId.ai id hid,
        rfl, rfl, hm, rfl⟩
    · have e : switchTurn g =
        { g with state := GameState.Player2Turn, player2Robot := g.player2Robot.resetMoves } := by
        unfold switchTurn
        rw [if_pos hm, if_pos hs]
      have ho : g.opponent = RobotId.player2 := by simp [Game.opponent, hm]
      rw [e, ho, hs]
      exact ⟨rfl, rfl, rfl,
        fun id hid => others g.player2Robot.resetMoves RobotId.player2 id hid,
        rfl, rfl, hm, rfl⟩
  · have e : switchTurn g =
        { g with state := GameState.PlayerTurn, playerRobot := g.playerRobot.resetMoves } := by
      unfold switchTurn
      rw [if_pos hm, if_neg (by rw [hs]; decide)]
    rw [e, hs]
    exact ⟨rfl, rfl, rfl, fun id hid => others g.playerRobot.resetMoves RobotId.player id hid,
      rfl, rfl, rfl, rfl⟩
  · have e : switchTurn g =
        { g with state := GameState.PlayerTurn, playerRobot := g.playerRobot.resetMoves } := by
      unfold switchTurn
      rw [if_neg (by simp [hm]), if_neg (by rw [hs]; decide)]
    rw [e, hs]
    exact ⟨rfl, rfl, rfl, fun id hid => others g.playerRobot.resetMoves RobotId.player id hid,
      rfl, rfl, rfl, rfl⟩

theorem finishCommand_moves_left (g : Game) (a : RobotId) (h : 0 < (g.robot a).movesLeft) :
    finishCommand g a = g := by
  unfold finishCommand
  rw [if_neg (by omega)]

theorem finishCommand_dead (g : Game) (a : RobotId) (h : (g.robot a).movesLeft ≤ 0)
    (hd : anyParticipantDead g) :
    finishCommand g a = { g with state := GameState.GameOver } := by
  unfold finishCommand
  rw [if_pos h]
  dsimp only
  rw [checkGameOver_dead g hd, if_neg (by simp)]

theorem finishCommand_alive {g : Game} {a t : RobotId} (ht : TurnOf g a t)
    (h : (g.robot a).movesLeft ≤ 0) (hd : ¬ anyParticipantDead g) :
    finishCommand g a = switchTurn g := by
  unfold finishCommand
  rw [if_pos h]
  dsimp only
  rw [checkGameOver_alive g hd, if_pos ht.not_gameOver]

/-- The tail of a command touches no robot except possibly to give the target
its move budget back, and touches neither arena nor wall hit-points. -/
theorem finishCommand_frame {g : Game} {a t : RobotId} (ht : TurnOf g a t) :
    (finishCommand g a).robot a = g.robot a ∧
    (∀ id, id ≠ t → (finishCommand g a).robot id = g.robot id) ∧
    ((finishCommand g a).robot t = g.robot t ∨
      (finishCommand g a).robot t = (g.robot t).resetMoves) ∧
    (finishCommand g a).arena = g.arena ∧ (finishCommand g a).wallHealth = g.wallHealth ∧
    (finishCommand g a).multiplayerMode = g.multiplayerMode ∧
    (finishCommand g a).gridSize = g.gridSize := by
  by_cases h : 0 < (g.robot a).movesLeft
  · rw [finishCommand_moves_left g a h]
    exact ⟨rfl, fun _ _ => rfl, Or.inl rfl, rfl, rfl, rfl, rfl⟩
  · by_cases hd : anyParticipantDead g
    · rw [finishCommand_dead g a (by omega) hd]
      refine ⟨by cases a <;> rfl, fun id _ => by cases id <;> rfl,
        Or.inl (by cases t <;> rfl), rfl, rfl, rfl, rfl⟩
    · rw [finishCommand_alive ht (by omega) hd]
      obtain ⟨_, h2, h3, h4, h5, h6, h7, h8⟩ := switchTurn_spec ht
      exact ⟨h2, h4, Or.inr h3, h5, h6, h7, h8⟩

theorem Game.robot_setRobot_same (g : Game) (id : RobotId) (r : Robot) :
    (g.setRobot id r).robot id = r := by
  cases id <;> rfl

theorem Game.robot_setRobot_ne (g : Game) (id id1 : RobotId) (r : Robot) (h : id1 ≠ id) :
    (g.setRobot id r).robot id1 = g.robot id1 := by
  cases id <;> cases id1 <;> first | rfl | exact (h rfl).elim

theorem isValidMove_of_not_blocked (g : Game) (p : QPoint) (h : ¬ cellBlocked g p) :
    isValidMove g p = true := by
  unfold cellBlocked at h
  simp only [not_or] at h
  obtain ⟨h1, h2, h3, h4⟩ := h
  rw [isValidMove_iff]
  exact ⟨by simpa using h1, h2, h3, h4⟩

theorem Inv.active_moves {g : Game} (hi : Inv g) {a t : RobotId} (ht : TurnOf g a t) :
    1 ≤ (g.robot a).movesLeft := by
  rcases ht with ⟨hs, rfl, _⟩ | ⟨hs, _, rfl, _⟩ | ⟨hs, _, rfl, _⟩
  · exact hi.turnPlayer hs
  · exact (hi.turnPlayer2 hs).2
  · exact (hi.turnAi hs).2

theorem executeFor_moveForward (g : Game) (a t : RobotId)
    (hv : isValidMove g (stepFrom (g.robot a).position (g.robot a).direction 1) = true) :
    executeFor g a t Command.MoveForward = finishCommand (moveForwardCommand g a).1 a := by
  unfold executeFor
  dsimp only
  rw [if_pos (moveForwardCommand_eq g a hv).1]

/-- The effect of an accepted `MoveForward` on the mover and on its target. -/
theorem executeFor_moveForward_spec {g : Game} (hi : Inv g) {a t : RobotId}
    (ht : TurnOf g a t) (hfree : ¬ cellBlocked g (cellAhead (g.robot a))) :
    ((executeFor g a t Command.MoveForward).robot a).position = cellAhead (g.robot a) ∧
    ((executeFor g a t Command.MoveForward).robot a).direction = (g.robot a).direction ∧
    ((executeFor g a t Command.MoveForward).robot a).movesLeft = (g.robot a).movesLeft - 1 ∧
    ((executeFor g a t Command.MoveForward).robot t).position = (g.robot t).position ∧
    ((executeFor g a t Command.MoveForward).robot t).direction = (g.robot t).direction ∧
    ((executeFor g a t Command.MoveForward).robot t).health = (g.robot t).health := by
  have hv := isValidMove_of_not_blocked g _ hfree
  unfold cellAhead at hv ⊢
  obtain ⟨_, hc⟩ := moveForwardCommand_eq g a hv
  have htm := moveForwardCommand_turn g a
  have ht1 : TurnOf (moveForwardCommand g a).1 a t := ht.congr htm.1 htm.2
  obtain ⟨fa, _, ft, _⟩ := finishCommand_frame ht1
  rw [executeFor_moveForward g a t hv, fa]
  have ha := hc.robot
  rw [Game.robot_setRobot_same] at ha
  have hb := hc.others t ht.ne
  rw [Game.robot_setRobot_ne _ _ _ _ ht.ne] at hb
  have hm := Robot.useMove_movesLeft ((g.robot a).setPosition
    (stepFrom (g.robot a).position (g.robot a).direction 1)) (hi.active_moves ht)
  refine ⟨?_, ?_, ?_, ?_, ?_, ?_⟩
  · rw [ha]; exact Robot.useMove_position _
  · rw [ha, Robot.useMove_eq]; rfl
  · rw [ha]; exact hm
  · rcases ft with ft | ft <;> rw [ft, hb] <;> rfl
  · rcases ft with ft | ft <;> rw [ft, hb] <;> rfl
  · rcases ft with ft | ft <;> rw [ft, hb] <;> rfl

theorem activeHuman_turnOf {g : Game} {a t : RobotId} (h : activeHuman g = some (a, t)) :
    TurnOf g a t := by
  rcases activeHuman_cases g a t h with ⟨h1, h2, h3⟩ | ⟨h1, h2, h3, h4⟩
  · exact Or.inl ⟨h1, h2, h3⟩
  · exact Or.inr (Or.inl ⟨h1, h2, h3, h4⟩)

/-- C4: in a reachable state where it is a human robot's turn and the cell
ahead of it is in bounds, not a wall and not occupied by a participating
robot, `executeCommand(MoveForward)` puts the active robot on the cell ahead,
keeps its facing, lowers its moves-left by exactly 1, and leaves the other
robot's position, facing and health unchanged. -/
theorem C4_move_forward_succeeds (g : Game) (active target : RobotId) (hr : Reachable g)
    (hact : activeHuman g = some (active, target))
    (hfree : ¬ cellBlocked g (cellAhead (g.robot active))) :
    ((executeCommand g Command.MoveForward).robot active).position =
      stepFrom (g.robot active).position (g.robot active).direction 1 ∧
    ((executeCommand g Command.MoveForward).robot active).direction =
      (g.robot active).direction ∧
    ((executeCommand g Command.MoveForward).robot active).movesLeft =
      (g.robot active).movesLeft - 1 ∧
    ((executeCommand g Command.MoveForward).robot target).position =
      (g.robot target).position ∧
    ((executeCommand g Command.MoveForward).robot target).direction =
      (g.robot target).direction ∧
    ((executeCommand g Command.MoveForward).robot target).health =
      (g.robot target).health := by
  rw [executeCommand_of_active g _ active target hact]
  exact executeFor_moveForward_spec hr.inv (activeHuman_turnOf hact) hfree

/-- Witness for C4: the constructor state on a 4 x 4 grid; the player robot
(a Scout in the bottom-left corner facing East) moves one cell east. -/
theorem C4_move_forward_succeeds_witness :
    Reachable exampleStart ∧
    activeHuman exampleStart = some (RobotId.player, RobotId.ai) ∧
    ¬ cellBlocked exampleStart (cellAhead (exampleStart.robot RobotId.player)) ∧
    ((executeCommand exampleStart Command.MoveForward).robot RobotId.player).position =
      ⟨1, 3⟩ ∧
    ((executeCommand exampleStart Command.MoveForward).robot RobotId.player).movesLeft = 2 :=
  have h := C4_move_forward_succeeds exampleStart RobotId.player RobotId.ai
    exampleStart_reachable (by decide) (by unfold cellBlocked; decide)
  ⟨exampleStart_reachable, by decide, by unfold cellBlocked; decide, h.1, h.2.2.1⟩

theorem activeHuman_of_turnOf {g : Game} {a t : RobotId} (ht : TurnOf g a t)
    (hs : g.state ≠ GameState.AiTurn) : activeHuman g = some (a, t) := by
  unfold activeHuman
  rcases ht with ⟨h1, rfl, rfl⟩ | ⟨h1, hm, rfl, rfl⟩ | ⟨h1, _⟩
  · rw [if_pos h1]; rfl
  · rw [if_neg (by rw [h1]; decide), if_pos ⟨h1, hm⟩]
  · exact (hs h1).elim

theorem engineStep_eq {g : Game} (hi : Inv g) {a t : RobotId} (ht : TurnOf g a t)
    (cmd : Command) (hc : cmd ≠ Command.None) :
    engineStep g cmd = executeFor g a t cmd := by
  unfold engineStep
  by_cases hs : g.state = GameState.AiTurn
  · rw [if_pos hs]
    have hmv := (hi.turnAi hs).2
    rcases ht with ⟨h1, _⟩ | ⟨h1, _⟩ | ⟨_, _, rfl, rfl⟩
    · rw [hs] at h1; cases h1
    · rw [hs] at h1; cases h1
    · exact executeAiTurn_eq g cmd hs (by omega) hc
  · rw [if_neg hs]
    exact executeCommand_of_active g cmd a t (activeHuman_of_turnOf ht hs)

/-- A move-consuming command runs its body and then the tail; the body keeps
the invariant's turn-free part, the turn state and the mode. -/
theorem executeFor_consuming {g : Game} (hi : Inv g) {a t : RobotId} (ht : TurnOf g a t)
    (cmd : Command) (hc : moveConsuming g a cmd) :
    ∃ gb : Game, executeFor g a t cmd = finishCommand gb a ∧ Grounded gb ∧ TurnOf gb a t ∧
      gb.multiplayerMode = g.multiplayerMode ∧ gb.state = g.state := by
  have hact : a = RobotId.player ∨ a = g.opponent := by
    rcases ht.participants with h | h
    · exact Or.inl h.1
    · exact Or.inr h.1
  rcases hc with rfl | ⟨rfl, hfree⟩
  · have htm := attackCommand_turn g a t
    exact ⟨attackCommand g a t, rfl, attackCommand_grounded hi.grounded a t,
      ht.congr htm.1 htm.2, htm.2, htm.1⟩
  · have hv := isValidMove_of_not_blocked g _ hfree
    have htm := moveForwardCommand_turn g a
    exact ⟨(moveForwardCommand g a).1, executeFor_moveForward g a t hv,
      moveForwardCommand_grounded hi.grounded a hact, ht.congr htm.1 htm.2, htm.2, htm.1⟩

theorem moveConsuming_ne_none {g : Game} {a : RobotId} {cmd : Command}
    (hc : moveConsuming g a cmd) : cmd ≠ Command.None := by
  rcases hc with rfl | ⟨rfl, _⟩ <;> decide

theorem finishCommand_dead_iff {g : Game} {a t : RobotId} (ht : TurnOf g a t) :
    anyParticipantDead (finishCommand g a) ↔ anyParticipantDead g := by
  obtain ⟨_, fo, ft, _, _, fm, _⟩ := finishCommand_frame ht
  have hh : ∀ id, ((finishCommand g a).robot id).health = (g.robot id).health := by
    intro id
    by_cases e : id = t
    · subst e
      rcases ft with ft | ft <;> rw [ft] <;> rfl
    · rw [fo id e]
  unfold anyParticipantDead
  rw [Game.opponent_congr fm, hh g.opponent]
  have := hh RobotId.player
  simp only [Game.robot] at this
  rw [this]

theorem Robot.WellFormed.movesPerTurn {r : Robot} (h : r.WellFormed) :
    r.maxMovesPerTurn = MovesPerTurn r.type := by
  rw [h.2.2.2]; cases r.type <;> rfl

/-- What the tail of a command does to the turn state, by cases on the moves
left of the robot that acted and on whether a participant is dead. -/
theorem finishCommand_turn {g : Game} (hg : Grounded g) {a t : RobotId} (ht : TurnOf g a t) :
    (((finishCommand g a).robot a).movesLeft ≤ 0 → ¬ anyParticipantDead (finishCommand g a) →
      (finishCommand g a).state = otherSide g.multiplayerMode g.state ∧
      ((finishCommand g a).robot t).movesLeft = MovesPerTurn ((finishCommand g a).robot t).type) ∧
    (((finishCommand g a).robot a).movesLeft ≤ 0 → anyParticipantDead (finishCommand g a) →
      (finishCommand g a).state = GameState.GameOver) ∧
    (0 < ((finishCommand g a).robot a).movesLeft → finishCommand g a = g) := by
  have fa := (finishCommand_frame ht).1
  have hd := finishCommand_dead_iff ht
  rw [fa, hd]
  refine ⟨?_, ?_, ?_⟩
  · intro hm hnd
    rw [finishCommand_alive ht hm hnd]
    obtain ⟨h1, _, h3, _⟩ := switchTurn_spec ht
    refine ⟨h1, ?_⟩
    rw [h3]
    exact (hg.wf t).movesPerTurn
  · intro hm hdead
    rw [finishCommand_dead g a hm hdead]
  · intro hm
    exact finishCommand_moves_left g a hm

/-- C5: after a move-consuming command (an `Attack`, or a `MoveForward` to a
free cell) issued in a reachable state by the robot whose turn it is (human
through `executeCommand`, AI through `executeAiTurn`): if the acting robot has
no move left and neither participating robot is dead, the turn state is the
other side's (PlayerTurn to AiTurn and back in single-player mode, PlayerTurn
to Player2Turn and back in multiplayer mode) and the newly active robot has
its archetype's MovesPerTurn moves (Scout 3, Tank 2, Sniper 2); if the acting
robot still has a move left, the turn state is unchanged. -/
theorem C5_turn_switch (g : Game) (active target : RobotId) (cmd : Command)
    (hr : Reachable g) (ht : TurnOf g active target) (hc : moveConsuming g active cmd) :
    (((engineStep g cmd).robot active).movesLeft = 0 →
      ¬ anyParticipantDead (engineStep g cmd) →
      (engineStep g cmd).state = otherSide g.multiplayerMode g.state ∧
      ((engineStep g cmd).robot target).movesLeft =
        MovesPerTurn ((engineStep g cmd).robot target).type) ∧
    (0 < ((engineStep g cmd).robot active).movesLeft →
      (engineStep g cmd).state = g.state) := by
  rw [engineStep_eq hr.inv ht cmd (moveConsuming_ne_none hc)]
  obtain ⟨gb, he, hg, htb, hm, hs⟩ := executeFor_consuming hr.inv ht cmd hc
  rw [he]
  obtain ⟨h1, _, h3⟩ := finishCommand_turn hg htb
  refine ⟨?_, ?_⟩
  · intro h0 hnd
    rw [← hm, ← hs]
    exact h1 (by omega) hnd
  · intro hpos
    rw [h3 hpos]; exact hs

theorem exampleDuel_reachable : Reachable exampleDuel :=
  Reachable.initMulti exampleStart RobotType.Sniper RobotType.Scout MapType.Open
    exampleOpenDraws exampleDuel exampleStart_reachable (eq_some_getD _ _ (by decide))

theorem exampleDuelBeforeKill_reachable : Reachable exampleDuelBeforeKill :=
  runCommands_reachable _ _ exampleDuel_reachable

/-- Witness for C5: the Sniper's last move of its first turn hands the turn to
the Scout, which gets 3 moves. -/
theorem C5_turn_switch_witness :
    Reachable exampleDuelLastMove ∧
    TurnOf exampleDuelLastMove RobotId.player RobotId.player2 ∧
    moveConsuming exampleDuelLastMove RobotId.player Command.MoveForward ∧
    (engineStep exampleDuelLastMove Command.MoveForward).state = GameState.Player2Turn ∧
    ((engineStep exampleDuelLastMove Command.MoveForward).robot RobotId.player2).movesLeft
      = 3 :=
  have hr : Reachable exampleDuelLastMove := runCommands_reachable _ _ exampleDuel_reachable
  have ht : TurnOf exampleDuelLastMove RobotId.player RobotId.player2 := by
    unfold TurnOf; decide
  have hc : moveConsuming exampleDuelLastMove RobotId.player Command.MoveForward := by
    unfold moveConsuming cellBlocked; decide
  have h := (C5_turn_switch exampleDuelLastMove RobotId.player RobotId.player2
    Command.MoveForward hr ht hc).1 (by decide) (by unfold anyParticipantDead; decide)
  ⟨hr, ht, hc, h.1, h.2⟩

/-- C6, counterexample: in a reachable multiplayer state the Sniper's attack
brings the Scout to 0 health while the Sniper still has a move left, and the
turn state after the command is `PlayerTurn`, not `GameOver`. -/
theorem C6_counterexample :
    Reachable exampleDuelBeforeKill ∧
    TurnOf exampleDuelBeforeKill RobotId.player RobotId.player2 ∧
    moveConsuming exampleDuelBeforeKill RobotId.player Command.Attack ∧
    (executeCommand exampleDuelBeforeKill Command.Attack).player2Robot.health = 0 ∧
    anyParticipantDead (executeCommand exampleDuelBeforeKill Command.Attack) ∧
    (executeCommand exampleDuelBeforeKill Command.Attack).playerRobot.movesLeft = 1 ∧
    (executeCommand exampleDuelBeforeKill Command.Attack).state = GameState.PlayerTurn ∧
    (executeCommand exampleDuelBeforeKill Command.Attack).state ≠ GameState.GameOver :=
  ⟨exampleDuelBeforeKill_reachable, by unfold TurnOf; decide, Or.inl rfl, by decide,
    by unfold anyParticipantDead; decide, by decide, by decide, by decide⟩

/-- C6, as amended: after a move-consuming command issued in a reachable
state by the robot whose turn it is (human or AI), if the acting robot has no
move left and a participating robot has health at most 0, the turn state is
`GameOver`; if the acting robot still has a move left, the game-over check is
not run and the turn state is what it was before the command. -/
theorem C6_game_over_when_moves_exhausted (g : Game) (active target : RobotId)
    (cmd : Command) (hr : Reachable g) (ht : TurnOf g active target)
    (hc : moveConsuming g active cmd) :
    (((engineStep g cmd).robot active).movesLeft = 0 →
      anyParticipantDead (engineStep g cmd) →
      (engineStep g cmd).state = GameState.GameOver) ∧
    (0 < ((engineStep g cmd).robot active).movesLeft →
      (engineStep g cmd).state = g.state ∧ (engineStep g cmd).state ≠ GameState.GameOver) := by
  rw [engineStep_eq hr.inv ht cmd (moveConsuming_ne_none hc)]
  obtain ⟨gb, he, hg, htb, hm, hs⟩ := executeFor_consuming hr.inv ht cmd hc
  rw [he]
  obtain ⟨_, h2, h3⟩ := finishCommand_turn hg htb
  refine ⟨?_, ?_⟩
  · intro h0 hd
    exact h2 (by omega) hd
  · intro hpos
    rw [h3 hpos]
    exact ⟨hs, by rw [hs]; exact ht.not_gameOver⟩

/-- Witness for C6 as amended: the Sniper's next attack uses its last move and
the game is over. -/
theorem C6_game_over_when_moves_exhausted_witness :
    Reachable exampleDuelAfterKill ∧
    TurnOf exampleDuelAfterKill RobotId.player RobotId.player2 ∧
    moveConsuming exampleDuelAfterKill RobotId.player Command.Attack ∧
    (engineStep exampleDuelAfterKill Command.Attack).state = GameState.GameOver :=
  have hr : Reachable exampleDuelAfterKill :=
    Reachable.command _ _ exampleDuelBeforeKill_reachable
  have ht : TurnOf exampleDuelAfterKill RobotId.player RobotId.player2 := by
    unfold TurnOf; decide
  ⟨hr, ht, Or.inl rfl,
    (C6_game_over_when_moves_exhausted exampleDuelAfterKill RobotId.player RobotId.player2
      Command.Attack hr ht (Or.inl rfl)).1 (by decide) (by unfold anyParticipantDead; decide)⟩

/-! ## The normal attack -/

theorem hasLineOfSight_iff (g : Game) (p q : QPoint) :
    hasLineOfSight g p q = true ↔
      (p.x = q.x ∨ p.y = q.y) ∧
      ∀ c, strictlyBetween p q c → g.arena c.y c.x ≠ CellType.Wall := by
  unfold hasLineOfSight strictlyBetween
  by_cases h1 : p.x ≠ q.x ∧ p.y ≠ q.y
  · rw [if_pos h1]
    simp only [Bool.false_eq_true, false_iff, not_and]
    intro h; rcases h with h | h
    · exact (h1.1 h).elim
    · exact (h1.2 h).elim
  · rw [if_neg h1]
    by_cases h2 : p.x = q.x
    · rw [if_pos h2]
      simp only [List.all_eq_true, List.mem_range, decide_eq_true_eq]
      constructor
      · intro h
        refine ⟨Or.inl h2, ?_⟩
        intro c hc
        rcases hc with ⟨_, hx, hlo, hhi⟩ | ⟨hy, hcy, hlo, hhi⟩
        · have := h (c.y - min p.y q.y - 1).toNat (by omega)
          have e : min p.y q.y + 1 + ((c.y - min p.y q.y - 1).toNat : Int) = c.y := by omega
          rw [e, ← hx] at this
          exact this
        · omega
      · intro h i hi
        exact h.2 ⟨p.x, min p.y q.y + 1 + (i : Int)⟩ (Or.inl ⟨h2, rfl, by simp; omega,
          by simp; omega⟩)
    · rw [if_neg h2]
      have h3 : p.y = q.y := by
        by_contra h3; exact h1 ⟨h2, h3⟩
      simp only [List.all_eq_true, List.mem_range, decide_eq_true_eq]
      constructor
      · intro h
        refine ⟨Or.inr h3, ?_⟩
        intro c hc
        rcases hc with ⟨hx, _⟩ | ⟨_, hcy, hlo, hhi⟩
        · exact (h2 hx).elim
        · have := h (c.x - min p.x q.x - 1).toNat (by omega)
          have e : min p.x q.x + 1 + ((c.x - min p.x q.x - 1).toNat : Int) = c.x := by omega
          rw [e, ← h3, ← hcy] at this
          exact this
      · intro h i hi
        have := h.2 ⟨min p.x q.x + 1 + (i : Int), p.y⟩ (Or.inr ⟨h3, rfl, by simp; omega,
          by simp; omega⟩)
        rw [← h3]; exact this

theorem normalScan_hits (g : Game) (s tp : QPoint) (dir : Direction)
    (hs : isValidPosition g s = true) (ht : isValidPosition g tp = true)
    (hah : aheadOf s dir tp)
    (hclear : ∀ q, strictlyBetween s tp q → g.arena q.y q.x ≠ CellType.Wall)
    (htw : g.arena tp.y tp.x ≠ CellType.Wall) :
    ∀ (fuel : Nat) (step : Int) (hitPos : QPoint), 1 ≤ step → step ≤ manhattan s tp →
      manhattan s tp < step + fuel → normalScan g s dir tp fuel step hitPos = tp := by
  intro fuel
  induction fuel with
  | zero => intro step hitPos h1 h2 h3; simp at h3; omega
  | succ n ih =>
    intro step hitPos h1 h2 h3
    rw [isValidPosition_iff] at hs ht
    unfold manhattan at h2 h3
    rw [Int.abs_eq_natAbs, Int.abs_eq_natAbs] at h2 h3
    have hv : isValidPosition g (stepFrom s dir step) = true := by
      rw [isValidPosition_iff]
      cases dir <;> simp only [stepFrom, aheadOf] at hah ⊢ <;> omega
    have hnw : g.arena (stepFrom s dir step).y (stepFrom s dir step).x ≠ CellType.Wall := by
      by_cases e : stepFrom s dir step = tp
      · rw [e]; exact htw
      · apply hclear
        unfold strictlyBetween
        have e1 : ¬ ((stepFrom s dir step).x = tp.x ∧ (stepFrom s dir step).y = tp.y) := by
          intro h; apply e
          cases hq : stepFrom s dir step; cases tp
          rw [hq] at h; simp only at h
          rw [h.1, h.2]
        cases dir <;> simp only [stepFrom, aheadOf, true_and, and_true] at hah e1 ⊢ <;> omega
    unfold normalScan
    dsimp only
    rw [if_neg (by rw [hv]; decide), if_neg hnw]
    by_cases e : stepFrom s dir step = tp
    · rw [if_pos e, e]
    · rw [if_neg e]
      apply ih
      · omega
      · unfold manhattan
        rw [Int.abs_eq_natAbs, Int.abs_eq_natAbs]
        have e1 : ¬ ((stepFrom s dir step).x = tp.x ∧ (stepFrom s dir step).y = tp.y) := by
          intro h; apply e
          cases hq : stepFrom s dir step; cases tp
          rw [hq] at h; simp only at h
          rw [h.1, h.2]
        cases dir <;> simp only [stepFrom, aheadOf, true_and, and_true] at hah e1 ⊢ <;> omega
      · unfold manhattan
        rw [Int.abs_eq_natAbs, Int.abs_eq_natAbs]
        push_cast at h3 ⊢
        omega

theorem attackWall_robot (g : Game) (p : QPoint) (d : Int) (id : RobotId) :
    (attackWall g p d).1.robot id = g.robot id := by
  unfold attackWall
  dsimp only
  split_ifs <;> cases id <;> rfl

theorem facesTarget_iff (a t : Robot) :
    facesTarget a t = true ↔
      (a.direction = Direction.North ∧ t.position.y < a.position.y) ∨
      (a.direction = Direction.South ∧ t.position.y > a.position.y) ∨
      (a.direction = Direction.East ∧ t.position.x > a.position.x) ∨
      (a.direction = Direction.West ∧ t.position.x < a.position.x) := by
  unfold facesTarget
  simp only [Bool.or_eq_true, Bool.and_eq_true, decide_eq_true_eq, or_assoc]

/-- The specification's hit condition is the conjunction of the three tests
the engine makes: line of sight, facing, range. -/
theorem canHit_iff (g : Game) (a t : Robot) :
    canHit g a t ↔
      hasLineOfSight g a.position t.position = true ∧ facesTarget a t = true ∧
      manhattan a.position t.position ≤ (if a.type = RobotType.Sniper then 3 else 1) := by
  have hr : AttackRange a.type = (if a.type = RobotType.Sniper then 3 else 1) := by
    cases a.type <;> rfl
  unfold canHit
  rw [hasLineOfSight_iff, facesTarget_iff, hr]
  unfold aheadOf
  constructor
  · rintro ⟨h1, h2, h3⟩
    refine ⟨⟨?_, h3⟩, ?_, h2⟩
    · cases hd : a.direction <;> rw [hd] at h1 <;> simp only at h1 <;> omega
    · cases hd : a.direction <;> rw [hd] at h1 <;> simp only at h1 <;> simp <;> omega
  · rintro ⟨⟨h1, h3⟩, h2, h4⟩
    refine ⟨?_, h4, h3⟩
    cases hd : a.direction <;> rw [hd] at h2 <;> simp at h2 ⊢ <;> omega

theorem aheadOf_manhattan_pos {a p : QPoint} {dir : Direction} (h : aheadOf a dir p) :
    1 ≤ manhattan a p := by
  unfold manhattan
  rw [Int.abs_eq_natAbs, Int.abs_eq_natAbs]
  cases dir <;> simp only [aheadOf] at h <;> omega

theorem attack_eq (g : Game) (a t : RobotId) :
    (attack g a t).1 =
      if manhattan (g.robot a).position (g.robot t).position ≤
          (if (g.robot a).type = RobotType.Sniper then 3 else 1) ∧
          hasLineOfSight g (g.robot a).position (g.robot t).position = true then
        g.setRobot t ((g.robot t).setHealth (max 0 ((g.robot t).health -
          (if a = RobotId.ai then scaleByModifier (g.robot a).attackDamage g.aiDamageModifier
           else (g.robot a).attackDamage))))
      else g := by
  unfold attack manhattan
  dsimp only
  split_ifs <;> rfl

/-- The normal attack, seen from the target, when the attacker is not the AI
robot: the target loses the attacker's damage exactly when the specification's
hit condition holds. -/
theorem normalAttack_target (g : Game) (a t : RobotId)
    (hai : a ≠ RobotId.ai) (hpa : isValidPosition g (g.robot a).position = true)
    (hpt : standsOnFloor g t) :
    (canHit g (g.robot a) (g.robot t) →
      (normalAttack g a t).robot t =
        (g.robot t).setHealth (max 0 ((g.robot t).health - (g.robot a).attackDamage))) ∧
    (¬ canHit g (g.robot a) (g.robot t) → (normalAttack g a t).robot t = g.robot t) := by
  have hatk : hasLineOfSight g (g.robot a).position (g.robot t).position = true →
      facesTarget (g.robot a) (g.robot t) = true →
      (canHit g (g.robot a) (g.robot t) → (attack g a t).1.robot t =
        (g.robot t).setHealth (max 0 ((g.robot t).health - (g.robot a).attackDamage))) ∧
      (¬ canHit g (g.robot a) (g.robot t) → (attack g a t).1.robot t = g.robot t) := by
    intro hlos hf
    rw [canHit_iff, attack_eq]
    by_cases hd : manhattan (g.robot a).position (g.robot t).position ≤
        (if (g.robot a).type = RobotType.Sniper then 3 else 1)
    · have hcond : manhattan (g.robot a).position (g.robot t).position ≤
          (if (g.robot a).type = RobotType.Sniper then 3 else 1) ∧
          hasLineOfSight g (g.robot a).position (g.robot t).position = true := ⟨hd, hlos⟩
      rw [if_pos hcond, if_neg hai]
      refine ⟨fun _ => Game.robot_setRobot_same _ _ _, fun h => ?_⟩
      exact (h ⟨hlos, hf, hd⟩).elim
    · have hcond : ¬ (manhattan (g.robot a).position (g.robot t).position ≤
          (if (g.robot a).type = RobotType.Sniper then 3 else 1) ∧
          hasLineOfSight g (g.robot a).position (g.robot t).position = true) :=
        fun h => hd h.1
      rw [if_neg hcond]
      exact ⟨fun h => (hd h.2.2).elim, fun _ => rfl⟩
  unfold normalAttack
  dsimp only
  constructor
  · intro hc
    have hc1 := hc
    rw [canHit_iff] at hc1
    obtain ⟨hlos, hf, hd⟩ := hc1
    have hscan : normalScan g (g.robot a).position (g.robot a).direction (g.robot t).position
        (if (g.robot a).type = RobotType.Sniper then (3 : Int) else 1).toNat 1
        (g.robot a).position = (g.robot t).position := by
      apply normalScan_hits g _ _ _ hpa hpt.1 hc.1 hc.2.2 hpt.2
      · omega
      · exact aheadOf_manhattan_pos hc.1
      · split_ifs at hd ⊢ <;> omega
    have hn1 : ¬ ((isValidPosition g (g.robot t).position &&
        decide (g.arena (g.robot t).position.y (g.robot t).position.x = CellType.Wall))
        = true) := by
      rw [Bool.and_eq_true, decide_eq_true_eq]; exact fun h => hpt.2 h.2
    have hp2 : (hasLineOfSight g (g.robot a).position (g.robot t).position &&
        facesTarget (g.robot a) (g.robot t)) = true := by
      rw [hlos, hf]; rfl
    rw [hscan, if_neg hn1, if_pos hp2]
    exact (hatk hlos hf).1 hc
  · intro hc
    generalize normalScan g (g.robot a).position (g.robot a).direction (g.robot t).position
      (if (g.robot a).type = RobotType.Sniper then (3 : Int) else 1).toNat 1
      (g.robot a).position = hitPos
    by_cases h1 : (isValidPosition g hitPos &&
        decide (g.arena hitPos.y hitPos.x = CellType.Wall)) = true
    · rw [if_pos h1]; exact attackWall_robot _ _ _ _
    · rw [if_neg h1]
      by_cases h2 : (hasLineOfSight g (g.robot a).position (g.robot t).position &&
          facesTarget (g.robot a) (g.robot t)) = true
      · rw [if_pos h2]
        rw [Bool.and_eq_true] at h2
        exact (hatk h2.1 h2.2).2 hc
      · rw [if_neg h2]

theorem attackCommand_none_target (g : Game) (a t : RobotId) (hta : t ≠ a)
    (hp : (g.robot a).currentPowerUp = RobotPowerUp.None) :
    (attackCommand g a t).robot t = (normalAttack g a t).robot t := by
  rw [attackCommand_none g a t hp, Game.robot_setRobot_ne _ _ _ _ hta]

theorem executeFor_attack_health {g : Game} {a t : RobotId} (ht : TurnOf g a t)
    (id : RobotId) :
    ((executeFor g a t Command.Attack).robot id).health =
      ((attackCommand g a t).robot id).health := by
  have htm := attackCommand_turn g a t
  have ht1 : TurnOf (attackCommand g a t) a t := ht.congr htm.1 htm.2
  obtain ⟨_, fo, ft, _⟩ := finishCommand_frame ht1
  show ((finishCommand (attackCommand g a t) a).robot id).health = _
  by_cases e : id = t
  · subst e
    rcases ft with ft | ft <;> rw [ft] <;> rfl
  · rw [fo id e]

/-- C1: in a reachable state, when a human-controlled robot that holds no
power-up attacks through `executeCommand`, the opposing robot's health becomes
max(0, health - attackDamage) if the opponent is in the attacker's row or
column strictly on the side the attacker faces, at Manhattan distance at most
the archetype's range (Sniper 3, Scout and Tank 1), with no wall strictly
between them; in every other case the opponent's health is unchanged. -/
theorem C1_normal_attack (g : Game) (active target : RobotId) (hr : Reachable g)
    (hact : activeHuman g = some (active, target))
    (hp : (g.robot active).currentPowerUp = RobotPowerUp.None) :
    (canHit g (g.robot active) (g.robot target) →
      ((executeCommand g Command.Attack).robot target).health =
        max 0 ((g.robot target).health - (g.robot active).attackDamage)) ∧
    (¬ canHit g (g.robot active) (g.robot target) →
      ((executeCommand g Command.Attack).robot target).health = (g.robot target).health) := by
  have ht := activeHuman_turnOf hact
  have hi := hr.inv
  have hai : active ≠ RobotId.ai := by
    rcases activeHuman_cases g active target hact with ⟨_, h, _⟩ | ⟨_, _, h, _⟩ <;>
      rw [h] <;> decide
  have floor : ∀ id, id = RobotId.player ∨ id = g.opponent → standsOnFloor g id := by
    intro id h
    rcases h with rfl | rfl
    · exact hi.grounded.playerPos
    · exact hi.grounded.opponentPos
  have hpa : standsOnFloor g active := by
    rcases ht.participants with h | h
    · exact floor _ (Or.inl h.1)
    · exact floor _ (Or.inr h.1)
  have hpt : standsOnFloor g target := by
    rcases ht.participants with h | h
    · exact floor _ (Or.inr h.2)
    · exact floor _ (Or.inl h.2)
  obtain ⟨h1, h2⟩ := normalAttack_target g active target hai hpa.1 hpt
  rw [executeCommand_of_active g _ active target hact, executeFor_attack_health ht,
    attackCommand_none_target g active target ht.ne hp]
  exact ⟨fun hc => by rw [h1 hc]; rfl, fun hc => by rw [h2 hc]⟩

theorem exampleSkirmish_reachable : Reachable exampleSkirmish :=
  Reachable.initMulti exampleStart RobotType.Scout RobotType.Tank MapType.Open
    exampleOpenDraws exampleSkirmish exampleStart_reachable (eq_some_getD _ _ (by decide))

/-- Witness for C1 (Scenarios A and B): the adjacent, facing Scout takes the
150-health Tank to 135; the Sniper at distance 3 with a clear line takes the
70-health Scout to 35. -/
theorem C1_normal_attack_witness :
    (Reachable exampleScoutFacesTank ∧
      activeHuman exampleScoutFacesTank = some (RobotId.player, RobotId.player2) ∧
      (exampleScoutFacesTank.robot RobotId.player).currentPowerUp = RobotPowerUp.None ∧
      canHit exampleScoutFacesTank (exampleScoutFacesTank.robot RobotId.player)
        (exampleScoutFacesTank.robot RobotId.player2) ∧
      (exampleScoutFacesTank.robot RobotId.player2).health = 150 ∧
      ((executeCommand exampleScoutFacesTank Command.Attack).robot RobotId.player2).health
        = 135) ∧
    (Reachable exampleSniperFacesScout ∧
      manhattan (exampleSniperFacesScout.robot RobotId.player).position
        (exampleSniperFacesScout.robot RobotId.player2).position = 3 ∧
      canHit exampleSniperFacesScout (exampleSniperFacesScout.robot RobotId.player)
        (exampleSniperFacesScout.robot RobotId.player2) ∧
      (exampleSniperFacesScout.robot RobotId.player2).health = 70 ∧
      ((executeCommand exampleSniperFacesScout Command.Attack).robot RobotId.player2).health
        = 35) :=
  have hrA : Reachable exampleScoutFacesTank :=
    runCommands_reachable _ _ exampleSkirmish_reachable
  have hcA : canHit exampleScoutFacesTank (exampleScoutFacesTank.robot RobotId.player)
      (exampleScoutFacesTank.robot RobotId.player2) :=
    (canHit_iff _ _ _).2 ⟨by decide, by decide, by decide⟩
  have hrB : Reachable exampleSniperFacesScout :=
    runCommands_reachable _ _ exampleDuel_reachable
  have hcB : canHit exampleSniperFacesScout (exampleSniperFacesScout.robot RobotId.player)
      (exampleSniperFacesScout.robot RobotId.player2) :=
    (canHit_iff _ _ _).2 ⟨by decide, by decide, by decide⟩
  ⟨⟨hrA, by decide, by decide, hcA, by decide,
      (C1_normal_attack exampleScoutFacesTank RobotId.player RobotId.player2 hrA (by decide)
        (by decide)).1 hcA⟩,
    ⟨hrB, by decide, hcB, by decide,
      (C1_normal_attack exampleSniperFacesScout RobotId.player RobotId.player2 hrB (by decide)
        (by decide)).1 hcB⟩⟩

/-! ## Power-up damage on a set of cells -/

theorem attackWall_arena (g : Game) (p : QPoint) (d : Int)
    (hv : isValidPosition g p = true) (y x : Int) :
    (attackWall g p d).1.arena y x =
      if (y = p.y ∧ x = p.x) ∧ g.arena y x = CellType.Wall ∧ g.wallHealth y x - d ≤ 0
      then CellType.Empty else g.arena y x := by
  unfold attackWall
  dsimp only
  by_cases hw : g.arena p.y p.x = CellType.Wall
  · rw [if_neg (by simp [hv, hw])]
    simp only [Game.setWallHealth, Game.setCell, and_self, if_true]
    by_cases hd : g.wallHealth p.y p.x - d ≤ 0
    · rw [if_pos hd]
      by_cases hyx : y = p.y ∧ x = p.x
      · obtain ⟨rfl, rfl⟩ := hyx
        simp [hw, hd]
      · simp [hyx]
    · rw [if_neg hd]
      by_cases hyx : y = p.y ∧ x = p.x
      · obtain ⟨rfl, rfl⟩ := hyx
        simp [hw, hd]
      · simp [hyx]
  · rw [if_pos (by simp [hv, hw])]
    by_cases hyx : y = p.y ∧ x = p.x
    · obtain ⟨rfl, rfl⟩ := hyx
      simp [hw]
    · simp [hyx]

theorem attackWall_wallHealth (g : Game) (p : QPoint) (d : Int)
    (hv : isValidPosition g p = true) (y x : Int) :
    (attackWall g p d).1.wallHealth y x =
      if (y = p.y ∧ x = p.x) ∧ g.arena y x = CellType.Wall
      then max 0 (g.wallHealth y x - d) else g.wallHealth y x := by
  unfold attackWall
  dsimp only
  by_cases hw : g.arena p.y p.x = CellType.Wall
  · rw [if_neg (by simp [hv, hw])]
    simp only [Game.setWallHealth, Game.setCell, and_self, if_true]
    by_cases hd : g.wallHealth p.y p.x - d ≤ 0
    · rw [if_pos hd]
      by_cases hyx : y = p.y ∧ x = p.x
      · obtain ⟨rfl, rfl⟩ := hyx
        simp [hw, hd]
      · simp [hyx]
    · rw [if_neg hd]
      by_cases hyx : y = p.y ∧ x = p.x
      · obtain ⟨rfl, rfl⟩ := hyx
        simp [hw]; omega
      · simp [hyx]
  · rw [if_pos (by simp [hv, hw])]
    by_cases hyx : y = p.y ∧ x = p.x
    · obtain ⟨rfl, rfl⟩ := hyx
      simp [hw]
    · simp [hyx]

theorem powerUpDamageAt_arena (g : Game) (p : QPoint) (d : Int)
    (hv : isValidPosition g p = true) (y x : Int) :
    (powerUpDamageAt g p d).arena y x =
      if (y = p.y ∧ x = p.x) ∧ g.arena y x = CellType.Wall ∧ g.wallHealth y x - d ≤ 0
      then CellType.Empty else g.arena y x := by
  by_cases hw : g.arena p.y p.x = CellType.Wall
  · have e : powerUpDamageAt g p d = (attackWall g p d).1 := by
      unfold powerUpDamageAt; rw [if_pos hw]
    rw [e]; exact attackWall_arena g p d hv y x
  · have e : (powerUpDamageAt g p d).arena = g.arena := by
      unfold powerUpDamageAt
      rw [if_neg hw]
      dsimp only
      split_ifs <;> rfl
    rw [e, if_neg]
    rintro ⟨⟨rfl, rfl⟩, h, _⟩
    exact hw h

theorem powerUpDamageAt_wallHealth (g : Game) (p : QPoint) (d : Int)
    (hv : isValidPosition g p = true) (y x : Int) :
    (powerUpDamageAt g p d).wallHealth y x =
      if (y = p.y ∧ x = p.x) ∧ g.arena y x = CellType.Wall
      then max 0 (g.wallHealth y x - d) else g.wallHealth y x := by
  by_cases hw : g.arena p.y p.x = CellType.Wall
  · have e : powerUpDamageAt g p d = (attackWall g p d).1 := by
      unfold powerUpDamageAt; rw [if_pos hw]
    rw [e]; exact attackWall_wallHealth g p d hv y x
  · have e : (powerUpDamageAt g p d).wallHealth = g.wallHealth := by
      unfold powerUpDamageAt
      rw [if_neg hw]
      dsimp only
      split_ifs <;> rfl
    rw [e, if_neg]
    rintro ⟨⟨rfl, rfl⟩, h⟩
    exact hw h

theorem isParticipant_iff (g : Game) (id : RobotId) :
    isParticipant g id ↔ id = RobotId.player ∨
      (id = RobotId.player2 ∧ g.multiplayerMode = true) ∨
      (id = RobotId.ai ∧ g.multiplayerMode = false) := by
  unfold isParticipant Game.opponent
  cases hm : g.multiplayerMode <;> cases id <;> simp

/-- Health after `powerUpDamageAt`: a participating robot standing on the
cell, when the cell is not a wall, loses the power-up damage; every other
robot keeps its health. -/
theorem powerUpDamageAt_health (g : Game) (p : QPoint) (d : Int) (id : RobotId) :
    ((powerUpDamageAt g p d).robot id).health =
      if g.arena p.y p.x ≠ CellType.Wall ∧ p = (g.robot id).position ∧ isParticipant g id
      then max 0 ((g.robot id).health - powerUpDamageTo g id d) else (g.robot id).health := by
  by_cases hw : g.arena p.y p.x = CellType.Wall
  · have e : powerUpDamageAt g p d = (attackWall g p d).1 := by
      unfold powerUpDamageAt; rw [if_pos hw]
    rw [e, attackWall_robot, if_neg (fun h => h.1 hw)]
  · unfold powerUpDamageAt
    rw [if_neg hw]
    dsimp only
    cases hm : g.multiplayerMode <;> cases id <;>
      simp [hw, hm, isParticipant_iff, powerUpDamageTo] <;>
      split_ifs <;> simp_all

theorem blastStep_damageOnly (d : Int) (g : Game) (p : QPoint) :
    DamageOnly g (blastStep d g p) := by
  unfold blastStep
  split_ifs
  · exact DamageOnly.dmgRefl g
  · exact powerUpDamageAt_damageOnly g p d

theorem DamageOnly.participant {g g1 : Game} (h : DamageOnly g g1) (id : RobotId) :
    isParticipant g1 id ↔ isParticipant g id := by
  unfold isParticipant
  rw [Game.opponent_congr h.multiplayerMode]

theorem DamageOnly.damageTo {g g1 : Game} (h : DamageOnly g g1) (id : RobotId) (d : Int) :
    powerUpDamageTo g1 id d = powerUpDamageTo g id d := by
  unfold powerUpDamageTo
  rw [h.multiplayerMode, h.aiDamageModifier]

theorem DamageOnly.position {g g1 : Game} (h : DamageOnly g g1) (id : RobotId) :
    (g1.robot id).position = (g.robot id).position := by
  rw [h.robot id]; rfl

theorem blastStep_arena (d : Int) (g : Game) (p : QPoint) (y x : Int) :
    (blastStep d g p).arena y x =
      if (y = p.y ∧ x = p.x) ∧ isValidPosition g p = true ∧ g.arena y x = CellType.Wall ∧
        g.wallHealth y x - d ≤ 0
      then CellType.Empty else g.arena y x := by
  unfold blastStep
  by_cases hv : isValidPosition g p = true
  · rw [if_neg (by simp [hv]), powerUpDamageAt_arena g p d hv]
    simp only [hv, true_and]
  · rw [if_pos (by simpa using hv), if_neg (fun h => hv h.2.1)]

theorem blastStep_wallHealth (d : Int) (g : Game) (p : QPoint) (y x : Int) :
    (blastStep d g p).wallHealth y x =
      if (y = p.y ∧ x = p.x) ∧ isValidPosition g p = true ∧ g.arena y x = CellType.Wall
      then max 0 (g.wallHealth y x - d) else g.wallHealth y x := by
  unfold blastStep
  by_cases hv : isValidPosition g p = true
  · rw [if_neg (by simp [hv]), powerUpDamageAt_wallHealth g p d hv]
    simp only [hv, true_and]
  · rw [if_pos (by simpa using hv), if_neg (fun h => hv h.2.1)]

theorem blastStep_health (d : Int) (g : Game) (p : QPoint) (id : RobotId) :
    ((blastStep d g p).robot id).health =
      if p = (g.robot id).position ∧ isValidPosition g p = true ∧
        g.arena p.y p.x ≠ CellType.Wall ∧ isParticipant g id
      then max 0 ((g.robot id).health - powerUpDamageTo g id d) else (g.robot id).health := by
  unfold blastStep
  by_cases hv : isValidPosition g p = true
  · rw [if_neg (by simp [hv]), powerUpDamageAt_health g p d id]
    by_cases hc : g.arena p.y p.x ≠ CellType.Wall ∧ p = (g.robot id).position ∧
        isParticipant g id
    · rw [if_pos hc, if_pos ⟨hc.2.1, hv, hc.1, hc.2.2⟩]
    · rw [if_neg hc, if_neg (fun h => hc ⟨h.2.2.1, h.1, h.2.2.2⟩)]
  · rw [if_pos (by simpa using hv), if_neg (fun h => hv h.2.1)]

theorem blast_cons (d : Int) (g : Game) (p : QPoint) (ps : List QPoint) :
    blast d g (p :: ps) = blast d (blastStep d g p) ps := rfl

theorem blast_damageOnly (d : Int) (ps : List QPoint) :
    ∀ g : Game, DamageOnly g (blast d g ps) := by
  induction ps with
  | nil => intro g; exact DamageOnly.dmgRefl g
  | cons p ps ih => intro g; exact (blastStep_damageOnly d g p).dmgTrans (ih _)

/-- Arena after a sweep over distinct cells: a swept wall whose hit-points do
not exceed the damage becomes `Empty`; nothing else changes. -/
theorem blast_arena (d : Int) (ps : List QPoint) :
    ∀ (g : Game), ps.Nodup → ∀ (y x : Int),
      (blast d g ps).arena y x =
        if (⟨x, y⟩ : QPoint) ∈ ps ∧ isValidPosition g ⟨x, y⟩ = true ∧
          g.arena y x = CellType.Wall ∧ g.wallHealth y x - d ≤ 0
        then CellType.Empty else g.arena y x := by
  induction ps with
  | nil => intro g _ y x; simp [blast]
  | cons p ps ih =>
    intro g hnd y x
    rw [List.nodup_cons] at hnd
    rw [blast_cons, ih _ hnd.2, isValidPosition_congr (blastStep_damageOnly d g p).gridSize,
      blastStep_arena, blastStep_wallHealth]
    by_cases hp : (⟨x, y⟩ : QPoint) = p
    · subst hp
      simp only [hnd.1, false_and, if_false, and_self, true_and, List.mem_cons, true_or]
    · have hyx : ¬ (y = p.y ∧ x = p.x) := by
        rintro ⟨rfl, rfl⟩; exact hp rfl
      simp only [hyx, false_and, if_false, List.mem_cons, hp, false_or]

/-- Wall hit-points after a sweep over distinct cells. -/
theorem blast_wallHealth (d : Int) (ps : List QPoint) :
    ∀ (g : Game), ps.Nodup → ∀ (y x : Int),
      (blast d g ps).wallHealth y x =
        if (⟨x, y⟩ : QPoint) ∈ ps ∧ isValidPosition g ⟨x, y⟩ = true ∧
          g.arena y x = CellType.Wall
        then max 0 (g.wallHealth y x - d) else g.wallHealth y x := by
  induction ps with
  | nil => intro g _ y x; simp [blast]
  | cons p ps ih =>
    intro g hnd y x
    rw [List.nodup_cons] at hnd
    rw [blast_cons, ih _ hnd.2, isValidPosition_congr (blastStep_damageOnly d g p).gridSize,
      blastStep_arena, blastStep_wallHealth]
    by_cases hp : (⟨x, y⟩ : QPoint) = p
    · subst hp
      simp only [hnd.1, false_and, if_false, and_self, true_and, List.mem_cons, true_or]
    · have hyx : ¬ (y = p.y ∧ x = p.x) := by
        rintro ⟨rfl, rfl⟩; exact hp rfl
      simp only [hyx, false_and, if_false, List.mem_cons, hp, false_or]

/-- Health after a sweep over distinct cells: a participating robot standing
on a swept cell of the grid that is not a wall loses the power-up damage once;
every other robot keeps its health. -/
theorem blast_health (d : Int) (ps : List QPoint) :
    ∀ (g : Game), ps.Nodup → ∀ (id : RobotId),
      ((blast d g ps).robot id).health =
        if (g.robot id).position ∈ ps ∧ isValidPosition g (g.robot id).position = true ∧
          g.arena (g.robot id).position.y (g.robot id).position.x ≠ CellType.Wall ∧
          isParticipant g id
        then max 0 ((g.robot id).health - powerUpDamageTo g id d) else (g.robot id).health := by
  induction ps with
  | nil => intro g _ id; simp [blast]
  | cons p ps ih =>
    intro g hnd id
    rw [List.nodup_cons] at hnd
    have hd := blastStep_damageOnly d g p
    rw [blast_cons, ih _ hnd.2, hd.position id, isValidPosition_congr hd.gridSize,
      hd.damageTo id d, blastStep_arena, blastStep_health]
    simp only [hd.participant id]
    by_cases hp : (g.robot id).position = p
    · subst hp
      simp only [hnd.1, false_and, if_false, true_and, List.mem_cons, true_or]
    · have hp1 : ¬ p = (g.robot id).position := fun h => hp h.symm
      have hyx : ¬ ((g.robot id).position.y = p.y ∧ (g.robot id).position.x = p.x) := by
        intro h; apply hp
        cases hq : (g.robot id).position; cases p
        rw [hq] at h; simp only at h
        rw [h.1, h.2]
      simp only [hp1, hyx, false_and, if_false, List.mem_cons, hp, false_or]

/-! ## The Laser sweep -/

theorem QPoint.eq_iff (p q : QPoint) : p = q ↔ p.x = q.x ∧ p.y = q.y := by
  constructor
  · rintro rfl; exact ⟨rfl, rfl⟩
  · intro h
    cases p; cases q
    simp only at h
    rw [h.1, h.2]

theorem laserLoop_eq_blast (dir : Direction) :
    ∀ (fuel : Nat) (g : Game) (cur : QPoint),
      laserLoop dir fuel g cur = blast 15 g (rayCells g.gridSize dir fuel cur) := by
  intro fuel
  induction fuel with
  | zero => intro g cur; rfl
  | succ n ih =>
    intro g cur
    unfold laserLoop rayCells
    dsimp only
    by_cases hv : isValidPosition g ⟨cur.x + (dirDelta dir).1, cur.y + (dirDelta dir).2⟩ = true
    · have hv1 := (isValidPosition_iff _ _).1 hv
      rw [if_neg (by simp [hv]), if_pos hv1, blast_cons, ih]
      have e : blastStep 15 g ⟨cur.x + (dirDelta dir).1, cur.y + (dirDelta dir).2⟩ =
          powerUpDamageAt g ⟨cur.x + (dirDelta dir).1, cur.y + (dirDelta dir).2⟩ 15 := by
        unfold blastStep; rw [if_neg (by simp [hv])]
      rw [e, (powerUpDamageAt_damageOnly g _ 15).gridSize]
    · have hv1 : ¬ _ := fun h => hv ((isValidPosition_iff _ _).2 h)
      rw [if_pos (by simpa using hv), if_neg hv1]
      rfl

/-- The cells of the Laser loop started on a cell of the grid: the cells of the
grid strictly ahead, up to the distance the fuel allows. -/
theorem mem_rayCells (n : Int) (dir : Direction) :
    ∀ (fuel : Nat) (cur p : QPoint),
      (0 ≤ cur.x ∧ cur.x < n ∧ 0 ≤ cur.y ∧ cur.y < n) →
      (p ∈ rayCells n dir fuel cur ↔
        (0 ≤ p.x ∧ p.x < n ∧ 0 ≤ p.y ∧ p.y < n) ∧ aheadOf cur dir p ∧
          ((p.x - cur.x).natAbs : Int) + (p.y - cur.y).natAbs ≤ fuel) := by
  intro fuel
  induction fuel with
  | zero =>
    intro cur p _
    simp only [rayCells, List.not_mem_nil, false_iff, not_and]
    intro _ hah
    cases dir <;> simp only [aheadOf] at hah <;> omega
  | succ k ih =>
    intro cur p hc
    unfold rayCells
    dsimp only
    by_cases hv : 0 ≤ cur.x + (dirDelta dir).1 ∧ cur.x + (dirDelta dir).1 < n ∧
        0 ≤ cur.y + (dirDelta dir).2 ∧ cur.y + (dirDelta dir).2 < n
    · rw [if_pos hv, List.mem_cons, ih _ _ hv, QPoint.eq_iff]
      cases dir <;> simp only [aheadOf, dirDelta] at hv ⊢ <;> omega
    · rw [if_neg hv]
      simp only [List.not_mem_nil, false_iff, not_and]
      intro hp hah
      cases dir <;> simp only [aheadOf, dirDelta] at hv hah ⊢ <;> omega

theorem rayCells_nodup (n : Int) (dir : Direction) :
    ∀ (fuel : Nat) (cur : QPoint),
      (0 ≤ cur.x ∧ cur.x < n ∧ 0 ≤ cur.y ∧ cur.y < n) → (rayCells n dir fuel cur).Nodup := by
  intro fuel
  induction fuel with
  | zero => intro cur _; exact List.nodup_nil
  | succ k ih =>
    intro cur hc
    unfold rayCells
    dsimp only
    by_cases hv : 0 ≤ cur.x + (dirDelta dir).1 ∧ cur.x + (dirDelta dir).1 < n ∧
        0 ≤ cur.y + (dirDelta dir).2 ∧ cur.y + (dirDelta dir).2 < n
    · rw [if_pos hv, List.nodup_cons]
      refine ⟨?_, ih _ hv⟩
      rw [mem_rayCells n dir k _ _ hv]
      rintro ⟨_, hah, _⟩
      cases dir <;> simp only [aheadOf] at hah <;> omega
    · rw [if_neg hv]; exact List.nodup_nil

/-- A cell of the grid on the ray of a robot: strictly ahead of it on its row
or column. With the fuel of the engine the Laser loop visits exactly these. -/
theorem mem_rayCells_full (g : Game) (dir : Direction) (cur p : QPoint)
    (hc : isValidPosition g cur = true) :
    p ∈ rayCells g.gridSize dir (rayFuel g) cur ↔
      isValidPosition g p = true ∧ aheadOf cur dir p := by
  rw [isValidPosition_iff] at hc
  rw [mem_rayCells g.gridSize dir _ _ _ hc, isValidPosition_iff]
  unfold rayFuel
  constructor
  · rintro ⟨h1, h2, _⟩; exact ⟨h1, h2⟩
  · rintro ⟨h1, h2⟩
    refine ⟨h1, h2, ?_⟩
    cases dir <;> simp only [aheadOf] at h2 <;> omega

/-! ## Difficulty settings are never changed by a command -/

theorem SameSettings.rfl_settings (g : Game) : SameSettings g g := ⟨rfl, rfl, rfl⟩

theorem SameSettings.then {g g1 g2 : Game} (h1 : SameSettings g g1) (h2 : SameSettings g1 g2) :
    SameSettings g g2 :=
  ⟨h2.1.trans h1.1, h2.2.1.trans h1.2.1, h2.2.2.trans h1.2.2⟩

theorem setRobot_settings (g : Game) (id : RobotId) (r : Robot) :
    SameSettings g (g.setRobot id r) := by
  cases id <;> exact ⟨rfl, rfl, rfl⟩

theorem DamageOnly.settings {g g1 : Game} (h : DamageOnly g g1) : SameSettings g g1 :=
  ⟨h.difficulty, h.aiDamageModifier, h.aiHealthModifier⟩

theorem finishCommand_settings (g : Game) (a : RobotId) : SameSettings g (finishCommand g a) := by
  have hc : SameSettings g (checkGameOver g) := by
    rcases checkGameOver_eq g with h | h <;> rw [h] <;> exact ⟨rfl, rfl, rfl⟩
  have hs : ∀ g0 : Game, SameSettings g0 (switchTurn g0) := by
    intro g0; unfold switchTurn; split_ifs <;> exact ⟨rfl, rfl, rfl⟩
  unfold finishCommand
  dsimp only
  split_ifs
  · exact hc.then (hs _)
  · exact hc
  · exact SameSettings.rfl_settings g

theorem moveForwardCommand_settings (g : Game) (a : RobotId) :
    SameSettings g (moveForwardCommand g a).1 := by
  by_cases hv : isValidMove g (stepFrom (g.robot a).position (g.robot a).direction 1) = true
  · obtain ⟨_, hc⟩ := moveForwardCommand_eq g a hv
    exact (setRobot_settings g a _).then ⟨hc.difficulty, hc.aiDamageModifier, hc.aiHealthModifier⟩
  · unfold moveForwardCommand
    dsimp only
    rw [if_neg hv]
    exact SameSettings.rfl_settings g

theorem attackCommand_settings (g : Game) (a t : RobotId) :
    SameSettings g (attackCommand g a t) := by
  obtain ⟨gd, hd, h | h⟩ := attackCommand_eq g a t <;> rw [h] <;>
    exact hd.settings.then (setRobot_settings gd a _)

theorem executeFor_settings (g : Game) (a t : RobotId) (cmd : Command) :
    SameSettings g (executeFor g a t cmd) := by
  unfold executeFor
  cases cmd
  · dsimp only
    split_ifs
    · exact (moveForwardCommand_settings g a).then (finishCommand_settings _ a)
    · exact SameSettings.rfl_settings g
  · exact (setRobot_settings g a _).then (finishCommand_settings _ a)
  · exact (setRobot_settings g a _).then (finishCommand_settings _ a)
  · exact (attackCommand_settings g a t).then (finishCommand_settings _ a)
  · rcases checkGameOver_eq g with h | h <;> rw [h] <;> exact ⟨rfl, rfl, rfl⟩

theorem executeCommand_settings (g : Game) (cmd : Command) :
    SameSettings g (executeCommand g cmd) := by
  cases h : activeHuman g with
  | none => rw [executeCommand_of_inactive g cmd h]; exact SameSettings.rfl_settings g
  | some at1 =>
    rw [executeCommand_of_active g cmd at1.1 at1.2 h]
    exact executeFor_settings g _ _ cmd

theorem executeAiTurn_settings (g : Game) (aiMove : Command) :
    SameSettings g (executeAiTurn g aiMove) := by
  by_cases h1 : g.state = GameState.AiTurn
  · by_cases h2 : 0 < g.aiRobot.movesLeft
    · by_cases hc : aiMove = Command.None
      · subst hc
        unfold executeAiTurn
        rw [if_neg (by simpa using h1), if_pos (by simpa using h2)]
        exact SameSettings.rfl_settings g
      · rw [executeAiTurn_eq g aiMove h1 h2 hc]
        exact executeFor_settings g _ _ aiMove
    · unfold executeAiTurn
      rw [if_neg (by simpa using h1), if_neg (by simpa using h2)]
      exact SameSettings.rfl_settings g
  · unfold executeAiTurn
    rw [if_pos (by simpa using h1)]
    exact SameSettings.rfl_settings g

theorem Calibrated.of_settings {g g1 : Game} (hc : Calibrated g) (h : SameSettings g g1) :
    Calibrated g1 := by
  unfold Calibrated at hc ⊢
  rw [h.1, h.2.1, h.2.2]; exact hc

theorem initializeArena_calibrated (g : Game) (pt aiT : RobotType) (diff : GameDifficulty)
    (map : MapType) (rng : List Nat) (g1 : Game)
    (h : initializeArena g pt aiT diff map rng = some g1) : Calibrated g1 := by
  obtain ⟨-, -, -, hd, -, -, -, -, h1, h2, -, -⟩ := initializeArena_spec g pt aiT diff map rng g1 h
  unfold Calibrated
  rw [h1, h2, hd]
  cases diff <;> exact ⟨rfl, rfl⟩

/-- In every reachable state the AI multipliers are those of the difficulty. -/
theorem Reachable.calibrated {g : Game} (h : Reachable g) : Calibrated g := by
  induction h with
  | construct size rng g _ hnew => exact initializeArena_calibrated _ _ _ _ _ rng g hnew
  | init g0 pt aiT diff map rng g _ hinit _ =>
    exact initializeArena_calibrated g0 pt aiT diff map rng g hinit
  | initMulti g0 t1 t2 map rng g _ hinit ih =>
    obtain ⟨-, -, -, hd, -, -, -, -, h1, h2, -, -⟩ :=
      initializeMultiplayerArena_spec g0 t1 t2 map rng g hinit
    exact ih.of_settings ⟨hd, h1, h2⟩
  | command g cmd _ ih => exact ih.of_settings (executeCommand_settings g cmd)
  | aiTurn g aiMove _ ih => exact ih.of_settings (executeAiTurn_settings g aiMove)

/-- In multiplayer mode, and at Medium difficulty in a calibrated state, a
power-up takes its base damage from every robot. -/
theorem powerUpDamageTo_base {g : Game} (hc : Calibrated g) (id : RobotId) (base : Int)
    (h : g.multiplayerMode = true ∨ g.difficulty = GameDifficulty.Medium) :
    powerUpDamageTo g id base = base := by
  unfold powerUpDamageTo
  rcases h with h | h
  · rw [if_neg (by simp [h])]
  · split_ifs
    · unfold scaleByModifier
      rw [hc.1, h]
      show base * 10 / 10 = base
      omega
    · rfl

/-! ## What a power-up shot leaves of the damage it dealt -/

/-- Clearing the power-up and using a move touch neither arena, wall
hit-points nor any robot's health. -/
theorem afterShot_view (gd : Game) (a : RobotId) :
    (gd.setRobot a ((gd.robot a).setPowerUp RobotPowerUp.None).useMove).arena = gd.arena ∧
    (gd.setRobot a ((gd.robot a).setPowerUp RobotPowerUp.None).useMove).wallHealth
      = gd.wallHealth ∧
    ∀ id, ((gd.setRobot a ((gd.robot a).setPowerUp RobotPowerUp.None).useMove).robot id).health
      = (gd.robot id).health := by
  refine ⟨by cases a <;> rfl, by cases a <;> rfl, ?_⟩
  intro id
  by_cases e : id = a
  · subst e
    rw [Game.robot_setRobot_same, Robot.useMove_eq]; rfl
  · rw [Game.robot_setRobot_ne _ _ _ _ e]

/-- The tail of an `Attack` touches neither arena, wall hit-points nor any
robot's health. -/
theorem executeFor_attack_view {g : Game} {a t : RobotId} (ht : TurnOf g a t) :
    (executeFor g a t Command.Attack).arena = (attackCommand g a t).arena ∧
    (executeFor g a t Command.Attack).wallHealth = (attackCommand g a t).wallHealth ∧
    ∀ id, ((executeFor g a t Command.Attack).robot id).health =
      ((attackCommand g a t).robot id).health := by
  have htm := attackCommand_turn g a t
  have ht1 : TurnOf (attackCommand g a t) a t := ht.congr htm.1 htm.2
  obtain ⟨_, _, _, f4, f5, _⟩ := finishCommand_frame ht1
  exact ⟨f4, f5, executeFor_attack_health ht⟩

/-- The state a Laser shot leaves, as far as arena, wall hit-points and health
are concerned, is the sweep of damage 15 over the cells of the ray. -/
theorem engineStep_laser_view {g : Game} (hi : Inv g) {a t : RobotId} (ht : TurnOf g a t)
    (hp : (g.robot a).currentPowerUp = RobotPowerUp.Laser) :
    (engineStep g Command.Attack).arena =
      (blast 15 g (rayCells g.gridSize (g.robot a).direction (rayFuel g)
        (g.robot a).position)).arena ∧
    (engineStep g Command.Attack).wallHealth =
      (blast 15 g (rayCells g.gridSize (g.robot a).direction (rayFuel g)
        (g.robot a).position)).wallHealth ∧
    ∀ id, ((engineStep g Command.Attack).robot id).health =
      ((blast 15 g (rayCells g.gridSize (g.robot a).direction (rayFuel g)
        (g.robot a).position)).robot id).health := by
  rw [engineStep_eq hi ht _ (by decide)]
  obtain ⟨h1, h2, h3⟩ := executeFor_attack_view ht
  rw [h1, h2, attackCommand_laser g a t hp, laserLoop_eq_blast]
  obtain ⟨v1, v2, v3⟩ := afterShot_view
    (blast 15 g (rayCells g.gridSize (g.robot a).direction (rayFuel g) (g.robot a).position)) a
  refine ⟨v1, v2, ?_⟩
  intro id
  rw [h3, attackCommand_laser g a t hp, laserLoop_eq_blast]
  exact v3 id

theorem Inv.floor_of_turn {g : Game} (hi : Inv g) {a t : RobotId} (ht : TurnOf g a t) :
    standsOnFloor g a ∧ standsOnFloor g t := by
  rcases ht.participants with ⟨rfl, rfl⟩ | ⟨rfl, rfl⟩
  · exact ⟨hi.grounded.playerPos, hi.grounded.opponentPos⟩
  · exact ⟨hi.grounded.opponentPos, hi.grounded.playerPos⟩

theorem Inv.floor_of_participant {g : Game} (hi : Inv g) {id : RobotId}
    (h : isParticipant g id) : standsOnFloor g id := by
  rcases h with rfl | rfl
  · exact hi.grounded.playerPos
  · exact hi.grounded.opponentPos

/-- C8: when the robot whose turn it is (human or AI) fires a Laser in a
reachable state, the damage falls on exactly the cells of the grid strictly
ahead of it, all the way to the edge, without stopping at an obstacle: every
wall on the ray loses 15 hit-points (floored at 0) and becomes `Empty` when
that leaves it none; every participating robot on the ray loses health, 15
floored at 0 in multiplayer mode or at Medium difficulty (the scaled amount
for the AI robot otherwise); every other cell and every other robot is
unchanged. -/
theorem C8_laser_sweeps_whole_ray (g : Game) (active target : RobotId) (hr : Reachable g)
    (ht : TurnOf g active target)
    (hp : (g.robot active).currentPowerUp = RobotPowerUp.Laser) :
    (∀ y x, onRay g active ⟨x, y⟩ → g.arena y x = CellType.Wall →
      (engineStep g Command.Attack).wallHealth y x = max 0 (g.wallHealth y x - 15) ∧
      (engineStep g Command.Attack).arena y x =
        (if g.wallHealth y x - 15 ≤ 0 then CellType.Empty else CellType.Wall)) ∧
    (∀ y x, ¬ (onRay g active ⟨x, y⟩ ∧ g.arena y x = CellType.Wall) →
      (engineStep g Command.Attack).wallHealth y x = g.wallHealth y x ∧
      (engineStep g Command.Attack).arena y x = g.arena y x) ∧
    (∀ id, isParticipant g id → onRay g active (g.robot id).position →
      ((engineStep g Command.Attack).robot id).health =
        max 0 ((g.robot id).health - powerUpDamageTo g id 15)) ∧
    (∀ id, ¬ (isParticipant g id ∧ onRay g active (g.robot id).position) →
      ((engineStep g Command.Attack).robot id).health = (g.robot id).health) ∧
    (g.multiplayerMode = true ∨ g.difficulty = GameDifficulty.Medium →
      ∀ id, powerUpDamageTo g id 15 = 15) := by
  have hi := hr.inv
  obtain ⟨v1, v2, v3⟩ := engineStep_laser_view hi ht hp
  have hva := (hi.floor_of_turn ht).1.1
  have hnd := rayCells_nodup g.gridSize (g.robot active).direction (rayFuel g)
    (g.robot active).position ((isValidPosition_iff _ _).1 hva)
  have hmem := fun p => mem_rayCells_full g (g.robot active).direction
    (g.robot active).position p hva
  refine ⟨?_, ?_, ?_, ?_, ?_⟩
  · intro y x hray hw
    rw [v1, v2, blast_arena 15 _ g hnd, blast_wallHealth 15 _ g hnd]
    have hm := (hmem ⟨x, y⟩).2 hray
    rw [if_pos ⟨hm, hray.1, hw⟩]
    refine ⟨rfl, ?_⟩
    by_cases hd : g.wallHealth y x - 15 ≤ 0
    · rw [if_pos ⟨hm, hray.1, hw, hd⟩, if_pos hd]
    · rw [if_neg (fun h => hd h.2.2.2), if_neg hd, hw]
  · intro y x hn
    rw [v1, v2, blast_arena 15 _ g hnd, blast_wallHealth 15 _ g hnd]
    have hn1 : ¬ ((⟨x, y⟩ : QPoint) ∈ rayCells g.gridSize (g.robot active).direction
        (rayFuel g) (g.robot active).position ∧ isValidPosition g ⟨x, y⟩ = true ∧
        g.arena y x = CellType.Wall) := fun h => hn ⟨(hmem _).1 h.1, h.2.2⟩
    rw [if_neg hn1, if_neg (fun h => hn1 ⟨h.1, h.2.1, h.2.2.1⟩)]
    exact ⟨rfl, rfl⟩
  · intro id hpart hray
    rw [v3, blast_health 15 _ g hnd]
    rw [if_pos ⟨(hmem _).2 hray, hray.1, (hi.floor_of_participant hpart).2, hpart⟩]
  · intro id hn
    rw [v3, blast_health 15 _ g hnd]
    rw [if_neg (fun h => hn ⟨h.2.2.2, (hmem _).1 h.1⟩)]
  · intro h id
    exact powerUpDamageTo_base hr.calibrated id 15 h

/-! ## The scan of the Missile and Bomb loops -/

theorem bombTravel_eq_rayScan (g : Game) (dir : Direction) :
    ∀ (fuel : Nat) (cur : QPoint), bombTravel g dir fuel cur = (rayScan g dir fuel cur).1 := by
  intro fuel
  induction fuel with
  | zero => intro cur; rfl
  | succ n ih =>
    intro cur
    rw [bombTravel, rayScan]
    unfold robotAt
    dsimp only
    split_ifs <;> first | rfl | exact ih _ | simp_all

theorem missileLoop_succ (g : Game) (dir : Direction) (n : Nat) (cur : QPoint) :
    missileLoop dir (n + 1) g cur =
      if !isValidPosition g ⟨cur.x + (dirDelta dir).1, cur.y + (dirDelta dir).2⟩ then g
      else if g.arena (cur.y + (dirDelta dir).2) (cur.x + (dirDelta dir).1) = CellType.Wall ∨
          robotAt g ⟨cur.x + (dirDelta dir).1, cur.y + (dirDelta dir).2⟩ then
        missileHit g ⟨cur.x + (dirDelta dir).1, cur.y + (dirDelta dir).2⟩
      else missileLoop dir n g ⟨cur.x + (dirDelta dir).1, cur.y + (dirDelta dir).2⟩ := by
  rw [missileLoop]
  unfold robotAt missileHit
  dsimp only
  split_ifs <;> first | rfl | simp_all

theorem missileLoop_eq_rayScan (g : Game) (dir : Direction) :
    ∀ (fuel : Nat) (cur : QPoint),
      missileLoop dir fuel g cur =
        if (rayScan g dir fuel cur).2 = true then missileHit g (rayScan g dir fuel cur).1
        else g := by
  intro fuel
  induction fuel with
  | zero => intro cur; rfl
  | succ n ih =>
    intro cur
    rw [missileLoop_succ, rayScan]
    dsimp only
    split_ifs <;> first | rfl | (rw [ih]; simp_all) | simp_all

theorem nextCell_valid {g : Game} {dir : Direction} {cur q : QPoint}
    (hc : isValidPosition g cur = true) (hq : isValidPosition g q = true)
    (h : aheadOf cur dir q) : isValidPosition g (nextCell cur dir) = true := by
  rw [isValidPosition_iff] at hc hq ⊢
  cases dir <;> simp only [aheadOf, nextCell, dirDelta] at h ⊢ <;> omega

theorem aheadOf_nextCell (cur : QPoint) (dir : Direction) : aheadOf cur dir (nextCell cur dir) := by
  cases dir <;> simp only [aheadOf, nextCell, dirDelta] <;> omega

theorem aheadOf_split {dir : Direction} {cur q : QPoint} (h : aheadOf cur dir q) :
    q = nextCell cur dir ∨ aheadOf (nextCell cur dir) dir q := by
  rw [QPoint.eq_iff]
  cases dir <;> simp only [aheadOf, nextCell, dirDelta] at h ⊢ <;> omega

theorem aheadOf_of_next {dir : Direction} {cur q : QPoint}
    (h : aheadOf (nextCell cur dir) dir q) : aheadOf cur dir q := by
  cases dir <;> simp only [aheadOf, nextCell, dirDelta] at h ⊢ <;> omega

theorem aheadOf_trans {dir : Direction} {a b c : QPoint} (h1 : aheadOf a dir b)
    (h2 : aheadOf b dir c) : aheadOf a dir c := by
  cases dir <;> simp only [aheadOf] at h1 h2 ⊢ <;> omega

theorem aheadOf_irrefl (dir : Direction) (a : QPoint) : ¬ aheadOf a dir a := by
  cases dir <;> simp only [aheadOf] <;> omega

theorem not_between_next {dir : Direction} {cur q : QPoint} (h1 : aheadOf cur dir q)
    (h2 : aheadOf q dir (nextCell cur dir)) : False := by
  cases dir <;> simp only [aheadOf, nextCell, dirDelta] at h1 h2 <;> omega

theorem aheadOf_total {dir : Direction} {a p q : QPoint} (hp : aheadOf a dir p)
    (hq : aheadOf a dir q) : q = p ∨ aheadOf q dir p ∨ aheadOf p dir q := by
  rw [QPoint.eq_iff]
  cases dir <;> simp only [aheadOf] at hp hq ⊢ <;> omega

theorem between_valid {g : Game} {dir : Direction} {a q p : QPoint}
    (ha : isValidPosition g a = true) (hp : isValidPosition g p = true)
    (h1 : aheadOf a dir q) (h2 : aheadOf q dir p) : isValidPosition g q = true := by
  rw [isValidPosition_iff] at ha hp ⊢
  cases dir <;> simp only [aheadOf] at h1 h2 <;> omega

theorem rayDist_next {dir : Direction} {cur q : QPoint}
    (h : aheadOf (nextCell cur dir) dir q) :
    ((q.x - (nextCell cur dir).x).natAbs : Int) + (q.y - (nextCell cur dir).y).natAbs + 1 =
      ((q.x - cur.x).natAbs : Int) + (q.y - cur.y).natAbs := by
  cases dir <;> simp only [aheadOf, nextCell, dirDelta] at h ⊢ <;> omega

theorem rayDist_bound {g : Game} {dir : Direction} {cur q : QPoint}
    (hc : isValidPosition g cur = true) (hq : isValidPosition g q = true)
    (h : aheadOf cur dir q) :
    ((q.x - cur.x).natAbs : Int) + (q.y - cur.y).natAbs < (rayFuel g : Nat) := by
  rw [isValidPosition_iff] at hc hq
  unfold rayFuel
  cases dir <;> simp only [aheadOf] at h <;> omega

theorem rayScan_succ (g : Game) (dir : Direction) (n : Nat) (cur : QPoint) :
    rayScan g dir (n + 1) cur =
      if !isValidPosition g (nextCell cur dir) then (cur, false)
      else if scanObstacle g (nextCell cur dir) then (nextCell cur dir, true)
      else rayScan g dir n (nextCell cur dir) := by
  rw [rayScan]; rfl

/-- The result of the scan started on a cell of the grid with enough fuel:
either it stops on the first obstacle ahead, or the ray is clear and it stops
on the last cell inside the grid. -/
theorem rayScan_spec (g : Game) (dir : Direction) :
    ∀ (fuel : Nat) (cur : QPoint), isValidPosition g cur = true →
      (∀ q, isValidPosition g q = true → aheadOf cur dir q →
        ((q.x - cur.x).natAbs : Int) + (q.y - cur.y).natAbs < fuel) →
      ((rayScan g dir fuel cur).2 = true →
        isValidPosition g (rayScan g dir fuel cur).1 = true ∧
        aheadOf cur dir (rayScan g dir fuel cur).1 ∧
        scanObstacle g (rayScan g dir fuel cur).1 ∧
        ∀ q, aheadOf cur dir q → aheadOf q dir (rayScan g dir fuel cur).1 →
          ¬ scanObstacle g q) ∧
      ((rayScan g dir fuel cur).2 = false →
        ((rayScan g dir fuel cur).1 = cur ∨
          (isValidPosition g (rayScan g dir fuel cur).1 = true ∧
            aheadOf cur dir (rayScan g dir fuel cur).1)) ∧
        isValidPosition g (nextCell (rayScan g dir fuel cur).1 dir) = false ∧
        ∀ q, isValidPosition g q = true → aheadOf cur dir q → ¬ scanObstacle g q) := by
  intro fuel
  induction fuel with
  | zero =>
    intro cur hc hfuel
    have hnone : ∀ q, isValidPosition g q = true → aheadOf cur dir q → False := by
      intro q hq hah
      have := hfuel q hq hah
      omega
    have hnv : isValidPosition g (nextCell cur dir) = false := by
      rw [Bool.eq_false_iff]
      exact fun hv => hnone _ hv (aheadOf_nextCell cur dir)
    constructor
    · intro h; cases h
    · intro _
      exact ⟨Or.inl rfl, hnv, fun q hq hah => (hnone q hq hah).elim⟩
  | succ n ih =>
    intro cur hc hfuel
    rw [rayScan_succ]
    by_cases hv : isValidPosition g (nextCell cur dir) = true
    · rw [if_neg (by simp [hv])]
      by_cases ho : scanObstacle g (nextCell cur dir)
      · rw [if_pos ho]
        refine ⟨fun _ => ⟨hv, aheadOf_nextCell cur dir, ho, ?_⟩, fun h => by cases h⟩
        intro q h1 h2
        exact (not_between_next h1 h2).elim
      · rw [if_neg ho]
        have hfuel1 : ∀ q, isValidPosition g q = true → aheadOf (nextCell cur dir) dir q →
            ((q.x - (nextCell cur dir).x).natAbs : Int) + (q.y - (nextCell cur dir).y).natAbs
              < n := by
          intro q hq hah
          have h1 := hfuel q hq (aheadOf_of_next hah)
          have h2 := rayDist_next hah
          omega
        obtain ⟨ih1, ih2⟩ := ih (nextCell cur dir) hv hfuel1
        refine ⟨?_, ?_⟩
        · intro hb
          obtain ⟨a1, a2, a3, a4⟩ := ih1 hb
          refine ⟨a1, aheadOf_of_next a2, a3, ?_⟩
          intro q h1 h2
          rcases aheadOf_split h1 with e | e
          · rw [e]; exact ho
          · exact a4 q e h2
        · intro hb
          obtain ⟨a1, a2, a3⟩ := ih2 hb
          refine ⟨Or.inr ?_, a2, ?_⟩
          · rcases a1 with e | ⟨e1, e2⟩
            · rw [e]; exact ⟨hv, aheadOf_nextCell cur dir⟩
            · exact ⟨e1, aheadOf_of_next e2⟩
          · intro q hq h1
            rcases aheadOf_split h1 with e | e
            · rw [e]; exact ho
            · exact a3 q hq e
    · rw [if_pos (by simpa using hv)]
      have hnv : isValidPosition g (nextCell cur dir) = false := by simpa using hv
      constructor
      · intro h; cases h
      · intro _
        exact ⟨Or.inl rfl, hnv, fun q hq hah => (hv (nextCell_valid hc hq hah)).elim⟩

theorem scanObstacle_iff (g : Game) (q : QPoint) : scanObstacle g q ↔ obstacleAt g q := by
  unfold scanObstacle obstacleAt robotAt
  apply or_congr Iff.rfl
  constructor
  · intro h
    cases hm : g.multiplayerMode <;> simp only [hm, Bool.false_eq_true, if_false, if_true] at h
    · rcases h with h | h
      · exact ⟨RobotId.player, Or.inl rfl, h.symm⟩
      · exact ⟨RobotId.ai, Or.inr (by simp [Game.opponent, hm]), h.symm⟩
    · rcases h with h | h
      · exact ⟨RobotId.player, Or.inl rfl, h.symm⟩
      · exact ⟨RobotId.player2, Or.inr (by simp [Game.opponent, hm]), h.symm⟩
  · rintro ⟨id, hp, rfl⟩
    rw [isParticipant_iff] at hp
    rcases hp with rfl | ⟨rfl, hm⟩ | ⟨rfl, hm⟩
    · split_ifs <;> exact Or.inl rfl
    · rw [if_pos hm]; exact Or.inr rfl
    · rw [if_neg (by simp [hm])]; exact Or.inr rfl

theorem nextCell_eq_stepFrom (p : QPoint) (dir : Direction) :
    nextCell p dir = stepFrom p dir 1 := by
  cases dir <;> simp [nextCell, stepFrom, dirDelta, sub_eq_add_neg]

/-- The scan of the engine from the position of a robot standing on the grid,
in the terms of the statements: a hit is the first obstacle of the ray; a miss
means the ray is clear and ends on the reported cell. -/
theorem rayScan_meaning (g : Game) (a : RobotId)
    (hva : isValidPosition g (g.robot a).position = true) :
    ((rayScan g (g.robot a).direction (rayFuel g) (g.robot a).position).2 = true →
      firstObstacle g a (rayScan g (g.robot a).direction (rayFuel g) (g.robot a).position).1) ∧
    ((rayScan g (g.robot a).direction (rayFuel g) (g.robot a).position).2 = false →
      rayClear g a ∧
      lastInBounds g a (rayScan g (g.robot a).direction (rayFuel g) (g.robot a).position).1) := by
  obtain ⟨h1, h2⟩ := rayScan_spec g (g.robot a).direction (rayFuel g) (g.robot a).position hva
    (fun q hq hah => rayDist_bound hva hq hah)
  constructor
  · intro hb
    obtain ⟨a1, a2, a3, a4⟩ := h1 hb
    refine ⟨⟨a1, a2⟩, (scanObstacle_iff g _).1 a3, ?_⟩
    intro q hq hqr ho
    exact a4 q hq.2 hqr ((scanObstacle_iff g _).2 ho)
  · intro hb
    obtain ⟨a1, a2, a3⟩ := h2 hb
    refine ⟨?_, ?_, ?_⟩
    · intro q hq ho
      exact a3 q hq.1 hq.2 ((scanObstacle_iff g _).2 ho)
    · rcases a1 with e | e
      · exact Or.inl e
      · exact Or.inr e
    · rw [← nextCell_eq_stepFrom]; exact a2

theorem firstObstacle_unique {g : Game} {a : RobotId} {p r : QPoint}
    (hp : firstObstacle g a p) (hr : firstObstacle g a r) : r = p := by
  rcases aheadOf_total hp.1.2 hr.1.2 with e | e | e
  · exact e
  · exact (hp.2.2 r hr.1 e hr.2.1).elim
  · exact (hr.2.2 p hp.1 e hp.2.1).elim

theorem rayScan_of_firstObstacle (g : Game) (a : RobotId) (p : QPoint)
    (hva : isValidPosition g (g.robot a).position = true) (hp : firstObstacle g a p) :
    rayScan g (g.robot a).direction (rayFuel g) (g.robot a).position = (p, true) := by
  obtain ⟨h1, h2⟩ := rayScan_meaning g a hva
  cases hb : (rayScan g (g.robot a).direction (rayFuel g) (g.robot a).position).2
  · exact ((h2 hb).1 p hp.1 hp.2.1).elim
  · have := firstObstacle_unique hp (h1 hb)
    rw [← this, ← hb]

theorem rayScan_of_rayClear (g : Game) (a : RobotId)
    (hva : isValidPosition g (g.robot a).position = true) (hc : rayClear g a) :
    (rayScan g (g.robot a).direction (rayFuel g) (g.robot a).position).2 = false := by
  obtain ⟨h1, _⟩ := rayScan_meaning g a hva
  cases hb : (rayScan g (g.robot a).direction (rayFuel g) (g.robot a).position).2
  · rfl
  · have := h1 hb
    exact (hc _ this.1 this.2.1).elim

theorem lastInBounds_unique {g : Game} {a : RobotId} {c r : QPoint}
    (hva : isValidPosition g (g.robot a).position = true)
    (hc : lastInBounds g a c) (hr : lastInBounds g a r) : r = c := by
  obtain ⟨hc1, hc2⟩ := hc
  obtain ⟨hr1, hr2⟩ := hr
  rw [← nextCell_eq_stepFrom, Bool.eq_false_iff] at hc2 hr2
  rcases hc1 with rfl | hc1 <;> rcases hr1 with rfl | hr1
  · rfl
  · exact (hc2 (nextCell_valid hva hr1.1 hr1.2)).elim
  · exact (hr2 (nextCell_valid hva hc1.1 hc1.2)).elim
  · rcases aheadOf_total hc1.2 hr1.2 with e | e | e
    · exact e
    · exact (hr2 (nextCell_valid hr1.1 hc1.1 e)).elim
    · exact (hc2 (nextCell_valid hc1.1 hr1.1 e)).elim

/-! ## The Missile -/

theorem missileHit_wall (g : Game) (p : QPoint) (hw : g.arena p.y p.x = CellType.Wall) :
    missileHit g p = (attackWall g p 20).1 := by
  unfold missileHit; rw [if_pos hw]

/-- A Missile that hits the target robot: only that robot's health changes. -/
theorem missileHit_robot {g : Game} {a t : RobotId} (ht : TurnOf g a t) (p : QPoint)
    (hw : g.arena p.y p.x ≠ CellType.Wall) (hp : p = (g.robot t).position)
    (hna : p ≠ (g.robot a).position) :
    (missileHit g p).arena = g.arena ∧ (missileHit g p).wallHealth = g.wallHealth ∧
    ((missileHit g p).robot t).health =
      max 0 ((g.robot t).health - powerUpDamageTo g t 20) ∧
    ∀ id, id ≠ t → ((missileHit g p).robot id).health = (g.robot id).health := by
  unfold missileHit powerUpDamageTo
  rw [if_neg hw]
  rcases ht with ⟨_, rfl, rfl⟩ | ⟨_, hm, rfl, rfl⟩ | ⟨_, hm, rfl, rfl⟩
  · unfold Game.opponent at hp ⊢
    cases hm : g.multiplayerMode
    · simp only [hm, Bool.false_eq_true, if_false] at hp ⊢
      rw [if_neg (show ¬ p = g.playerRobot.position from hna)]
      refine ⟨rfl, rfl, by simp, ?_⟩
      intro id hid; cases id <;> first | rfl | exact (hid rfl).elim
    · simp only [hm, if_true] at hp ⊢
      rw [if_neg (show ¬ p = g.playerRobot.position from hna)]
      refine ⟨rfl, rfl, by simp, ?_⟩
      intro id hid; cases id <;> first | rfl | exact (hid rfl).elim
  · rw [if_pos hm, if_pos (show p = g.playerRobot.position from hp)]
    refine ⟨rfl, rfl, by simp, ?_⟩
    intro id hid; cases id <;> first | rfl | exact (hid rfl).elim
  · rw [if_neg (by simp [hm]), if_pos (show p = g.playerRobot.position from hp)]
    refine ⟨rfl, rfl, by simp, ?_⟩
    intro id hid; cases id <;> first | rfl | exact (hid rfl).elim

/-- The state a Missile shot leaves, as far as arena, wall hit-points and
health are concerned, is that of the Missile loop. -/
theorem engineStep_missile_view {g : Game} (hi : Inv g) {a t : RobotId} (ht : TurnOf g a t)
    (hp : (g.robot a).currentPowerUp = RobotPowerUp.Missile) :
    (engineStep g Command.Attack).arena =
      (missileLoop (g.robot a).direction (rayFuel g) g (g.robot a).position).arena ∧
    (engineStep g Command.Attack).wallHealth =
      (missileLoop (g.robot a).direction (rayFuel g) g (g.robot a).position).wallHealth ∧
    ∀ id, ((engineStep g Command.Attack).robot id).health =
      ((missileLoop (g.robot a).direction (rayFuel g) g (g.robot a).position).robot id).health := by
  rw [engineStep_eq hi ht _ (by decide)]
  obtain ⟨h1, h2, h3⟩ := executeFor_attack_view ht
  rw [h1, h2, attackCommand_missile g a t hp]
  obtain ⟨v1, v2, v3⟩ := afterShot_view
    (missileLoop (g.robot a).direction (rayFuel g) g (g.robot a).position) a
  refine ⟨v1, v2, ?_⟩
  intro id
  rw [h3, attackCommand_missile g a t hp]
  exact v3 id

/-- On the ray of the robot whose turn it is, a robot met is the target. -/
theorem robot_on_ray_is_target {g : Game} {a t : RobotId} (ht : TurnOf g a t) {p : QPoint}
    (hray : onRay g a p) (ho : obstacleAt g p) (hw : g.arena p.y p.x ≠ CellType.Wall) :
    (g.robot t).position = p := by
  rcases ho with ho | ⟨id, hid, hpos⟩
  · exact (hw ho).elim
  · have hne : id ≠ a := by
      rintro rfl
      rw [← hpos] at hray
      exact aheadOf_irrefl _ _ hray.2
    have : id = t := by
      rcases ht.participants with ⟨rfl, rfl⟩ | ⟨rfl, rfl⟩ <;> rcases hid with rfl | rfl <;>
        first | rfl | exact (hne rfl).elim
    rw [← this]; exact hpos

/-- C9: when the robot whose turn it is (human or AI) fires a Missile in a
reachable state, only the first wall or robot on the forward ray is damaged:
a wall there loses 20 hit-points (floored at 0, `Empty` when none is left) and
nothing else changes; a robot there is the opposing robot and loses health, 20
floored at 0 in multiplayer mode or at Medium difficulty (the scaled amount
for the AI robot otherwise), and nothing else changes; when the ray reaches
the grid edge without meeting a wall or robot nothing is damaged. -/
theorem C9_missile_hits_first_obstacle (g : Game) (active target : RobotId)
    (hr : Reachable g) (ht : TurnOf g active target)
    (hp : (g.robot active).currentPowerUp = RobotPowerUp.Missile) :
    ((∃ p, firstObstacle g active p) ∨ rayClear g active) ∧
    (∀ p, firstObstacle g active p → g.arena p.y p.x = CellType.Wall →
      (engineStep g Command.Attack).wallHealth p.y p.x = max 0 (g.wallHealth p.y p.x - 20) ∧
      (engineStep g Command.Attack).arena p.y p.x =
        (if g.wallHealth p.y p.x - 20 ≤ 0 then CellType.Empty else CellType.Wall) ∧
      (∀ y x, ¬ (y = p.y ∧ x = p.x) →
        (engineStep g Command.Attack).wallHealth y x = g.wallHealth y x ∧
        (engineStep g Command.Attack).arena y x = g.arena y x) ∧
      ∀ id, ((engineStep g Command.Attack).robot id).health = (g.robot id).health) ∧
    (∀ p, firstObstacle g active p → g.arena p.y p.x ≠ CellType.Wall →
      (g.robot target).position = p ∧
      ((engineStep g Command.Attack).robot target).health =
        max 0 ((g.robot target).health - powerUpDamageTo g target 20) ∧
      (∀ id, id ≠ target →
        ((engineStep g Command.Attack).robot id).health = (g.robot id).health) ∧
      (engineStep g Command.Attack).arena = g.arena ∧
      (engineStep g Command.Attack).wallHealth = g.wallHealth) ∧
    (rayClear g active →
      (engineStep g Command.Attack).arena = g.arena ∧
      (engineStep g Command.Attack).wallHealth = g.wallHealth ∧
      ∀ id, ((engineStep g Command.Attack).robot id).health = (g.robot id).health) ∧
    (g.multiplayerMode = true ∨ g.difficulty = GameDifficulty.Medium →
      ∀ id, powerUpDamageTo g id 20 = 20) := by
  have hi := hr.inv
  obtain ⟨v1, v2, v3⟩ := engineStep_missile_view hi ht hp
  have hva := (hi.floor_of_turn ht).1.1
  rw [missileLoop_eq_rayScan] at v1 v2 v3
  refine ⟨?_, ?_, ?_, ?_, ?_⟩
  · obtain ⟨m1, m2⟩ := rayScan_meaning g active hva
    cases hb : (rayScan g (g.robot active).direction (rayFuel g) (g.robot active).position).2
    · exact Or.inr (m2 hb).1
    · exact Or.inl ⟨_, m1 hb⟩
  · intro p hfo hw
    have hs := rayScan_of_firstObstacle g active p hva hfo
    rw [hs] at v1 v2 v3
    simp only [if_true] at v1 v2 v3
    rw [missileHit_wall g p hw] at v1 v2 v3
    rw [v1, v2]
    refine ⟨?_, ?_, ?_, ?_⟩
    · rw [attackWall_wallHealth g p 20 hfo.1.1, if_pos ⟨⟨rfl, rfl⟩, hw⟩]
    · rw [attackWall_arena g p 20 hfo.1.1]
      by_cases hd : g.wallHealth p.y p.x - 20 ≤ 0
      · rw [if_pos ⟨⟨rfl, rfl⟩, hw, hd⟩, if_pos hd]
      · rw [if_neg (fun h => hd h.2.2), if_neg hd, hw]
    · intro y x hyx
      rw [attackWall_wallHealth g p 20 hfo.1.1, attackWall_arena g p 20 hfo.1.1,
        if_neg (fun h => hyx h.1), if_neg (fun h => hyx h.1)]
      exact ⟨rfl, rfl⟩
    · intro id
      rw [v3, attackWall_robot]
  · intro p hfo hw
    have hs := rayScan_of_firstObstacle g active p hva hfo
    rw [hs] at v1 v2 v3
    simp only [if_true] at v1 v2 v3
    have htp := robot_on_ray_is_target ht hfo.1 hfo.2.1 hw
    have hna : p ≠ (g.robot active).position := by
      intro e
      have := hfo.1.2
      rw [e] at this
      exact aheadOf_irrefl _ _ this
    obtain ⟨k1, k2, k3, k4⟩ := missileHit_robot ht p hw htp.symm hna
    refine ⟨htp, ?_, ?_, ?_, ?_⟩
    · rw [v3, k3]
    · intro id hid; rw [v3, k4 id hid]
    · rw [v1, k1]
    · rw [v2, k2]
  · intro hc
    have hs := rayScan_of_rayClear g active hva hc
    rw [hs] at v1 v2 v3
    simp only [Bool.false_eq_true, if_false] at v1 v2 v3
    exact ⟨v1, v2, v3⟩
  · intro h id
    exact powerUpDamageTo_base hr.calibrated id 20 h

/-! ## The Bomb -/

theorem bombBlast_eq_blast (g : Game) (c : QPoint) :
    bombBlast g c = blast 30 g (blockCells c) := rfl

theorem mem_blockCells (c p : QPoint) : p ∈ blockCells c ↔ inBlock c p := by
  unfold blockCells inBlock
  simp only [List.mem_cons, List.mem_singleton, List.not_mem_nil, or_false, QPoint.eq_iff,
    abs_le]
  omega

theorem blockCells_nodup (c : QPoint) : (blockCells c).Nodup := by
  unfold blockCells
  simp only [List.nodup_cons, List.mem_cons, List.mem_singleton, List.not_mem_nil,
    QPoint.eq_iff, List.nodup_nil, not_or, or_false, not_false_eq_true, and_true]
  omega

/-- The state a Bomb shot leaves, as far as arena, wall hit-points and health
are concerned, is the sweep of damage 30 over the block around the cell on
which the scan stopped. -/
theorem engineStep_bomb_view {g : Game} (hi : Inv g) {a t : RobotId} (ht : TurnOf g a t)
    (hp : (g.robot a).currentPowerUp = RobotPowerUp.Bomb) :
    (engineStep g Command.Attack).arena =
      (blast 30 g (blockCells
        (rayScan g (g.robot a).direction (rayFuel g) (g.robot a).position).1)).arena ∧
    (engineStep g Command.Attack).wallHealth =
      (blast 30 g (blockCells
        (rayScan g (g.robot a).direction (rayFuel g) (g.robot a).position).1)).wallHealth ∧
    ∀ id, ((engineStep g Command.Attack).robot id).health =
      ((blast 30 g (blockCells
        (rayScan g (g.robot a).direction (rayFuel g) (g.robot a).position).1)).robot id).health := by
  rw [engineStep_eq hi ht _ (by decide)]
  obtain ⟨h1, h2, h3⟩ := executeFor_attack_view ht
  rw [h1, h2, attackCommand_bomb g a t hp, bombTravel_eq_rayScan, bombBlast_eq_blast]
  obtain ⟨v1, v2, v3⟩ := afterShot_view (blast 30 g (blockCells
    (rayScan g (g.robot a).direction (rayFuel g) (g.robot a).position).1)) a
  refine ⟨v1, v2, ?_⟩
  intro id
  rw [h3, attackCommand_bomb g a t hp, bombTravel_eq_rayScan, bombBlast_eq_blast]
  exact v3 id

/-- The cell on which the engine's scan stops is the detonation cell of the
specification, and the only one. -/
theorem detonationCell_rayScan (g : Game) (a : RobotId)
    (hva : isValidPosition g (g.robot a).position = true) :
    detonationCell g a (rayScan g (g.robot a).direction (rayFuel g) (g.robot a).position).1 ∧
    ∀ c, detonationCell g a c →
      (rayScan g (g.robot a).direction (rayFuel g) (g.robot a).position).1 = c := by
  obtain ⟨m1, m2⟩ := rayScan_meaning g a hva
  constructor
  · cases hb : (rayScan g (g.robot a).direction (rayFuel g) (g.robot a).position).2
    · exact Or.inr (m2 hb)
    · exact Or.inl (m1 hb)
  · intro c hc
    rcases hc with hc | ⟨hc1, hc2⟩
    · rw [rayScan_of_firstObstacle g a c hva hc]
    · exact lastInBounds_unique hva hc2 (m2 (rayScan_of_rayClear g a hva hc1)).2

/-- C10: when the robot whose turn it is (human or AI) fires a Bomb in a
reachable state, there is a detonation cell (the first wall or robot on the
forward ray, else the last in-bounds cell of the ray, the attacker's own cell
if it faces the edge), and around it each cell of the grid inside the 3 x 3
block is damaged exactly once: a wall there loses 30 hit-points (floored at 0,
`Empty` when none is left), a participating robot there loses health, 30
floored at 0 in multiplayer mode or at Medium difficulty (the scaled amount
for the AI robot otherwise); every cell and robot outside the block, and every
cell outside the grid, is unchanged. -/
theorem C10_bomb_blast (g : Game) (active target : RobotId) (hr : Reachable g)
    (ht : TurnOf g active target)
    (hp : (g.robot active).currentPowerUp = RobotPowerUp.Bomb) :
    (∃ c, detonationCell g active c) ∧
    (∀ c, detonationCell g active c →
      (∀ y x, isValidPosition g ⟨x, y⟩ = true → inBlock c ⟨x, y⟩ →
        g.arena y x = CellType.Wall →
        (engineStep g Command.Attack).wallHealth y x = max 0 (g.wallHealth y x - 30) ∧
        (engineStep g Command.Attack).arena y x =
          (if g.wallHealth y x - 30 ≤ 0 then CellType.Empty else CellType.Wall)) ∧
      (∀ y x, ¬ (isValidPosition g ⟨x, y⟩ = true ∧ inBlock c ⟨x, y⟩ ∧
          g.arena y x = CellType.Wall) →
        (engineStep g Command.Attack).wallHealth y x = g.wallHealth y x ∧
        (engineStep g Command.Attack).arena y x = g.arena y x) ∧
      (∀ id, isParticipant g id → inBlock c (g.robot id).position →
        ((engineStep g Command.Attack).robot id).health =
          max 0 ((g.robot id).health - powerUpDamageTo g id 30)) ∧
      (∀ id, ¬ (isParticipant g id ∧ inBlock c (g.robot id).position) →
        ((engineStep g Command.Attack).robot id).health = (g.robot id).health)) ∧
    (g.multiplayerMode = true ∨ g.difficulty = GameDifficulty.Medium →
      ∀ id, powerUpDamageTo g id 30 = 30) := by
  have hi := hr.inv
  obtain ⟨v1, v2, v3⟩ := engineStep_bomb_view hi ht hp
  have hva := (hi.floor_of_turn ht).1.1
  obtain ⟨d1, d2⟩ := detonationCell_rayScan g active hva
  refine ⟨⟨_, d1⟩, ?_, fun h id => powerUpDamageTo_base hr.calibrated id 30 h⟩
  intro c hc
  rw [d2 c hc] at v1 v2 v3
  have hnd := blockCells_nodup c
  refine ⟨?_, ?_, ?_, ?_⟩
  · intro y x hv hb hw
    rw [v1, v2, blast_arena 30 _ g hnd, blast_wallHealth 30 _ g hnd]
    have hm := (mem_blockCells c ⟨x, y⟩).2 hb
    rw [if_pos ⟨hm, hv, hw⟩]
    refine ⟨rfl, ?_⟩
    by_cases hd : g.wallHealth y x - 30 ≤ 0
    · rw [if_pos ⟨hm, hv, hw, hd⟩, if_pos hd]
    · rw [if_neg (fun h => hd h.2.2.2), if_neg hd, hw]
  · intro y x hn
    rw [v1, v2, blast_arena 30 _ g hnd, blast_wallHealth 30 _ g hnd]
    have hn1 : ¬ ((⟨x, y⟩ : QPoint) ∈ blockCells c ∧ isValidPosition g ⟨x, y⟩ = true ∧
        g.arena y x = CellType.Wall) :=
      fun h => hn ⟨h.2.1, (mem_blockCells c _).1 h.1, h.2.2⟩
    rw [if_neg hn1, if_neg (fun h => hn1 ⟨h.1, h.2.1, h.2.2.1⟩)]
    exact ⟨rfl, rfl⟩
  · intro id hpart hb
    rw [v3, blast_health 30 _ g hnd]
    have hf := hi.floor_of_participant hpart
    rw [if_pos ⟨(mem_blockCells c _).2 hb, hf.1, hf.2, hpart⟩]
  · intro id hn
    rw [v3, blast_health 30 _ g hnd]
    rw [if_neg (fun h => hn ⟨h.2.2.2, (mem_blockCells c _).1 h.1⟩)]

/-! ## Example shots -/

theorem exampleLaserShot_reachable : Reachable exampleLaserShot :=
  runCommands_reachable _ _ exampleDuel_reachable

theorem exampleMissileStart_reachable : Reachable exampleMissileStart :=
  Reachable.initMulti exampleStart RobotType.Tank RobotType.Scout MapType.Random
    exampleMissileDraws exampleMissileStart exampleStart_reachable
    (eq_some_getD _ _ (by decide))

theorem exampleMissileShot_reachable : Reachable exampleMissileShot :=
  runCommands_reachable _ _ exampleMissileStart_reachable

theorem exampleBombStart_reachable : Reachable exampleBombStart :=
  Reachable.initMulti exampleStart RobotType.Tank RobotType.Scout MapType.Open
    exampleOpenDraws exampleBombStart exampleStart_reachable (eq_some_getD _ _ (by decide))

theorem exampleBombShot_reachable : Reachable exampleBombShot :=
  runCommands_reachable _ _ exampleBombStart_reachable

/-- A scan that stops on `p` with the hit flag set found the first obstacle. -/
theorem firstObstacle_of_scan (g : Game) (a : RobotId) (p : QPoint)
    (hva : isValidPosition g (g.robot a).position = true)
    (h : rayScan g (g.robot a).direction (rayFuel g) (g.robot a).position = (p, true)) :
    firstObstacle g a p := by
  have h1 := (rayScan_meaning g a hva).1 (by rw [h])
  rw [h] at h1
  exact h1

/-- The cell on which the scan stops is the detonation cell. -/
theorem detonationCell_of_scan (g : Game) (a : RobotId) (c : QPoint)
    (hva : isValidPosition g (g.robot a).position = true)
    (h : (rayScan g (g.robot a).direction (rayFuel g) (g.robot a).position).1 = c) :
    detonationCell g a c := by
  have h1 := (detonationCell_rayScan g a hva).1
  rw [h] at h1
  exact h1

/-- Witness for C8: the Sniper at (1,2) fires the Laser East; the wall at (2,2)
(3 hit-points) is destroyed and the Scout behind it, at (3,2), goes from 70 to
55; the cell (2,3) beside the ray keeps its pickup. -/
theorem C8_laser_sweeps_whole_ray_witness :
    Reachable exampleLaserShot ∧
    TurnOf exampleLaserShot RobotId.player RobotId.player2 ∧
    (exampleLaserShot.robot RobotId.player).currentPowerUp = RobotPowerUp.Laser ∧
    onRay exampleLaserShot RobotId.player ⟨2, 2⟩ ∧
    exampleLaserShot.arena 2 2 = CellType.Wall ∧
    exampleLaserShot.wallHealth 2 2 = 3 ∧
    (engineStep exampleLaserShot Command.Attack).wallHealth 2 2 = 0 ∧
    (engineStep exampleLaserShot Command.Attack).arena 2 2 = CellType.Empty ∧
    (exampleLaserShot.robot RobotId.player2).position = ⟨3, 2⟩ ∧
    (exampleLaserShot.robot RobotId.player2).health = 70 ∧
    ((engineStep exampleLaserShot Command.Attack).robot RobotId.player2).health = 55 ∧
    (engineStep exampleLaserShot Command.Attack).arena 3 2 = CellType.MissilePowerUp :=
  have h := C8_laser_sweeps_whole_ray exampleLaserShot RobotId.player RobotId.player2
    exampleLaserShot_reachable (by decide) (by decide)
  ⟨exampleLaserShot_reachable, by decide, by decide, by decide, by decide, by decide,
    ((h.1 2 2 (by decide) (by decide)).1).trans (by decide),
    ((h.1 2 2 (by decide) (by decide)).2).trans (by decide),
    by decide, by decide,
    (h.2.2.1 RobotId.player2 (by decide) (by decide)).trans (by decide),
    ((h.2.1 3 2 (by decide)).2).trans (by decide)⟩

/-- Witness for C9 (Scenario): the Scout at (3,1) fires the Missile South; the
Tank on the adjacent cell (3,2) goes from 150 to 130 and the wall directly
behind it, at (3,3), keeps its 3 hit-points. -/
theorem C9_missile_hits_first_obstacle_witness :
    Reachable exampleMissileShot ∧
    TurnOf exampleMissileShot RobotId.player2 RobotId.player ∧
    (exampleMissileShot.robot RobotId.player2).currentPowerUp = RobotPowerUp.Missile ∧
    (exampleMissileShot.robot RobotId.player2).position = ⟨3, 1⟩ ∧
    firstObstacle exampleMissileShot RobotId.player2 ⟨3, 2⟩ ∧
    (exampleMissileShot.robot RobotId.player).position = ⟨3, 2⟩ ∧
    (exampleMissileShot.robot RobotId.player).health = 150 ∧
    ((engineStep exampleMissileShot Command.Attack).robot RobotId.player).health = 130 ∧
    ((engineStep exampleMissileShot Command.Attack).robot RobotId.player2).health = 70 ∧
    exampleMissileShot.arena 3 3 = CellType.Wall ∧
    (engineStep exampleMissileShot Command.Attack).arena 3 3 = CellType.Wall ∧
    (engineStep exampleMissileShot Command.Attack).wallHealth 3 3 = 3 :=
  have hfo : firstObstacle exampleMissileShot RobotId.player2 ⟨3, 2⟩ :=
    firstObstacle_of_scan _ _ _ (by decide) (by decide)
  have h := (C9_missile_hits_first_obstacle exampleMissileShot RobotId.player2 RobotId.player
    exampleMissileShot_reachable (by decide) (by decide)).2.2.1 ⟨3, 2⟩ hfo (by decide)
  ⟨exampleMissileShot_reachable, by decide, by decide, by decide, hfo, by decide, by decide,
    h.2.1.trans (by decide),
    (h.2.2.1 RobotId.player2 (by decide)).trans (by decide),
    by decide,
    (congrFun (congrFun h.2.2.2.1 3) 3).trans (by decide),
    (congrFun (congrFun h.2.2.2.2 3) 3).trans (by decide)⟩

/-- Witness for C10: the Scout at (3,2) fires the Bomb South; it detonates on
(3,3), the last cell before the edge. Of the block around (3,3) only four cells
lie in the grid: the wall at (2,2) (3 hit-points) is destroyed, the Tank at
(2,3) goes from 150 to 120, the Scout itself from 70 to 40; the pickup at
(1,2), outside the block, stays. -/
theorem C10_bomb_blast_witness :
    Reachable exampleBombShot ∧
    TurnOf exampleBombShot RobotId.player2 RobotId.player ∧
    (exampleBombShot.robot RobotId.player2).currentPowerUp = RobotPowerUp.Bomb ∧
    (exampleBombShot.robot RobotId.player2).position = ⟨3, 2⟩ ∧
    detonationCell exampleBombShot RobotId.player2 ⟨3, 3⟩ ∧
    exampleBombShot.arena 2 2 = CellType.Wall ∧
    exampleBombShot.wallHealth 2 2 = 3 ∧
    (engineStep exampleBombShot Command.Attack).wallHealth 2 2 = 0 ∧
    (engineStep exampleBombShot Command.Attack).arena 2 2 = CellType.Empty ∧
    (exampleBombShot.robot RobotId.player).position = ⟨2, 3⟩ ∧
    (exampleBombShot.robot RobotId.player).health = 150 ∧
    ((engineStep exampleBombShot Command.Attack).robot RobotId.player).health = 120 ∧
    (exampleBombShot.robot RobotId.player2).health = 70 ∧
    ((engineStep exampleBombShot Command.Attack).robot RobotId.player2).health = 40 ∧
    (engineStep exampleBombShot Command.Attack).arena 2 1 = CellType.HealthPickup :=
  have hd : detonationCell exampleBombShot RobotId.player2 ⟨3, 3⟩ :=
    detonationCell_of_scan _ _ _ (by decide) (by decide)
  have h := (C10_bomb_blast exampleBombShot RobotId.player2 RobotId.player
    exampleBombShot_reachable (by decide) (by decide)).2.1 ⟨3, 3⟩ hd
  have hb1 : inBlock ⟨3, 3⟩ ⟨2, 2⟩ := ⟨abs_le.2 ⟨by decide, by decide⟩,
    abs_le.2 ⟨by decide, by decide⟩⟩
  have hb2 : inBlock ⟨3, 3⟩ (exampleBombShot.robot RobotId.player).position :=
    ⟨abs_le.2 ⟨by decide, by decide⟩, abs_le.2 ⟨by decide, by decide⟩⟩
  have hb3 : inBlock ⟨3, 3⟩ (exampleBombShot.robot RobotId.player2).position :=
    ⟨abs_le.2 ⟨by decide, by decide⟩, abs_le.2 ⟨by decide, by decide⟩⟩
  ⟨exampleBombShot_reachable, by decide, by decide, by decide, hd, by decide, by decide,
    ((h.1 2 2 (by decide) hb1 (by decide)).1).trans (by decide),
    ((h.1 2 2 (by decide) hb1 (by decide)).2).trans (by decide),
    by decide, by decide,
    (h.2.2.1 RobotId.player (by decide) hb2).trans (by decide),
    by decide,
    (h.2.2.1 RobotId.player2 (by decide) hb3).trans (by decide),
    ((h.2.1 2 1 (fun hh => absurd hh.2.2 (by decide))).2).trans (by decide)⟩

/-! ## Wall hit-points stay sound -/

theorem WallsSound.sameGrid {g g1 : Game} (h : WallsSound g) (ha : g1.arena = g.arena)
    (hw : g1.wallHealth = g.wallHealth) : WallsSound g1 := by
  intro y x
  rw [ha, hw]
  exact h y x

theorem WallsSound.afterSetCell {g : Game} (h : WallsSound g) (p : QPoint) (c : CellType)
    (hc : c ≠ CellType.Wall) : WallsSound (g.setCell p c) := by
  intro y x
  refine ⟨(h y x).1, ?_⟩
  show (if y = p.y ∧ x = p.x then c else g.arena y x) = CellType.Wall → _
  split_ifs
  · intro hcw; exact (hc hcw).elim
  · exact (h y x).2

theorem WallsSound.afterPlaceWall {g : Game} (h : WallsSound g) (p : QPoint) :
    WallsSound (placeWall g p) := by
  intro y x
  show 0 ≤ (if y = p.y ∧ x = p.x then INITIAL_WALL_HEALTH else g.wallHealth y x) ∧
    ((if y = p.y ∧ x = p.x then CellType.Wall else g.arena y x) = CellType.Wall →
      0 < (if y = p.y ∧ x = p.x then INITIAL_WALL_HEALTH else g.wallHealth y x))
  split_ifs
  · exact ⟨by decide, fun _ => by decide⟩
  · exact h y x

theorem clearArena_wallsSound {g : Game} (h : WallsSound g) : WallsSound (clearArena g) := by
  intro y x
  show 0 ≤ (if 0 ≤ y ∧ y < g.gridSize ∧ 0 ≤ x ∧ x < g.gridSize then 0 else g.wallHealth y x) ∧
    ((if 0 ≤ y ∧ y < g.gridSize ∧ 0 ≤ x ∧ x < g.gridSize then CellType.Empty
        else g.arena y x) = CellType.Wall →
      0 < (if 0 ≤ y ∧ y < g.gridSize ∧ 0 ≤ x ∧ x < g.gridSize then 0 else g.wallHealth y x))
  split_ifs
  · exact ⟨le_refl 0, fun hw => by cases hw⟩
  · exact h y x

theorem generateObstaclesLoop_wallsSound (n : Nat) :
    ∀ (g : Game) (rng : List Nat) (g1 : Game) (rng1 : List Nat),
      generateObstaclesLoop n g rng = some (g1, rng1) → WallsSound g → WallsSound g1 := by
  induction n with
  | zero =>
    intro g rng g1 rng1 h hs
    simp only [generateObstaclesLoop, Option.some.injEq, Prod.mk.injEq] at h
    rw [← h.1]; exact hs
  | succ n ih =>
    intro g rng g1 rng1 h hs
    match rng, h with
    | rx :: ry :: rest, h =>
      simp only [generateObstaclesLoop] at h
      refine ih _ _ _ _ h ?_
      split_ifs
      · exact hs.afterPlaceWall _
      · exact hs
    | [], h => simp [generateObstaclesLoop] at h
    | [_], h => simp [generateObstaclesLoop] at h

theorem generateOpenMapLoop_wallsSound (cx cy r : Int) (n : Nat) :
    ∀ (g : Game) (rng : List Nat) (g1 : Game) (rng1 : List Nat),
      generateOpenMapLoop cx cy r n g rng = some (g1, rng1) → WallsSound g → WallsSound g1 := by
  induction n with
  | zero =>
    intro g rng g1 rng1 h hs
    simp only [generateOpenMapLoop, Option.some.injEq, Prod.mk.injEq] at h
    rw [← h.1]; exact hs
  | succ n ih =>
    intro g rng g1 rng1 h hs
    match rng, h with
    | rx :: ry :: rest, h =>
      simp only [generateOpenMapLoop] at h
      refine ih _ _ _ _ h ?_
      split_ifs
      · exact hs.afterPlaceWall _
      · exact hs
    | [], h => simp [generateOpenMapLoop] at h
    | [_], h => simp [generateOpenMapLoop] at h

theorem mazePattern_wallsSound {g : Game} (h : WallsSound g) : WallsSound (mazePattern g) := by
  intro y x
  unfold mazePattern
  dsimp only
  split_ifs
  · exact ⟨by decide, fun _ => by decide⟩
  · exact h y x

theorem mazeExtraWallsLoop_wallsSound (n : Nat) :
    ∀ (g : Game) (rng : List Nat) (g1 : Game) (rng1 : List Nat),
      mazeExtraWallsLoop n g rng = some (g1, rng1) → WallsSound g → WallsSound g1 := by
  induction n with
  | zero =>
    intro g rng g1 rng1 h hs
    simp only [mazeExtraWallsLoop, Option.some.injEq, Prod.mk.injEq] at h
    rw [← h.1]; exact hs
  | succ n ih =>
    intro g rng g1 rng1 h hs
    match rng, h with
    | rx :: ry :: rest, h =>
      simp only [mazeExtraWallsLoop] at h
      split_ifs at h
      · exact ih _ _ _ _ h hs
      · exact ih _ _ _ _ h (hs.afterPlaceWall _)
      · exact ih _ _ _ _ h hs
    | [], h => simp [mazeExtraWallsLoop] at h
    | [_], h => simp [mazeExtraWallsLoop] at h

theorem mazeZigzagLoop_wallsSound (n : Nat) :
    ∀ (i : Int) (g : Game), WallsSound g → WallsSound (mazeZigzagLoop n i g) := by
  induction n with
  | zero => intro i g hs; exact hs
  | succ n ih =>
    intro i g hs
    unfold mazeZigzagLoop
    apply ih
    split_ifs
    · exact (hs.afterSetCell _ _ (by decide)).afterSetCell _ _ (by decide)
    · exact (hs.afterSetCell _ _ (by decide)).afterSetCell _ _ (by decide)

theorem fortressWalls_wallsSound {g : Game} (h : WallsSound g) :
    WallsSound (fortressWalls g) := by
  intro y x
  unfold fortressWalls
  dsimp only
  split_ifs
  · exact ⟨by decide, fun _ => by decide⟩
  · exact h y x

theorem generateMap_wallsSound (g : Game) (rng : List Nat) (g1 : Game) (rng1 : List Nat)
    (h : generateMap g rng = some (g1, rng1)) (hs : WallsSound g) : WallsSound g1 := by
  unfold generateMap at h
  split at h
  · exact generateObstaclesLoop_wallsSound _ _ _ _ _ h hs
  · exact generateOpenMapLoop_wallsSound _ _ _ _ _ _ _ _ h hs
  · unfold generateMazeMap at h
    split at h
    · cases h
    · rename_i g2 rng2 hm
      simp only [Option.some.injEq, Prod.mk.injEq] at h
      rw [← h.1]
      exact mazeZigzagLoop_wallsSound _ _ _
        (mazeExtraWallsLoop_wallsSound _ _ _ _ _ hm (mazePattern_wallsSound hs))
  · simp only [Option.some.injEq, Prod.mk.injEq] at h
    rw [← h.1]
    unfold generateFortressMap
    exact ((((fortressWalls_wallsSound hs).afterSetCell _ _ (by decide)).afterSetCell _ _
      (by decide)).afterSetCell _ _ (by decide)).afterSetCell _ _ (by decide)

theorem PickupsOnly.soundAfterPickups {g g1 : Game} (h : PickupsOnly g g1) (hs : WallsSound g) :
    WallsSound g1 := by
  intro y x
  rw [h.wallHealth]
  refine ⟨(hs y x).1, fun hw => ?_⟩
  rcases h.arena y x with he | ⟨-, hn⟩
  · exact (hs y x).2 (he ▸ hw)
  · exact (hn hw).elim

theorem applyDifficultySettings_arena (g : Game) :
    (applyDifficultySettings g).arena = g.arena ∧
    (applyDifficultySettings g).wallHealth = g.wallHealth := by
  unfold applyDifficultySettings
  dsimp only
  split <;> exact ⟨rfl, rfl⟩

theorem initializeArena_wallsSound (g : Game) (pt aiT : RobotType) (diff : GameDifficulty)
    (map : MapType) (rng : List Nat) (g1 : Game)
    (h : initializeArena g pt aiT diff map rng = some g1) (hs : WallsSound g) :
    WallsSound g1 := by
  unfold initializeArena at h
  dsimp only at h
  split at h
  · cases h
  · rename_i g2 rng2 hmap
    have s2 : WallsSound g2 :=
      generateMap_wallsSound _ _ _ _ hmap (clearArena_wallsSound (hs.sameGrid rfl rfl))
    split at h
    · cases h
    · rename_i g6 rng3 hhp
      have f6 := placeHealthPickupsLoop_pickupsOnly _ _ _ _ _ _ hhp
      split at h
      · cases h
      · rename_i g7 rng4 hsp
        have f7 := placeSpecialPickups_pickupsOnly _ _ _ _ hsp
        simp only [Option.some.injEq] at h
        subst h
        refine (f7.soundAfterPickups (f6.soundAfterPickups ?_)).sameGrid rfl rfl
        refine WallsSound.afterSetCell (WallsSound.afterSetCell ?_ _ _ (by decide)) _ _ (by decide)
        exact s2.sameGrid (applyDifficultySettings_arena _).1 (applyDifficultySettings_arena _).2

theorem initializeMultiplayerArena_wallsSound (g : Game) (t1 t2 : RobotType)
    (map : MapType) (rng : List Nat) (g1 : Game)
    (h : initializeMultiplayerArena g t1 t2 map rng = some g1) (hs : WallsSound g) :
    WallsSound g1 := by
  unfold initializeMultiplayerArena at h
  dsimp only at h
  split at h
  · cases h
  · rename_i g2 rng2 hmap
    have s2 : WallsSound g2 :=
      generateMap_wallsSound _ _ _ _ hmap (clearArena_wallsSound (hs.sameGrid rfl rfl))
    split at h
    · cases h
    · rename_i g6 rng3 hhp
      have f6 := placeHealthPickupsLoop_pickupsOnly _ _ _ _ _ _ hhp
      split at h
      · cases h
      · rename_i g7 rng4 hsp
        have f7 := placeSpecialPickups_pickupsOnly _ _ _ _ hsp
        simp only [Option.some.injEq] at h
        subst h
        refine (f7.soundAfterPickups (f6.soundAfterPickups ?_)).sameGrid rfl rfl
        refine WallsSound.afterSetCell (WallsSound.afterSetCell ?_ _ _ (by decide)) _ _ (by decide)
        exact s2.sameGrid rfl rfl

theorem attackWall_wallsSound {g : Game} (hs : WallsSound g) (p : QPoint) (d : Int) :
    WallsSound (attackWall g p d).1 := by
  unfold attackWall
  dsimp only
  split_ifs with h1 h2
  · exact hs
  · intro y x
    show 0 ≤ (if y = p.y ∧ x = p.x then 0
        else (if y = p.y ∧ x = p.x then g.wallHealth p.y p.x - d else g.wallHealth y x)) ∧
      ((if y = p.y ∧ x = p.x then CellType.Empty else g.arena y x) = CellType.Wall →
        0 < (if y = p.y ∧ x = p.x then 0
          else (if y = p.y ∧ x = p.x then g.wallHealth p.y p.x - d else g.wallHealth y x)))
    by_cases hyx : y = p.y ∧ x = p.x
    · rw [if_pos hyx, if_pos hyx]
      exact ⟨le_refl 0, fun hw => by cases hw⟩
    · rw [if_neg hyx, if_neg hyx, if_neg hyx]
      exact hs y x
  · intro y x
    show 0 ≤ (if y = p.y ∧ x = p.x then g.wallHealth p.y p.x - d else g.wallHealth y x) ∧
      (g.arena y x = CellType.Wall →
        0 < (if y = p.y ∧ x = p.x then g.wallHealth p.y p.x - d else g.wallHealth y x))
    have h3 : 0 < g.wallHealth p.y p.x - d := by
      simpa using h2
    by_cases hyx : y = p.y ∧ x = p.x
    · rw [if_pos hyx]
      exact ⟨le_of_lt h3, fun _ => h3⟩
    · rw [if_neg hyx]
      exact hs y x

theorem powerUpDamageAt_wallsSound {g : Game} (hs : WallsSound g) (p : QPoint) (d : Int) :
    WallsSound (powerUpDamageAt g p d) := by
  unfold powerUpDamageAt
  dsimp only
  split_ifs <;> first
    | exact attackWall_wallsSound hs p d
    | exact hs.sameGrid rfl rfl

theorem laserLoop_wallsSound (dir : Direction) (n : Nat) :
    ∀ (g : Game) (cur : QPoint), WallsSound g → WallsSound (laserLoop dir n g cur) := by
  induction n with
  | zero => intro g cur hs; exact hs
  | succ n ih =>
    intro g cur hs
    unfold laserLoop
    dsimp only
    split_ifs
    · exact hs
    · exact ih _ _ (powerUpDamageAt_wallsSound hs _ 15)

theorem missileLoop_wallsSound (dir : Direction) (n : Nat) :
    ∀ (g : Game) (cur : QPoint), WallsSound g → WallsSound (missileLoop dir n g cur) := by
  induction n with
  | zero => intro g cur hs; exact hs
  | succ n ih =>
    intro g cur hs
    unfold missileLoop
    dsimp only
    split_ifs <;> first
      | exact hs
      | exact attackWall_wallsSound hs _ 20
      | exact ih _ _ hs

theorem blast_wallsSound (d : Int) (ps : List QPoint) :
    ∀ g : Game, WallsSound g → WallsSound (blast d g ps) := by
  induction ps with
  | nil => intro g hs; exact hs
  | cons p ps ih =>
    intro g hs
    rw [blast_cons]
    apply ih
    unfold blastStep
    split_ifs
    · exact hs
    · exact powerUpDamageAt_wallsSound hs p d

theorem attack_arena (g : Game) (a t : RobotId) :
    (attack g a t).1.arena = g.arena ∧ (attack g a t).1.wallHealth = g.wallHealth := by
  rw [attack_eq]
  split_ifs <;> first
    | exact ⟨rfl, rfl⟩
    | (cases t <;> exact ⟨rfl, rfl⟩)

theorem normalAttack_wallsSound {g : Game} (hs : WallsSound g) (a t : RobotId) :
    WallsSound (normalAttack g a t) := by
  unfold normalAttack
  dsimp only
  split_ifs <;> first
    | exact attackWall_wallsSound hs _ _
    | exact hs.sameGrid (attack_arena g a t).1 (attack_arena g a t).2
    | exact hs

theorem setRobot_arena (g : Game) (id : RobotId) (r : Robot) :
    (g.setRobot id r).arena = g.arena ∧ (g.setRobot id r).wallHealth = g.wallHealth := by
  cases id <;> exact ⟨rfl, rfl⟩

theorem attackCommand_wallsSound {g : Game} (hs : WallsSound g) (a t : RobotId) :
    WallsSound (attackCommand g a t) := by
  unfold attackCommand
  dsimp only
  refine WallsSound.sameGrid ?_ (setRobot_arena _ _ _).1 (setRobot_arena _ _ _).2
  unfold getRobotPowerUp
  split
  · exact normalAttack_wallsSound hs a t
  · exact (laserLoop_wallsSound _ _ _ _ hs).sameGrid (setRobot_arena _ _ _).1 (setRobot_arena _ _ _).2
  · exact (missileLoop_wallsSound _ _ _ _ hs).sameGrid (setRobot_arena _ _ _).1
      (setRobot_arena _ _ _).2
  · rw [bombBlast_eq_blast]
    exact (blast_wallsSound _ _ _ hs).sameGrid (setRobot_arena _ _ _).1 (setRobot_arena _ _ _).2

theorem finishCommand_arena (g : Game) (a : RobotId) :
    (finishCommand g a).arena = g.arena ∧ (finishCommand g a).wallHealth = g.wallHealth := by
  unfold finishCommand checkGameOver switchTurn
  dsimp only
  split_ifs <;> exact ⟨rfl, rfl⟩

theorem PickupCollected.soundAfterCollect {g g1 : Game} {id : RobotId} {pos : QPoint}
    (h : PickupCollected g g1 id pos) (hs : WallsSound g) : WallsSound g1 := by
  intro y x
  rw [h.wallHealth]
  refine ⟨(hs y x).1, fun hw => ?_⟩
  rcases h.arena y x with he | ⟨-, -, hn⟩
  · exact (hs y x).2 (he ▸ hw)
  · rw [hn] at hw; cases hw

theorem moveForwardCommand_wallsSound {g : Game} (hs : WallsSound g) (a : RobotId) :
    WallsSound (moveForwardCommand g a).1 := by
  by_cases hv : isValidMove g (stepFrom (g.robot a).position (g.robot a).direction 1) = true
  · exact (moveForwardCommand_eq g a hv).2.soundAfterCollect
      (hs.sameGrid (setRobot_arena _ _ _).1 (setRobot_arena _ _ _).2)
  · unfold moveForwardCommand
    dsimp only
    rw [if_neg hv]
    exact hs

theorem executeFor_wallsSound {g : Game} (hs : WallsSound g) (a t : RobotId) (cmd : Command) :
    WallsSound (executeFor g a t cmd) := by
  unfold executeFor
  cases cmd
  · dsimp only
    split_ifs
    · exact (moveForwardCommand_wallsSound hs a).sameGrid (finishCommand_arena _ _).1
        (finishCommand_arena _ _).2
    · exact hs
  · exact (hs.sameGrid (setRobot_arena _ _ _).1 (setRobot_arena _ _ _).2).sameGrid
      (finishCommand_arena _ _).1 (finishCommand_arena _ _).2
  · exact (hs.sameGrid (setRobot_arena _ _ _).1 (setRobot_arena _ _ _).2).sameGrid
      (finishCommand_arena _ _).1 (finishCommand_arena _ _).2
  · exact (attackCommand_wallsSound hs a t).sameGrid (finishCommand_arena _ _).1
      (finishCommand_arena _ _).2
  · rcases checkGameOver_eq g with h | h <;> rw [h] <;> exact hs.sameGrid rfl rfl

theorem executeCommand_wallsSound {g : Game} (hs : WallsSound g) (cmd : Command) :
    WallsSound (executeCommand g cmd) := by
  cases h : activeHuman g with
  | none => rw [executeCommand_of_inactive g cmd h]; exact hs
  | some at1 =>
    rw [executeCommand_of_active g cmd at1.1 at1.2 h]
    exact executeFor_wallsSound hs _ _ cmd

theorem executeAiTurn_wallsSound {g : Game} (hs : WallsSound g) (aiMove : Command) :
    WallsSound (executeAiTurn g aiMove) := by
  by_cases h1 : g.state = GameState.AiTurn
  · by_cases h2 : 0 < g.aiRobot.movesLeft
    · by_cases hc : aiMove = Command.None
      · subst hc
        unfold executeAiTurn
        rw [if_neg (by simpa using h1), if_pos (by simpa using h2)]
        exact hs
      · rw [executeAiTurn_eq g aiMove h1 h2 hc]
        exact executeFor_wallsSound hs _ _ aiMove
    · unfold executeAiTurn
      rw [if_neg (by simpa using h1), if_neg (by simpa using h2)]
      exact hs
  · unfold executeAiTurn
    rw [if_pos (by simpa using h1)]
    exact hs

theorem Game.blank_wallsSound (size : Int) : WallsSound (Game.blank size) :=
  fun _ _ => ⟨le_refl 0, fun hw => by cases hw⟩

/-- In every reachable state the wall hit-point grid is sound. -/
theorem Reachable.wallsSound {g : Game} (h : Reachable g) : WallsSound g := by
  induction h with
  | construct size rng g _ hnew =>
    exact initializeArena_wallsSound _ _ _ _ _ rng g hnew (Game.blank_wallsSound size)
  | init g0 pt aiT diff map rng g _ hinit ih =>
    exact initializeArena_wallsSound g0 pt aiT diff map rng g hinit ih
  | initMulti g0 t1 t2 map rng g _ hinit ih =>
    exact initializeMultiplayerArena_wallsSound g0 t1 t2 map rng g hinit ih
  | command g cmd _ ih => exact executeCommand_wallsSound ih cmd
  | aiTurn g aiMove _ ih => exact executeAiTurn_wallsSound ih aiMove

/-! ## Health stays non-negative -/

theorem HealthSound.sameHealth {g g1 : Game} (hs : HealthSound g)
    (h : ∀ id, (g1.robot id).health = (g.robot id).health) : HealthSound g1 := by
  intro id
  rw [h id]
  exact hs id

theorem HealthSound.healthSetRobot {g : Game} (hs : HealthSound g) (id : RobotId) (r : Robot)
    (hr : 0 ≤ r.health) : HealthSound (g.setRobot id r) := by
  intro id1
  by_cases h : id1 = id
  · subst h
    rw [Game.robot_setRobot_same]
    exact hr
  · rw [Game.robot_setRobot_ne g id id1 r h]
    exact hs id1

theorem scaleByModifier_nonneg {v m : Int} (hv : 0 ≤ v) (hm : 0 ≤ m) :
    0 ≤ scaleByModifier v m :=
  Int.ediv_nonneg (mul_nonneg hv hm) (by decide)

theorem attackWall_healthSound {g : Game} (hs : HealthSound g) (p : QPoint) (d : Int) :
    HealthSound (attackWall g p d).1 :=
  hs.sameHealth (fun id => by rw [attackWall_robot])

theorem powerUpDamageAt_healthSound {g : Game} (hs : HealthSound g) (p : QPoint) (d : Int) :
    HealthSound (powerUpDamageAt g p d) := by
  unfold powerUpDamageAt
  dsimp only
  split_ifs <;> first
    | exact attackWall_healthSound hs p d
    | exact hs
    | (intro id
       cases id <;> first
         | exact hs RobotId.player
         | exact hs RobotId.player2
         | exact hs RobotId.ai
         | exact le_max_left _ _)

theorem laserLoop_healthSound (dir : Direction) (n : Nat) :
    ∀ (g : Game) (cur : QPoint), HealthSound g → HealthSound (laserLoop dir n g cur) := by
  induction n with
  | zero => intro g cur hs; exact hs
  | succ n ih =>
    intro g cur hs
    unfold laserLoop
    dsimp only
    split_ifs
    · exact hs
    · exact ih _ _ (powerUpDamageAt_healthSound hs _ 15)

theorem missileLoop_healthSound (dir : Direction) (n : Nat) :
    ∀ (g : Game) (cur : QPoint), HealthSound g → HealthSound (missileLoop dir n g cur) := by
  induction n with
  | zero => intro g cur hs; exact hs
  | succ n ih =>
    intro g cur hs
    unfold missileLoop
    dsimp only
    split_ifs <;> first
      | exact hs
      | exact attackWall_healthSound hs _ 20
      | exact ih _ _ hs
      | (intro id
         cases id <;> first
           | exact hs RobotId.player
           | exact hs RobotId.player2
           | exact hs RobotId.ai
           | exact le_max_left _ _)

theorem blast_healthSound (d : Int) (ps : List QPoint) :
    ∀ g : Game, HealthSound g → HealthSound (blast d g ps) := by
  induction ps with
  | nil => intro g hs; exact hs
  | cons p ps ih =>
    intro g hs
    rw [blast_cons]
    apply ih
    unfold blastStep
    split_ifs
    · exact hs
    · exact powerUpDamageAt_healthSound hs p d

theorem attack_healthSound {g : Game} (hs : HealthSound g) (a t : RobotId) :
    HealthSound (attack g a t).1 := by
  rw [attack_eq]
  split_ifs <;> first
    | exact hs
    | exact hs.healthSetRobot _ _ (le_max_left _ _)

theorem normalAttack_healthSound {g : Game} (hs : HealthSound g) (a t : RobotId) :
    HealthSound (normalAttack g a t) := by
  unfold normalAttack
  dsimp only
  split_ifs <;> first
    | exact attackWall_healthSound hs _ _
    | exact attack_healthSound hs a t
    | exact hs

theorem Robot.useMove_health (r : Robot) : r.useMove.health = r.health := by
  unfold Robot.useMove
  split_ifs <;> rfl

theorem attackCommand_healthSound {g : Game} (hs : HealthSound g) (a t : RobotId) :
    HealthSound (attackCommand g a t) := by
  cases hp : (g.robot a).currentPowerUp
  · rw [attackCommand_none g a t hp]
    exact (normalAttack_healthSound hs a t).healthSetRobot _ _
      (by rw [Robot.useMove_health]; exact normalAttack_healthSound hs a t a)
  · rw [attackCommand_laser g a t hp]
    exact (laserLoop_healthSound _ _ _ _ hs).healthSetRobot _ _
      (by rw [Robot.useMove_health]; exact laserLoop_healthSound _ _ _ _ hs a)
  · rw [attackCommand_missile g a t hp]
    exact (missileLoop_healthSound _ _ _ _ hs).healthSetRobot _ _
      (by rw [Robot.useMove_health]; exact missileLoop_healthSound _ _ _ _ hs a)
  · rw [attackCommand_bomb g a t hp, bombBlast_eq_blast]
    exact (blast_healthSound _ _ _ hs).healthSetRobot _ _
      (by rw [Robot.useMove_health]; exact blast_healthSound _ _ _ hs a)

theorem setCell_robot (g : Game) (p : QPoint) (c : CellType) (id : RobotId) :
    (g.setCell p c).robot id = g.robot id := by
  cases id <;> rfl

theorem HealthSound.healthSetCell {g : Game} (hs : HealthSound g) (p : QPoint) (c : CellType) :
    HealthSound (g.setCell p c) :=
  hs.sameHealth (fun id1 => by rw [setCell_robot])

theorem collectHealthPickup_healthSound {g : Game} (hs : HealthSound g) (pos : QPoint)
    (id : RobotId) (hmax : 0 ≤ (g.robot id).maxHealth) (hmod : 0 ≤ g.aiHealthModifier) :
    HealthSound (collectHealthPickup g pos id) := by
  have hb : 0 ≤ (g.robot id).health + HEALTH_PICKUP_AMOUNT := add_nonneg (hs id) (by decide)
  unfold collectHealthPickup
  dsimp only
  split_ifs
  · exact hs
  · exact HealthSound.healthSetCell (HealthSound.healthSetRobot hs id _
      (le_min hb (scaleByModifier_nonneg hmax hmod))) _ _
  · exact HealthSound.healthSetCell (HealthSound.healthSetRobot hs id _ (le_min hb hmax)) _ _

theorem collectPowerUp_healthSound {g : Game} (hs : HealthSound g) (pos : QPoint)
    (id : RobotId) (c : CellType) : HealthSound (collectPowerUp g pos id c) := by
  unfold collectPowerUp setRobotPowerUp
  split_ifs
  · exact hs
  · split <;> first
      | exact hs
      | (refine HealthSound.healthSetCell (HealthSound.healthSetRobot hs id _ ?_) _ _
         exact hs id)

theorem moved_healthSound {g : Game} (hs : HealthSound g) (a : RobotId) (p : QPoint) :
    HealthSound ((g.setRobot a ((g.robot a).setPosition p)).setRobot a
      ((g.setRobot a ((g.robot a).setPosition p)).robot a).useMove) := by
  refine HealthSound.healthSetRobot (HealthSound.healthSetRobot hs a _ ?_) a _ ?_
  · exact hs a
  · rw [Robot.useMove_health, Game.robot_setRobot_same]
    exact hs a

theorem moveForwardCommand_healthSound {g : Game} (hs : HealthSound g) (a : RobotId)
    (hmax : 0 ≤ (g.robot a).maxHealth) (hmod : 0 ≤ g.aiHealthModifier) :
    HealthSound (moveForwardCommand g a).1 := by
  unfold moveForwardCommand
  dsimp only
  split_ifs
  · refine collectHealthPickup_healthSound (moved_healthSound hs a _) _ _ ?_ ?_
    · rw [Game.robot_setRobot_same, Robot.useMove_eq, Game.robot_setRobot_same]
      exact hmax
    · cases a <;> exact hmod
  · exact collectPowerUp_healthSound (moved_healthSound hs a _) _ _ _
  · exact moved_healthSound hs a _
  · exact hs

theorem finishCommand_health (g : Game) (a : RobotId) (id : RobotId) :
    ((finishCommand g a).robot id).health = (g.robot id).health := by
  unfold finishCommand checkGameOver switchTurn
  dsimp only
  split_ifs <;> cases id <;> rfl

theorem Robot.turn_health (r : Robot) :
    r.turnLeft.health = r.health ∧ r.turnRight.health = r.health := by
  rw [Robot.turnLeft_eq, Robot.turnRight_eq]
  exact ⟨rfl, rfl⟩

theorem executeFor_healthSound {g : Game} (hs : HealthSound g) (a t : RobotId) (cmd : Command)
    (hmax : 0 ≤ (g.robot a).maxHealth) (hmod : 0 ≤ g.aiHealthModifier) :
    HealthSound (executeFor g a t cmd) := by
  unfold executeFor
  cases cmd
  · dsimp only
    split_ifs
    · exact (moveForwardCommand_healthSound hs a hmax hmod).sameHealth (finishCommand_health _ _)
    · exact hs
  · refine HealthSound.sameHealth (HealthSound.healthSetRobot hs a _ ?_) (finishCommand_health _ _)
    rw [(Robot.turn_health _).1]; exact hs a
  · refine HealthSound.sameHealth (HealthSound.healthSetRobot hs a _ ?_) (finishCommand_health _ _)
    rw [(Robot.turn_health _).2]; exact hs a
  · exact (attackCommand_healthSound hs a t).sameHealth (finishCommand_health _ _)
  · rcases checkGameOver_eq g with h | h <;> rw [h] <;> exact hs.sameHealth (fun id => by cases id <;> rfl)

theorem executeCommand_healthSound {g : Game} (hs : HealthSound g) (hg : Grounded g)
    (hmod : 0 ≤ g.aiHealthModifier) (cmd : Command) :
    HealthSound (executeCommand g cmd) := by
  cases h : activeHuman g with
  | none => rw [executeCommand_of_inactive g cmd h]; exact hs
  | some at1 =>
    rw [executeCommand_of_active g cmd at1.1 at1.2 h]
    refine executeFor_healthSound hs _ _ cmd ?_ hmod
    rw [(hg.wf at1.1).1]
    cases (g.robot at1.1).type <;> decide

theorem executeAiTurn_healthSound {g : Game} (hs : HealthSound g) (hg : Grounded g)
    (hmod : 0 ≤ g.aiHealthModifier) (aiMove : Command) :
    HealthSound (executeAiTurn g aiMove) := by
  by_cases h1 : g.state = GameState.AiTurn
  · by_cases h2 : 0 < g.aiRobot.movesLeft
    · by_cases hc : aiMove = Command.None
      · subst hc
        unfold executeAiTurn
        rw [if_neg (by simpa using h1), if_pos (by simpa using h2)]
        exact hs
      · rw [executeAiTurn_eq g aiMove h1 h2 hc]
        refine executeFor_healthSound hs _ _ aiMove ?_ hmod
        rw [(hg.wf RobotId.ai).1]
        cases (g.robot RobotId.ai).type <;> decide
    · unfold executeAiTurn
      rw [if_neg (by simpa using h1), if_neg (by simpa using h2)]
      exact hs
  · unfold executeAiTurn
    rw [if_pos (by simpa using h1)]
    exact hs

theorem Robot.new_health_nonneg (t : RobotType) : 0 ≤ (Robot.new t).health := by
  cases t <;> decide

theorem Calibrated.healthModifier_nonneg {g : Game} (hc : Calibrated g) :
    0 ≤ g.aiHealthModifier := by
  rw [hc.2]
  cases g.difficulty <;> decide

theorem initializeArena_healthSound (g : Game) (pt aiT : RobotType) (diff : GameDifficulty)
    (map : MapType) (rng : List Nat) (g1 : Game)
    (h : initializeArena g pt aiT diff map rng = some g1) (hs : HealthSound g) :
    HealthSound g1 := by
  obtain ⟨-, -, -, -, -, hp, ha, hp2, -, -, -, -⟩ := initializeArena_spec g pt aiT diff map rng g1 h
  intro id
  cases id
  · show 0 ≤ g1.playerRobot.health
    rw [hp]
    exact Robot.new_health_nonneg pt
  · show 0 ≤ g1.player2Robot.health
    rw [hp2]
    exact hs RobotId.player2
  · show 0 ≤ g1.aiRobot.health
    rw [ha]
    cases diff <;> cases aiT <;>
      simp [applyDifficultySettings, scaleByModifier, Robot.new]

theorem initializeMultiplayerArena_healthSound (g : Game) (t1 t2 : RobotType)
    (map : MapType) (rng : List Nat) (g1 : Game)
    (h : initializeMultiplayerArena g t1 t2 map rng = some g1) (hs : HealthSound g) :
    HealthSound g1 := by
  obtain ⟨-, -, -, -, -, hp, hp2, ha, -, -, -, -⟩ :=
    initializeMultiplayerArena_spec g t1 t2 map rng g1 h
  intro id
  cases id
  · show 0 ≤ g1.playerRobot.health
    rw [hp]
    exact Robot.new_health_nonneg t1
  · show 0 ≤ g1.player2Robot.health
    rw [hp2]
    exact Robot.new_health_nonneg t2
  · show 0 ≤ g1.aiRobot.health
    rw [ha]
    exact hs RobotId.ai

theorem Game.blank_healthSound (size : Int) : HealthSound (Game.blank size) := by
  intro id
  cases id <;> exact Robot.new_health_nonneg RobotType.Scout

/-- In every reachable state no robot has negative health. -/
theorem Reachable.healthSound {g : Game} (h : Reachable g) : HealthSound g := by
  induction h with
  | construct size rng g _ hnew =>
    exact initializeArena_healthSound _ _ _ _ _ rng g hnew (Game.blank_healthSound size)
  | init g0 pt aiT diff map rng g _ hinit ih =>
    exact initializeArena_healthSound g0 pt aiT diff map rng g hinit ih
  | initMulti g0 t1 t2 map rng g _ hinit ih =>
    exact initializeMultiplayerArena_healthSound g0 t1 t2 map rng g hinit ih
  | command g cmd hr ih =>
    exact executeCommand_healthSound ih hr.inv.grounded hr.calibrated.healthModifier_nonneg cmd
  | aiTurn g aiMove hr ih =>
    exact executeAiTurn_healthSound ih hr.inv.grounded hr.calibrated.healthModifier_nonneg aiMove

/-- C12: `attackWall(pos, d)` on a `Wall` cell of the grid with hit-points `h`:
if `d < h` the cell stays a `Wall` with `h - d` hit-points, the call returns
false and emits no `wallDestroyed`; if `d >= h` the cell becomes `Empty` with
hit-points 0, the call returns true and emits `wallDestroyed(pos)` exactly
once.  On an out-of-bounds position or a cell that is not a `Wall` it returns
false, emits nothing and changes nothing.  In every case all other cells and
everything outside the two grids are unchanged. -/
theorem C12_attackWall (g : Game) (pos : QPoint) (d : Int) :
    (isValidPosition g pos = true → g.arena pos.y pos.x = CellType.Wall →
      (d < g.wallHealth pos.y pos.x →
        (attackWall g pos d).1.arena pos.y pos.x = CellType.Wall ∧
        (attackWall g pos d).1.wallHealth pos.y pos.x = g.wallHealth pos.y pos.x - d ∧
        (attackWall g pos d).2.1 = false ∧ (attackWall g pos d).2.2 = []) ∧
      (g.wallHealth pos.y pos.x ≤ d →
        (attackWall g pos d).1.arena pos.y pos.x = CellType.Empty ∧
        (attackWall g pos d).1.wallHealth pos.y pos.x = 0 ∧
        (attackWall g pos d).2.1 = true ∧ (attackWall g pos d).2.2 = [pos])) ∧
    (¬ (isValidPosition g pos = true ∧ g.arena pos.y pos.x = CellType.Wall) →
      attackWall g pos d = (g, false, [])) ∧
    (∀ y x, ¬ (y = pos.y ∧ x = pos.x) →
      (attackWall g pos d).1.arena y x = g.arena y x ∧
      (attackWall g pos d).1.wallHealth y x = g.wallHealth y x) ∧
    ArenaOnly g (attackWall g pos d).1 := by
  refine ⟨?_, ?_, ?_, ?_⟩
  · intro hv hw
    have hc : ¬ ((!isValidPosition g pos || decide (g.arena pos.y pos.x ≠ CellType.Wall)) = true) := by
      simp [hv, hw]
    constructor
    · intro hd
      have h2 : ¬ (g.wallHealth pos.y pos.x - d ≤ 0) := by omega
      unfold attackWall
      dsimp only
      rw [if_neg hc]
      simp only [Game.setWallHealth, and_self, if_true]
      rw [if_neg h2]
      simp [hw]
    · intro hd
      have h2 : g.wallHealth pos.y pos.x - d ≤ 0 := by omega
      unfold attackWall
      dsimp only
      rw [if_neg hc]
      simp only [Game.setWallHealth, and_self, if_true]
      rw [if_pos h2]
      simp
  · intro hn
    have hc : (!isValidPosition g pos || decide (g.arena pos.y pos.x ≠ CellType.Wall)) = true := by
      by_cases hv : isValidPosition g pos = true
      · have hw : g.arena pos.y pos.x ≠ CellType.Wall := fun hw => hn ⟨hv, hw⟩
        simp [hw]
      · simp [hv]
    unfold attackWall
    dsimp only
    rw [if_pos hc]
  · intro y x hyx
    unfold attackWall
    dsimp only
    split_ifs <;> simp [hyx]
  · unfold attackWall
    dsimp only
    split_ifs <;> exact ⟨rfl, rfl, rfl, rfl, rfl, rfl, rfl, rfl, rfl, rfl, rfl⟩

/-- Witness for C12: on the wall at (1,1) of the constructor state (3
hit-points) damage 1 leaves a wall with 2 hit-points and no signal, damage 3
destroys it with one signal; on the floor cell (0,0) nothing happens. -/
theorem C12_attackWall_witness :
    isValidPosition exampleStart ⟨1, 1⟩ = true ∧
    exampleStart.arena 1 1 = CellType.Wall ∧ exampleStart.wallHealth 1 1 = 3 ∧
    ((attackWall exampleStart ⟨1, 1⟩ 1).1.arena 1 1 = CellType.Wall ∧
      (attackWall exampleStart ⟨1, 1⟩ 1).1.wallHealth 1 1 = 2 ∧
      (attackWall exampleStart ⟨1, 1⟩ 1).2.1 = false ∧
      (attackWall exampleStart ⟨1, 1⟩ 1).2.2 = []) ∧
    ((attackWall exampleStart ⟨1, 1⟩ 3).1.arena 1 1 = CellType.Empty ∧
      (attackWall exampleStart ⟨1, 1⟩ 3).1.wallHealth 1 1 = 0 ∧
      (attackWall exampleStart ⟨1, 1⟩ 3).2.1 = true ∧
      (attackWall exampleStart ⟨1, 1⟩ 3).2.2 = [⟨1, 1⟩]) ∧
    attackWall exampleStart ⟨0, 0⟩ 3 = (exampleStart, false, []) :=
  have h1 := ((C12_attackWall exampleStart ⟨1, 1⟩ 1).1 (by decide) (by decide)).1 (by decide)
  have h3 := ((C12_attackWall exampleStart ⟨1, 1⟩ 3).1 (by decide) (by decide)).2 (by decide)
  ⟨by decide, by decide, by decide,
    ⟨h1.1, h1.2.1.trans (by decide), h1.2.2.1, h1.2.2.2⟩, h3,
    (C12_attackWall exampleStart ⟨0, 0⟩ 3).2.1 (by decide)⟩

/-- C20: in every reachable state every robot owned by the game (player,
second player, AI) has health at least 0. -/
theorem C20_health_nonneg (g : Game) (hr : Reachable g) :
    ∀ id, 0 ≤ (g.robot id).health :=
  hr.healthSound

/-- Witness for C20: in the duel after the killing hit (35 damage on 35
health) the Scout's health is 0. -/
theorem C20_health_nonneg_witness :
    Reachable exampleDuelAfterKill ∧
    (exampleDuelAfterKill.robot RobotId.player2).health = 0 ∧
    ∀ id, 0 ≤ (exampleDuelAfterKill.robot id).health :=
  have hr : Reachable exampleDuelAfterKill :=
    Reachable.command _ _ exampleDuelBeforeKill_reachable
  ⟨hr, by decide, C20_health_nonneg _ hr⟩

/-! ## Attack costs a move, turning costs none -/

theorem executeFor_attack_active {g : Game} {a t : RobotId} (ht : TurnOf g a t) :
    (executeFor g a t Command.Attack).robot a = (attackCommand g a t).robot a := by
  have ht1 : TurnOf (attackCommand g a t) a t :=
    ht.congr (attackCommand_turn g a t).1 (attackCommand_turn g a t).2
  exact (finishCommand_frame ht1).1

theorem attackCommand_movesLeft {g : Game} (hi : Inv g) {a t : RobotId} (ht : TurnOf g a t) :
    ((attackCommand g a t).robot a).movesLeft = (g.robot a).movesLeft - 1 := by
  have hm := hi.active_moves ht
  obtain ⟨gd, hd, h | h⟩ := attackCommand_eq g a t <;> rw [h, Game.robot_setRobot_same]
  · have e : (gd.robot a).movesLeft = (g.robot a).movesLeft := by rw [hd.robot a]; rfl
    rw [Robot.useMove_movesLeft _ (by rw [e]; exact hm), e]
  · have e : ((gd.robot a).setPowerUp RobotPowerUp.None).movesLeft = (g.robot a).movesLeft := by
      rw [hd.robot a]; rfl
    rw [Robot.useMove_movesLeft _ (by rw [e]; exact hm), e]

/-- C16: in every reachable state in which it is a human-controlled robot's
turn, `executeCommand(Attack)` takes exactly one move from the attacker (which
has at least one), whatever branch the attack takes: a normal attack that hits
a robot, hits a wall or misses, or a Laser, Missile or Bomb shot. -/
theorem C16_attack_costs_one_move (g : Game) (active target : RobotId) (hr : Reachable g)
    (hact : activeHuman g = some (active, target)) :
    1 ≤ (g.robot active).movesLeft ∧
    ((executeCommand g Command.Attack).robot active).movesLeft =
      (g.robot active).movesLeft - 1 := by
  have ht := activeHuman_turnOf hact
  refine ⟨hr.inv.active_moves ht, ?_⟩
  rw [executeCommand_of_active g _ active target hact, executeFor_attack_active ht]
  exact attackCommand_movesLeft hr.inv ht

/-- Witness for C16: a miss (the constructor state, the Scout attacks the empty
cell east of it), a hit on a robot (Scenario A) and a Laser shot each take the
attacker from its current budget to one less. -/
theorem C16_attack_costs_one_move_witness :
    (activeHuman exampleStart = some (RobotId.player, RobotId.ai) ∧
      (exampleStart.robot RobotId.player).movesLeft = 3 ∧
      ((executeCommand exampleStart Command.Attack).robot RobotId.player).movesLeft = 2) ∧
    (activeHuman exampleScoutFacesTank = some (RobotId.player, RobotId.player2) ∧
      (exampleScoutFacesTank.robot RobotId.player).movesLeft = 3 ∧
      ((executeCommand exampleScoutFacesTank Command.Attack).robot RobotId.player).movesLeft
        = 2) ∧
    (activeHuman exampleLaserShot = some (RobotId.player, RobotId.player2) ∧
      (exampleLaserShot.robot RobotId.player).currentPowerUp = RobotPowerUp.Laser ∧
      (exampleLaserShot.robot RobotId.player).movesLeft = 2 ∧
      ((executeCommand exampleLaserShot Command.Attack).robot RobotId.player).movesLeft = 1) :=
  ⟨⟨by decide, by decide,
      (C16_attack_costs_one_move exampleStart RobotId.player RobotId.ai
        exampleStart_reachable (by decide)).2.trans (by decide)⟩,
    ⟨by decide, by decide,
      (C16_attack_costs_one_move exampleScoutFacesTank RobotId.player RobotId.player2
        (runCommands_reachable _ _ exampleSkirmish_reachable) (by decide)).2.trans (by decide)⟩,
    ⟨by decide, by decide, by decide,
      (C16_attack_costs_one_move exampleLaserShot RobotId.player RobotId.player2
        exampleLaserShot_reachable (by decide)).2.trans (by decide)⟩⟩

theorem Robot.turnLeft_spec (r : Robot) :
    r.turnLeft = { r with direction := quarterLeft r.direction } := by
  unfold Robot.turnLeft quarterLeft
  cases h : r.direction <;> rfl

theorem Robot.turnRight_spec (r : Robot) :
    r.turnRight = { r with direction := quarterRight r.direction } := by
  unfold Robot.turnRight quarterRight
  cases h : r.direction <;> rfl

theorem executeFor_turn {g : Game} (hi : Inv g) {a t : RobotId} (ht : TurnOf g a t) :
    executeFor g a t Command.TurnLeft =
      g.setRobot a { g.robot a with direction := quarterLeft (g.robot a).direction } ∧
    executeFor g a t Command.TurnRight =
      g.setRobot a { g.robot a with direction := quarterRight (g.robot a).direction } := by
  have hm := hi.active_moves ht
  constructor
  · show finishCommand (g.setRobot a (g.robot a).turnLeft) a = _
    rw [finishCommand_moves_left _ _ (by
      rw [Game.robot_setRobot_same, Robot.turnLeft_spec]; exact hm), Robot.turnLeft_spec]
  · show finishCommand (g.setRobot a (g.robot a).turnRight) a = _
    rw [finishCommand_moves_left _ _ (by
      rw [Game.robot_setRobot_same, Robot.turnRight_spec]; exact hm), Robot.turnRight_spec]

/-- C17: in every reachable state in which it is a human-controlled robot's
turn, `executeCommand(TurnLeft)` and `executeCommand(TurnRight)` replace the
active robot's facing by the one a quarter turn to the left (right) and change
nothing else: the robot's other fields (position, moves left, health,
power-up), every other robot, the arena, the wall hit-points, the turn state
and the settings are what they were. -/
theorem C17_turn_changes_facing_only (g : Game) (active target : RobotId) (hr : Reachable g)
    (hact : activeHuman g = some (active, target)) :
    (executeCommand g Command.TurnLeft =
        g.setRobot active
          { g.robot active with direction := quarterLeft (g.robot active).direction } ∧
      executeCommand g Command.TurnRight =
        g.setRobot active
          { g.robot active with direction := quarterRight (g.robot active).direction }) ∧
    (∀ cmd, cmd = Command.TurnLeft ∨ cmd = Command.TurnRight →
      ((executeCommand g cmd).robot active).position = (g.robot active).position ∧
      ((executeCommand g cmd).robot active).movesLeft = (g.robot active).movesLeft ∧
      ((executeCommand g cmd).robot active).health = (g.robot active).health ∧
      ((executeCommand g cmd).robot active).currentPowerUp = (g.robot active).currentPowerUp ∧
      (∀ id, id ≠ active → (executeCommand g cmd).robot id = g.robot id) ∧
      (executeCommand g cmd).arena = g.arena ∧
      (executeCommand g cmd).wallHealth = g.wallHealth ∧
      (executeCommand g cmd).state = g.state) := by
  have ht := activeHuman_turnOf hact
  obtain ⟨hl, hrt⟩ := executeFor_turn hr.inv ht
  rw [← executeCommand_of_active g _ active target hact] at hl hrt
  refine ⟨⟨hl, hrt⟩, ?_⟩
  intro cmd hcmd
  rcases hcmd with rfl | rfl
  · rw [hl]
    refine ⟨?_, ?_, ?_, ?_, ?_, ?_, ?_, ?_⟩
    · rw [Game.robot_setRobot_same]
    · rw [Game.robot_setRobot_same]
    · rw [Game.robot_setRobot_same]
    · rw [Game.robot_setRobot_same]
    · intro id hid; exact Game.robot_setRobot_ne g active id _ hid
    · exact (setRobot_arena g active _).1
    · exact (setRobot_arena g active _).2
    · cases active <;> rfl
  · rw [hrt]
    refine ⟨?_, ?_, ?_, ?_, ?_, ?_, ?_, ?_⟩
    · rw [Game.robot_setRobot_same]
    · rw [Game.robot_setRobot_same]
    · rw [Game.robot_setRobot_same]
    · rw [Game.robot_setRobot_same]
    · intro id hid; exact Game.robot_setRobot_ne g active id _ hid
    · exact (setRobot_arena g active _).1
    · exact (setRobot_arena g active _).2
    · cases active <;> rfl

/-- Witness for C17: in the constructor state the player robot faces East with
3 moves; after `TurnLeft` it faces North, after `TurnRight` South, each time
still with 3 moves and in `PlayerTurn`. -/
theorem C17_turn_changes_facing_only_witness :
    activeHuman exampleStart = some (RobotId.player, RobotId.ai) ∧
    (exampleStart.robot RobotId.player).direction = Direction.East ∧
    (exampleStart.robot RobotId.player).movesLeft = 3 ∧
    ((executeCommand exampleStart Command.TurnLeft).robot RobotId.player).direction
      = Direction.North ∧
    ((executeCommand exampleStart Command.TurnRight).robot RobotId.player).direction
      = Direction.South ∧
    ((executeCommand exampleStart Command.TurnLeft).robot RobotId.player).movesLeft = 3 ∧
    (executeCommand exampleStart Command.TurnRight).state = GameState.PlayerTurn :=
  have h := C17_turn_changes_facing_only exampleStart RobotId.player RobotId.ai
    exampleStart_reachable (by decide)
  ⟨by decide, by decide, by decide,
    (congrArg (fun s => (s.robot RobotId.player).direction) h.1.1).trans (by decide),
    (congrArg (fun s => (s.robot RobotId.player).direction) h.1.2).trans (by decide),
    ((h.2 Command.TurnLeft (Or.inl rfl)).2.1).trans (by decide),
    ((h.2 Command.TurnRight (Or.inr rfl)).2.2.2.2.2.2.2).trans (by decide)⟩

/-! ## Moving onto a pickup -/

theorem engineStep_reachable {g : Game} (h : Reachable g) (cmd : Command) :
    Reachable (engineStep g cmd) := by
  unfold engineStep
  split_ifs
  · exact Reachable.aiTurn g cmd h
  · exact Reachable.command g cmd h

theorem runSteps_reachable (cmds : List Command) :
    ∀ g : Game, Reachable g → Reachable (runSteps g cmds) := by
  induction cmds with
  | nil => intro g h; exact h
  | cons c cs ih => intro g h; exact ih _ (engineStep_reachable h c)

theorem moved_robot (g : Game) (a : RobotId) (p : QPoint) :
    ((g.setRobot a ((g.robot a).setPosition p)).setRobot a
      ((g.setRobot a ((g.robot a).setPosition p)).robot a).useMove).robot a =
      ((g.robot a).setPosition p).useMove := by
  rw [Game.robot_setRobot_same, Game.robot_setRobot_same]

theorem moved_frame (g : Game) (a : RobotId) (p : QPoint) :
    ((g.setRobot a ((g.robot a).setPosition p)).setRobot a
      ((g.setRobot a ((g.robot a).setPosition p)).robot a).useMove).arena = g.arena ∧
    ((g.setRobot a ((g.robot a).setPosition p)).setRobot a
      ((g.setRobot a ((g.robot a).setPosition p)).robot a).useMove).gridSize = g.gridSize ∧
    ((g.setRobot a ((g.robot a).setPosition p)).setRobot a
      ((g.setRobot a ((g.robot a).setPosition p)).robot a).useMove).multiplayerMode
        = g.multiplayerMode ∧
    ((g.setRobot a ((g.robot a).setPosition p)).setRobot a
      ((g.setRobot a ((g.robot a).setPosition p)).robot a).useMove).aiHealthModifier
        = g.aiHealthModifier := by
  cases a <;> exact ⟨rfl, rfl, rfl, rfl⟩

/-- What `MoveForward` does when the cell ahead is free and holds a health
pickup. -/
theorem moveForwardCommand_healthPickup (g : Game) (a : RobotId)
    (hv : isValidMove g (stepFrom (g.robot a).position (g.robot a).direction 1) = true)
    (hcell : g.arena (stepFrom (g.robot a).position (g.robot a).direction 1).y
      (stepFrom (g.robot a).position (g.robot a).direction 1).x = CellType.HealthPickup) :
    ((moveForwardCommand g a).1.robot a).health =
      min ((g.robot a).health + HEALTH_PICKUP_AMOUNT)
        (if g.multiplayerMode = false ∧ a = RobotId.ai
          then scaleByModifier (g.robot a).maxHealth g.aiHealthModifier
          else (g.robot a).maxHealth) ∧
    (moveForwardCommand g a).1.arena (stepFrom (g.robot a).position (g.robot a).direction 1).y
      (stepFrom (g.robot a).position (g.robot a).direction 1).x = CellType.Empty := by
  obtain ⟨f1, f2, f3, f4⟩ := moved_frame g a (stepFrom (g.robot a).position (g.robot a).direction 1)
  have hr := moved_robot g a (stepFrom (g.robot a).position (g.robot a).direction 1)
  have hpos : isValidPosition g (stepFrom (g.robot a).position (g.robot a).direction 1) = true :=
    ((isValidMove_iff g _).1 hv).1
  unfold moveForwardCommand
  dsimp only
  rw [if_pos hv]
  dsimp only
  rw [if_pos (by rw [f1]; exact hcell)]
  unfold collectHealthPickup
  dsimp only
  rw [if_neg (by rw [f1, isValidPosition_congr f2, hpos, hcell]; simp)]
  rw [setCell_robot, Game.robot_setRobot_same, hr, f3, f4]
  refine ⟨?_, ?_⟩
  · rw [Robot.useMove_eq]
    cases hm : g.multiplayerMode <;> by_cases ha : a = RobotId.ai <;> simp [ha]
  · simp

/-- What `MoveForward` does when the cell ahead is free and holds a power-up. -/
theorem moveForwardCommand_powerUp (g : Game) (a : RobotId)
    (hv : isValidMove g (stepFrom (g.robot a).position (g.robot a).direction 1) = true)
    (hcell : g.arena (stepFrom (g.robot a).position (g.robot a).direction 1).y
        (stepFrom (g.robot a).position (g.robot a).direction 1).x = CellType.LaserPowerUp ∨
      g.arena (stepFrom (g.robot a).position (g.robot a).direction 1).y
        (stepFrom (g.robot a).position (g.robot a).direction 1).x = CellType.MissilePowerUp ∨
      g.arena (stepFrom (g.robot a).position (g.robot a).direction 1).y
        (stepFrom (g.robot a).position (g.robot a).direction 1).x = CellType.BombPowerUp) :
    ((moveForwardCommand g a).1.robot a).currentPowerUp =
      powerUpOfCell (g.arena (stepFrom (g.robot a).position (g.robot a).direction 1).y
        (stepFrom (g.robot a).position (g.robot a).direction 1).x) ∧
    ((moveForwardCommand g a).1.robot a).health = (g.robot a).health ∧
    (moveForwardCommand g a).1.arena (stepFrom (g.robot a).position (g.robot a).direction 1).y
      (stepFrom (g.robot a).position (g.robot a).direction 1).x = CellType.Empty := by
  obtain ⟨f1, f2, f3, f4⟩ := moved_frame g a (stepFrom (g.robot a).position (g.robot a).direction 1)
  have hr := moved_robot g a (stepFrom (g.robot a).position (g.robot a).direction 1)
  have hpos : isValidPosition g (stepFrom (g.robot a).position (g.robot a).direction 1) = true :=
    ((isValidMove_iff g _).1 hv).1
  have hnh : g.arena (stepFrom (g.robot a).position (g.robot a).direction 1).y
      (stepFrom (g.robot a).position (g.robot a).direction 1).x ≠ CellType.HealthPickup := by
    rcases hcell with h | h | h <;> rw [h] <;> decide
  unfold moveForwardCommand
  dsimp only
  rw [if_pos hv]
  dsimp only
  rw [if_neg (by rw [f1]; exact hnh), if_pos (by rw [f1]; exact hcell)]
  unfold collectPowerUp setRobotPowerUp
  rw [if_neg (by rw [isValidPosition_congr f2, hpos]; simp), f1]
  rcases hcell with h | h | h <;> rw [h] <;> dsimp only <;>
    rw [setCell_robot, Game.robot_setRobot_same, hr, Robot.useMove_eq] <;>
    refine ⟨rfl, rfl, ?_⟩ <;> simp

theorem executeFor_moveForward_active {g : Game} {a t : RobotId} (ht : TurnOf g a t)
    (hv : isValidMove g (stepFrom (g.robot a).position (g.robot a).direction 1) = true) :
    (executeFor g a t Command.MoveForward).robot a = (moveForwardCommand g a).1.robot a ∧
    (executeFor g a t Command.MoveForward).arena = (moveForwardCommand g a).1.arena := by
  rw [executeFor_moveForward g a t hv]
  have ht1 : TurnOf (moveForwardCommand g a).1 a t :=
    ht.congr (moveForwardCommand_turn g a).1 (moveForwardCommand_turn g a).2
  exact ⟨(finishCommand_frame ht1).1, (finishCommand_arena _ _).1⟩

theorem Robot.WellFormed.maxHealth_eq {r : Robot} (h : r.WellFormed) :
    r.maxHealth = MaxHealth r.type := by
  rw [h.1]
  cases r.type <;> rfl

/-- C18: when the robot whose turn it is (human or AI) moves forward in a
reachable state onto a free cell holding a health pickup, its health becomes
`min(health + 20, effectiveMax)`, where `effectiveMax` is the archetype's
MaxHealth, for the AI robot in single-player mode multiplied by the
difficulty's health multiplier and truncated; the cell becomes `Empty`. -/
theorem C18_health_pickup (g : Game) (active target : RobotId) (hr : Reachable g)
    (ht : TurnOf g active target)
    (hfree : ¬ cellBlocked g (cellAhead (g.robot active)))
    (hcell : g.arena (cellAhead (g.robot active)).y (cellAhead (g.robot active)).x
      = CellType.HealthPickup) :
    ((engineStep g Command.MoveForward).robot active).position = cellAhead (g.robot active) ∧
    ((engineStep g Command.MoveForward).robot active).health =
      min ((g.robot active).health + 20) (effectiveMaxHealth g active) ∧
    (engineStep g Command.MoveForward).arena (cellAhead (g.robot active)).y
      (cellAhead (g.robot active)).x = CellType.Empty := by
  have hi := hr.inv
  have hv := isValidMove_of_not_blocked g _ hfree
  unfold cellAhead at hv hcell ⊢
  obtain ⟨h1, h2⟩ := moveForwardCommand_healthPickup g active hv hcell
  obtain ⟨e1, e2⟩ := executeFor_moveForward_active ht hv
  rw [engineStep_eq hi ht _ (by decide)]
  refine ⟨(executeFor_moveForward_spec hi ht hfree).1, ?_, ?_⟩
  · rw [e1, h1]
    unfold effectiveMaxHealth
    rw [(hi.grounded.wf active).maxHealth_eq, hr.calibrated.2]
    rfl
  · rw [e2]; exact h2

/-! ## The power-up slot -/

theorem useMove_view (gd : Game) (a : RobotId) :
    (gd.setRobot a (gd.robot a).useMove).arena = gd.arena ∧
    (gd.setRobot a (gd.robot a).useMove).wallHealth = gd.wallHealth ∧
    ∀ id, ((gd.setRobot a (gd.robot a).useMove).robot id).health = (gd.robot id).health := by
  refine ⟨(setRobot_arena _ _ _).1, (setRobot_arena _ _ _).2, ?_⟩
  intro id
  by_cases h : id = a
  · subst h
    rw [Game.robot_setRobot_same, Robot.useMove_health]
  · rw [Game.robot_setRobot_ne gd a id _ h]

/-- An attack with a held power-up is that power-up's loops, the clearing of
the slot and `useMove`. -/
theorem attackCommand_powerUp (g : Game) (a t : RobotId)
    (hp : (g.robot a).currentPowerUp ≠ RobotPowerUp.None) :
    attackCommand g a t =
      (powerUpShot g a).setRobot a
        (((powerUpShot g a).robot a).setPowerUp RobotPowerUp.None).useMove := by
  unfold powerUpShot
  cases h : (g.robot a).currentPowerUp
  · exact (hp h).elim
  · exact attackCommand_laser g a t h
  · exact attackCommand_missile g a t h
  · exact attackCommand_bomb g a t h

theorem engineStep_attack_slot {g : Game} (hi : Inv g) {a t : RobotId} (ht : TurnOf g a t) :
    ((engineStep g Command.Attack).robot a).currentPowerUp = RobotPowerUp.None := by
  rw [engineStep_eq hi ht _ (by decide), executeFor_attack_active ht]
  by_cases hp : (g.robot a).currentPowerUp = RobotPowerUp.None
  · rw [attackCommand_none g a t hp, Game.robot_setRobot_same, Robot.useMove_eq]
    show ((normalAttack g a t).robot a).currentPowerUp = _
    rw [(normalAttack_damageOnly g a t).robot a]
    exact hp
  · rw [attackCommand_powerUp g a t hp, Game.robot_setRobot_same, Robot.useMove_eq]
    rfl

theorem engineStep_powerUp_view {g : Game} (hi : Inv g) {a t : RobotId} (ht : TurnOf g a t)
    (hp : (g.robot a).currentPowerUp ≠ RobotPowerUp.None) :
    (engineStep g Command.Attack).arena = (powerUpShot g a).arena ∧
    (engineStep g Command.Attack).wallHealth = (powerUpShot g a).wallHealth ∧
    ∀ id, ((engineStep g Command.Attack).robot id).health
      = ((powerUpShot g a).robot id).health := by
  rw [engineStep_eq hi ht _ (by decide)]
  obtain ⟨h1, h2, h3⟩ := executeFor_attack_view ht
  obtain ⟨v1, v2, v3⟩ := afterShot_view (powerUpShot g a) a
  rw [h1, h2, attackCommand_powerUp g a t hp]
  refine ⟨v1, v2, ?_⟩
  intro id
  rw [h3, attackCommand_powerUp g a t hp]
  exact v3 id

theorem engineStep_normal_view {g : Game} (hi : Inv g) {a t : RobotId} (ht : TurnOf g a t)
    (hp : (g.robot a).currentPowerUp = RobotPowerUp.None) :
    (engineStep g Command.Attack).arena = (normalAttack g a t).arena ∧
    (engineStep g Command.Attack).wallHealth = (normalAttack g a t).wallHealth ∧
    ∀ id, ((engineStep g Command.Attack).robot id).health
      = ((normalAttack g a t).robot id).health := by
  rw [engineStep_eq hi ht _ (by decide)]
  obtain ⟨h1, h2, h3⟩ := executeFor_attack_view ht
  obtain ⟨v1, v2, v3⟩ := useMove_view (normalAttack g a t) a
  rw [h1, h2, attackCommand_none g a t hp]
  refine ⟨v1, v2, ?_⟩
  intro id
  rw [h3, attackCommand_none g a t hp]
  exact v3 id

/-- C19: the power-up slot is single-use and non-stacking.  In a reachable
state, for the robot whose turn it is (human or AI): a successful `MoveForward`
onto a Laser, Missile or Bomb cell sets the robot's power-up to that kind,
whatever it held, and leaves the cell `Empty`; an `Attack` made while holding a
power-up changes arena, wall hit-points and health exactly as that power-up's
loops do (no normal-attack damage is added); after every `Attack` the slot is
`None`; and an `Attack` with the slot at `None` is the normal attack. -/
theorem C19_power_up_slot (g : Game) (active target : RobotId) (hr : Reachable g)
    (ht : TurnOf g active target) :
    (¬ cellBlocked g (cellAhead (g.robot active)) →
      (g.arena (cellAhead (g.robot active)).y (cellAhead (g.robot active)).x
          = CellType.LaserPowerUp ∨
        g.arena (cellAhead (g.robot active)).y (cellAhead (g.robot active)).x
          = CellType.MissilePowerUp ∨
        g.arena (cellAhead (g.robot active)).y (cellAhead (g.robot active)).x
          = CellType.BombPowerUp) →
      ((engineStep g Command.MoveForward).robot active).position = cellAhead (g.robot active) ∧
      ((engineStep g Command.MoveForward).robot active).currentPowerUp =
        powerUpOfCell
          (g.arena (cellAhead (g.robot active)).y (cellAhead (g.robot active)).x) ∧
      (engineStep g Command.MoveForward).arena (cellAhead (g.robot active)).y
        (cellAhead (g.robot active)).x = CellType.Empty) ∧
    ((g.robot active).currentPowerUp ≠ RobotPowerUp.None →
      (engineStep g Command.Attack).arena = (powerUpShot g active).arena ∧
      (engineStep g Command.Attack).wallHealth = (powerUpShot g active).wallHealth ∧
      ∀ id, ((engineStep g Command.Attack).robot id).health
        = ((powerUpShot g active).robot id).health) ∧
    ((engineStep g Command.Attack).robot active).currentPowerUp = RobotPowerUp.None ∧
    ((g.robot active).currentPowerUp = RobotPowerUp.None →
      (engineStep g Command.Attack).arena = (normalAttack g active target).arena ∧
      (engineStep g Command.Attack).wallHealth = (normalAttack g active target).wallHealth ∧
      ∀ id, ((engineStep g Command.Attack).robot id).health
        = ((normalAttack g active target).robot id).health) := by
  have hi := hr.inv
  refine ⟨?_, engineStep_powerUp_view hi ht, engineStep_attack_slot hi ht,
    engineStep_normal_view hi ht⟩
  intro hfree hcell
  have hv := isValidMove_of_not_blocked g _ hfree
  unfold cellAhead at hv hcell ⊢
  obtain ⟨h1, -, h3⟩ := moveForwardCommand_powerUp g active hv hcell
  obtain ⟨e1, e2⟩ := executeFor_moveForward_active ht hv
  rw [engineStep_eq hi ht _ (by decide)]
  refine ⟨(executeFor_moveForward_spec hi ht hfree).1, ?_, ?_⟩
  · rw [e1, h1]
  · rw [e2]; exact h3

/-! ## Example runs at Hard difficulty -/

theorem exampleHard_reachable : Reachable exampleHard :=
  Reachable.init exampleStart RobotType.Scout RobotType.Scout GameDifficulty.Hard MapType.Open
    exampleOpenDraws exampleHard exampleStart_reachable (eq_some_getD _ _ (by decide))

theorem exampleHardLaserShot_reachable : Reachable exampleHardLaserShot :=
  runSteps_reachable _ _ exampleHard_reachable

theorem exampleHardPickup_reachable : Reachable exampleHardPickup :=
  runSteps_reachable _ _ exampleHardLaserShot_reachable

theorem exampleHardMissileShot_reachable : Reachable exampleHardMissileShot :=
  runSteps_reachable _ _ exampleHard_reachable

theorem exampleHardOverwrite_reachable : Reachable exampleHardOverwrite :=
  runSteps_reachable _ _ exampleHard_reachable

/-- Witness for C18: at Hard difficulty the AI Scout (cap 91) at 72 health
steps onto the pickup at (1,1) and is back at 91, not 92; the player Scout (cap
70) at full health steps onto the pickup at (1,2) and stays at 70. -/
theorem C18_health_pickup_witness :
    (Reachable exampleHardPickup ∧
      TurnOf exampleHardPickup RobotId.ai RobotId.player ∧
      ¬ cellBlocked exampleHardPickup (cellAhead (exampleHardPickup.robot RobotId.ai)) ∧
      cellAhead (exampleHardPickup.robot RobotId.ai) = ⟨1, 1⟩ ∧
      exampleHardPickup.arena 1 1 = CellType.HealthPickup ∧
      (exampleHardPickup.robot RobotId.ai).health = 72 ∧
      effectiveMaxHealth exampleHardPickup RobotId.ai = 91 ∧
      ((engineStep exampleHardPickup Command.MoveForward).robot RobotId.ai).health = 91 ∧
      (engineStep exampleHardPickup Command.MoveForward).arena 1 1 = CellType.Empty) ∧
    (Reachable exampleHardLaserShot ∧
      TurnOf exampleHardLaserShot RobotId.player RobotId.ai ∧
      cellAhead (exampleHardLaserShot.robot RobotId.player) = ⟨1, 2⟩ ∧
      exampleHardLaserShot.arena 2 1 = CellType.HealthPickup ∧
      (exampleHardLaserShot.robot RobotId.player).health = 70 ∧
      ((engineStep exampleHardLaserShot Command.MoveForward).robot RobotId.player).health
        = 70) :=
  have hf1 : ¬ cellBlocked exampleHardPickup (cellAhead (exampleHardPickup.robot RobotId.ai)) := by
    unfold cellBlocked; decide
  have h1 := C18_health_pickup exampleHardPickup RobotId.ai RobotId.player
    exampleHardPickup_reachable (by decide) hf1 (by decide)
  have h2 := C18_health_pickup exampleHardLaserShot RobotId.player RobotId.ai
    exampleHardLaserShot_reachable (by decide) (by unfold cellBlocked; decide) (by decide)
  ⟨⟨exampleHardPickup_reachable, by decide, hf1, by decide, by decide, by decide, by decide,
      h1.2.1.trans (by decide), h1.2.2⟩,
    ⟨exampleHardLaserShot_reachable, by decide, by decide, by decide, by decide,
      h2.2.1.trans (by decide)⟩⟩

/-- Witness for C19: the player holding the Laser steps onto the Missile cell
(2,3) and holds the Missile, the cell is `Empty`; fired at the AI robot on the
next cell the Missile alone acts (91 to 65 at Hard) and the slot is `None`. -/
theorem C19_power_up_slot_witness :
    (Reachable exampleHardOverwrite ∧
      TurnOf exampleHardOverwrite RobotId.player RobotId.ai ∧
      (exampleHardOverwrite.robot RobotId.player).currentPowerUp = RobotPowerUp.Laser ∧
      cellAhead (exampleHardOverwrite.robot RobotId.player) = ⟨2, 3⟩ ∧
      exampleHardOverwrite.arena 3 2 = CellType.MissilePowerUp ∧
      ((engineStep exampleHardOverwrite Command.MoveForward).robot
        RobotId.player).currentPowerUp = RobotPowerUp.Missile ∧
      (engineStep exampleHardOverwrite Command.MoveForward).arena 3 2 = CellType.Empty) ∧
    (Reachable exampleHardMissileShot ∧
      TurnOf exampleHardMissileShot RobotId.player RobotId.ai ∧
      (exampleHardMissileShot.robot RobotId.player).currentPowerUp = RobotPowerUp.Missile ∧
      (exampleHardMissileShot.robot RobotId.ai).health = 91 ∧
      ((engineStep exampleHardMissileShot Command.Attack).robot RobotId.ai).health = 65 ∧
      ((engineStep exampleHardMissileShot Command.Attack).robot
        RobotId.player).currentPowerUp = RobotPowerUp.None) :=
  have h1 := (C19_power_up_slot exampleHardOverwrite RobotId.player RobotId.ai
    exampleHardOverwrite_reachable (by decide)).1 (by unfold cellBlocked; decide)
    (Or.inr (Or.inl (by decide)))
  have h2 := C19_power_up_slot exampleHardMissileShot RobotId.player RobotId.ai
    exampleHardMissileShot_reachable (by decide)
  ⟨⟨exampleHardOverwrite_reachable, by decide, by decide, by decide, by decide,
      h1.2.1.trans (by decide), h1.2.2⟩,
    ⟨exampleHardMissileShot_reachable, by decide, by decide, by decide,
      ((h2.2.1 (by decide)).2.2 RobotId.ai).trans (by decide), h2.2.2.1⟩⟩

/-! ## Health taken by Laser and Missile -/

theorem laser_health {g : Game} (hi : Inv g) {a t : RobotId} (ht : TurnOf g a t)
    (hp : (g.robot a).currentPowerUp = RobotPowerUp.Laser) (id : RobotId)
    (hpart : isParticipant g id) (hray : onRay g a (g.robot id).position) :
    ((engineStep g Command.Attack).robot id).health =
      max 0 ((g.robot id).health - powerUpDamageTo g id 15) := by
  obtain ⟨-, -, v3⟩ := engineStep_laser_view hi ht hp
  have hva := (hi.floor_of_turn ht).1.1
  have hnd := rayCells_nodup g.gridSize (g.robot a).direction (rayFuel g)
    (g.robot a).position ((isValidPosition_iff _ _).1 hva)
  rw [v3, blast_health 15 _ g hnd]
  rw [if_pos ⟨(mem_rayCells_full g _ _ _ hva).2 hray, hray.1,
    (hi.floor_of_participant hpart).2, hpart⟩]

theorem missile_health {g : Game} (hi : Inv g) {a t : RobotId} (ht : TurnOf g a t)
    (hp : (g.robot a).currentPowerUp = RobotPowerUp.Missile) (p : QPoint)
    (hfo : firstObstacle g a p) (hw : g.arena p.y p.x ≠ CellType.Wall) :
    (g.robot t).position = p ∧
    ((engineStep g Command.Attack).robot t).health =
      max 0 ((g.robot t).health - powerUpDamageTo g t 20) := by
  obtain ⟨-, -, v3⟩ := engineStep_missile_view hi ht hp
  have hva := (hi.floor_of_turn ht).1.1
  rw [missileLoop_eq_rayScan] at v3
  have hs := rayScan_of_firstObstacle g a p hva hfo
  rw [hs] at v3
  simp only [if_true] at v3
  have htp := robot_on_ray_is_target ht hfo.1 hfo.2.1 hw
  have hna : p ≠ (g.robot a).position := by
    intro e
    have := hfo.1.2
    rw [e] at this
    exact aheadOf_irrefl _ _ this
  obtain ⟨-, -, k3, -⟩ := missileHit_robot ht p hw htp.symm hna
  exact ⟨htp, by rw [v3, k3]⟩

theorem powerUpDamageTo_human (g : Game) (id : RobotId) (base : Int)
    (h : g.multiplayerMode = true ∨ id ≠ RobotId.ai) : powerUpDamageTo g id base = base := by
  unfold powerUpDamageTo
  rw [if_neg]
  rintro ⟨h1, h2⟩
  rcases h with h | h
  · rw [h1] at h; cases h
  · exact h h2

theorem powerUpDamageTo_ai {g : Game} (hc : Calibrated g) (base : Int)
    (h : g.multiplayerMode = false) :
    powerUpDamageTo g RobotId.ai base = scaleByModifier base (modifierTenths g.difficulty) := by
  unfold powerUpDamageTo
  rw [if_pos ⟨h, rfl⟩, hc.1]

/-- Counterexample for C11: at Hard difficulty the AI Scout (91 health) crossed
by the player's Laser ends at 72, not 76, and hit by the player's Missile ends
at 65, not 71. -/
theorem C11_counterexample :
    (Reachable exampleHardLaserShot ∧
      TurnOf exampleHardLaserShot RobotId.player RobotId.ai ∧
      (exampleHardLaserShot.robot RobotId.player).currentPowerUp = RobotPowerUp.Laser ∧
      onRay exampleHardLaserShot RobotId.player (exampleHardLaserShot.robot RobotId.ai).position ∧
      (exampleHardLaserShot.robot RobotId.ai).health = 91 ∧
      ((engineStep exampleHardLaserShot Command.Attack).robot RobotId.ai).health = 72 ∧
      ((engineStep exampleHardLaserShot Command.Attack).robot RobotId.ai).health ≠
        max 0 ((exampleHardLaserShot.robot RobotId.ai).health - 15)) ∧
    (Reachable exampleHardMissileShot ∧
      TurnOf exampleHardMissileShot RobotId.player RobotId.ai ∧
      (exampleHardMissileShot.robot RobotId.player).currentPowerUp = RobotPowerUp.Missile ∧
      firstObstacle exampleHardMissileShot RobotId.player
        (exampleHardMissileShot.robot RobotId.ai).position ∧
      (exampleHardMissileShot.robot RobotId.ai).health = 91 ∧
      ((engineStep exampleHardMissileShot Command.Attack).robot RobotId.ai).health = 65 ∧
      ((engineStep exampleHardMissileShot Command.Attack).robot RobotId.ai).health ≠
        max 0 ((exampleHardMissileShot.robot RobotId.ai).health - 20)) :=
  ⟨⟨exampleHardLaserShot_reachable, by decide, by decide, by decide, by decide, by decide,
      by decide⟩,
    ⟨exampleHardMissileShot_reachable, by decide, by decide,
      firstObstacle_of_scan _ _ _ (by decide) (by decide), by decide, by decide, by decide⟩⟩

/-- C11 as amended: when the robot whose turn it is (human or AI) fires in a
reachable state, each participating robot crossed by a Laser loses
`powerUpDamageTo .. 15` health and the robot hit by a Missile loses
`powerUpDamageTo .. 20`, floored at 0.  That amount is exactly 15 (resp. 20)
for every human-controlled robot, in either mode and at every difficulty; for
the AI robot of a single-player game it is the base amount times the
difficulty's damage multiplier, truncated: 10 / 15 / 19 for the Laser and
14 / 20 / 26 for the Missile at Easy / Medium / Hard. -/
theorem C11_power_up_robot_damage (g : Game) (active target : RobotId) (hr : Reachable g)
    (ht : TurnOf g active target) :
    ((g.robot active).currentPowerUp = RobotPowerUp.Laser →
      ∀ id, isParticipant g id → onRay g active (g.robot id).position →
        ((engineStep g Command.Attack).robot id).health =
          max 0 ((g.robot id).health - powerUpDamageTo g id 15)) ∧
    ((g.robot active).currentPowerUp = RobotPowerUp.Missile →
      ∀ p, firstObstacle g active p → g.arena p.y p.x ≠ CellType.Wall →
        (g.robot target).position = p ∧
        ((engineStep g Command.Attack).robot target).health =
          max 0 ((g.robot target).health - powerUpDamageTo g target 20)) ∧
    (∀ id, g.multiplayerMode = true ∨ id ≠ RobotId.ai →
      powerUpDamageTo g id 15 = 15 ∧ powerUpDamageTo g id 20 = 20) ∧
    (g.multiplayerMode = false →
      (g.difficulty = GameDifficulty.Easy →
        powerUpDamageTo g RobotId.ai 15 = 10 ∧ powerUpDamageTo g RobotId.ai 20 = 14) ∧
      (g.difficulty = GameDifficulty.Medium →
        powerUpDamageTo g RobotId.ai 15 = 15 ∧ powerUpDamageTo g RobotId.ai 20 = 20) ∧
      (g.difficulty = GameDifficulty.Hard →
        powerUpDamageTo g RobotId.ai 15 = 19 ∧ powerUpDamageTo g RobotId.ai 20 = 26)) := by
  have hi := hr.inv
  refine ⟨fun hp id hpart hray => laser_health hi ht hp id hpart hray,
    fun hp p hfo hw => missile_health hi ht hp p hfo hw,
    fun id h => ⟨powerUpDamageTo_human g id 15 h, powerUpDamageTo_human g id 20 h⟩, ?_⟩
  intro hm
  rw [powerUpDamageTo_ai hr.calibrated 15 hm, powerUpDamageTo_ai hr.calibrated 20 hm]
  refine ⟨?_, ?_, ?_⟩ <;> intro hd <;> rw [hd] <;> exact ⟨by decide, by decide⟩

/-- Witness for the amended C11: the Hard-difficulty Laser shot takes 19 from
the AI Scout (91 to 72); the two-player Laser shot of `exampleLaserShot` takes
exactly 15 from the second player's Scout (70 to 55). -/
theorem C11_power_up_robot_damage_witness :
    (Reachable exampleHardLaserShot ∧
      TurnOf exampleHardLaserShot RobotId.player RobotId.ai ∧
      exampleHardLaserShot.multiplayerMode = false ∧
      exampleHardLaserShot.difficulty = GameDifficulty.Hard ∧
      (exampleHardLaserShot.robot RobotId.ai).health = 91 ∧
      powerUpDamageTo exampleHardLaserShot RobotId.ai 15 = 19 ∧
      ((engineStep exampleHardLaserShot Command.Attack).robot RobotId.ai).health = 72) ∧
    (Reachable exampleLaserShot ∧
      TurnOf exampleLaserShot RobotId.player RobotId.player2 ∧
      (exampleLaserShot.robot RobotId.player2).health = 70 ∧
      powerUpDamageTo exampleLaserShot RobotId.player2 15 = 15 ∧
      ((engineStep exampleLaserShot Command.Attack).robot RobotId.player2).health = 55) :=
  have h1 := C11_power_up_robot_damage exampleHardLaserShot RobotId.player RobotId.ai
    exampleHardLaserShot_reachable (by decide)
  have h2 := C11_power_up_robot_damage exampleLaserShot RobotId.player RobotId.player2
    exampleLaserShot_reachable (by decide)
  ⟨⟨exampleHardLaserShot_reachable, by decide, by decide, by decide, by decide,
      ((h1.2.2.2 (by decide)).2.2 (by decide)).1,
      (h1.1 (by decide) RobotId.ai (by decide) (by decide)).trans (by decide)⟩,
    ⟨exampleLaserShot_reachable, by decide, by decide,
      (h2.2.2.1 RobotId.player2 (Or.inl (by decide))).1,
      (h2.1 (by decide) RobotId.player2 (by decide) (by decide)).trans (by decide)⟩⟩

/-! ## Stale hit-points on cleared cells -/

theorem exampleMaze_reachable : Reachable exampleMaze :=
  Reachable.init exampleStart RobotType.Scout RobotType.Scout GameDifficulty.Medium
    MapType.Maze exampleMazeDraws exampleMaze exampleStart_reachable
    (eq_some_getD _ _ (by decide))

/-- C14 fails on the code: after `initializeArena` with the Maze template on a
4 x 4 grid the cell (1,1), a wall of the checkerboard pattern that the zigzag
loop cleared, is not a `Wall` but keeps 3 in the raw hit-point grid
(`getWallHealth` reports 0 for it). -/
theorem C14_stale_hit_points :
    Reachable exampleMaze ∧
    isValidPosition exampleMaze ⟨1, 1⟩ = true ∧
    exampleMaze.arena 1 1 ≠ CellType.Wall ∧
    exampleMaze.wallHealth 1 1 = 3 ∧
    getWallHealth exampleMaze ⟨1, 1⟩ = 0 :=
  ⟨exampleMaze_reachable, by decide, by decide, by decide, by decide⟩

/-! ## A normal attack on a wall -/

theorem normalScan_wall (g : Game) (s w tpos : QPoint) (dir : Direction)
    (hs : isValidPosition g s = true) (hw : isValidPosition g w = true)
    (hah : aheadOf s dir w) (hwall : g.arena w.y w.x = CellType.Wall)
    (hclear : ∀ q, strictlyBetween s w q → g.arena q.y q.x ≠ CellType.Wall ∧ q ≠ tpos) :
    ∀ (fuel : Nat) (step : Int) (hitPos : QPoint), 1 ≤ step → step ≤ manhattan s w →
      manhattan s w < step + fuel → normalScan g s dir tpos fuel step hitPos = w := by
  intro fuel
  induction fuel with
  | zero => intro step hitPos h1 h2 h3; simp at h3; omega
  | succ n ih =>
    intro step hitPos h1 h2 h3
    rw [isValidPosition_iff] at hs hw
    unfold manhattan at h2 h3
    rw [Int.abs_eq_natAbs, Int.abs_eq_natAbs] at h2 h3
    have hv : isValidPosition g (stepFrom s dir step) = true := by
      rw [isValidPosition_iff]
      cases dir <;> simp only [stepFrom, aheadOf] at hah ⊢ <;> omega
    unfold normalScan
    dsimp only
    rw [if_neg (by rw [hv]; decide)]
    by_cases e : stepFrom s dir step = w
    · rw [e, if_pos hwall]
    · have e1 : ¬ ((stepFrom s dir step).x = w.x ∧ (stepFrom s dir step).y = w.y) := by
        intro h; apply e
        cases hq : stepFrom s dir step; cases w
        rw [hq] at h; simp only at h
        rw [h.1, h.2]
      have hb : strictlyBetween s w (stepFrom s dir step) := by
        unfold strictlyBetween
        cases dir <;> simp only [stepFrom, aheadOf, true_and, and_true] at hah e1 ⊢ <;> omega
      rw [if_neg (hclear _ hb).1, if_neg (hclear _ hb).2]
      apply ih
      · omega
      · unfold manhattan
        rw [Int.abs_eq_natAbs, Int.abs_eq_natAbs]
        cases dir <;> simp only [stepFrom, aheadOf, true_and, and_true] at hah e1 ⊢ <;> omega
      · unfold manhattan
        rw [Int.abs_eq_natAbs, Int.abs_eq_natAbs]
        push_cast at h3 ⊢
        omega

/-- A normal attack whose scan first meets a wall is `attackWall` on that cell
with the archetype's wall damage. -/
theorem normalAttack_wall (g : Game) (a t : RobotId) (w : QPoint)
    (hpa : isValidPosition g (g.robot a).position = true) (hfm : wallFirstMet g a t w) :
    normalAttack g a t = (attackWall g w (WallDamage (g.robot a).type)).1 := by
  obtain ⟨hray, hrange, hwall, hclear⟩ := hfm
  have hpos : 0 < manhattan (g.robot a).position w := by
    have := hray.2
    unfold manhattan
    rw [Int.abs_eq_natAbs, Int.abs_eq_natAbs]
    cases hd : (g.robot a).direction <;> rw [hd] at this <;>
      simp only [aheadOf] at this <;> omega
  have hscan : normalScan g (g.robot a).position (g.robot a).direction (g.robot t).position
      (if (g.robot a).type = RobotType.Sniper then (3 : Int) else 1).toNat 1
      (g.robot a).position = w := by
    apply normalScan_wall g _ w _ _ hpa hray.1 hray.2 hwall hclear
    · exact le_refl 1
    · omega
    · cases ht : (g.robot a).type <;> rw [ht] at hrange <;>
        simp [AttackRange] at hrange ⊢ <;> omega
  unfold normalAttack
  dsimp only
  rw [hscan, if_pos (by rw [hray.1, hwall]; simp)]
  cases ht : (g.robot a).type <;> rfl

/-- The view of a normal attack that first meets the wall on `w`. -/
theorem normalWallHit_view {g : Game} (hi : Inv g) {a t : RobotId} (ht : TurnOf g a t)
    (hp : (g.robot a).currentPowerUp = RobotPowerUp.None) {w : QPoint}
    (hfm : wallFirstMet g a t w) :
    (engineStep g Command.Attack).wallHealth w.y w.x =
      max 0 (g.wallHealth w.y w.x - WallDamage (g.robot a).type) ∧
    (engineStep g Command.Attack).arena w.y w.x =
      (if g.wallHealth w.y w.x ≤ WallDamage (g.robot a).type then CellType.Empty
        else CellType.Wall) ∧
    (∀ y x, ¬ (y = w.y ∧ x = w.x) →
      (engineStep g Command.Attack).wallHealth y x = g.wallHealth y x ∧
      (engineStep g Command.Attack).arena y x = g.arena y x) ∧
    ∀ id, ((engineStep g Command.Attack).robot id).health = (g.robot id).health := by
  obtain ⟨v1, v2, v3⟩ := engineStep_normal_view hi ht hp
  have hva := (hi.floor_of_turn ht).1.1
  rw [normalAttack_wall g a t w hva hfm] at v1 v2 v3
  have hv := hfm.1.1
  have hw := hfm.2.2.1
  rw [v1, v2]
  refine ⟨?_, ?_, ?_, ?_⟩
  · rw [attackWall_wallHealth g w _ hv, if_pos ⟨⟨rfl, rfl⟩, hw⟩]
  · rw [attackWall_arena g w _ hv]
    by_cases hd : g.wallHealth w.y w.x ≤ WallDamage (g.robot a).type
    · rw [if_pos ⟨⟨rfl, rfl⟩, hw, by omega⟩, if_pos hd]
    · rw [if_neg (fun h => hd (by have := h.2.2; omega)), if_neg hd, hw]
  · intro y x hyx
    rw [attackWall_wallHealth g w _ hv, attackWall_arena g w _ hv,
      if_neg (fun h => hyx h.1), if_neg (fun h => hyx h.1)]
    exact ⟨rfl, rfl⟩
  · intro id
    rw [v3, attackWall_robot]

/-- With a move to spare the whole state after such an attack. -/
theorem normalWallHit_eq {g : Game} (hi : Inv g) {a t : RobotId} (ht : TurnOf g a t)
    (hp : (g.robot a).currentPowerUp = RobotPowerUp.None) {w : QPoint}
    (hfm : wallFirstMet g a t w) (hm : 2 ≤ (g.robot a).movesLeft) :
    engineStep g Command.Attack =
      (attackWall g w (WallDamage (g.robot a).type)).1.setRobot a (g.robot a).useMove := by
  have hva := (hi.floor_of_turn ht).1.1
  rw [engineStep_eq hi ht _ (by decide)]
  show finishCommand (attackCommand g a t) a = _
  rw [attackCommand_none g a t hp, normalAttack_wall g a t w hva hfm, attackWall_robot]
  apply finishCommand_moves_left
  rw [Game.robot_setRobot_same, Robot.useMove_movesLeft _ (by omega)]
  omega

/-- A wall that survives a normal attack made with a move to spare is again
the first thing the attacker's next scan meets. -/
theorem normalWallHit_next {g : Game} (hi : Inv g) {a t : RobotId} (ht : TurnOf g a t)
    (hp : (g.robot a).currentPowerUp = RobotPowerUp.None) {w : QPoint}
    (hfm : wallFirstMet g a t w) (hm : 2 ≤ (g.robot a).movesLeft)
    (hh : WallDamage (g.robot a).type < g.wallHealth w.y w.x) :
    TurnOf (engineStep g Command.Attack) a t ∧
    ((engineStep g Command.Attack).robot a).currentPowerUp = RobotPowerUp.None ∧
    wallFirstMet (engineStep g Command.Attack) a t w ∧
    (engineStep g Command.Attack).wallHealth w.y w.x =
      g.wallHealth w.y w.x - WallDamage (g.robot a).type ∧
    ((engineStep g Command.Attack).robot a).movesLeft = (g.robot a).movesLeft - 1 ∧
    ((engineStep g Command.Attack).robot a).type = (g.robot a).type := by
  obtain ⟨w1, w2, w3, -⟩ := normalWallHit_view hi ht hp hfm
  have heq := normalWallHit_eq hi ht hp hfm hm
  have hd := attackWall_damageOnly g w (WallDamage (g.robot a).type)
  have hst : (engineStep g Command.Attack).state = g.state := by
    rw [heq]; refine Eq.trans ?_ hd.state; cases a <;> rfl
  have hmm : (engineStep g Command.Attack).multiplayerMode = g.multiplayerMode := by
    rw [heq]; refine Eq.trans ?_ hd.multiplayerMode; cases a <;> rfl
  have hgs : (engineStep g Command.Attack).gridSize = g.gridSize := by
    rw [heq]; refine Eq.trans ?_ hd.gridSize; cases a <;> rfl
  have hra : (engineStep g Command.Attack).robot a = (g.robot a).useMove := by
    rw [heq, Game.robot_setRobot_same]
  have hrt : (engineStep g Command.Attack).robot t = g.robot t := by
    rw [heq, Game.robot_setRobot_ne _ a t _ ht.ne, attackWall_robot]
  have har : ∀ y x, (engineStep g Command.Attack).arena y x = g.arena y x := by
    intro y x
    by_cases hyx : y = w.y ∧ x = w.x
    · obtain ⟨rfl, rfl⟩ := hyx
      rw [w2, if_neg (by omega), hfm.2.2.1]
    · exact (w3 y x hyx).2
  have hpos : ((g.robot a).useMove).position = (g.robot a).position := by
    rw [Robot.useMove_eq]
  have hdir : ((g.robot a).useMove).direction = (g.robot a).direction := by
    rw [Robot.useMove_eq]
  have hty : ((g.robot a).useMove).type = (g.robot a).type := by
    rw [Robot.useMove_eq]
  refine ⟨ht.congr hst hmm, ?_, ?_, ?_, ?_, ?_⟩
  · rw [hra, Robot.useMove_eq]; exact hp
  · obtain ⟨⟨f1, f2⟩, f3, f4, f5⟩ := hfm
    unfold wallFirstMet onRay
    rw [hra, hrt, hpos, hdir, hty, isValidPosition_congr hgs, har]
    refine ⟨⟨f1, f2⟩, f3, f4, ?_⟩
    intro q hq
    rw [har]
    exact f5 q hq
  · rw [w1]; omega
  · rw [hra, Robot.useMove_movesLeft _ (by omega)]
  · rw [hra, hty]

/-- A wall on the cell directly ahead is the first thing a normal attack's scan
meets. -/
theorem wallFirstMet_ahead (g : Game) (a t : RobotId)
    (hv : isValidPosition g (cellAhead (g.robot a)) = true)
    (hw : g.arena (cellAhead (g.robot a)).y (cellAhead (g.robot a)).x = CellType.Wall) :
    wallFirstMet g a t (cellAhead (g.robot a)) := by
  unfold cellAhead at hv hw ⊢
  refine ⟨⟨hv, ?_⟩, ?_, hw, ?_⟩
  · cases hd : (g.robot a).direction <;> simp [stepFrom, aheadOf]
  · unfold manhattan
    rw [Int.abs_eq_natAbs, Int.abs_eq_natAbs]
    cases ht : (g.robot a).type <;> cases hd : (g.robot a).direction <;>
      simp only [stepFrom, AttackRange] <;> omega
  · intro q hq
    exfalso
    unfold strictlyBetween at hq
    cases hd : (g.robot a).direction <;> rw [hd] at hq <;>
      simp only [stepFrom] at hq <;> omega

/-- C15: in a reachable state, when the robot whose turn it is (human or AI)
holds no power-up and the forward scan of its attack, within its archetype's
range, first meets a wall, the attack takes 3 (Tank), 2 (Sniper) or 1 (Scout)
hit-points from that wall (floored at 0, the cell `Empty` when none is left)
and changes no other cell and no robot's health.  Hence a fresh wall (3
hit-points) attacked repeatedly within one turn is still a wall after the first
and the second Scout attack and `Empty` after the third, still a wall after the
first Sniper attack and `Empty` after the second, and `Empty` after the first
Tank attack. -/
theorem C15_normal_attack_on_wall (g : Game) (active target : RobotId) (w : QPoint)
    (hr : Reachable g) (ht : TurnOf g active target)
    (hp : (g.robot active).currentPowerUp = RobotPowerUp.None)
    (hfm : wallFirstMet g active target w) :
    ((engineStep g Command.Attack).wallHealth w.y w.x =
        max 0 (g.wallHealth w.y w.x - WallDamage (g.robot active).type) ∧
      (engineStep g Command.Attack).arena w.y w.x =
        (if g.wallHealth w.y w.x ≤ WallDamage (g.robot active).type then CellType.Empty
          else CellType.Wall) ∧
      (∀ y x, ¬ (y = w.y ∧ x = w.x) →
        (engineStep g Command.Attack).wallHealth y x = g.wallHealth y x ∧
        (engineStep g Command.Attack).arena y x = g.arena y x) ∧
      ∀ id, ((engineStep g Command.Attack).robot id).health = (g.robot id).health) ∧
    (g.wallHealth w.y w.x = 3 →
      ((g.robot active).type = RobotType.Tank →
        (engineStep g Command.Attack).arena w.y w.x = CellType.Empty) ∧
      ((g.robot active).type = RobotType.Sniper → 2 ≤ (g.robot active).movesLeft →
        (engineStep g Command.Attack).arena w.y w.x = CellType.Wall ∧
        (runSteps g [Command.Attack, Command.Attack]).arena w.y w.x = CellType.Empty) ∧
      ((g.robot active).type = RobotType.Scout → 3 ≤ (g.robot active).movesLeft →
        (engineStep g Command.Attack).arena w.y w.x = CellType.Wall ∧
        (runSteps g [Command.Attack, Command.Attack]).arena w.y w.x = CellType.Wall ∧
        (runSteps g [Command.Attack, Command.Attack, Command.Attack]).arena w.y w.x
          = CellType.Empty)) := by
  have hi := hr.inv
  have hview := normalWallHit_view hi ht hp hfm
  refine ⟨hview, ?_⟩
  intro h3
  refine ⟨?_, ?_, ?_⟩
  · intro hty
    rw [hview.2.1, hty, h3]
    rfl
  · intro hty hm
    have hwd : WallDamage (g.robot active).type = 2 := by rw [hty]; rfl
    obtain ⟨t1, p1, f1, w1, -, y1⟩ := normalWallHit_next hi ht hp hfm hm (by rw [hwd, h3]; decide)
    have hi1 := (engineStep_reachable hr Command.Attack).inv
    refine ⟨f1.2.2.1, ?_⟩
    show (engineStep (engineStep g Command.Attack) Command.Attack).arena w.y w.x = _
    rw [(normalWallHit_view hi1 t1 p1 f1).2.1, w1, y1, hwd, h3]
    rfl
  · intro hty hm
    have hwd : WallDamage (g.robot active).type = 1 := by rw [hty]; rfl
    obtain ⟨t1, p1, f1, w1, m1, y1⟩ :=
      normalWallHit_next hi ht hp hfm (by omega) (by rw [hwd, h3]; decide)
    have hr1 := engineStep_reachable hr Command.Attack
    have hwd1 : WallDamage ((engineStep g Command.Attack).robot active).type = 1 := by
      rw [y1]; exact hwd
    have h31 : (engineStep g Command.Attack).wallHealth w.y w.x = 2 := by
      rw [w1, hwd, h3]; rfl
    obtain ⟨t2, p2, f2, w2, -, y2⟩ :=
      normalWallHit_next hr1.inv t1 p1 f1 (by omega) (by rw [hwd1, h31]; decide)
    have hr2 := engineStep_reachable hr1 Command.Attack
    refine ⟨f1.2.2.1, f2.2.2.1, ?_⟩
    show (engineStep (engineStep (engineStep g Command.Attack) Command.Attack)
      Command.Attack).arena w.y w.x = _
    rw [(normalWallHit_view hr2.inv t2 p2 f2).2.1, w2, y2, hwd1, h31]
    rfl

theorem exampleScoutAtWall_reachable : Reachable exampleScoutAtWall :=
  runSteps_reachable _ _ exampleStart_reachable

/-- Witness for C15: the player Scout at (0,1) faces the fresh wall at (1,1)
with 3 moves; its three attacks leave the wall at 2, at 1 and destroyed, and
the AI robot's health stays 70. -/
theorem C15_normal_attack_on_wall_witness :
    Reachable exampleScoutAtWall ∧
    TurnOf exampleScoutAtWall RobotId.player RobotId.ai ∧
    (exampleScoutAtWall.robot RobotId.player).type = RobotType.Scout ∧
    (exampleScoutAtWall.robot RobotId.player).movesLeft = 3 ∧
    wallFirstMet exampleScoutAtWall RobotId.player RobotId.ai ⟨1, 1⟩ ∧
    exampleScoutAtWall.wallHealth 1 1 = 3 ∧
    (engineStep exampleScoutAtWall Command.Attack).wallHealth 1 1 = 2 ∧
    (engineStep exampleScoutAtWall Command.Attack).arena 1 1 = CellType.Wall ∧
    (runSteps exampleScoutAtWall [Command.Attack, Command.Attack]).arena 1 1
      = CellType.Wall ∧
    (runSteps exampleScoutAtWall [Command.Attack, Command.Attack, Command.Attack]).arena 1 1
      = CellType.Empty ∧
    ((engineStep exampleScoutAtWall Command.Attack).robot RobotId.ai).health = 70 :=
  have hfm : wallFirstMet exampleScoutAtWall RobotId.player RobotId.ai ⟨1, 1⟩ :=
    wallFirstMet_ahead exampleScoutAtWall RobotId.player RobotId.ai (by decide) (by decide)
  have h := C15_normal_attack_on_wall exampleScoutAtWall RobotId.player RobotId.ai ⟨1, 1⟩
    exampleScoutAtWall_reachable (by decide) (by decide) hfm
  have hs := (h.2 (by decide)).2.2 (by decide) (by decide)
  ⟨exampleScoutAtWall_reachable, by decide, by decide, by decide, hfm, by decide,
    h.1.1.trans (by decide), hs.1, hs.2.1, hs.2.2,
    (h.1.2.2.2 RobotId.ai).trans (by decide)⟩

/-! ## Generated walls have 3 hit-points -/

theorem WallsFresh.freshSameGrid {g g1 : Game} (h : WallsFresh g) (ha : g1.arena = g.arena)
    (hw : g1.wallHealth = g.wallHealth) (hn : g1.gridSize = g.gridSize) : WallsFresh g1 := by
  intro y x
  rw [ha, hw, isValidPosition_congr hn]
  exact h y x

theorem WallsFresh.freshSetCell {g : Game} (h : WallsFresh g) (p : QPoint) (c : CellType)
    (hc : c ≠ CellType.Wall) : WallsFresh (g.setCell p c) := by
  intro y x hv
  show (if y = p.y ∧ x = p.x then c else g.arena y x) = CellType.Wall → _
  split_ifs
  · intro hcw; exact (hc hcw).elim
  · exact h y x hv

theorem WallsFresh.freshPlaceWall {g : Game} (h : WallsFresh g) (p : QPoint) :
    WallsFresh (placeWall g p) := by
  intro y x hv
  show (if y = p.y ∧ x = p.x then CellType.Wall else g.arena y x) = CellType.Wall →
    (if y = p.y ∧ x = p.x then INITIAL_WALL_HEALTH else g.wallHealth y x) = INITIAL_WALL_HEALTH
  split_ifs
  · exact fun _ => rfl
  · exact h y x hv

theorem clearArena_wallsFresh (g : Game) : WallsFresh (clearArena g) := by
  intro y x hv
  have hv1 : 0 ≤ x ∧ x < g.gridSize ∧ 0 ≤ y ∧ y < g.gridSize :=
    (isValidPosition_iff (clearArena g) ⟨x, y⟩).1 hv
  show (if 0 ≤ y ∧ y < g.gridSize ∧ 0 ≤ x ∧ x < g.gridSize then CellType.Empty
    else g.arena y x) = CellType.Wall → _
  rw [if_pos ⟨hv1.2.2.1, hv1.2.2.2, hv1.1, hv1.2.1⟩]
  intro hw; cases hw

theorem generateObstaclesLoop_wallsFresh (n : Nat) :
    ∀ (g : Game) (rng : List Nat) (g1 : Game) (rng1 : List Nat),
      generateObstaclesLoop n g rng = some (g1, rng1) → WallsFresh g → WallsFresh g1 := by
  induction n with
  | zero =>
    intro g rng g1 rng1 h hs
    simp only [generateObstaclesLoop, Option.some.injEq, Prod.mk.injEq] at h
    rw [← h.1]; exact hs
  | succ n ih =>
    intro g rng g1 rng1 h hs
    match rng, h with
    | rx :: ry :: rest, h =>
      simp only [generateObstaclesLoop] at h
      refine ih _ _ _ _ h ?_
      split_ifs
      · exact hs.freshPlaceWall _
      · exact hs
    | [], h => simp [generateObstaclesLoop] at h
    | [_], h => simp [generateObstaclesLoop] at h

theorem generateOpenMapLoop_wallsFresh (cx cy r : Int) (n : Nat) :
    ∀ (g : Game) (rng : List Nat) (g1 : Game) (rng1 : List Nat),
      generateOpenMapLoop cx cy r n g rng = some (g1, rng1) → WallsFresh g → WallsFresh g1 := by
  induction n with
  | zero =>
    intro g rng g1 rng1 h hs
    simp only [generateOpenMapLoop, Option.some.injEq, Prod.mk.injEq] at h
    rw [← h.1]; exact hs
  | succ n ih =>
    intro g rng g1 rng1 h hs
    match rng, h with
    | rx :: ry :: rest, h =>
      simp only [generateOpenMapLoop] at h
      refine ih _ _ _ _ h ?_
      split_ifs
      · exact hs.freshPlaceWall _
      · exact hs
    | [], h => simp [generateOpenMapLoop] at h
    | [_], h => simp [generateOpenMapLoop] at h

theorem mazePattern_wallsFresh {g : Game} (h : WallsFresh g) : WallsFresh (mazePattern g) := by
  intro y x hv
  have hv1 : isValidPosition g ⟨x, y⟩ = true := hv
  unfold mazePattern
  dsimp only
  split_ifs
  · exact fun _ => rfl
  · exact h y x hv1

theorem mazeExtraWallsLoop_wallsFresh (n : Nat) :
    ∀ (g : Game) (rng : List Nat) (g1 : Game) (rng1 : List Nat),
      mazeExtraWallsLoop n g rng = some (g1, rng1) → WallsFresh g → WallsFresh g1 := by
  induction n with
  | zero =>
    intro g rng g1 rng1 h hs
    simp only [mazeExtraWallsLoop, Option.some.injEq, Prod.mk.injEq] at h
    rw [← h.1]; exact hs
  | succ n ih =>
    intro g rng g1 rng1 h hs
    match rng, h with
    | rx :: ry :: rest, h =>
      simp only [mazeExtraWallsLoop] at h
      split_ifs at h
      · exact ih _ _ _ _ h hs
      · exact ih _ _ _ _ h (hs.freshPlaceWall _)
      · exact ih _ _ _ _ h hs
    | [], h => simp [mazeExtraWallsLoop] at h
    | [_], h => simp [mazeExtraWallsLoop] at h

theorem mazeZigzagLoop_wallsFresh (n : Nat) :
    ∀ (i : Int) (g : Game), WallsFresh g → WallsFresh (mazeZigzagLoop n i g) := by
  induction n with
  | zero => intro i g hs; exact hs
  | succ n ih =>
    intro i g hs
    unfold mazeZigzagLoop
    apply ih
    split_ifs
    · exact (hs.freshSetCell _ _ (by decide)).freshSetCell _ _ (by decide)
    · exact (hs.freshSetCell _ _ (by decide)).freshSetCell _ _ (by decide)

theorem fortressWalls_wallsFresh {g : Game} (h : WallsFresh g) :
    WallsFresh (fortressWalls g) := by
  intro y x hv
  have hv1 : isValidPosition g ⟨x, y⟩ = true := hv
  unfold fortressWalls
  dsimp only
  split_ifs
  · exact fun _ => rfl
  · exact h y x hv1

theorem generateMap_wallsFresh (g : Game) (rng : List Nat) (g1 : Game) (rng1 : List Nat)
    (h : generateMap g rng = some (g1, rng1)) (hs : WallsFresh g) : WallsFresh g1 := by
  unfold generateMap at h
  split at h
  · exact generateObstaclesLoop_wallsFresh _ _ _ _ _ h hs
  · exact generateOpenMapLoop_wallsFresh _ _ _ _ _ _ _ _ h hs
  · unfold generateMazeMap at h
    split at h
    · cases h
    · rename_i g2 rng2 hm
      simp only [Option.some.injEq, Prod.mk.injEq] at h
      rw [← h.1]
      exact mazeZigzagLoop_wallsFresh _ _ _
        (mazeExtraWallsLoop_wallsFresh _ _ _ _ _ hm (mazePattern_wallsFresh hs))
  · simp only [Option.some.injEq, Prod.mk.injEq] at h
    rw [← h.1]
    unfold generateFortressMap
    exact ((((fortressWalls_wallsFresh hs).freshSetCell _ _ (by decide)).freshSetCell _ _
      (by decide)).freshSetCell _ _ (by decide)).freshSetCell _ _ (by decide)

theorem PickupsOnly.wallsFresh {g g1 : Game} (h : PickupsOnly g g1) (hs : WallsFresh g) :
    WallsFresh g1 := by
  intro y x hv hw
  rw [h.wallHealth]
  rw [isValidPosition_congr h.frame.gridSize] at hv
  rcases h.arena y x with he | ⟨-, hn⟩
  · exact hs y x hv (he ▸ hw)
  · exact (hn hw).elim

theorem applyDifficultySettings_gridSize (g : Game) :
    (applyDifficultySettings g).gridSize = g.gridSize := by
  unfold applyDifficultySettings
  dsimp only
  split <;> rfl

theorem initializeArena_wallsFresh (g : Game) (pt aiT : RobotType) (diff : GameDifficulty)
    (map : MapType) (rng : List Nat) (g1 : Game)
    (h : initializeArena g pt aiT diff map rng = some g1) : WallsFresh g1 := by
  unfold initializeArena at h
  dsimp only at h
  split at h
  · cases h
  · rename_i g2 rng2 hmap
    have s2 : WallsFresh g2 := generateMap_wallsFresh _ _ _ _ hmap (clearArena_wallsFresh _)
    split at h
    · cases h
    · rename_i g6 rng3 hhp
      have f6 := placeHealthPickupsLoop_pickupsOnly _ _ _ _ _ _ hhp
      split at h
      · cases h
      · rename_i g7 rng4 hsp
        have f7 := placeSpecialPickups_pickupsOnly _ _ _ _ hsp
        simp only [Option.some.injEq] at h
        subst h
        refine (f7.wallsFresh (f6.wallsFresh ?_)).freshSameGrid rfl rfl rfl
        refine WallsFresh.freshSetCell (WallsFresh.freshSetCell ?_ _ _ (by decide)) _ _ (by decide)
        exact s2.freshSameGrid (applyDifficultySettings_arena _).1 (applyDifficultySettings_arena _).2
          (applyDifficultySettings_gridSize _)

theorem initializeMultiplayerArena_wallsFresh (g : Game) (t1 t2 : RobotType)
    (map : MapType) (rng : List Nat) (g1 : Game)
    (h : initializeMultiplayerArena g t1 t2 map rng = some g1) : WallsFresh g1 := by
  unfold initializeMultiplayerArena at h
  dsimp only at h
  split at h
  · cases h
  · rename_i g2 rng2 hmap
    have s2 : WallsFresh g2 := generateMap_wallsFresh _ _ _ _ hmap (clearArena_wallsFresh _)
    split at h
    · cases h
    · rename_i g6 rng3 hhp
      have f6 := placeHealthPickupsLoop_pickupsOnly _ _ _ _ _ _ hhp
      split at h
      · cases h
      · rename_i g7 rng4 hsp
        have f7 := placeSpecialPickups_pickupsOnly _ _ _ _ hsp
        simp only [Option.some.injEq] at h
        subst h
        refine (f7.wallsFresh (f6.wallsFresh ?_)).freshSameGrid rfl rfl rfl
        refine WallsFresh.freshSetCell (WallsFresh.freshSetCell ?_ _ _ (by decide)) _ _ (by decide)
        exact s2.freshSameGrid rfl rfl rfl

/-- C13: in every reachable state (the constructor state, any initialisation
with any map template and any draws, any sequence of human and AI commands)
every cell of the grid has wall hit-points at least 0 and every `Wall` cell has
hit-points above 0; and both initialisation routines, with any of the four
templates, leave every `Wall` cell of the grid with exactly 3 hit-points. -/
theorem C13_wall_hit_points_sound (g : Game) (hr : Reachable g) :
    (∀ y x, isValidPosition g ⟨x, y⟩ = true →
      0 ≤ g.wallHealth y x ∧ (g.arena y x = CellType.Wall → 0 < g.wallHealth y x)) ∧
    (∀ pt aiT diff map rng g1, initializeArena g pt aiT diff map rng = some g1 →
      ∀ y x, isValidPosition g1 ⟨x, y⟩ = true → g1.arena y x = CellType.Wall →
        g1.wallHealth y x = 3) ∧
    (∀ t1 t2 map rng g1, initializeMultiplayerArena g t1 t2 map rng = some g1 →
      ∀ y x, isValidPosition g1 ⟨x, y⟩ = true → g1.arena y x = CellType.Wall →
        g1.wallHealth y x = 3) :=
  ⟨fun y x _ => hr.wallsSound y x,
    fun pt aiT diff map rng g1 h => initializeArena_wallsFresh g pt aiT diff map rng g1 h,
    fun t1 t2 map rng g1 h => initializeMultiplayerArena_wallsFresh g t1 t2 map rng g1 h⟩

/-- Witness for C13: after the Laser shot of `exampleLaserShot` the destroyed
wall cell (2,2) is `Empty` with 0 hit-points; the wall at (2,2) of the freshly
initialised Hard game has 3. -/
theorem C13_wall_hit_points_sound_witness :
    (Reachable (executeCommand exampleLaserShot Command.Attack) ∧
      isValidPosition (executeCommand exampleLaserShot Command.Attack) ⟨2, 2⟩ = true ∧
      (executeCommand exampleLaserShot Command.Attack).arena 2 2 = CellType.Empty ∧
      (executeCommand exampleLaserShot Command.Attack).wallHealth 2 2 = 0 ∧
      0 ≤ (executeCommand exampleLaserShot Command.Attack).wallHealth 2 2) ∧
    (Reachable exampleStart ∧
      initializeArena exampleStart RobotType.Scout RobotType.Scout GameDifficulty.Hard
        MapType.Open exampleOpenDraws = some exampleHard ∧
      exampleHard.arena 2 2 = CellType.Wall ∧ exampleHard.wallHealth 2 2 = 3) :=
  have hr : Reachable (executeCommand exampleLaserShot Command.Attack) :=
    Reachable.command _ _ exampleLaserShot_reachable
  have hinit : initializeArena exampleStart RobotType.Scout RobotType.Scout
      GameDifficulty.Hard MapType.Open exampleOpenDraws = some exampleHard :=
    eq_some_getD _ _ (by decide)
  ⟨⟨hr, by decide, by decide, by decide,
      ((C13_wall_hit_points_sound _ hr).1 2 2 (by decide)).1⟩,
    ⟨exampleStart_reachable, hinit, by decide,
      (C13_wall_hit_points_sound _ exampleStart_reachable).2.1 _ _ _ _ _ _ hinit 2 2
        (by decide) (by decide)⟩⟩

/-- C25: for every facing, four applications of `Robot::turnLeft` and four
applications of `Robot::turnRight` each bring the facing back to where it was,
and the robot (position, health, moves left and every other field) is the one
it was before. -/
theorem C25_four_turns_identity (r : Robot) :
    r.turnLeft.turnLeft.turnLeft.turnLeft = r ∧
    r.turnRight.turnRight.turnRight.turnRight = r ∧
    r.turnLeft.turnLeft.turnLeft.turnLeft.direction = r.direction ∧
    r.turnRight.turnRight.turnRight.turnRight.direction = r.direction ∧
    (∀ k : Nat, (Robot.turnLeft^[k] r).position = r.position ∧
      (Robot.turnLeft^[k] r).health = r.health ∧
      (Robot.turnLeft^[k] r).movesLeft = r.movesLeft ∧
      (Robot.turnRight^[k] r).position = r.position ∧
      (Robot.turnRight^[k] r).health = r.health ∧
      (Robot.turnRight^[k] r).movesLeft = r.movesLeft) := by
  have hl : r.turnLeft.turnLeft.turnLeft.turnLeft = r := by
    obtain ⟨p, d, t, h, mh, ar, ad, mm, ml, pu⟩ := r
    cases d <;> rfl
  have hr : r.turnRight.turnRight.turnRight.turnRight = r := by
    obtain ⟨p, d, t, h, mh, ar, ad, mm, ml, pu⟩ := r
    cases d <;> rfl
  refine ⟨hl, hr, by rw [hl], by rw [hr], ?_⟩
  intro k
  have key : ∀ (f : Robot → Robot),
      (∀ s : Robot, (f s).position = s.position ∧ (f s).health = s.health ∧
        (f s).movesLeft = s.movesLeft) →
      (f^[k] r).position = r.position ∧ (f^[k] r).health = r.health ∧
        (f^[k] r).movesLeft = r.movesLeft := by
    intro f hf
    induction k with
    | zero => exact ⟨rfl, rfl, rfl⟩
    | succ n ih =>
      rw [Function.iterate_succ_apply']
      obtain ⟨h1, h2, h3⟩ := hf (f^[n] r)
      exact ⟨h1.trans ih.1, h2.trans ih.2.1, h3.trans ih.2.2⟩
  have hL := key Robot.turnLeft (fun s => by
    obtain ⟨p, d, t, h, mh, ar, ad, mm, ml, pu⟩ := s
    cases d <;> exact ⟨rfl, rfl, rfl⟩)
  have hR := key Robot.turnRight (fun s => by
    obtain ⟨p, d, t, h, mh, ar, ad, mm, ml, pu⟩ := s
    cases d <;> exact ⟨rfl, rfl, rfl⟩)
  exact ⟨hL.1, hL.2.1, hL.2.2, hR.1, hR.2.1, hR.2.2⟩

/-! ## The turn state never leaves the states of the mode -/

theorem switchTurn_modeSound (g : Game) :
    ModeSound (switchTurn g) ∧ (switchTurn g).multiplayerMode = g.multiplayerMode := by
  unfold switchTurn ModeSound
  split_ifs with h1 h2 h3 <;> simp [h1]

theorem finishCommand_modeSound {g : Game} (h : ModeSound g) (a : RobotId) :
    ModeSound (finishCommand g a) ∧
      (finishCommand g a).multiplayerMode = g.multiplayerMode := by
  have hc : ModeSound (checkGameOver g) ∧
      (checkGameOver g).multiplayerMode = g.multiplayerMode := by
    rcases checkGameOver_eq g with h1 | h1 <;> rw [h1]
    · exact ⟨h, rfl⟩
    · exact ⟨⟨fun h2 => by simp at h2, fun h2 => by simp at h2⟩, rfl⟩
  unfold finishCommand
  dsimp only
  split_ifs
  · exact ⟨(switchTurn_modeSound _).1, (switchTurn_modeSound _).2.trans hc.2⟩
  · exact hc
  · exact ⟨h, rfl⟩

theorem executeFor_modeSound {g : Game} (h : ModeSound g) (a t : RobotId) (cmd : Command) :
    ModeSound (executeFor g a t cmd) ∧
      (executeFor g a t cmd).multiplayerMode = g.multiplayerMode := by
  have key : ∀ g1 : Game, g1.state = g.state → g1.multiplayerMode = g.multiplayerMode →
      ModeSound (finishCommand g1 a) ∧
        (finishCommand g1 a).multiplayerMode = g.multiplayerMode := by
    intro g1 hs hm
    have h1 : ModeSound g1 := by
      unfold ModeSound; rw [hs, hm]; exact h
    obtain ⟨h2, h3⟩ := finishCommand_modeSound h1 a
    exact ⟨h2, h3.trans hm⟩
  unfold executeFor
  cases cmd
  · dsimp only
    split_ifs
    · exact key _ (moveForwardCommand_turn g a).1 (moveForwardCommand_turn g a).2
    · exact ⟨h, rfl⟩
  · exact key _ (by cases a <;> rfl) (by cases a <;> rfl)
  · exact key _ (by cases a <;> rfl) (by cases a <;> rfl)
  · exact key _ (attackCommand_turn g a t).1 (attackCommand_turn g a t).2
  · rcases checkGameOver_eq g with h1 | h1 <;> rw [h1]
    · exact ⟨h, rfl⟩
    · exact ⟨⟨fun h2 => by simp at h2, fun h2 => by simp at h2⟩, rfl⟩

theorem EngineCall.run_modeSound {g : Game} (h : ModeSound g) (c : EngineCall) :
    ModeSound (c.run g) ∧ (c.run g).multiplayerMode = g.multiplayerMode := by
  cases c with
  | command cmd =>
    show ModeSound (executeCommand g cmd) ∧
      (executeCommand g cmd).multiplayerMode = g.multiplayerMode
    cases ha : activeHuman g with
    | none => rw [executeCommand_of_inactive g cmd ha]; exact ⟨h, rfl⟩
    | some at1 =>
      rw [executeCommand_of_active g cmd at1.1 at1.2 ha]
      exact executeFor_modeSound h _ _ cmd
  | aiTurn aiMove =>
    show ModeSound (executeAiTurn g aiMove) ∧
      (executeAiTurn g aiMove).multiplayerMode = g.multiplayerMode
    by_cases h1 : g.state = GameState.AiTurn
    · by_cases h2 : 0 < g.aiRobot.movesLeft
      · by_cases hc : aiMove = Command.None
        · subst hc
          unfold executeAiTurn
          rw [if_neg (by simpa using h1), if_pos (by simpa using h2)]
          exact ⟨h, rfl⟩
        · rw [executeAiTurn_eq g aiMove h1 h2 hc]
          exact executeFor_modeSound h _ _ aiMove
      · unfold executeAiTurn
        rw [if_neg (by simpa using h1), if_neg (by simpa using h2)]
        exact ⟨h, rfl⟩
    · unfold executeAiTurn
      rw [if_pos (by simpa using h1)]
      exact ⟨h, rfl⟩

theorem runCalls_modeSound (calls : List EngineCall) {g : Game} (h : ModeSound g) :
    ModeSound (runCalls g calls) ∧ (runCalls g calls).multiplayerMode = g.multiplayerMode := by
  induction calls generalizing g with
  | nil => exact ⟨h, rfl⟩
  | cons c cs ih =>
    obtain ⟨h1, h2⟩ := EngineCall.run_modeSound h c
    obtain ⟨h3, h4⟩ := ih h1
    exact ⟨h3, h4.trans h2⟩

/-- C24: from a state produced by `initializeArena`, no sequence of
`executeCommand` and `executeAiTurn` calls (whatever the commands, whatever the
AI chooses) reaches the turn state `Player2Turn`; from a state produced by
`initializeMultiplayerArena`, no such sequence reaches `AiTurn`.  The
multiplayer flag keeps the value the initialisation gave it. -/
theorem C24_turn_states_of_mode (g0 g : Game) (t1 t2 : RobotType) (diff : GameDifficulty)
    (map : MapType) (rng : List Nat) (calls : List EngineCall) :
    (initializeArena g0 t1 t2 diff map rng = some g →
      (runCalls g calls).state ≠ GameState.Player2Turn ∧
      (runCalls g calls).multiplayerMode = false) ∧
    (initializeMultiplayerArena g0 t1 t2 map rng = some g →
      (runCalls g calls).state ≠ GameState.AiTurn ∧
      (runCalls g calls).multiplayerMode = true) := by
  constructor
  · intro h
    obtain ⟨_, hs, hm, _⟩ := initializeArena_spec g0 t1 t2 diff map rng g h
    have h0 : ModeSound g := by
      unfold ModeSound; rw [hs]; exact ⟨fun h1 => (by cases h1), fun h1 => (by cases h1)⟩
    obtain ⟨h1, h2⟩ := runCalls_modeSound calls h0
    have h3 := h2.trans hm
    refine ⟨fun h4 => ?_, h3⟩
    have := h1.1 h4
    rw [h3] at this
    cases this
  · intro h
    obtain ⟨_, hs, hm, _⟩ := initializeMultiplayerArena_spec g0 t1 t2 map rng g h
    have h0 : ModeSound g := by
      unfold ModeSound; rw [hs]; exact ⟨fun h1 => (by cases h1), fun h1 => (by cases h1)⟩
    obtain ⟨h1, h2⟩ := runCalls_modeSound calls h0
    have h3 := h2.trans hm
    refine ⟨fun h4 => ?_, h3⟩
    have := h1.2 h4
    rw [h3] at this
    cases this

theorem C24_turn_states_of_mode_witness :
    (initializeArena (Game.blank 4) RobotType.Scout RobotType.Scout GameDifficulty.Medium
        MapType.Random exampleDraws = some exampleStart ∧
      (runCalls exampleStart [EngineCall.command Command.Attack,
        EngineCall.command Command.Attack, EngineCall.command Command.Attack,
        EngineCall.aiTurn Command.TurnLeft]).state ≠ GameState.Player2Turn) ∧
    (initializeMultiplayerArena exampleStart RobotType.Sniper RobotType.Scout MapType.Open
        exampleOpenDraws = some exampleDuel ∧
      (runCalls exampleDuel [EngineCall.command Command.Attack,
        EngineCall.command Command.Attack,
        EngineCall.aiTurn Command.TurnLeft]).state ≠ GameState.AiTurn) :=
  ⟨⟨eq_some_getD _ _ (by decide),
    ((C24_turn_states_of_mode (Game.blank 4) exampleStart RobotType.Scout RobotType.Scout
      GameDifficulty.Medium MapType.Random exampleDraws _).1
        (eq_some_getD _ _ (by decide))).1⟩,
   ⟨eq_some_getD _ _ (by decide),
    ((C24_turn_states_of_mode exampleStart exampleDuel RobotType.Sniper RobotType.Scout
      GameDifficulty.Medium MapType.Open exampleOpenDraws _).2
        (eq_some_getD _ _ (by decide))).1⟩⟩

/-! ## Health stays below the cap -/

theorem HealthWithin.sameWithin {cap : RobotId → Int} {g g1 : Game} (hs : HealthWithin cap g)
    (h : ∀ id, (g1.robot id).health = (g.robot id).health) : HealthWithin cap g1 := by
  intro id
  rw [h id]
  exact hs id

theorem HealthWithin.withinSetRobot {cap : RobotId → Int} {g : Game} (hs : HealthWithin cap g)
    (id : RobotId) (r : Robot) (hr : 0 ≤ r.health ∧ r.health ≤ cap id) :
    HealthWithin cap (g.setRobot id r) := by
  intro id1
  by_cases h : id1 = id
  · subst h
    rw [Game.robot_setRobot_same]
    exact hr
  · rw [Game.robot_setRobot_ne g id id1 r h]
    exact hs id1

theorem HealthWithin.damaged {cap : RobotId → Int} {g : Game} (hs : HealthWithin cap g)
    (id : RobotId) {d : Int} (hd : 0 ≤ d) :
    0 ≤ max 0 ((g.robot id).health - d) ∧ max 0 ((g.robot id).health - d) ≤ cap id := by
  obtain ⟨h1, h2⟩ := hs id
  exact ⟨le_max_left _ _, max_le (h1.trans h2) (by omega)⟩

theorem attackWall_within {cap : RobotId → Int} {g : Game} (hs : HealthWithin cap g)
    (p : QPoint) (d : Int) : HealthWithin cap (attackWall g p d).1 :=
  hs.sameWithin (fun id => by rw [attackWall_robot])

theorem powerUpDamageAt_within {cap : RobotId → Int} {g : Game} (hs : HealthWithin cap g)
    (p : QPoint) {d : Int} (hd : 0 ≤ d) (hm : 0 ≤ g.aiDamageModifier) :
    HealthWithin cap (powerUpDamageAt g p d) := by
  have hsc : 0 ≤ scaleByModifier d g.aiDamageModifier := scaleByModifier_nonneg hd hm
  unfold powerUpDamageAt
  dsimp only
  split_ifs <;> first
    | exact attackWall_within hs p d
    | exact hs
    | (intro id
       cases id <;> first
         | exact hs RobotId.player
         | exact hs RobotId.player2
         | exact hs RobotId.ai
         | exact hs.damaged RobotId.player hd
         | exact hs.damaged RobotId.player2 hd
         | exact hs.damaged RobotId.ai hsc)

theorem powerUpDamageAt_modifier (g : Game) (p : QPoint) (d : Int) :
    (powerUpDamageAt g p d).aiDamageModifier = g.aiDamageModifier := by
  unfold powerUpDamageAt attackWall
  dsimp only
  split_ifs <;> rfl

theorem laserLoop_within {cap : RobotId → Int} (dir : Direction) (n : Nat) :
    ∀ (g : Game) (cur : QPoint), HealthWithin cap g → 0 ≤ g.aiDamageModifier →
      HealthWithin cap (laserLoop dir n g cur) := by
  induction n with
  | zero => intro g cur hs _; exact hs
  | succ n ih =>
    intro g cur hs hm
    unfold laserLoop
    dsimp only
    split_ifs
    · exact hs
    · exact ih _ _ (powerUpDamageAt_within hs _ (by decide) hm)
        (by rw [powerUpDamageAt_modifier]; exact hm)

theorem missileLoop_within {cap : RobotId → Int} (dir : Direction) (n : Nat) :
    ∀ (g : Game) (cur : QPoint), HealthWithin cap g → 0 ≤ g.aiDamageModifier →
      HealthWithin cap (missileLoop dir n g cur) := by
  induction n with
  | zero => intro g cur hs _; exact hs
  | succ n ih =>
    intro g cur hs hm
    have hsc : 0 ≤ scaleByModifier 20 g.aiDamageModifier :=
      scaleByModifier_nonneg (by decide) hm
    unfold missileLoop
    dsimp only
    split_ifs <;> first
      | exact hs
      | exact attackWall_within hs _ 20
      | exact ih _ _ hs hm
      | (intro id
         cases id <;> first
           | exact hs RobotId.player
           | exact hs RobotId.player2
           | exact hs RobotId.ai
           | exact hs.damaged RobotId.player (by decide)
           | exact hs.damaged RobotId.player2 (by decide)
           | exact hs.damaged RobotId.ai hsc)

theorem blast_within {cap : RobotId → Int} {d : Int} (hd : 0 ≤ d) (ps : List QPoint) :
    ∀ g : Game, HealthWithin cap g → 0 ≤ g.aiDamageModifier →
      HealthWithin cap (blast d g ps) := by
  induction ps with
  | nil => intro g hs _; exact hs
  | cons p ps ih =>
    intro g hs hm
    rw [blast_cons]
    unfold blastStep
    split_ifs
    · exact ih _ hs hm
    · exact ih _ (powerUpDamageAt_within hs p hd hm)
        (by rw [powerUpDamageAt_modifier]; exact hm)

theorem attack_within {cap : RobotId → Int} {g : Game} (hs : HealthWithin cap g)
    (a t : RobotId) (hd : 0 ≤ (g.robot a).attackDamage) (hm : 0 ≤ g.aiDamageModifier) :
    HealthWithin cap (attack g a t).1 := by
  rw [attack_eq]
  split_ifs <;> first
    | exact hs
    | exact hs.withinSetRobot _ _ (hs.damaged t (scaleByModifier_nonneg hd hm))
    | exact hs.withinSetRobot _ _ (hs.damaged t hd)

theorem normalAttack_within {cap : RobotId → Int} {g : Game} (hs : HealthWithin cap g)
    (a t : RobotId) (hd : 0 ≤ (g.robot a).attackDamage) (hm : 0 ≤ g.aiDamageModifier) :
    HealthWithin cap (normalAttack g a t) := by
  unfold normalAttack
  dsimp only
  split_ifs <;> first
    | exact attackWall_within hs _ _
    | exact attack_within hs a t hd hm
    | exact hs

theorem attackCommand_within {cap : RobotId → Int} {g : Game} (hs : HealthWithin cap g)
    (a t : RobotId) (hd : 0 ≤ (g.robot a).attackDamage) (hm : 0 ≤ g.aiDamageModifier) :
    HealthWithin cap (attackCommand g a t) := by
  cases hp : (g.robot a).currentPowerUp
  · rw [attackCommand_none g a t hp]
    exact (normalAttack_within hs a t hd hm).withinSetRobot _ _
      (by rw [Robot.useMove_health]; exact normalAttack_within hs a t hd hm a)
  · rw [attackCommand_laser g a t hp]
    exact (laserLoop_within _ _ _ _ hs hm).withinSetRobot _ _
      (by rw [Robot.useMove_health]; exact laserLoop_within _ _ _ _ hs hm a)
  · rw [attackCommand_missile g a t hp]
    exact (missileLoop_within _ _ _ _ hs hm).withinSetRobot _ _
      (by rw [Robot.useMove_health]; exact missileLoop_within _ _ _ _ hs hm a)
  · rw [attackCommand_bomb g a t hp, bombBlast_eq_blast]
    exact (blast_within (by decide) _ _ hs hm).withinSetRobot _ _
      (by rw [Robot.useMove_health]; exact blast_within (by decide) _ _ hs hm a)

theorem HealthWithin.withinSetCell {cap : RobotId → Int} {g : Game} (hs : HealthWithin cap g)
    (p : QPoint) (c : CellType) : HealthWithin cap (g.setCell p c) :=
  hs.sameWithin (fun id1 => by rw [setCell_robot])

theorem collectHealthPickup_within {cap : RobotId → Int} {g : Game} (hs : HealthWithin cap g)
    (pos : QPoint) (id : RobotId) (hcap : healthCap g id ≤ cap id)
    (hai : id = RobotId.ai → g.multiplayerMode = false)
    (hmax : 0 ≤ (g.robot id).maxHealth) (hmod : 0 ≤ g.aiHealthModifier) :
    HealthWithin cap (collectHealthPickup g pos id) := by
  have hb : 0 ≤ (g.robot id).health + HEALTH_PICKUP_AMOUNT :=
    add_nonneg (hs id).1 (by decide)
  unfold collectHealthPickup
  dsimp only
  split_ifs with h1 h2
  · exact hs
  · refine HealthWithin.withinSetCell (HealthWithin.withinSetRobot hs id _ ?_) _ _
    have h3 : id = RobotId.ai := by
      simp only [Bool.and_eq_true, decide_eq_true_eq] at h2
      exact h2.2
    unfold healthCap at hcap
    rw [if_pos h3] at hcap
    exact ⟨le_min hb (scaleByModifier_nonneg hmax hmod), (min_le_right _ _).trans hcap⟩
  · refine HealthWithin.withinSetCell (HealthWithin.withinSetRobot hs id _ ?_) _ _
    have h3 : id ≠ RobotId.ai := by
      intro h4
      have h5 := hai h4
      simp [h4, h5] at h2
    unfold healthCap at hcap
    rw [if_neg h3] at hcap
    exact ⟨le_min hb hmax, (min_le_right _ _).trans hcap⟩

theorem collectPowerUp_within {cap : RobotId → Int} {g : Game} (hs : HealthWithin cap g)
    (pos : QPoint) (id : RobotId) (c : CellType) :
    HealthWithin cap (collectPowerUp g pos id c) := by
  unfold collectPowerUp setRobotPowerUp
  split_ifs
  · exact hs
  · split <;> first
      | exact hs
      | (refine HealthWithin.withinSetCell (HealthWithin.withinSetRobot hs id _ ?_) _ _
         exact hs id)

theorem moved_within {cap : RobotId → Int} {g : Game} (hs : HealthWithin cap g) (a : RobotId)
    (p : QPoint) :
    HealthWithin cap ((g.setRobot a ((g.robot a).setPosition p)).setRobot a
      ((g.setRobot a ((g.robot a).setPosition p)).robot a).useMove) := by
  refine HealthWithin.withinSetRobot (HealthWithin.withinSetRobot hs a _ ?_) a _ ?_
  · exact hs a
  · rw [Robot.useMove_health, Game.robot_setRobot_same]
    exact hs a

theorem moveForwardCommand_within {cap : RobotId → Int} {g : Game} (hs : HealthWithin cap g)
    (a : RobotId) (hcap : healthCap g a ≤ cap a)
    (hai : a = RobotId.ai → g.multiplayerMode = false)
    (hmax : 0 ≤ (g.robot a).maxHealth) (hmod : 0 ≤ g.aiHealthModifier) :
    HealthWithin cap (moveForwardCommand g a).1 := by
  unfold moveForwardCommand
  dsimp only
  split_ifs
  · refine collectHealthPickup_within (moved_within hs a _) _ _ ?_ ?_ ?_ ?_
    · unfold healthCap at hcap ⊢
      rw [Game.robot_setRobot_same, Robot.useMove_eq, Game.robot_setRobot_same]
      cases a <;> exact hcap
    · cases a <;> exact hai
    · rw [Game.robot_setRobot_same, Robot.useMove_eq, Game.robot_setRobot_same]
      exact hmax
    · cases a <;> exact hmod
  · exact collectPowerUp_within (moved_within hs a _) _ _ _
  · exact moved_within hs a _
  · exact hs

theorem executeFor_within {cap : RobotId → Int} {g : Game} (hs : HealthWithin cap g)
    (a t : RobotId) (cmd : Command) (hcap : healthCap g a ≤ cap a)
    (hai : a = RobotId.ai → g.multiplayerMode = false)
    (hmax : 0 ≤ (g.robot a).maxHealth) (hmod : 0 ≤ g.aiHealthModifier)
    (hd : 0 ≤ (g.robot a).attackDamage) (hm : 0 ≤ g.aiDamageModifier) :
    HealthWithin cap (executeFor g a t cmd) := by
  unfold executeFor
  cases cmd
  · dsimp only
    split_ifs
    · exact (moveForwardCommand_within hs a hcap hai hmax hmod).sameWithin
        (finishCommand_health _ _)
    · exact hs
  · refine HealthWithin.sameWithin (HealthWithin.withinSetRobot hs a _ ?_)
      (finishCommand_health _ _)
    rw [(Robot.turn_health _).1]; exact hs a
  · refine HealthWithin.sameWithin (HealthWithin.withinSetRobot hs a _ ?_)
      (finishCommand_health _ _)
    rw [(Robot.turn_health _).2]; exact hs a
  · exact (attackCommand_within hs a t hd hm).sameWithin (finishCommand_health _ _)
  · rcases checkGameOver_eq g with h | h <;> rw [h] <;>
      exact hs.sameWithin (fun id => by cases id <;> rfl)

theorem Robot.WellFormed.stats_nonneg {r : Robot} (h : r.WellFormed) :
    0 ≤ r.maxHealth ∧ 0 ≤ r.attackDamage := by
  obtain ⟨h1, _, h3, _⟩ := h
  rw [h1, h3]
  cases r.type <;> decide

theorem Calibrated.damageModifier_nonneg {g : Game} (hc : Calibrated g) :
    0 ≤ g.aiDamageModifier := by
  rw [hc.1]
  cases g.difficulty <;> decide

/-- In a grounded, calibrated state the cap is the archetype's MaxHealth, for
the AI robot scaled by the difficulty's multiplier. -/
theorem healthCap_eq {g : Game} (hg : Grounded g) (hc : Calibrated g) (id : RobotId) :
    healthCap g id =
      if id = RobotId.ai then
        scaleByModifier (MaxHealth (g.robot id).type) (modifierTenths g.difficulty)
      else MaxHealth (g.robot id).type := by
  unfold healthCap
  rw [(hg.wf id).maxHealth_eq, hc.2]

/-! ## No command changes a robot's archetype -/

theorem finishCommand_type (g : Game) (a : RobotId) (id : RobotId) :
    ((finishCommand g a).robot id).type = (g.robot id).type := by
  unfold finishCommand checkGameOver switchTurn
  dsimp only
  split_ifs <;> cases id <;> rfl

theorem Robot.useMove_type (r : Robot) : r.useMove.type = r.type := by
  rw [Robot.useMove_eq]

theorem Robot.turn_type (r : Robot) :
    r.turnLeft.type = r.type ∧ r.turnRight.type = r.type := by
  rw [Robot.turnLeft_eq, Robot.turnRight_eq]
  exact ⟨rfl, rfl⟩

theorem setRobot_type (g : Game) (a : RobotId) (r : Robot) (hr : r.type = (g.robot a).type)
    (id : RobotId) : ((g.setRobot a r).robot id).type = (g.robot id).type := by
  by_cases h : id = a
  · subst h
    rw [Game.robot_setRobot_same, hr]
  · rw [Game.robot_setRobot_ne g a id r h]

theorem DamageOnly.robot_type {g g1 : Game} (h : DamageOnly g g1) (id : RobotId) :
    (g1.robot id).type = (g.robot id).type := by
  cases id
  · show g1.playerRobot.type = _
    rw [h.player]; rfl
  · show g1.player2Robot.type = _
    rw [h.player2]; rfl
  · show g1.aiRobot.type = _
    rw [h.ai]; rfl

theorem attackCommand_type (g : Game) (a t : RobotId) (id : RobotId) :
    ((attackCommand g a t).robot id).type = (g.robot id).type := by
  obtain ⟨gd, hd, h | h⟩ := attackCommand_eq g a t <;> rw [h] <;>
    (rw [setRobot_type gd a _ (by rw [Robot.useMove_type] <;> rfl) id]
     exact hd.robot_type id)

theorem moveForwardCommand_type (g : Game) (a : RobotId) (id : RobotId) :
    ((moveForwardCommand g a).1.robot id).type = (g.robot id).type := by
  by_cases hv : isValidMove g (stepFrom (g.robot a).position (g.robot a).direction 1) = true
  · obtain ⟨_, hc⟩ := moveForwardCommand_eq g a hv
    by_cases h : id = a
    · subst h
      rw [hc.robot, Game.robot_setRobot_same, Robot.useMove_eq]
      rfl
    · rw [hc.others id h, Game.robot_setRobot_ne g a id _ h]
  · unfold moveForwardCommand
    dsimp only
    rw [if_neg hv]

theorem executeFor_type (g : Game) (a t : RobotId) (cmd : Command) (id : RobotId) :
    ((executeFor g a t cmd).robot id).type = (g.robot id).type := by
  unfold executeFor
  cases cmd
  · dsimp only
    split_ifs
    · rw [finishCommand_type, moveForwardCommand_type]
    · rfl
  · rw [finishCommand_type, setRobot_type g a _ (Robot.turn_type _).1]
  · rw [finishCommand_type, setRobot_type g a _ (Robot.turn_type _).2]
  · rw [finishCommand_type, attackCommand_type]
  · rcases checkGameOver_eq g with h | h <;> rw [h] <;> cases id <;> rfl

theorem healthCap_eq_bound {g : Game} (hg : Grounded g) (hc : Calibrated g) :
    healthCap g = healthBound g := by
  funext id
  unfold healthCap healthBound
  rw [(hg.wf id).maxHealth_eq, hc.2]

theorem healthBound_congr {g g1 : Game} (ht : ∀ id, (g1.robot id).type = (g.robot id).type)
    (hs : SameSettings g g1) : healthBound g1 = healthBound g := by
  funext id
  unfold healthBound
  rw [ht id, hs.1]

theorem executeFor_bounded {g : Game} (hg : Grounded g) (hc : Calibrated g) (a t : RobotId)
    (cmd : Command) (hai : a = RobotId.ai → g.multiplayerMode = false)
    (hs : HealthWithin (healthBound g) g) :
    HealthWithin (healthBound (executeFor g a t cmd)) (executeFor g a t cmd) := by
  rw [healthBound_congr (executeFor_type g a t cmd) (executeFor_settings g a t cmd)]
  rw [← healthCap_eq_bound hg hc] at hs ⊢
  exact executeFor_within hs a t cmd le_rfl hai (hg.wf a).stats_nonneg.1
    hc.healthModifier_nonneg (hg.wf a).stats_nonneg.2 hc.damageModifier_nonneg

theorem executeCommand_bounded {g : Game} (hi : Inv g) (hc : Calibrated g) (cmd : Command)
    (hs : HealthWithin (healthBound g) g) :
    HealthWithin (healthBound (executeCommand g cmd)) (executeCommand g cmd) := by
  cases h : activeHuman g with
  | none => rw [executeCommand_of_inactive g cmd h]; exact hs
  | some at1 =>
    rw [executeCommand_of_active g cmd at1.1 at1.2 h]
    refine executeFor_bounded hi.grounded hc _ _ cmd ?_ hs
    intro h1
    exfalso
    unfold activeHuman at h
    split_ifs at h <;> simp only [Option.some.injEq] at h <;> rw [← h] at h1 <;> cases h1

theorem executeAiTurn_bounded {g : Game} (hi : Inv g) (hc : Calibrated g) (aiMove : Command)
    (hs : HealthWithin (healthBound g) g) :
    HealthWithin (healthBound (executeAiTurn g aiMove)) (executeAiTurn g aiMove) := by
  by_cases h1 : g.state = GameState.AiTurn
  · by_cases h2 : 0 < g.aiRobot.movesLeft
    · by_cases hn : aiMove = Command.None
      · subst hn
        unfold executeAiTurn
        rw [if_neg (by simpa using h1), if_pos (by simpa using h2)]
        exact hs
      · rw [executeAiTurn_eq g aiMove h1 h2 hn]
        exact executeFor_bounded hi.grounded hc _ _ aiMove (fun _ => (hi.turnAi h1).1) hs
    · unfold executeAiTurn
      rw [if_neg (by simpa using h1), if_neg (by simpa using h2)]
      exact hs
  · unfold executeAiTurn
    rw [if_pos (by simpa using h1)]
    exact hs

theorem Robot.new_health_le (t : RobotType) :
    0 ≤ (Robot.new t).health ∧ (Robot.new t).health ≤ MaxHealth (Robot.new t).type := by
  cases t <;> decide

theorem initializeArena_bounded (g : Game) (pt aiT : RobotType) (diff : GameDifficulty)
    (map : MapType) (rng : List Nat) (g1 : Game)
    (h : initializeArena g pt aiT diff map rng = some g1) (hs : HealthWithin (healthBound g) g) :
    HealthWithin (healthBound g1) g1 := by
  obtain ⟨-, -, -, hd, -, hp, ha, hp2, -, -, -, -⟩ :=
    initializeArena_spec g pt aiT diff map rng g1 h
  intro id
  cases id
  · show 0 ≤ g1.playerRobot.health ∧ g1.playerRobot.health ≤ MaxHealth g1.playerRobot.type
    rw [hp]
    exact Robot.new_health_le pt
  · show 0 ≤ g1.player2Robot.health ∧ g1.player2Robot.health ≤ MaxHealth g1.player2Robot.type
    rw [hp2]
    exact hs RobotId.player2
  · show 0 ≤ g1.aiRobot.health ∧ g1.aiRobot.health ≤
      scaleByModifier (MaxHealth g1.aiRobot.type) (modifierTenths g1.difficulty)
    rw [ha, hd]
    cases diff <;> cases aiT <;>
      simp [applyDifficultySettings, scaleByModifier, Robot.new, MaxHealth, modifierTenths]

theorem initializeMultiplayerArena_bounded (g : Game) (t1 t2 : RobotType)
    (map : MapType) (rng : List Nat) (g1 : Game)
    (h : initializeMultiplayerArena g t1 t2 map rng = some g1)
    (hs : HealthWithin (healthBound g) g) :
    HealthWithin (healthBound g1) g1 := by
  obtain ⟨-, -, -, hd, -, hp, hp2, ha, -, -, -, -⟩ :=
    initializeMultiplayerArena_spec g t1 t2 map rng g1 h
  intro id
  cases id
  · show 0 ≤ g1.playerRobot.health ∧ g1.playerRobot.health ≤ MaxHealth g1.playerRobot.type
    rw [hp]
    exact Robot.new_health_le t1
  · show 0 ≤ g1.player2Robot.health ∧ g1.player2Robot.health ≤ MaxHealth g1.player2Robot.type
    rw [hp2]
    exact Robot.new_health_le t2
  · show 0 ≤ g1.aiRobot.health ∧ g1.aiRobot.health ≤
      scaleByModifier (MaxHealth g1.aiRobot.type) (modifierTenths g1.difficulty)
    rw [ha, hd]
    exact hs RobotId.ai

theorem Game.blank_bounded (size : Int) :
    HealthWithin (healthBound (Game.blank size)) (Game.blank size) := by
  intro id
  cases id <;>
    simp [Game.blank, healthBound, Robot.new, MaxHealth, scaleByModifier, modifierTenths]

/-- In every reachable state the health of every robot of the game lies
between 0 and its bound. -/
theorem Reachable.healthBounded {g : Game} (h : Reachable g) : HealthWithin (healthBound g) g := by
  induction h with
  | construct size rng g _ hnew =>
    exact initializeArena_bounded _ _ _ _ _ rng g hnew (Game.blank_bounded size)
  | init g0 pt aiT diff map rng g _ hinit ih =>
    exact initializeArena_bounded g0 pt aiT diff map rng g hinit ih
  | initMulti g0 t1 t2 map rng g _ hinit ih =>
    exact initializeMultiplayerArena_bounded g0 t1 t2 map rng g hinit ih
  | command g cmd hr ih => exact executeCommand_bounded hr.inv hr.calibrated cmd ih
  | aiTurn g aiMove hr ih => exact executeAiTurn_bounded hr.inv hr.calibrated aiMove ih

/-- C21, counterexample: the Hard game `exampleHard` is reachable and its AI
robot, a Scout, has 91 health, more than the Scout's MaxHealth of 70. -/
theorem C21_counterexample :
    Reachable exampleHard ∧ exampleHard.difficulty = GameDifficulty.Hard ∧
    exampleHard.aiRobot.type = RobotType.Scout ∧ exampleHard.aiRobot.health = 91 ∧
    ¬ exampleHard.aiRobot.health ≤ MaxHealth exampleHard.aiRobot.type :=
  ⟨exampleHard_reachable, by decide, by decide, by decide, by decide⟩

/-- C21, as the code has it: in every reachable state, at every difficulty and
in either mode, the health of the player robot and of the second player's
robot lies between 0 and the archetype's MaxHealth (Scout 70, Tank 150,
Sniper 80), and the health of the AI robot lies between 0 and that MaxHealth
multiplied by the difficulty's health multiplier and truncated (0.7 at Easy,
1.0 at Medium, 1.3 at Hard).  So at Easy and at Medium every robot's health is
at most its archetype's MaxHealth; at Hard the AI robot's bound is 91, 195 or
104. -/
theorem C21_health_bounded (g : Game) (h : Reachable g) :
    (0 ≤ g.playerRobot.health ∧ g.playerRobot.health ≤ MaxHealth g.playerRobot.type) ∧
    (0 ≤ g.player2Robot.health ∧ g.player2Robot.health ≤ MaxHealth g.player2Robot.type) ∧
    (0 ≤ g.aiRobot.health ∧ g.aiRobot.health ≤
      scaleByModifier (MaxHealth g.aiRobot.type) (modifierTenths g.difficulty)) ∧
    (g.difficulty ≠ GameDifficulty.Hard → ∀ id, (g.robot id).health ≤ MaxHealth (g.robot id).type) ∧
    (g.difficulty = GameDifficulty.Hard →
      scaleByModifier (MaxHealth g.aiRobot.type) (modifierTenths g.difficulty) =
        match g.aiRobot.type with
        | RobotType.Scout => 91
        | RobotType.Tank => 195
        | RobotType.Sniper => 104) := by
  have hb := h.healthBounded
  have hp := hb RobotId.player
  have hp2 := hb RobotId.player2
  have ha := hb RobotId.ai
  refine ⟨hp, hp2, ha, ?_, ?_⟩
  · intro hd id
    cases id
    · exact hp.2
    · exact hp2.2
    · refine ha.2.trans ?_
      show scaleByModifier (MaxHealth g.aiRobot.type) (modifierTenths g.difficulty) ≤
        MaxHealth g.aiRobot.type
      cases hdiff : g.difficulty
      · cases g.aiRobot.type <;> decide
      · cases g.aiRobot.type <;> decide
      · exact absurd hdiff hd
  · intro hd
    rw [hd]
    cases g.aiRobot.type <;> rfl

theorem C21_health_bounded_witness :
    (0 ≤ exampleHard.playerRobot.health ∧
      exampleHard.playerRobot.health ≤ MaxHealth exampleHard.playerRobot.type) ∧
    (0 ≤ exampleHard.aiRobot.health ∧ exampleHard.aiRobot.health ≤
      scaleByModifier (MaxHealth exampleHard.aiRobot.type)
        (modifierTenths exampleHard.difficulty)) :=
  ⟨(C21_health_bounded exampleHard exampleHard_reachable).1,
   (C21_health_bounded exampleHard exampleHard_reachable).2.2.1⟩

/-! ## The two participants never share a cell -/

theorem finishCommand_position (g : Game) (a : RobotId) (id : RobotId) :
    ((finishCommand g a).robot id).position = (g.robot id).position := by
  unfold finishCommand checkGameOver switchTurn
  dsimp only
  split_ifs <;> cases id <;> rfl

theorem Robot.turn_position (r : Robot) :
    r.turnLeft.position = r.position ∧ r.turnRight.position = r.position := by
  rw [Robot.turnLeft_eq, Robot.turnRight_eq]
  exact ⟨rfl, rfl⟩

theorem setRobot_position (g : Game) (a : RobotId) (r : Robot)
    (hr : r.position = (g.robot a).position) (id : RobotId) :
    ((g.setRobot a r).robot id).position = (g.robot id).position := by
  by_cases h : id = a
  · subst h
    rw [Game.robot_setRobot_same, hr]
  · rw [Game.robot_setRobot_ne g a id r h]

theorem attackCommand_position (g : Game) (a t : RobotId) (id : RobotId) :
    ((attackCommand g a t).robot id).position = (g.robot id).position := by
  obtain ⟨gd, hd, h | h⟩ := attackCommand_eq g a t <;> rw [h] <;>
    (rw [setRobot_position gd a _ (by rw [Robot.useMove_position] <;> rfl) id]
     exact hd.position id)

theorem moveForwardCommand_position (g : Game) (a : RobotId) (id : RobotId) :
    ((moveForwardCommand g a).1.robot id).position =
      if id = a ∧ isValidMove g (stepFrom (g.robot a).position (g.robot a).direction 1) = true
      then stepFrom (g.robot a).position (g.robot a).direction 1
      else (g.robot id).position := by
  by_cases hv : isValidMove g (stepFrom (g.robot a).position (g.robot a).direction 1) = true
  · obtain ⟨_, hc⟩ := moveForwardCommand_eq g a hv
    by_cases h : id = a
    · subst h
      rw [if_pos ⟨rfl, hv⟩, hc.robot, Game.robot_setRobot_same, Robot.useMove_eq]
      rfl
    · rw [if_neg (fun h1 => h h1.1), hc.others id h, Game.robot_setRobot_ne g a id _ h]
  · rw [if_neg (fun h1 => hv h1.2)]
    unfold moveForwardCommand
    dsimp only
    rw [if_neg hv]

theorem finishCommand_multiplayerMode (g : Game) (a : RobotId) :
    (finishCommand g a).multiplayerMode = g.multiplayerMode := by
  unfold finishCommand checkGameOver switchTurn
  dsimp only
  split_ifs <;> rfl

theorem executeFor_multiplayerMode (g : Game) (a t : RobotId) (cmd : Command) :
    (executeFor g a t cmd).multiplayerMode = g.multiplayerMode := by
  unfold executeFor
  cases cmd
  · dsimp only
    split_ifs
    · rw [finishCommand_multiplayerMode, (moveForwardCommand_turn g a).2]
    · rfl
  · rw [finishCommand_multiplayerMode]; cases a <;> rfl
  · rw [finishCommand_multiplayerMode]; cases a <;> rfl
  · rw [finishCommand_multiplayerMode, (attackCommand_turn g a t).2]
  · rcases checkGameOver_eq g with h | h <;> rw [h]

theorem Apart.of_positions {g g1 : Game} (h : Apart g)
    (h1 : g1.multiplayerMode = g.multiplayerMode)
    (h2 : ∀ id, (g1.robot id).position = (g.robot id).position) : Apart g1 := by
  unfold Apart at h ⊢
  rw [Game.opponent_congr h1]
  have h3 := h2 RobotId.player
  have h4 := h2 g.opponent
  simp only [Game.robot] at h3
  rw [h3, h4]
  exact h

theorem Game.opponent_ne_player (g : Game) : g.opponent ≠ RobotId.player := by
  unfold Game.opponent
  split_ifs <;> exact fun h => nomatch h

theorem executeFor_apart {g : Game} (h : Apart g) (a t : RobotId) (cmd : Command)
    (ha : a = RobotId.player ∨ a = g.opponent) : Apart (executeFor g a t cmd) := by
  have hm := executeFor_multiplayerMode g a t cmd
  cases cmd with
  | MoveForward =>
    by_cases hv : isValidMove g (stepFrom (g.robot a).position (g.robot a).direction 1) = true
    · have hpos : ∀ id, ((executeFor g a t Command.MoveForward).robot id).position =
          if id = a then stepFrom (g.robot a).position (g.robot a).direction 1
          else (g.robot id).position := by
        intro id
        have h1 : executeFor g a t Command.MoveForward =
            finishCommand (moveForwardCommand g a).1 a := by
          unfold executeFor
          dsimp only
          rw [if_pos (moveForwardCommand_eq g a hv).1]
        rw [h1, finishCommand_position, moveForwardCommand_position]
        by_cases h2 : id = a
        · rw [if_pos ⟨h2, hv⟩, if_pos h2]
        · rw [if_neg (fun h3 => h2 h3.1), if_neg h2]
      obtain ⟨_, _, hv3, hv4⟩ := (isValidMove_iff g _).1 hv
      unfold Apart at h ⊢
      rw [Game.opponent_congr hm]
      have h3 := hpos RobotId.player
      have h4 := hpos g.opponent
      simp only [Game.robot] at h3
      rw [h3, h4]
      rcases ha with ha | ha
      · subst ha
        rw [if_pos rfl, if_neg (Game.opponent_ne_player g)]
        exact hv4
      · subst ha
        rw [if_pos rfl, if_neg (fun h5 => Game.opponent_ne_player g h5.symm)]
        exact fun h5 => hv3 h5.symm
    · have h1 : executeFor g a t Command.MoveForward = g := by
        unfold executeFor moveForwardCommand
        dsimp only
        rw [if_neg hv]
        rfl
      rw [h1]; exact h
  | TurnLeft =>
    refine h.of_positions hm (fun id => ?_)
    unfold executeFor
    rw [finishCommand_position, setRobot_position g a _ (Robot.turn_position _).1]
  | TurnRight =>
    refine h.of_positions hm (fun id => ?_)
    unfold executeFor
    rw [finishCommand_position, setRobot_position g a _ (Robot.turn_position _).2]
  | Attack =>
    refine h.of_positions hm (fun id => ?_)
    unfold executeFor
    rw [finishCommand_position, attackCommand_position]
  | None =>
    refine h.of_positions hm (fun id => ?_)
    unfold executeFor
    rcases checkGameOver_eq g with h1 | h1 <;> rw [h1] <;> cases id <;> rfl

theorem executeCommand_apart {g : Game} (h : Apart g) (cmd : Command) :
    Apart (executeCommand g cmd) := by
  cases ha : activeHuman g with
  | none => rw [executeCommand_of_inactive g cmd ha]; exact h
  | some at1 =>
    rw [executeCommand_of_active g cmd at1.1 at1.2 ha]
    refine executeFor_apart h _ _ cmd ?_
    rcases (activeHuman_turnOf ha).participants with h1 | h1
    · exact Or.inl h1.1
    · exact Or.inr h1.1

theorem executeAiTurn_apart {g : Game} (hi : Inv g) (h : Apart g) (aiMove : Command) :
    Apart (executeAiTurn g aiMove) := by
  by_cases h1 : g.state = GameState.AiTurn
  · by_cases h2 : 0 < g.aiRobot.movesLeft
    · by_cases hn : aiMove = Command.None
      · subst hn
        unfold executeAiTurn
        rw [if_neg (by simpa using h1), if_pos (by simpa using h2)]
        exact h
      · rw [executeAiTurn_eq g aiMove h1 h2 hn]
        refine executeFor_apart h _ _ aiMove (Or.inr ?_)
        unfold Game.opponent
        rw [(hi.turnAi h1).1]
        rfl
    · unfold executeAiTurn
      rw [if_neg (by simpa using h1), if_neg (by simpa using h2)]
      exact h
  · unfold executeAiTurn
    rw [if_pos (by simpa using h1)]
    exact h

theorem initializeArena_apart (g : Game) (pt aiT : RobotType) (diff : GameDifficulty)
    (map : MapType) (rng : List Nat) (g1 : Game)
    (h : initializeArena g pt aiT diff map rng = some g1) (hsize : 2 ≤ g.gridSize) :
    Apart g1 := by
  obtain ⟨-, -, hm, -, -, hp, ha, -⟩ := initializeArena_spec g pt aiT diff map rng g1 h
  unfold Apart Game.opponent
  rw [hm]
  show g1.playerRobot.position ≠ g1.aiRobot.position
  rw [hp, ha]
  intro h1
  have h2 := congrArg QPoint.x h1
  simp at h2
  omega

theorem initializeMultiplayerArena_apart (g : Game) (t1 t2 : RobotType)
    (map : MapType) (rng : List Nat) (g1 : Game)
    (h : initializeMultiplayerArena g t1 t2 map rng = some g1) (hsize : 2 ≤ g.gridSize) :
    Apart g1 := by
  obtain ⟨-, -, hm, -, -, hp, hp2, -⟩ := initializeMultiplayerArena_spec g t1 t2 map rng g1 h
  unfold Apart Game.opponent
  rw [hm]
  show g1.playerRobot.position ≠ g1.player2Robot.position
  rw [hp, hp2]
  intro h1
  have h2 := congrArg QPoint.x h1
  simp at h2
  omega

/-- In every reachable state the two robots taking part in the match stand on
different cells. -/
theorem Reachable.apart {g : Game} (h : Reachable g) : Apart g := by
  induction h with
  | construct size rng g hs hnew =>
    exact initializeArena_apart _ _ _ _ _ rng g hnew hs
  | init g0 pt aiT diff map rng g hr hinit _ =>
    exact initializeArena_apart g0 pt aiT diff map rng g hinit hr.inv.grounded.size
  | initMulti g0 t1 t2 map rng g hr hinit _ =>
    exact initializeMultiplayerArena_apart g0 t1 t2 map rng g hinit hr.inv.grounded.size
  | command g cmd _ ih => exact executeCommand_apart ih cmd
  | aiTurn g aiMove hr ih => exact executeAiTurn_apart hr.inv ih aiMove

/-! ## The AI's commands and the human's commands are the same code -/

theorem scaleByModifier_ten (v : Int) : scaleByModifier v 10 = v := by
  unfold scaleByModifier
  exact Int.mul_ediv_cancel v (by decide)

theorem GameState.mirrored_twice (s : GameState) : s.mirrored.mirrored = s := by
  cases s <;> rfl

theorem RobotId.mirrored_mirrored (id : RobotId) : id.mirrored.mirrored = id := by
  cases id <;> rfl

theorem mirror_mirror (g : Game) : mirror (mirror g) = g := by
  unfold mirror
  simp only [GameState.mirrored_twice]

theorem mirror_robot (g : Game) (id : RobotId) : (mirror g).robot id.mirrored = g.robot id := by
  cases id <;> rfl

theorem mirror_setRobot (g : Game) (id : RobotId) (r : Robot) :
    mirror (g.setRobot id r) = (mirror g).setRobot id.mirrored r := by
  cases id <;> rfl

theorem mirror_setCell (g : Game) (p : QPoint) (c : CellType) :
    mirror (g.setCell p c) = (mirror g).setCell p c := rfl

theorem MediumSingle.mirror {g : Game} (h : MediumSingle g) : MediumSingle (mirror g) :=
  ⟨h.single, h.damage, h.health⟩

theorem mirror_isValidPosition (g : Game) (p : QPoint) :
    isValidPosition (mirror g) p = isValidPosition g p := rfl

theorem mirror_arena (g : Game) : (mirror g).arena = g.arena := rfl

theorem mirror_hasLineOfSight (g : Game) (p q : QPoint) :
    hasLineOfSight (mirror g) p q = hasLineOfSight g p q := rfl

theorem mirror_isValidMove {g : Game} (h : MediumSingle g) (p : QPoint) :
    isValidMove (mirror g) p = isValidMove g p := by
  have hm : (mirror g).multiplayerMode = false := h.single
  rw [Bool.eq_iff_iff, isValidMove_iff, isValidMove_iff]
  unfold Game.opponent
  rw [hm, h.single]
  show (isValidPosition g p = true ∧ g.arena p.y p.x ≠ CellType.Wall ∧
    p ≠ g.aiRobot.position ∧ p ≠ g.playerRobot.position) ↔
    (isValidPosition g p = true ∧ g.arena p.y p.x ≠ CellType.Wall ∧
    p ≠ g.playerRobot.position ∧ p ≠ g.aiRobot.position)
  tauto

theorem mirror_attackWall (g : Game) (p : QPoint) (d : Int) :
    (attackWall (mirror g) p d).1 = mirror (attackWall g p d).1 := by
  unfold attackWall
  rw [mirror_isValidPosition]
  show (if (!isValidPosition g p || decide (g.arena p.y p.x ≠ CellType.Wall)) = true
    then (mirror g, false, []) else _).1 = _
  dsimp only
  split_ifs with h1 h2 h3 h3
  · rfl
  · rfl
  · exact absurd h2 h3
  · exact absurd h3 h2
  · rfl

theorem mirror_attack {g : Game} (h : MediumSingle g) (a t : RobotId) :
    (attack (mirror g) a.mirrored t.mirrored).1 = mirror (attack g a t).1 := by
  have hd : (mirror g).aiDamageModifier = 10 := h.damage
  unfold attack
  simp only [mirror_robot, hd, h.damage, scaleByModifier_ten, ite_self, mirror_hasLineOfSight]
  split_ifs
  · rw [mirror_setRobot]
  · rfl
  · rw [mirror_setRobot]
  · rfl

theorem MediumSingle.of_damageOnly {g g1 : Game} (h : MediumSingle g) (hd : DamageOnly g g1) :
    MediumSingle g1 :=
  ⟨hd.multiplayerMode.trans h.single, hd.aiDamageModifier.trans h.damage,
    hd.aiHealthModifier.trans h.health⟩

theorem mirror_normalScan (g : Game) (s : QPoint) (dir : Direction) (t : QPoint) (n : Nat) :
    ∀ (step : Int) (hit : QPoint),
      normalScan (mirror g) s dir t n step hit = normalScan g s dir t n step hit := by
  induction n with
  | zero => intro step hit; rfl
  | succ n ih =>
    intro step hit
    unfold normalScan
    simp only [mirror_isValidPosition, ih]
    rfl

theorem mirror_normalAttack {g : Game} (h : MediumSingle g) (a t : RobotId) :
    normalAttack (mirror g) a.mirrored t.mirrored = mirror (normalAttack g a t) := by
  unfold normalAttack
  simp only [mirror_robot, mirror_normalScan, mirror_isValidPosition, mirror_hasLineOfSight,
    mirror_attackWall, mirror_attack h, mirror_arena]
  split_ifs <;> rfl

theorem powerUpDamageAt_single {g : Game} (hs : g.multiplayerMode = false) (p : QPoint)
    (d : Int) (hw : g.arena p.y p.x ≠ CellType.Wall) :
    powerUpDamageAt g p d =
      { g with
        playerRobot :=
          if p = g.playerRobot.position
          then g.playerRobot.setHealth (max 0 (g.playerRobot.health - d))
          else g.playerRobot,
        aiRobot :=
          if p = g.aiRobot.position
          then g.aiRobot.setHealth
            (max 0 (g.aiRobot.health - scaleByModifier d g.aiDamageModifier))
          else g.aiRobot } := by
  have hmt : ¬ g.multiplayerMode = true := by rw [hs]; decide
  unfold powerUpDamageAt
  rw [if_neg hw, if_neg hmt]
  dsimp only
  by_cases h1 : p = g.playerRobot.position
  · by_cases h2 : p = g.aiRobot.position
    · simp only [if_pos h1, if_pos h2]
    · simp only [if_pos h1, if_neg h2]
  · by_cases h2 : p = g.aiRobot.position
    · simp only [if_neg h1, if_pos h2]
    · simp only [if_neg h1, if_neg h2]

theorem mirror_powerUpDamageAt {g : Game} (h : MediumSingle g) (p : QPoint) (d : Int) :
    powerUpDamageAt (mirror g) p d = mirror (powerUpDamageAt g p d) := by
  by_cases hw : g.arena p.y p.x = CellType.Wall
  · have hw1 : (mirror g).arena p.y p.x = CellType.Wall := hw
    unfold powerUpDamageAt
    rw [if_pos hw, if_pos hw1, mirror_attackWall]
  · rw [powerUpDamageAt_single h.single p d hw,
      powerUpDamageAt_single h.mirror.single p d hw]
    have hd : (mirror g).aiDamageModifier = 10 := h.damage
    rw [hd, h.damage, scaleByModifier_ten]
    rfl

theorem powerUpDamageAt_mediumSingle {g : Game} (h : MediumSingle g) (p : QPoint) (d : Int) :
    MediumSingle (powerUpDamageAt g p d) :=
  h.of_damageOnly (powerUpDamageAt_damageOnly g p d)

theorem mirror_laserLoop (dir : Direction) (n : Nat) :
    ∀ (g : Game) (cur : QPoint), MediumSingle g →
      laserLoop dir n (mirror g) cur = mirror (laserLoop dir n g cur) := by
  induction n with
  | zero => intro g cur _; rfl
  | succ n ih =>
    intro g cur h
    unfold laserLoop
    simp only [mirror_isValidPosition, mirror_powerUpDamageAt h]
    split_ifs
    · rfl
    · exact ih _ _ (powerUpDamageAt_mediumSingle h _ _)

theorem missileLoop_single {g : Game} (hs : g.multiplayerMode = false) (dir : Direction)
    (n : Nat) (hitPos : QPoint) :
    missileLoop dir (n + 1) g hitPos =
      if (!isValidPosition g ⟨hitPos.x + (dirDelta dir).1, hitPos.y + (dirDelta dir).2⟩) = true
      then g
      else if g.arena (hitPos.y + (dirDelta dir).2) (hitPos.x + (dirDelta dir).1) = CellType.Wall
      then (attackWall g ⟨hitPos.x + (dirDelta dir).1, hitPos.y + (dirDelta dir).2⟩ 20).1
      else if (⟨hitPos.x + (dirDelta dir).1, hitPos.y + (dirDelta dir).2⟩ : QPoint) =
          g.playerRobot.position
      then { g with playerRobot := g.playerRobot.setHealth (max 0 (g.playerRobot.health - 20)) }
      else if (⟨hitPos.x + (dirDelta dir).1, hitPos.y + (dirDelta dir).2⟩ : QPoint) =
          g.aiRobot.position
      then { g with aiRobot := (g.aiRobot.setHealth
              (max 0 (g.aiRobot.health - scaleByModifier 20 g.aiDamageModifier))) }
      else missileLoop dir n g ⟨hitPos.x + (dirDelta dir).1, hitPos.y + (dirDelta dir).2⟩ := by
  have hmt : ¬ g.multiplayerMode = true := by rw [hs]; decide
  rw [missileLoop]
  dsimp only
  rw [if_neg hmt]

theorem mirror_missileLoop (dir : Direction) (n : Nat) :
    ∀ (g : Game) (cur : QPoint), MediumSingle g → g.playerRobot.position ≠ g.aiRobot.position →
      missileLoop dir n (mirror g) cur = mirror (missileLoop dir n g cur) := by
  induction n with
  | zero => intro g cur _ _; rfl
  | succ n ih =>
    intro g cur h hne
    have hd : (mirror g).aiDamageModifier = 10 := h.damage
    have e1 : (mirror g).playerRobot = g.aiRobot := rfl
    have e2 : (mirror g).aiRobot = g.playerRobot := rfl
    rw [missileLoop_single h.single, missileLoop_single h.mirror.single, hd, h.damage,
      scaleByModifier_ten, mirror_isValidPosition, mirror_arena, mirror_attackWall, e1, e2,
      ih _ _ h hne]
    split_ifs with h1 h2 h3 h4 h4
    · rfl
    · rfl
    · exact absurd (h4.symm.trans h3) hne
    · rfl
    · rfl
    · rfl

theorem mirror_bombTravel {g : Game} (h : MediumSingle g) (dir : Direction) (n : Nat) :
    ∀ (cur : QPoint), bombTravel (mirror g) dir n cur = bombTravel g dir n cur := by
  induction n with
  | zero => intro cur; rfl
  | succ n ih =>
    intro cur
    have hm : (mirror g).multiplayerMode = false := h.single
    have e1 : (mirror g).playerRobot = g.aiRobot := rfl
    have e2 : (mirror g).aiRobot = g.playerRobot := rfl
    unfold bombTravel
    simp only [mirror_isValidPosition, mirror_arena, hm, h.single, e1, e2, ih]
    split_ifs <;> first | rfl | tauto

theorem mirror_blast (d : Int) (ps : List QPoint) :
    ∀ g : Game, MediumSingle g → blast d (mirror g) ps = mirror (blast d g ps) := by
  induction ps with
  | nil => intro g _; rfl
  | cons p ps ih =>
    intro g h
    rw [blast_cons, blast_cons]
    have h1 : blastStep d (mirror g) p = mirror (blastStep d g p) := by
      unfold blastStep
      simp only [mirror_isValidPosition, mirror_powerUpDamageAt h]
      split_ifs <;> rfl
    rw [h1]
    exact ih _ (h.of_damageOnly (blastStep_damageOnly d g p))

theorem MediumSingle.of_setRobot {g : Game} (h : MediumSingle g) (id : RobotId) (r : Robot) :
    MediumSingle (g.setRobot id r) := by
  cases id <;> exact ⟨h.single, h.damage, h.health⟩

theorem mirror_attackCommand {g : Game} (h : MediumSingle g)
    (hne : g.playerRobot.position ≠ g.aiRobot.position) (a t : RobotId) :
    attackCommand (mirror g) a.mirrored t.mirrored = mirror (attackCommand g a t) := by
  have hf : rayFuel (mirror g) = rayFuel g := rfl
  cases hp : (g.robot a).currentPowerUp
  · rw [attackCommand_none g a t hp,
      attackCommand_none (mirror g) _ _ (by rw [mirror_robot]; exact hp),
      mirror_normalAttack h, mirror_robot, mirror_setRobot]
  · rw [attackCommand_laser g a t hp,
      attackCommand_laser (mirror g) _ _ (by rw [mirror_robot]; exact hp),
      mirror_robot, hf, mirror_laserLoop _ _ _ _ h, mirror_robot, mirror_setRobot]
  · rw [attackCommand_missile g a t hp,
      attackCommand_missile (mirror g) _ _ (by rw [mirror_robot]; exact hp),
      mirror_robot, hf, mirror_missileLoop _ _ _ _ h hne, mirror_robot, mirror_setRobot]
  · rw [attackCommand_bomb g a t hp,
      attackCommand_bomb (mirror g) _ _ (by rw [mirror_robot]; exact hp),
      mirror_robot, hf, mirror_bombTravel h, bombBlast_eq_blast, bombBlast_eq_blast,
      mirror_blast _ _ _ h, mirror_robot, mirror_setRobot]

theorem mirror_collectHealthPickup {g : Game} (h : MediumSingle g) (pos : QPoint)
    (id : RobotId) :
    collectHealthPickup (mirror g) pos id.mirrored = mirror (collectHealthPickup g pos id) := by
  have hh : (mirror g).aiHealthModifier = 10 := h.health
  unfold collectHealthPickup
  simp only [mirror_isValidPosition, mirror_arena, mirror_robot, hh, h.health,
    scaleByModifier_ten, ite_self]
  split_ifs
  · rfl
  · rw [mirror_setCell, mirror_setRobot]

theorem mirror_collectPowerUp (g : Game) (pos : QPoint) (id : RobotId) (c : CellType) :
    collectPowerUp (mirror g) pos id.mirrored c = mirror (collectPowerUp g pos id c) := by
  unfold collectPowerUp setRobotPowerUp
  simp only [mirror_isValidPosition, mirror_robot]
  split_ifs
  · rfl
  · cases c <;> first | rfl | rw [mirror_setCell, mirror_setRobot]

theorem mirror_collectAt {g : Game} (h : MediumSingle g) (p : QPoint) (a : RobotId) :
    (if (mirror g).arena p.y p.x = CellType.HealthPickup then
        collectHealthPickup (mirror g) p a.mirrored
      else if (mirror g).arena p.y p.x = CellType.LaserPowerUp ∨
          (mirror g).arena p.y p.x = CellType.MissilePowerUp ∨
          (mirror g).arena p.y p.x = CellType.BombPowerUp then
        collectPowerUp (mirror g) p a.mirrored ((mirror g).arena p.y p.x)
      else mirror g) =
    mirror (if g.arena p.y p.x = CellType.HealthPickup then collectHealthPickup g p a
      else if g.arena p.y p.x = CellType.LaserPowerUp ∨
          g.arena p.y p.x = CellType.MissilePowerUp ∨
          g.arena p.y p.x = CellType.BombPowerUp then
        collectPowerUp g p a (g.arena p.y p.x)
      else g) := by
  simp only [mirror_arena, mirror_collectHealthPickup h, mirror_collectPowerUp]
  split_ifs <;> rfl

theorem mirror_moveForwardCommand {g : Game} (h : MediumSingle g) (a : RobotId) :
    (moveForwardCommand (mirror g) a.mirrored).1 = mirror (moveForwardCommand g a).1 ∧
    (moveForwardCommand (mirror g) a.mirrored).2 = (moveForwardCommand g a).2 := by
  by_cases hv : isValidMove g (stepFrom (g.robot a).position (g.robot a).direction 1) = true
  · have hv1 : isValidMove (mirror g)
        (stepFrom (g.robot a).position (g.robot a).direction 1) = true := by
      rw [mirror_isValidMove h]; exact hv
    unfold moveForwardCommand
    dsimp only
    rw [mirror_robot, if_pos hv, if_pos hv1]
    refine ⟨?_, rfl⟩
    dsimp only
    rw [← mirror_setRobot, mirror_robot, ← mirror_setRobot]
    exact mirror_collectAt ((h.of_setRobot _ _).of_setRobot _ _) _ a
  · have hv1 : ¬ isValidMove (mirror g)
        (stepFrom (g.robot a).position (g.robot a).direction 1) = true := by
      rw [mirror_isValidMove h]; exact hv
    unfold moveForwardCommand
    dsimp only
    rw [mirror_robot, if_neg hv, if_neg hv1]
    exact ⟨rfl, rfl⟩

theorem mirror_checkGameOver {g : Game} (h : MediumSingle g) :
    checkGameOver (mirror g) = mirror (checkGameOver g) := by
  have hmt : ¬ g.multiplayerMode = true := by rw [h.single]; decide
  have hmt1 : ¬ (mirror g).multiplayerMode = true := hmt
  unfold checkGameOver
  rw [if_neg hmt, if_neg hmt1]
  have e : ((mirror g).playerRobot.isDead || (mirror g).aiRobot.isDead) =
      (g.playerRobot.isDead || g.aiRobot.isDead) := Bool.or_comm _ _
  rw [e]
  split_ifs <;> rfl

theorem mirror_switchTurn {g : Game} (h : MediumSingle g)
    (hs : g.state = GameState.PlayerTurn ∨ g.state = GameState.AiTurn) :
    switchTurn (mirror g) = mirror (switchTurn g) := by
  have hmt : ¬ g.multiplayerMode = true := by rw [h.single]; decide
  have hmt1 : ¬ (mirror g).multiplayerMode = true := hmt
  unfold switchTurn
  rw [if_neg hmt, if_neg hmt1]
  have e : (mirror g).state = g.state.mirrored := rfl
  rcases hs with hs | hs
  · have h1 : ¬ (mirror g).state = GameState.PlayerTurn := by rw [e, hs]; decide
    rw [if_pos hs, if_neg h1]
    unfold mirror
    rw [hs]
    rfl
  · have h1 : (mirror g).state = GameState.PlayerTurn := by rw [e, hs]; rfl
    have h2 : ¬ g.state = GameState.PlayerTurn := by rw [hs]; decide
    rw [if_pos h1, if_neg h2]
    rfl

theorem mirror_finishCommand {g : Game} (h : MediumSingle g)
    (hs : g.state = GameState.PlayerTurn ∨ g.state = GameState.AiTurn) (a : RobotId) :
    finishCommand (mirror g) a.mirrored = mirror (finishCommand g a) := by
  unfold finishCommand
  simp only [mirror_robot, mirror_checkGameOver h]
  have e : (mirror (checkGameOver g)).state = (checkGameOver g).state.mirrored := rfl
  by_cases hm : (g.robot a).movesLeft ≤ 0
  · rw [if_pos hm, if_pos hm]
    rcases checkGameOver_eq g with h1 | h1
    · rw [h1]
      have h2 : g.state ≠ GameState.GameOver := by
        rcases hs with hs | hs <;> rw [hs] <;> decide
      have h3 : (mirror g).state ≠ GameState.GameOver := by
        show g.state.mirrored ≠ _
        rcases hs with hs | hs <;> rw [hs] <;> decide
      rw [if_pos h2, if_pos h3, mirror_switchTurn h hs]
    · rw [h1]
      rfl
  · rw [if_neg hm, if_neg hm]

theorem mirror_executeFor {g : Game} (h : MediumSingle g)
    (hs : g.state = GameState.PlayerTurn ∨ g.state = GameState.AiTurn)
    (hne : g.playerRobot.position ≠ g.aiRobot.position) (a t : RobotId) (cmd : Command) :
    executeFor (mirror g) a.mirrored t.mirrored cmd = mirror (executeFor g a t cmd) := by
  have key : ∀ g1 : Game, MediumSingle g1 → g1.state = g.state →
      finishCommand (mirror g1) a.mirrored = mirror (finishCommand g1 a) := by
    intro g1 h1 h2
    exact mirror_finishCommand h1 (by rw [h2]; exact hs) a
  unfold executeFor
  cases cmd
  · dsimp only
    obtain ⟨e1, e2⟩ := mirror_moveForwardCommand h a
    rw [e1, e2]
    split_ifs
    · refine key _ ⟨(moveForwardCommand_turn g a).2.trans h.single, ?_, ?_⟩
        (moveForwardCommand_turn g a).1
      · exact (moveForwardCommand_settings g a).2.1.trans h.damage
      · exact (moveForwardCommand_settings g a).2.2.trans h.health
    · rfl
  · dsimp only
    rw [mirror_robot, ← mirror_setRobot]
    exact key _ (h.of_setRobot _ _) (by cases a <;> rfl)
  · dsimp only
    rw [mirror_robot, ← mirror_setRobot]
    exact key _ (h.of_setRobot _ _) (by cases a <;> rfl)
  · dsimp only
    rw [mirror_attackCommand h hne]
    refine key _ ⟨(attackCommand_turn g a t).2.trans h.single, ?_, ?_⟩
      (attackCommand_turn g a t).1
    · exact (attackCommand_settings g a t).2.1.trans h.damage
    · exact (attackCommand_settings g a t).2.2.trans h.health
  · exact mirror_checkGameOver h

theorem Reachable.mediumSingle {g : Game} (h : Reachable g)
    (hd : g.difficulty = GameDifficulty.Medium) (hs : g.state = GameState.AiTurn) :
    MediumSingle g := by
  obtain ⟨h1, h2⟩ := h.calibrated
  rw [hd] at h1 h2
  exact ⟨(h.inv.turnAi hs).1, h1, h2⟩

/-- C23: at Medium difficulty, for every reachable `AiTurn` state and every
command among MoveForward, TurnLeft, TurnRight and Attack chosen by the AI,
`executeAiTurn` produces exactly the state that `executeCommand` with the same
command produces from the mirrored state (AI robot and player robot exchanged,
`AiTurn` and `PlayerTurn` exchanged), mirrored back: the two games are equal,
so positions, facings, health, moves left, power-ups, arena, wall hit-points
and turn state all agree. -/
theorem C23_ai_turn_mirrors_command (g : Game) (h : Reachable g)
    (hd : g.difficulty = GameDifficulty.Medium) (hs : g.state = GameState.AiTurn)
    (c : Command) (hc : c ≠ Command.None) :
    executeAiTurn g c = mirror (executeCommand (mirror g) c) := by
  have hm := h.mediumSingle hd hs
  have hi := h.inv
  have hmoves : 0 < g.aiRobot.movesLeft := by
    have := (hi.turnAi hs).2
    omega
  have hne : g.playerRobot.position ≠ g.aiRobot.position := by
    have h1 := h.apart
    unfold Apart Game.opponent at h1
    rw [hm.single] at h1
    exact h1
  rw [executeAiTurn_eq g c hs hmoves hc]
  have h1 : executeCommand (mirror g) c =
      executeFor (mirror g) RobotId.player RobotId.ai c := by
    have h2 : (mirror g).state = GameState.PlayerTurn := by
      show g.state.mirrored = _
      rw [hs]; rfl
    have h3 : (mirror g).multiplayerMode = false := hm.single
    unfold executeCommand
    rw [if_pos h2, h3]
    rfl
  rw [h1]
  have h2 := mirror_executeFor hm (Or.inr hs) hne RobotId.ai RobotId.player c
  have h3 : RobotId.ai.mirrored = RobotId.player := rfl
  have h4 : RobotId.player.mirrored = RobotId.ai := rfl
  rw [h3, h4] at h2
  rw [h2, mirror_mirror]

theorem exampleAiTurn_reachable : Reachable exampleAiTurn :=
  runCommands_reachable _ _ exampleStart_reachable

theorem C23_ai_turn_mirrors_command_witness :
    exampleAiTurn.difficulty = GameDifficulty.Medium ∧
    exampleAiTurn.state = GameState.AiTurn ∧
    executeAiTurn exampleAiTurn Command.Attack =
      mirror (executeCommand (mirror exampleAiTurn) Command.Attack) :=
  ⟨by decide, by decide,
    C23_ai_turn_mirrors_command exampleAiTurn exampleAiTurn_reachable (by decide) (by decide)
      Command.Attack (by decide)⟩

/-! ## The AI strategies: stuck detection -/

theorem TankAI.tankTrack_spec (s : AIState) (p : QPoint) :
    (TankAI.trackPosition s p).lastAiPosition = p ∧
    (TankAI.trackPosition s p).samePositionCounter =
      if p = s.lastAiPosition then s.samePositionCounter + 1 else 0 := by
  unfold TankAI.trackPosition
  split_ifs with h
  · exact ⟨h.symm, rfl⟩
  · exact ⟨rfl, rfl⟩

theorem SniperAI.sniperTrack_spec (s : AIState) (p : QPoint) :
    (SniperAI.trackPosition s p).lastAiPosition = p ∧
    (SniperAI.trackPosition s p).samePositionCounter =
      if p = s.lastAiPosition then s.samePositionCounter + 1 else 0 := by
  unfold SniperAI.trackPosition
  split_ifs with h
  · exact ⟨h.symm, rfl⟩
  · exact ⟨rfl, rfl⟩

theorem ScoutAI.scoutTrack_spec (s : ScoutAIState) (p : QPoint) :
    (ScoutAI.trackPosition s p).lastAiPosition = p ∧
    (ScoutAI.trackPosition s p).samePositionCounter =
      if p = s.lastAiPosition then s.samePositionCounter + 1 else 0 := by
  unfold ScoutAI.trackPosition
  split_ifs with h
  · exact ⟨h.symm, rfl⟩
  · exact ⟨rfl, rfl⟩

/-- The stuck detection does not look at the turn counter. -/
theorem ScoutAI.trackPosition_turnCounter (s : ScoutAIState) (p : QPoint) (n : Int) :
    (ScoutAI.trackPosition { s with turnCounter := n } p).lastAiPosition =
      (ScoutAI.trackPosition s p).lastAiPosition ∧
    (ScoutAI.trackPosition { s with turnCounter := n } p).samePositionCounter =
      (ScoutAI.trackPosition s p).samePositionCounter := by
  unfold ScoutAI.trackPosition
  dsimp only
  split_ifs <;> exact ⟨rfl, rfl⟩

theorem ScoutAIState.SameStuck.step (s s1 s2 : ScoutAIState) (h1 : s.SameStuck s1)
    (h2 : s1.SameStuck s2) : s.SameStuck s2 :=
  ⟨h2.1.trans h1.1, h2.2.trans h1.2⟩

theorem ScoutAI.findSafePathFallback_stuck (s : ScoutAIState) (g : Game) (ai : RobotId) :
    s.SameStuck (ScoutAI.findSafePathFallback s g ai).2 := by
  unfold ScoutAI.findSafePathFallback
  dsimp only
  repeat' split
  all_goals exact ⟨rfl, rfl⟩

theorem ScoutAI.findSafePathLastMove_stuck (s : ScoutAIState) (g : Game) (ai opp : RobotId) :
    s.SameStuck (ScoutAI.findSafePathLastMove s g ai opp).2 := by
  unfold ScoutAI.findSafePathLastMove
  dsimp only
  repeat' split
  all_goals first
    | exact ⟨rfl, rfl⟩
    | exact ScoutAI.findSafePathFallback_stuck s g ai

theorem ScoutAI.findSafePathApproach_stuck (s : ScoutAIState) (g : Game) (ai opp : RobotId) :
    s.SameStuck (ScoutAI.findSafePathApproach s g ai opp).2 := by
  unfold ScoutAI.findSafePathApproach
  dsimp only
  repeat' split
  all_goals first
    | exact ⟨rfl, rfl⟩
    | exact ScoutAI.findSafePathLastMove_stuck s g ai opp

theorem ScoutAI.findSafePathForced_stuck (s : ScoutAIState) (g : Game) (ai opp : RobotId) :
    s.SameStuck (ScoutAI.findSafePathForced s g ai opp).2 := by
  unfold ScoutAI.findSafePathForced
  dsimp only
  repeat' split
  all_goals first
    | exact ⟨rfl, rfl⟩
    | exact ScoutAIState.SameStuck.step s { s with turnCounter := 0 } _ ⟨rfl, rfl⟩
        (ScoutAI.findSafePathApproach_stuck _ g ai opp)

theorem ScoutAI.findSafePath_stuck (s : ScoutAIState) (g : Game) (ai opp : RobotId) :
    s.SameStuck (ScoutAI.findSafePath s g ai opp).2 := by
  unfold ScoutAI.findSafePath
  dsimp only
  repeat' split
  all_goals first
    | exact ⟨rfl, rfl⟩
    | exact ScoutAIState.SameStuck.step s { s with justTurned := false } _ ⟨rfl, rfl⟩
        (ScoutAI.findSafePathForced_stuck _ g ai opp)

theorem ScoutAI.vsScout_stuck (s : ScoutAIState) (g : Game) (ai p : RobotId) (rng : List Nat) :
    s.SameStuck (ScoutAI.vsScout s g ai p rng).2 := by
  have hp := ScoutAI.findSafePath_stuck s g ai p
  unfold ScoutAI.vsScout
  dsimp only
  repeat' split
  all_goals first
    | exact ⟨rfl, rfl⟩
    | exact hp

theorem ScoutAI.vsSniper_stuck (s : ScoutAIState) (g : Game) (ai p : RobotId) (rng : List Nat) :
    s.SameStuck (ScoutAI.vsSniper s g ai p rng).2 := by
  have hp := ScoutAI.findSafePath_stuck s g ai p
  unfold ScoutAI.vsSniper
  dsimp only
  repeat' split
  all_goals first
    | exact ⟨rfl, rfl⟩
    | exact hp

theorem ScoutAI.vsTank_stuck (s : ScoutAIState) (g : Game) (ai p : RobotId) (rng : List Nat) :
    s.SameStuck (ScoutAI.vsTank s g ai p rng).2 := by
  have hp := ScoutAI.findSafePath_stuck s g ai p
  unfold ScoutAI.vsTank
  dsimp only
  repeat' split
  all_goals first
    | exact ⟨rfl, rfl⟩
    | exact hp

theorem ScoutAI.strategy_stuck (s : ScoutAIState) (g : Game) (ai p : RobotId) (rng : List Nat) :
    s.SameStuck (ScoutAI.strategy s g ai p rng).2 := by
  unfold ScoutAI.strategy
  dsimp only
  split <;> split
  all_goals first
    | exact ScoutAIState.SameStuck.step s
        { s with lastPlayerPosition := (g.robot p).position,
                 lastPlayerHealth := (g.robot p).health } _ ⟨rfl, rfl⟩
        (ScoutAI.vsScout_stuck _ g ai p rng)
    | exact ScoutAIState.SameStuck.step s
        { s with lastPlayerPosition := (g.robot p).position,
                 lastPlayerHealth := (g.robot p).health } _ ⟨rfl, rfl⟩
        (ScoutAI.vsTank_stuck _ g ai p rng)
    | exact ScoutAIState.SameStuck.step s
        { s with lastPlayerPosition := (g.robot p).position,
                 lastPlayerHealth := (g.robot p).health } _ ⟨rfl, rfl⟩
        (ScoutAI.vsSniper_stuck _ g ai p rng)

theorem ScoutAI.scoutMove_track (s : ScoutAIState) (g : Game) (ai p : RobotId)
    (rng : List Nat) :
    (ScoutAI.calculateMove s g ai p rng).2.lastAiPosition = (g.robot ai).position ∧
    (ScoutAI.calculateMove s g ai p rng).2.samePositionCounter =
      (if (ScoutAI.trackPosition s (g.robot ai).position).samePositionCounter > 5 then 0
       else (ScoutAI.trackPosition s (g.robot ai).position).samePositionCounter) ∧
    ((ScoutAI.trackPosition s (g.robot ai).position).samePositionCounter > 5 →
      (ScoutAI.calculateMove s g ai p rng).1 = ScoutAI.breakOut g ai rng) := by
  have key : ∀ s0 : ScoutAIState,
      (ScoutAI.trackPosition s0 (g.robot ai).position).lastAiPosition =
        (ScoutAI.trackPosition s (g.robot ai).position).lastAiPosition →
      (ScoutAI.trackPosition s0 (g.robot ai).position).samePositionCounter =
        (ScoutAI.trackPosition s (g.robot ai).position).samePositionCounter →
      ((if (ScoutAI.trackPosition s0 (g.robot ai).position).samePositionCounter > 5 then
          (ScoutAI.breakOut g ai rng,
            { ScoutAI.trackPosition s0 (g.robot ai).position with samePositionCounter := 0 })
        else ScoutAI.strategy (ScoutAI.trackPosition s0 (g.robot ai).position) g ai p rng).2.lastAiPosition
          = (g.robot ai).position ∧
       (if (ScoutAI.trackPosition s0 (g.robot ai).position).samePositionCounter > 5 then
          (ScoutAI.breakOut g ai rng,
            { ScoutAI.trackPosition s0 (g.robot ai).position with samePositionCounter := 0 })
        else ScoutAI.strategy (ScoutAI.trackPosition s0 (g.robot ai).position) g ai p rng).2.samePositionCounter
          = (if (ScoutAI.trackPosition s (g.robot ai).position).samePositionCounter > 5 then 0
             else (ScoutAI.trackPosition s (g.robot ai).position).samePositionCounter) ∧
       ((ScoutAI.trackPosition s (g.robot ai).position).samePositionCounter > 5 →
        (if (ScoutAI.trackPosition s0 (g.robot ai).position).samePositionCounter > 5 then
          (ScoutAI.breakOut g ai rng,
            { ScoutAI.trackPosition s0 (g.robot ai).position with samePositionCounter := 0 })
        else ScoutAI.strategy (ScoutAI.trackPosition s0 (g.robot ai).position) g ai p rng).1
          = ScoutAI.breakOut g ai rng)) := by
    intro s0 h1 h2
    have h3 := (ScoutAI.scoutTrack_spec s (g.robot ai).position).1
    rw [h2]
    by_cases hs : (ScoutAI.trackPosition s (g.robot ai).position).samePositionCounter > 5
    · rw [if_pos hs, if_pos hs]
      exact ⟨h1.trans h3, rfl, fun _ => rfl⟩
    · rw [if_neg hs, if_neg hs]
      obtain ⟨h4, h5⟩ := ScoutAI.strategy_stuck
        (ScoutAI.trackPosition s0 (g.robot ai).position) g ai p rng
      exact ⟨(h5.trans h1).trans h3, h4.trans h2, fun h => absurd h hs⟩
  have e : ∃ s0 : ScoutAIState,
      (ScoutAI.trackPosition s0 (g.robot ai).position).lastAiPosition =
        (ScoutAI.trackPosition s (g.robot ai).position).lastAiPosition ∧
      (ScoutAI.trackPosition s0 (g.robot ai).position).samePositionCounter =
        (ScoutAI.trackPosition s (g.robot ai).position).samePositionCounter ∧
      ScoutAI.calculateMove s g ai p rng =
        if (ScoutAI.trackPosition s0 (g.robot ai).position).samePositionCounter > 5 then
          (ScoutAI.breakOut g ai rng,
            { ScoutAI.trackPosition s0 (g.robot ai).position with samePositionCounter := 0 })
        else ScoutAI.strategy (ScoutAI.trackPosition s0 (g.robot ai).position) g ai p rng := by
    by_cases hm : (g.robot ai).movesLeft = (g.robot ai).maxMovesPerTurn
    · refine ⟨{ s with turnCounter := 0 }, (ScoutAI.trackPosition_turnCounter s _ 0).1,
        (ScoutAI.trackPosition_turnCounter s _ 0).2, ?_⟩
      unfold ScoutAI.calculateMove
      dsimp only
      rw [if_pos hm]
    · refine ⟨s, rfl, rfl, ?_⟩
      unfold ScoutAI.calculateMove
      dsimp only
      rw [if_neg hm]
  obtain ⟨s0, h1, h2, h3⟩ := e
  rw [h3]
  exact key s0 h1 h2

theorem TankAI.tankMove_track (s : AIState) (g : Game) (ai p : RobotId) (rng : List Nat) :
    (TankAI.calculateMove s g ai p rng).2.lastAiPosition = (g.robot ai).position ∧
    (TankAI.calculateMove s g ai p rng).2.samePositionCounter =
      (if (TankAI.trackPosition s (g.robot ai).position).samePositionCounter > 5 then 0
       else (TankAI.trackPosition s (g.robot ai).position).samePositionCounter) ∧
    ((TankAI.trackPosition s (g.robot ai).position).samePositionCounter > 5 →
      (TankAI.calculateMove s g ai p rng).1 = some (TankAI.breakOut g ai p)) := by
  have h3 := (TankAI.tankTrack_spec s (g.robot ai).position).1
  unfold TankAI.calculateMove
  dsimp only
  by_cases hs : (TankAI.trackPosition s (g.robot ai).position).samePositionCounter > 5
  · rw [if_pos hs, if_pos hs]
    exact ⟨h3, rfl, fun _ => rfl⟩
  · rw [if_neg hs, if_neg hs]
    exact ⟨h3, rfl, fun h => absurd h hs⟩

theorem SniperAI.sniperMove_track (s : AIState) (g : Game) (ai p : RobotId) (rng : List Nat) :
    (SniperAI.calculateMove s g ai p rng).2.lastAiPosition = (g.robot ai).position ∧
    (SniperAI.calculateMove s g ai p rng).2.samePositionCounter =
      (if (SniperAI.trackPosition s (g.robot ai).position).samePositionCounter > 5 then 0
       else (SniperAI.trackPosition s (g.robot ai).position).samePositionCounter) ∧
    ((SniperAI.trackPosition s (g.robot ai).position).samePositionCounter > 5 →
      (SniperAI.calculateMove s g ai p rng).1 = some (SniperAI.breakOut g ai p)) := by
  have h3 := (SniperAI.sniperTrack_spec s (g.robot ai).position).1
  unfold SniperAI.calculateMove
  dsimp only
  by_cases hs : (SniperAI.trackPosition s (g.robot ai).position).samePositionCounter > 5
  · rw [if_pos hs, if_pos hs]
    exact ⟨h3, rfl, fun _ => rfl⟩
  · rw [if_neg hs, if_neg hs]
    exact ⟨h3, rfl, fun h => absurd h hs⟩

theorem track_arith (pos last : QPoint) (c tc newc : Int)
    (htc : tc = if pos = last then c + 1 else 0) (hnew : newc = if tc > 5 then 0 else tc) :
    (tc > 5 ↔ (last = pos ∧ 5 ≤ c)) ∧
    newc = if last = pos then (if 5 ≤ c then 0 else c + 1) else 0 := by
  subst hnew
  by_cases he : pos = last
  · rw [if_pos he] at htc
    rw [if_pos he.symm]
    subst htc
    constructor
    · constructor
      · intro h; exact ⟨he.symm, by omega⟩
      · intro h; omega
    · split_ifs <;> omega
  · rw [if_neg he] at htc
    rw [if_neg (fun (h : last = pos) => he h.symm)]
    subst htc
    constructor
    · constructor
      · intro h; omega
      · intro h; exact absurd h.1.symm he
    · rw [if_neg (by omega)]

/-- One call of `RobotAI::calculateMove` for a robot of archetype `t` standing
on `p`: what the stuck detection of the strategy in charge does. -/
theorem RobotAI.calculateMove_track (r : RobotAI) (g : Game) (ai player : RobotId)
    (rng : List Nat) (t : RobotType) (p : QPoint) (ht : (g.robot ai).type = t)
    (hp : (g.robot ai).position = p) :
    (RobotAI.stuck r g ai ↔ (r.lastAiPosition t = p ∧ 5 ≤ r.samePositionCounter t)) ∧
    ((RobotAI.calculateMove r g ai player rng).2.lastAiPosition t = p) ∧
    ((RobotAI.calculateMove r g ai player rng).2.samePositionCounter t =
      if r.lastAiPosition t = p then
        (if 5 ≤ r.samePositionCounter t then 0 else r.samePositionCounter t + 1)
      else 0) ∧
    (RobotAI.stuck r g ai →
      (RobotAI.calculateMove r g ai player rng).1 = RobotAI.breakOut g ai player rng) := by
  subst ht hp
  unfold RobotAI.stuck RobotAI.calculateMove RobotAI.breakOut
  cases htype : (g.robot ai).type
  · obtain ⟨h1, h2, h3⟩ := ScoutAI.scoutMove_track r.scoutAI g ai player rng
    obtain ⟨-, h5⟩ := ScoutAI.scoutTrack_spec r.scoutAI (g.robot ai).position
    obtain ⟨h6, h7⟩ := track_arith _ _ _ _ _ h5 h2
    exact ⟨h6, h1, h7, h3⟩
  · obtain ⟨h1, h2, h3⟩ := TankAI.tankMove_track r.tankAI g ai player rng
    obtain ⟨-, h5⟩ := TankAI.tankTrack_spec r.tankAI (g.robot ai).position
    obtain ⟨h6, h7⟩ := track_arith _ _ _ _ _ h5 h2
    exact ⟨h6, h1, h7, h3⟩
  · obtain ⟨h1, h2, h3⟩ := SniperAI.sniperMove_track r.sniperAI g ai player rng
    obtain ⟨-, h5⟩ := SniperAI.sniperTrack_spec r.sniperAI (g.robot ai).position
    obtain ⟨h6, h7⟩ := track_arith _ _ _ _ _ h5 h2
    exact ⟨h6, h1, h7, h3⟩

/-- After `k` further calls on the same cell, starting with the counter at
`j`, the counter is `j + k`, as long as that is at most 5. -/
theorem RobotAI.afterCalls_counter (ai player : RobotId) (t : RobotType) (p : QPoint)
    (calls : List (Game × List Nat)) :
    ∀ (r : RobotAI) (j : Int),
      (∀ c ∈ calls, (c.1.robot ai).type = t ∧ (c.1.robot ai).position = p) →
      r.lastAiPosition t = p → r.samePositionCounter t = j → 0 ≤ j →
      j + calls.length ≤ 5 →
      (RobotAI.afterCalls r ai player calls).lastAiPosition t = p ∧
      (RobotAI.afterCalls r ai player calls).samePositionCounter t = j + calls.length := by
  induction calls with
  | nil => intro r j _ h1 h2 _ _; exact ⟨h1, by simpa using h2⟩
  | cons c cs ih =>
    intro r j hall h1 h2 h3 h4
    obtain ⟨ht, hp⟩ := hall c (List.mem_cons_self _ _)
    obtain ⟨-, h5, h6, -⟩ := RobotAI.calculateMove_track r c.1 ai player c.2 t p ht hp
    simp only [List.length_cons, Nat.cast_add, Nat.cast_one] at h4
    rw [if_pos h1, if_neg (by omega), h2] at h6
    have := ih (RobotAI.calculateMove r c.1 ai player c.2).2 (j + 1)
      (fun c1 hc1 => hall c1 (List.mem_cons_of_mem _ hc1)) h5 h6 (by omega) (by omega)
    refine ⟨this.1, ?_⟩
    have e : (RobotAI.afterCalls r ai player (c :: cs)).samePositionCounter t =
        (RobotAI.afterCalls (RobotAI.calculateMove r c.1 ai player c.2).2 ai player
          cs).samePositionCounter t := rfl
    rw [e, this.2]
    simp only [List.length_cons, Nat.cast_add, Nat.cast_one]
    omega

/-- C26: for each of the three strategies, starting from a `calculateMove`
call at which the AI's position differs from the last recorded one, as long as
the AI's position stays the same: calls 1 to 6 at that position do not take the
stuck-breakout branch (the counter stands at 0, 1, .., 5 after them), the 7th
call is the first to take it, it returns the command of the break-out block,
and it leaves the same-position counter at 0.  Here `calls` are the calls made
before the one looked at, so that the call looked at is call number
`calls.length + 1`. -/
theorem C26_seventh_call_breaks_out (r : RobotAI) (ai player : RobotId) (t : RobotType)
    (p : QPoint) (calls : List (Game × List Nat)) (g : Game) (rng : List Nat)
    (hcalls : ∀ c ∈ calls, (c.1.robot ai).type = t ∧ (c.1.robot ai).position = p)
    (ht : (g.robot ai).type = t) (hp : (g.robot ai).position = p)
    (hnew : r.lastAiPosition t ≠ p) (hlen : calls.length ≤ 6) :
    (calls.length < 6 →
      ¬ RobotAI.stuck (RobotAI.afterCalls r ai player calls) g ai ∧
      (RobotAI.calculateMove (RobotAI.afterCalls r ai player calls) g ai player
        rng).2.samePositionCounter t = calls.length) ∧
    (calls.length = 6 →
      RobotAI.stuck (RobotAI.afterCalls r ai player calls) g ai ∧
      (RobotAI.calculateMove (RobotAI.afterCalls r ai player calls) g ai player rng).1 =
        RobotAI.breakOut g ai player rng ∧
      (RobotAI.calculateMove (RobotAI.afterCalls r ai player calls) g ai player
        rng).2.samePositionCounter t = 0) := by
  obtain ⟨h1, h2, h3, h4⟩ := RobotAI.calculateMove_track
    (RobotAI.afterCalls r ai player calls) g ai player rng t p ht hp
  cases calls with
  | nil =>
    have h5 : (RobotAI.afterCalls r ai player []).lastAiPosition t ≠ p := hnew
    constructor
    · intro _
      rw [h1, h3, if_neg h5]
      exact ⟨fun h => h5 h.1, rfl⟩
    · intro h; simp at h
  | cons c cs =>
    obtain ⟨hct, hcp⟩ := hcalls c (List.mem_cons_self _ _)
    obtain ⟨-, h5, h6, -⟩ := RobotAI.calculateMove_track r c.1 ai player c.2 t p hct hcp
    rw [if_neg hnew] at h6
    simp only [List.length_cons] at hlen
    obtain ⟨h7, h8⟩ := RobotAI.afterCalls_counter ai player t p cs
      (RobotAI.calculateMove r c.1 ai player c.2).2 0
      (fun c1 hc1 => hcalls c1 (List.mem_cons_of_mem _ hc1)) h5 h6 le_rfl
      (by have : (cs.length : Int) ≤ 5 := by exact_mod_cast (by omega : cs.length ≤ 5)
          omega)
    have h9 : (RobotAI.afterCalls r ai player (c :: cs)).lastAiPosition t = p := h7
    have h10 : (RobotAI.afterCalls r ai player (c :: cs)).samePositionCounter t =
        (cs.length : Int) := by
      have : (RobotAI.afterCalls r ai player (c :: cs)).samePositionCounter t =
          0 + (cs.length : Int) := h8
      omega
    rw [h1, h3, if_pos h9, h10]
    simp only [List.length_cons]
    constructor
    · intro hl
      have hl1 : (cs.length : Int) < 5 := by exact_mod_cast (by omega : cs.length < 5)
      rw [if_neg (by omega)]
      refine ⟨fun h => by omega, ?_⟩
      push_cast
      ring
    · intro hl
      have hl1 : (cs.length : Int) = 5 := by exact_mod_cast (by omega : cs.length = 5)
      have hst : (RobotAI.afterCalls r ai player (c :: cs)).lastAiPosition t = p ∧
          5 ≤ (RobotAI.afterCalls r ai player (c :: cs)).samePositionCounter t :=
        ⟨h9, by omega⟩
      refine ⟨⟨h9, by omega⟩, h4 (h1.2 hst), ?_⟩
      rw [if_pos (by omega)]

theorem C26_seventh_call_breaks_out_witness :
    RobotAI.stuck
      (RobotAI.afterCalls RobotAI.new RobotId.ai RobotId.player
        (List.replicate 6 (exampleAiTurn, [0]))) exampleAiTurn RobotId.ai ∧
    (RobotAI.calculateMove
      (RobotAI.afterCalls RobotAI.new RobotId.ai RobotId.player
        (List.replicate 6 (exampleAiTurn, [0]))) exampleAiTurn RobotId.ai RobotId.player
      [0]).2.samePositionCounter RobotType.Scout = 0 :=
  ⟨((C26_seventh_call_breaks_out RobotAI.new RobotId.ai RobotId.player RobotType.Scout ⟨3, 0⟩
      (List.replicate 6 (exampleAiTurn, [0])) exampleAiTurn [0] (by decide) (by decide)
      (by decide) (by decide) (by decide)).2 (by decide)).1,
   ((C26_seventh_call_breaks_out RobotAI.new RobotId.ai RobotId.player RobotType.Scout ⟨3, 0⟩
      (List.replicate 6 (exampleAiTurn, [0])) exampleAiTurn [0] (by decide) (by decide)
      (by decide) (by decide) (by decide)).2 (by decide)).2.2⟩

/-! ## The AI strategies: helpers -/

theorem getPositionInDirection_eq (pos : QPoint) (dir : Direction) (steps : Int) :
    getPositionInDirection pos dir steps = stepFrom pos dir steps := by
  cases dir <;> rfl

theorem getTurnCommand_turn (c t : Direction) :
    getTurnCommand c t = Command.TurnLeft ∨ getTurnCommand c t = Command.TurnRight := by
  cases c <;> cases t <;> decide

theorem loopDirections_eq :
    loopDirections = [Direction.North, Direction.East, Direction.South, Direction.West] := by
  decide

theorem find_loop_some (f : Direction → Bool) (d : Direction) :
    loopDirections.find? f = some d ↔
      (f d = true ∧ ∀ d1 : Direction, d1.toInt < d.toInt → f d1 = false) := by
  rw [loopDirections_eq]
  constructor
  · intro h
    cases h1 : f Direction.North <;> cases h2 : f Direction.East <;>
      cases h3 : f Direction.South <;> cases h4 : f Direction.West <;>
      simp [List.find?, h1, h2, h3, h4] at h <;> subst h <;>
      refine ⟨by assumption, fun d1 hd1 => ?_⟩ <;>
      cases d1 <;> simp [Direction.toInt] at hd1 <;> assumption
  · rintro ⟨hd, hmin⟩
    cases d
    · simp [List.find?, hd]
    · have h1 := hmin Direction.North (by decide)
      simp [List.find?, hd, h1]
    · have h1 := hmin Direction.North (by decide)
      have h2 := hmin Direction.East (by decide)
      simp [List.find?, hd, h1, h2]
    · have h1 := hmin Direction.North (by decide)
      have h2 := hmin Direction.East (by decide)
      have h3 := hmin Direction.South (by decide)
      simp [List.find?, hd, h1, h2, h3]

theorem find_loop_none (f : Direction → Bool) :
    loopDirections.find? f = none ↔ ∀ d : Direction, f d = false := by
  rw [loopDirections_eq]
  constructor
  · intro h d
    cases h1 : f Direction.North <;> cases h2 : f Direction.East <;>
      cases h3 : f Direction.South <;> cases h4 : f Direction.West <;>
      simp [List.find?, h1, h2, h3, h4] at h <;>
      cases d <;> assumption
  · intro h
    simp [List.find?, h]

/-! ## The break-out blocks -/

theorem wallAhead_iff (g : Game) (id : RobotId) :
    (isValidPosition g (getPositionInDirection (g.robot id).position (g.robot id).direction 1) &&
      decide (getCellType g
        (getPositionInDirection (g.robot id).position (g.robot id).direction 1) =
          CellType.Wall)) = true ↔ wallAhead g id := by
  unfold wallAhead cellAhead getCellType
  rw [getPositionInDirection_eq]
  cases h : isValidPosition g (stepFrom (g.robot id).position (g.robot id).direction 1) <;>
    simp [h]

/-- The opponent stands on the cell directly ahead exactly when it is at
distance 1 and inside the facing cone. -/
theorem adjacent_faced_iff (a : Robot) (p : QPoint) :
    (manhattanDistance a.position p = 1 ∧
      isInDirection (p.x - a.position.x) (p.y - a.position.y) a.direction = true) ↔
    cellAhead a = p := by
  obtain ⟨px, py⟩ := p
  unfold manhattanDistance isInDirection cellAhead stepFrom
  rw [QPoint.eq_iff]
  have k1 := abs_cases (a.position.x - px)
  have k2 := abs_cases (a.position.y - py)
  have k3 := abs_cases (px - a.position.x)
  have k4 := abs_cases (py - a.position.y)
  cases a.direction <;>
    simp only [Bool.and_eq_true, decide_eq_true_eq, ge_iff_le, gt_iff_lt] <;>
    constructor <;> intro h <;> omega

theorem matchStep_reachable (s s1 : Game × RobotAI) (e : MatchEvent) (h : Reachable s.1)
    (hs : matchStep s e = some s1) : Reachable s1.1 := by
  cases e with
  | command cmd =>
      simp only [matchStep, Option.some.injEq] at hs
      subst hs
      exact Reachable.command _ cmd h
  | aiTurn rng =>
      simp only [matchStep, aiTurnStep] at hs
      split_ifs at hs with h1 h2
      · simp only [Option.some.injEq] at hs
        subst hs
        exact h
      · split at hs
        · cases hs
        · simp only [Option.some.injEq] at hs
          subst hs
          exact Reachable.aiTurn _ _ h
      · simp only [Option.some.injEq] at hs
        subst hs
        exact h

theorem runMatch_reachable (es : List MatchEvent) (s s1 : Game × RobotAI)
    (h : Reachable s.1) (hs : runMatch s es = some s1) : Reachable s1.1 := by
  induction es generalizing s with
  | nil =>
      simp only [runMatch, Option.some.injEq] at hs
      subst hs
      exact h
  | cons e es ih =>
      simp only [runMatch] at hs
      split at hs
      · cases hs
      · next s2 h2 => exact ih s2 (matchStep_reachable s s2 e h h2) hs

theorem TankAI.breakOut_eq (g : Game) (ai player : RobotId) :
    TankAI.breakOut g ai player =
      if wallAhead g ai then Command.Attack
      else if hasLineOfSight g (g.robot ai).position (g.robot player).position = true ∧
          isInDirection ((g.robot player).position.x - (g.robot ai).position.x)
            ((g.robot player).position.y - (g.robot ai).position.y)
            (g.robot ai).direction = true ∧
          manhattanDistance (g.robot ai).position (g.robot player).position ≤ 3 then
        Command.Attack
      else if isValidMove g (cellAhead (g.robot ai)) = true then Command.MoveForward
      else Command.Attack := by
  unfold TankAI.breakOut
  dsimp only
  have hw := wallAhead_iff g ai
  have hd : manhattanDistance (g.robot ai).position (g.robot player).position =
      |(g.robot player).position.x - (g.robot ai).position.x| +
        |(g.robot player).position.y - (g.robot ai).position.y| := by
    unfold manhattanDistance
    rw [abs_sub_comm (g.robot ai).position.x, abs_sub_comm (g.robot ai).position.y]
  rw [hd]
  have hc : cellAhead (g.robot ai) =
      getPositionInDirection (g.robot ai).position (g.robot ai).direction 1 := by
    rw [getPositionInDirection_eq]; rfl
  rw [hc]
  by_cases h1 : wallAhead g ai
  · rw [if_pos (hw.2 h1), if_pos h1]
  · rw [if_neg (fun h => h1 (hw.1 h)), if_neg h1]
    simp only [Bool.and_eq_true, decide_eq_true_eq, and_assoc]

theorem SniperAI.breakOut_eq_tank (g : Game) (ai player : RobotId) :
    SniperAI.breakOut g ai player = TankAI.breakOut g ai player := rfl

theorem ScoutAI.randomOtherDirection_some (dir : Direction) (rng : List Nat)
    (h : ∃ r ∈ rng, Direction.ofInt (bounded r 4) ≠ dir) :
    ∃ d, d ≠ dir ∧ ScoutAI.randomOtherDirection dir rng = some d := by
  induction rng with
  | nil => obtain ⟨r, hr, _⟩ := h; cases hr
  | cons r rs ih =>
      unfold ScoutAI.randomOtherDirection
      by_cases h1 : Direction.ofInt (bounded r 4) = dir
      · rw [if_pos h1]
        apply ih
        obtain ⟨r1, hr1, h2⟩ := h
        rcases List.mem_cons.1 hr1 with e | e
        · subst e; exact absurd h1 h2
        · exact ⟨r1, e, h2⟩
      · rw [if_neg h1]
        exact ⟨_, h1, rfl⟩

theorem ScoutAI.randomOtherDirection_ne (dir d : Direction) (rng : List Nat)
    (h : ScoutAI.randomOtherDirection dir rng = some d) : d ≠ dir := by
  induction rng with
  | nil => cases h
  | cons r rs ih =>
      unfold ScoutAI.randomOtherDirection at h
      split_ifs at h with h1
      · exact ih h
      · simp only [Option.some.injEq] at h
        subst h
        exact h1

theorem firstValidDirection_iff (g : Game) (pos : QPoint) (d : Direction) :
    loopDirections.find? (fun testDir => isValidMove g (getPositionInDirection pos testDir 1)) =
      some d ↔ firstValidDirection g pos d := by
  rw [find_loop_some]
  unfold firstValidDirection
  simp only [getPositionInDirection_eq]

theorem boxedIn_iff (g : Game) (pos : QPoint) :
    loopDirections.find? (fun testDir => isValidMove g (getPositionInDirection pos testDir 1)) =
      none ↔ boxedIn g pos := by
  rw [find_loop_none]
  unfold boxedIn
  simp only [getPositionInDirection_eq]

/-- The break-out block of the Scout, branch by branch. -/
theorem ScoutAI.breakOut_cases (g : Game) (ai : RobotId) (rng : List Nat) :
    (cellAhead (g.robot ai) = (g.robot (ScoutAI.opponentOf g ai)).position →
      ScoutAI.breakOut g ai rng = some Command.Attack) ∧
    (cellAhead (g.robot ai) ≠ (g.robot (ScoutAI.opponentOf g ai)).position →
      (∀ d, firstValidDirection g (g.robot ai).position d →
        ScoutAI.breakOut g ai rng =
          some (if d = (g.robot ai).direction then Command.MoveForward
                else getTurnCommand (g.robot ai).direction d)) ∧
      (boxedIn g (g.robot ai).position → wallAhead g ai →
        ScoutAI.breakOut g ai rng = some Command.Attack) ∧
      (boxedIn g (g.robot ai).position → ¬ wallAhead g ai →
        ScoutAI.breakOut g ai rng =
          (ScoutAI.randomOtherDirection (g.robot ai).direction rng).map
            (getTurnCommand (g.robot ai).direction))) := by
  have hadj := adjacent_faced_iff (g.robot ai) (g.robot (ScoutAI.opponentOf g ai)).position
  have hw := wallAhead_iff g ai
  constructor
  · intro h
    unfold ScoutAI.breakOut
    dsimp only
    rw [if_pos (hadj.2 h)]
  · intro h
    have hn := fun k => h (hadj.1 k)
    refine ⟨?_, ?_, ?_⟩
    · intro d hd
      unfold ScoutAI.breakOut
      dsimp only
      rw [if_neg hn, (firstValidDirection_iff g _ d).2 hd]
      dsimp only
      by_cases e : d = (g.robot ai).direction
      · rw [if_pos e, if_neg (fun k => k e.symm)]
      · rw [if_neg e, if_pos (fun k => e k.symm)]
    · intro hb hwall
      unfold ScoutAI.breakOut
      dsimp only
      rw [if_neg hn, (boxedIn_iff g _).2 hb]
      dsimp only
      rw [if_pos (hw.2 hwall)]
    · intro hb hwall
      unfold ScoutAI.breakOut
      dsimp only
      rw [if_neg hn, (boxedIn_iff g _).2 hb]
      dsimp only
      rw [if_neg (fun k => hwall (hw.1 k))]
      cases ScoutAI.randomOtherDirection (g.robot ai).direction rng <;> rfl

theorem firstValid_or_boxedIn (g : Game) (pos : QPoint) :
    boxedIn g pos ∨ ∃ d, firstValidDirection g pos d := by
  cases h : loopDirections.find?
      (fun testDir => isValidMove g (getPositionInDirection pos testDir 1)) with
  | none => exact Or.inl ((boxedIn_iff g pos).1 h)
  | some d => exact Or.inr ⟨d, (firstValidDirection_iff g pos d).1 h⟩

theorem exampleSniperEasy_reachable : Reachable exampleSniperEasy :=
  Reachable.init exampleStart RobotType.Tank RobotType.Sniper GameDifficulty.Easy MapType.Open
    exampleOpenDraws exampleSniperEasy exampleStart_reachable (eq_some_getD _ _ (by decide))

theorem exampleSniperStuck_reachable : Reachable exampleSniperStuck.1 :=
  runMatch_reachable _ (exampleSniperEasy, RobotAI.new) exampleSniperStuck
    exampleSniperEasy_reachable (eq_some_getD _ _ (by decide))

/-- C27 fails on the code: in the match `exampleSniperStuck` the AI's Sniper
stands on (1,0) facing South and has been asked six times for a move there, so
the next call takes the break-out branch.  No wall is ahead, the player's Tank
is two cells away at (1,2), not on the cell ahead, and the cell ahead (1,1) is
a valid move; the call returns Attack all the same. -/
theorem C27_counterexample :
    Reachable exampleSniperStuck.1 ∧
    exampleSniperStuck.1.state = GameState.AiTurn ∧
    exampleSniperStuck.1.aiRobot.type = RobotType.Sniper ∧
    exampleSniperStuck.1.aiRobot.position = ⟨1, 0⟩ ∧
    exampleSniperStuck.1.aiRobot.direction = Direction.South ∧
    exampleSniperStuck.1.playerRobot.position = ⟨1, 2⟩ ∧
    RobotAI.stuck exampleSniperStuck.2 exampleSniperStuck.1 RobotId.ai ∧
    ¬ wallAhead exampleSniperStuck.1 RobotId.ai ∧
    cellAhead exampleSniperStuck.1.aiRobot ≠ exampleSniperStuck.1.playerRobot.position ∧
    isValidMove exampleSniperStuck.1 (cellAhead exampleSniperStuck.1.aiRobot) = true ∧
    (RobotAI.calculateMove exampleSniperStuck.2 exampleSniperStuck.1 RobotId.ai RobotId.player
      [0]).1 = some Command.Attack :=
  ⟨exampleSniperStuck_reachable, by decide, by decide, by decide, by decide, by decide,
    by decide, by decide, by decide, by decide, by decide⟩

/-- C27, as the code has it.  In the stuck-breakout branch of `calculateMove`:
the Tank and the Sniper return Attack if a Wall is directly ahead; else Attack
if the opponent is in the line of sight, inside the facing cone and at
Manhattan distance at most 3; else MoveForward if the cell ahead is a valid
move; else Attack.  The Scout returns Attack if the opponent stands on the
cell ahead; else, if some neighbouring cell is a valid move, it heads for the
first such cell in the order North, East, South, West (MoveForward when facing
it, otherwise the turn toward it); else Attack if a Wall is directly ahead;
else a turn toward a randomly drawn other direction.  So the Scout returns
Attack only when the opponent is on the cell ahead, or when no neighbouring
cell is a valid move and a Wall is ahead. -/
theorem C27_breakout_priority (r : RobotAI) (g : Game) (ai player : RobotId) (rng : List Nat)
    (hstuck : RobotAI.stuck r g ai) :
    ((g.robot ai).type ≠ RobotType.Scout →
      (RobotAI.calculateMove r g ai player rng).1 = some
        (if wallAhead g ai then Command.Attack
         else if hasLineOfSight g (g.robot ai).position (g.robot player).position = true ∧
             isInDirection ((g.robot player).position.x - (g.robot ai).position.x)
               ((g.robot player).position.y - (g.robot ai).position.y)
               (g.robot ai).direction = true ∧
             manhattanDistance (g.robot ai).position (g.robot player).position ≤ 3 then
           Command.Attack
         else if isValidMove g (cellAhead (g.robot ai)) = true then Command.MoveForward
         else Command.Attack)) ∧
    ((g.robot ai).type = RobotType.Scout →
      (cellAhead (g.robot ai) = (g.robot (ScoutAI.opponentOf g ai)).position →
        (RobotAI.calculateMove r g ai player rng).1 = some Command.Attack) ∧
      (cellAhead (g.robot ai) ≠ (g.robot (ScoutAI.opponentOf g ai)).position →
        (∀ d, firstValidDirection g (g.robot ai).position d →
          (RobotAI.calculateMove r g ai player rng).1 =
            some (if d = (g.robot ai).direction then Command.MoveForward
                  else getTurnCommand (g.robot ai).direction d)) ∧
        (boxedIn g (g.robot ai).position → wallAhead g ai →
          (RobotAI.calculateMove r g ai player rng).1 = some Command.Attack) ∧
        (boxedIn g (g.robot ai).position → ¬ wallAhead g ai →
          (∃ n ∈ rng, Direction.ofInt (bounded n 4) ≠ (g.robot ai).direction) →
          ∃ d, d ≠ (g.robot ai).direction ∧
            (RobotAI.calculateMove r g ai player rng).1 =
              some (getTurnCommand (g.robot ai).direction d))) ∧
      ((RobotAI.calculateMove r g ai player rng).1 = some Command.Attack →
        cellAhead (g.robot ai) = (g.robot (ScoutAI.opponentOf g ai)).position ∨
        (boxedIn g (g.robot ai).position ∧ wallAhead g ai))) := by
  have hcmd := (RobotAI.calculateMove_track r g ai player rng _ _ rfl rfl).2.2.2 hstuck
  rw [hcmd]
  unfold RobotAI.breakOut
  constructor
  · intro ht
    cases hty : (g.robot ai).type with
    | Scout => exact absurd hty ht
    | Tank => dsimp only; rw [TankAI.breakOut_eq]
    | Sniper => dsimp only; rw [SniperAI.breakOut_eq_tank, TankAI.breakOut_eq]
  · intro ht
    rw [ht]
    dsimp only
    obtain ⟨b1, b2⟩ := ScoutAI.breakOut_cases g ai rng
    refine ⟨b1, fun hne => ⟨(b2 hne).1, (b2 hne).2.1, ?_⟩, ?_⟩
    · intro hb hw hr
      obtain ⟨d, hd, e⟩ := ScoutAI.randomOtherDirection_some _ rng hr
      refine ⟨d, hd, ?_⟩
      rw [(b2 hne).2.2 hb hw, e]
      rfl
    · intro hA
      by_cases hadj : cellAhead (g.robot ai) = (g.robot (ScoutAI.opponentOf g ai)).position
      · exact Or.inl hadj
      · right
        obtain ⟨c1, c2, c3⟩ := b2 hadj
        rcases firstValid_or_boxedIn g (g.robot ai).position with hb | ⟨d, hd⟩
        · refine ⟨hb, ?_⟩
          by_contra hw
          rw [c3 hb hw] at hA
          cases hr : ScoutAI.randomOtherDirection (g.robot ai).direction rng with
          | none => rw [hr] at hA; cases hA
          | some d =>
              rw [hr] at hA
              simp only [Option.map_some', Option.some.injEq] at hA
              rcases getTurnCommand_turn (g.robot ai).direction d with k | k <;>
                rw [k] at hA <;> cases hA
        · rw [c1 d hd] at hA
          simp only [Option.some.injEq] at hA
          split_ifs at hA
          rcases getTurnCommand_turn (g.robot ai).direction d with k | k <;>
            rw [k] at hA <;> cases hA

/-- Witness for C27: the seventh call of the Sniper on (1,0) in
`exampleSniperStuck`. -/
theorem C27_breakout_priority_witness :
    RobotAI.stuck exampleSniperStuck.2 exampleSniperStuck.1 RobotId.ai ∧
    (exampleSniperStuck.1.robot RobotId.ai).type ≠ RobotType.Scout ∧
    (RobotAI.calculateMove exampleSniperStuck.2 exampleSniperStuck.1 RobotId.ai RobotId.player
      [0]).1 = some Command.Attack :=
  ⟨by decide, by decide,
    ((C27_breakout_priority exampleSniperStuck.2 exampleSniperStuck.1 RobotId.ai
      RobotId.player [0] (by decide)).1 (by decide)).trans (by decide)⟩

/-- The branch `case Command::None` of `Game::executeAiTurn` ("Do nothing for
None command"): the command is not marked as executed, so the tail of the
method, which checks for game over and switches the turn, does not run and
the game is left as it was. -/
theorem executeAiTurn_none (g : Game) : executeAiTurn g Command.None = g := by
  unfold executeAiTurn
  split_ifs <;> rfl

/-! ## The kill in reach -/

theorem RobotAI.stuck_iff (r : RobotAI) (g : Game) (ai : RobotId) :
    RobotAI.stuck r g ai ↔ RobotAI.counterNow r g ai > 5 := by
  unfold RobotAI.stuck RobotAI.counterNow
  cases (g.robot ai).type <;> exact Iff.rfl

theorem aheadOf_towards (a p : QPoint) (d : Direction) (h : aheadOf a d p) :
    getDirectionTowards (p.x - a.x) (p.y - a.y) = d ∧
    isInDirection (p.x - a.x) (p.y - a.y) d = true ∧
    (a.x = p.x ∨ a.y = p.y) ∧ 1 ≤ manhattan a p := by
  have k1 := abs_cases (p.x - a.x)
  have k2 := abs_cases (p.y - a.y)
  unfold manhattan
  cases d <;> simp only [aheadOf] at h <;>
    refine ⟨?_, ?_, ?_, ?_⟩ <;>
    first
      | omega
      | (unfold getDirectionTowards; split_ifs <;> first | rfl | omega)
      | (unfold isInDirection
         simp only [Bool.and_eq_true, decide_eq_true_eq, ge_iff_le, gt_iff_lt]
         omega)

theorem getTurnCommand_ne_none (c t : Direction) :
    some (getTurnCommand c t) ≠ some Command.None := by
  intro k
  rcases getTurnCommand_turn c t with e | e <;> rw [e] at k <;> cases k

theorem TankAI.tankLoop_ne (g : Game) (aiPos : QPoint) (fuel : Nat) :
    ∀ (d : Direction) (rng : List Nat),
      TankAI.tryMoveOrBreakWallLoop g aiPos fuel d rng ≠ some Command.None := by
  induction fuel with
  | zero => intro d rng h; unfold TankAI.tryMoveOrBreakWallLoop at h; cases h
  | succ n ih =>
      intro d rng h
      unfold TankAI.tryMoveOrBreakWallLoop at h
      dsimp only at h
      have turn : ∀ c t : Direction, some (getTurnCommand c t) ≠ some Command.None := by
        intro c t k
        rcases getTurnCommand_turn c t with e | e <;> rw [e] at k <;> cases k
      split_ifs at h
      · split at h
        · cases h
        · split_ifs at h <;> exact turn _ _ h
      all_goals first
        | exact turn _ _ h
        | exact ih _ _ h

theorem TankAI.tankMoveOrBreak_ne (g : Game) (ai : RobotId) (rng : List Nat) :
    TankAI.tryMoveOrBreakWall g ai rng ≠ some Command.None := by
  intro h
  unfold TankAI.tryMoveOrBreakWall at h
  dsimp only at h
  split_ifs at h
  · cases h
  · cases h
  · exact TankAI.tankLoop_ne _ _ _ _ _ h

theorem TankAI.tankCollect_ne (g : Game) (ai : RobotId) (rng : List Nat)
    (h : (findNearestHealthPickup g (g.robot ai).position 5).x ≠ -1) :
    TankAI.tryCollectPickup g ai true rng ≠ some Command.None := by
  intro k
  unfold TankAI.tryCollectPickup at k
  dsimp only at k
  rw [if_neg (fun c => h c.1)] at k
  split_ifs at k <;> first
    | exact getTurnCommand_ne_none _ _ k
    | exact TankAI.tankMoveOrBreak_ne _ _ _ k

/-- The Tank's strategy when the opponent is on the cell ahead. -/
theorem TankAI.tankStrategy_ahead (g : Game) (ai player : RobotId) (rng : List Nat)
    (hhit : canHit g (g.robot ai) (g.robot player))
    (ht : (g.robot ai).type = RobotType.Tank) :
    TankAI.strategy g ai player rng =
      if (g.robot ai).health < (g.robot ai).maxHealth * 3 / 10 ∧
          (findNearestHealthPickup g (g.robot ai).position 5).x ≠ -1 then
        TankAI.tryCollectPickup g ai true rng
      else some Command.Attack := by
  obtain ⟨ha, hm, _⟩ := hhit
  rw [ht] at hm
  obtain ⟨e1, _, e3, _⟩ := aheadOf_towards _ _ _ ha
  have hm1 : |(g.robot player).position.x - (g.robot ai).position.x| +
      |(g.robot player).position.y - (g.robot ai).position.y| ≤ 1 := hm
  unfold TankAI.strategy TankAI.directLineAttack
  dsimp only
  rw [if_pos ⟨hm1, e3⟩]
  by_cases hex : (g.robot ai).health < (g.robot ai).maxHealth * 3 / 10 ∧
      (findNearestHealthPickup g (g.robot ai).position 5).x ≠ -1
  · rw [if_pos hex, if_pos hex]
    have hne := TankAI.tankCollect_ne g ai rng hex.2
    cases hc : TankAI.tryCollectPickup g ai true rng with
    | none => rfl
    | some c =>
        dsimp only
        rw [if_pos (fun k => hne (by rw [hc, k]))]
  · rw [if_neg hex, if_neg hex, if_neg (fun k => k e1.symm)]
    simp

theorem mem_loopRange (lo hi x : Int) : x ∈ loopRange lo hi ↔ lo ≤ x ∧ x ≤ hi := by
  unfold loopRange
  simp only [List.mem_map]
  constructor
  · rintro ⟨i, hi1, rfl⟩
    simp at hi1
    obtain ⟨a, ha, rfl⟩ := hi1
    omega
  · intro h
    refine ⟨x - lo, ?_, by omega⟩
    simp
    refine ⟨(x - lo).toNat, ?_, ?_⟩
    · omega
    · omega

theorem foldl_invariant {α β : Type} (f : β → α → β) (Q : β → Prop) (l : List α)
    (hstep : ∀ b a, a ∈ l → Q b → Q (f b a)) : ∀ b, Q b → Q (l.foldl f b) := by
  induction l with
  | nil => intro b hb; exact hb
  | cons a as ih =>
      intro b hb
      exact ih (fun b1 a1 h1 => hstep b1 a1 (List.mem_cons_of_mem _ h1)) _
        (hstep b a (List.mem_cons_self _ _) hb)

theorem foldl_found {α β : Type} (f : β → α → β) (I F : β → Prop) (hit : α → Prop)
    (l : List α)
    (hinv : ∀ b a, a ∈ l → I b → I (f b a))
    (hkeep : ∀ b a, a ∈ l → I b → F b → F (f b a))
    (hhit : ∀ b a, a ∈ l → I b → hit a → F (f b a)) :
    ∀ b, I b → (F b ∨ ∃ a ∈ l, hit a) → F (l.foldl f b) := by
  induction l with
  | nil =>
      intro b _ h
      rcases h with h | ⟨a, ha, _⟩
      · exact h
      · cases ha
  | cons a as ih =>
      intro b hb h
      refine ih (fun b1 a1 h1 => hinv b1 a1 (List.mem_cons_of_mem _ h1))
        (fun b1 a1 h1 => hkeep b1 a1 (List.mem_cons_of_mem _ h1))
        (fun b1 a1 h1 => hhit b1 a1 (List.mem_cons_of_mem _ h1)) _
        (hinv b a (List.mem_cons_self _ _) hb) ?_
      rcases h with h | ⟨a1, ha1, hh⟩
      · exact Or.inl (hkeep b a (List.mem_cons_self _ _) hb h)
      · rcases List.mem_cons.1 ha1 with e | e
        · subst e
          exact Or.inl (hhit b a1 (List.mem_cons_self _ _) hb hh)
        · exact Or.inr ⟨a1, e, hh⟩

/-- The search `findNearestHealthPickup` finds a cell exactly when a
HealthPickup lies inside the window of the given radius. -/
theorem findNearestHealthPickup_found (g : Game) (pos : QPoint) (radius : Int)
    (hr : 0 ≤ radius) (hr2 : radius ≤ 100) :
    (findNearestHealthPickup g pos radius).x ≠ -1 ↔ healthPickupWithin g pos radius := by
  unfold findNearestHealthPickup healthPickupWithin
  dsimp only
  constructor
  · intro h
    have key := foldl_invariant
      (fun (acc : QPoint × Int) y =>
        (loopRange (max 0 (pos.x - radius)) (min (g.gridSize - 1) (pos.x + radius))).foldl
          (fun (acc1 : QPoint × Int) x =>
            if getCellType g ⟨x, y⟩ = CellType.HealthPickup then
              if manhattanDistance pos ⟨x, y⟩ < acc1.2 then
                ((⟨x, y⟩ : QPoint), manhattanDistance pos ⟨x, y⟩)
              else acc1
            else acc1)
          acc)
      (fun b => b.1.x ≠ -1 → isValidPosition g b.1 = true ∧ |b.1.x - pos.x| ≤ radius ∧
        |b.1.y - pos.y| ≤ radius ∧ g.arena b.1.y b.1.x = CellType.HealthPickup)
      (loopRange (max 0 (pos.y - radius)) (min (g.gridSize - 1) (pos.y + radius)))
      (by
        intro b y hy hb
        refine foldl_invariant _ (fun b => b.1.x ≠ -1 → isValidPosition g b.1 = true ∧ |b.1.x - pos.x| ≤ radius ∧
          |b.1.y - pos.y| ≤ radius ∧ g.arena b.1.y b.1.x = CellType.HealthPickup) _ ?_ b hb
        intro b1 x hx hb1
        rw [mem_loopRange] at hx hy
        dsimp only
        split_ifs with h1 h2
        · intro _
          have hv : isValidPosition g ⟨x, y⟩ = true := by
            rw [isValidPosition_iff]
            dsimp only
            omega
          refine ⟨hv, ?_, ?_, ?_⟩
          · dsimp only; rw [abs_le]; omega
          · dsimp only; rw [abs_le]; omega
          · unfold getCellType at h1
            rw [hv] at h1
            simpa using h1
        · exact hb1
        · exact hb1)
      ((⟨-1, -1⟩ : QPoint), (999999 : Int)) (fun k => absurd rfl k)
    exact ⟨_, key h⟩
  · rintro ⟨p, hv, hx, hy, hc⟩
    rw [isValidPosition_iff] at hv
    rw [abs_le] at hx hy
    have key := foldl_found
      (fun (acc : QPoint × Int) y =>
        (loopRange (max 0 (pos.x - radius)) (min (g.gridSize - 1) (pos.x + radius))).foldl
          (fun (acc1 : QPoint × Int) x =>
            if getCellType g ⟨x, y⟩ = CellType.HealthPickup then
              if manhattanDistance pos ⟨x, y⟩ < acc1.2 then
                ((⟨x, y⟩ : QPoint), manhattanDistance pos ⟨x, y⟩)
              else acc1
            else acc1)
          acc)
      (fun b => (b.1.x = -1 ∧ b.2 = 999999) ∨ 0 ≤ b.1.x)
      (fun b => 0 ≤ b.1.x)
      (fun y => y = p.y)
      (loopRange (max 0 (pos.y - radius)) (min (g.gridSize - 1) (pos.y + radius)))
      (by
        intro b y hy hb
        refine foldl_invariant _ (fun b => (b.1.x = -1 ∧ b.2 = 999999) ∨ 0 ≤ b.1.x) _ ?_ b hb
        intro b1 x hx hb1
        rw [mem_loopRange] at hx
        dsimp only
        split_ifs
        · right; dsimp only; omega
        · exact hb1
        · exact hb1)
      (by
        intro b y hy _ hb
        refine foldl_invariant _ (fun b => 0 ≤ b.1.x) _ ?_ b hb
        intro b1 x hx hb1
        rw [mem_loopRange] at hx
        dsimp only
        split_ifs
        · dsimp only; omega
        · exact hb1
        · exact hb1)
      (by
        intro b y hy hb hyp
        subst hyp
        refine foldl_found _ (fun b => (b.1.x = -1 ∧ b.2 = 999999) ∨ 0 ≤ b.1.x)
          (fun b => 0 ≤ b.1.x) (fun x => x = p.x) _ ?_ ?_ ?_ b hb ?_
        · intro b1 x hx hb1
          rw [mem_loopRange] at hx
          dsimp only
          split_ifs
          · right; dsimp only; omega
          · exact hb1
          · exact hb1
        · intro b1 x hx _ hb1
          rw [mem_loopRange] at hx
          dsimp only
          split_ifs
          · dsimp only; omega
          · exact hb1
          · exact hb1
        · intro b1 x hx hb1 hxp
          subst hxp
          have hcell : getCellType g ⟨p.x, p.y⟩ = CellType.HealthPickup := by
            unfold getCellType
            rw [(isValidPosition_iff g ⟨p.x, p.y⟩).2 hv]
            simpa using hc
          rw [if_pos hcell]
          rcases hb1 with ⟨_, h2⟩ | h2
          · have hd : manhattanDistance pos ⟨p.x, p.y⟩ < b1.2 := by
              rw [h2]
              unfold manhattanDistance
              show |pos.x - p.x| + |pos.y - p.y| < 999999
              have a1 := abs_cases (pos.x - p.x)
              have a2 := abs_cases (pos.y - p.y)
              omega
            rw [if_pos hd]
            exact hv.1
          · split_ifs
            · exact hv.1
            · exact h2
        · right
          refine ⟨p.x, ?_, rfl⟩
          rw [mem_loopRange]
          omega)
      ((⟨-1, -1⟩ : QPoint), (999999 : Int)) (Or.inl ⟨rfl, rfl⟩)
      (Or.inr ⟨p.y, by rw [mem_loopRange]; omega, rfl⟩)
    have key2 : (0 : Int) ≤ _ := key
    omega

theorem healthPickupWithin.mono {g : Game} {pos : QPoint} {r1 r2 : Int}
    (h : healthPickupWithin g pos r1) (hr : r1 ≤ r2) : healthPickupWithin g pos r2 := by
  obtain ⟨p, hv, hx, hy, hc⟩ := h
  exact ⟨p, hv, le_trans hx hr, le_trans hy hr, hc⟩

theorem SniperAI.sniperLoop_ne (g : Game) (aiPos : QPoint) (fuel : Nat) :
    ∀ (d : Direction) (rng : List Nat),
      SniperAI.tryMoveOrBreakWallLoop g aiPos fuel d rng ≠ some Command.None := by
  induction fuel with
  | zero => intro d rng h; unfold SniperAI.tryMoveOrBreakWallLoop at h; cases h
  | succ n ih =>
      intro d rng h
      unfold SniperAI.tryMoveOrBreakWallLoop at h
      dsimp only at h
      have turn : ∀ c t : Direction, some (getTurnCommand c t) ≠ some Command.None := by
        intro c t k
        rcases getTurnCommand_turn c t with e | e <;> rw [e] at k <;> cases k
      split_ifs at h
      · split at h
        · cases h
        · split_ifs at h <;> exact turn _ _ h
      all_goals first
        | exact turn _ _ h
        | exact ih _ _ h

theorem SniperAI.sniperMoveOrBreak_ne (g : Game) (ai : RobotId) (rng : List Nat) :
    SniperAI.tryMoveOrBreakWall g ai rng ≠ some Command.None := by
  intro h
  unfold SniperAI.tryMoveOrBreakWall at h
  dsimp only at h
  split_ifs at h
  · cases h
  · cases h
  · exact SniperAI.sniperLoop_ne _ _ _ _ _ h

theorem SniperAI.sniperCollect_ne (g : Game) (ai : RobotId) (rng : List Nat)
    (h : (findNearestHealthPickup g (g.robot ai).position 6).x ≠ -1) :
    SniperAI.tryCollectPickup g ai true rng ≠ some Command.None := by
  intro k
  unfold SniperAI.tryCollectPickup at k
  dsimp only at k
  rw [if_neg (fun c => h c.1)] at k
  split_ifs at k <;> first
    | exact getTurnCommand_ne_none _ _ k
    | exact SniperAI.sniperMoveOrBreak_ne _ _ _ k

/-- The Sniper's strategy when the opponent is on the cell ahead. -/
theorem SniperAI.sniperStrategy_ahead (g : Game) (ai player : RobotId) (rng : List Nat)
    (hhit : canHit g (g.robot ai) (g.robot player))
    (ht : (g.robot ai).type = RobotType.Sniper) :
    SniperAI.strategy g ai player rng =
      if (g.robot ai).health < (g.robot ai).maxHealth * 5 / 10 ∧
          (findNearestHealthPickup g (g.robot ai).position 5).x ≠ -1 then
        SniperAI.tryCollectPickup g ai true rng
      else some Command.Attack := by
  obtain ⟨ha, hm, _⟩ := hhit
  rw [ht] at hm
  obtain ⟨e1, _, e3, _⟩ := aheadOf_towards _ _ _ ha
  have hm1 : |(g.robot player).position.x - (g.robot ai).position.x| +
      |(g.robot player).position.y - (g.robot ai).position.y| ≤ 3 := hm
  unfold SniperAI.strategy SniperAI.directLineAttack
  dsimp only
  rw [if_pos ⟨hm1, e3⟩]
  by_cases hex : (g.robot ai).health < (g.robot ai).maxHealth * 5 / 10 ∧
      (findNearestHealthPickup g (g.robot ai).position 5).x ≠ -1
  · rw [if_pos hex, if_pos hex]
    have hne := SniperAI.sniperCollect_ne g ai rng
      ((findNearestHealthPickup_found g _ 6 (by decide) (by decide)).2
        (((findNearestHealthPickup_found g _ 5 (by decide) (by decide)).1 hex.2).mono
          (by decide)))
    cases hc : SniperAI.tryCollectPickup g ai true rng with
    | none => rfl
    | some c =>
        dsimp only
        rw [if_pos (fun k => hne (by rw [hc, k]))]
  · rw [if_neg hex, if_neg hex, if_neg (fun k => k e1.symm)]
    simp

/-- The adjacency blocks of the Scout when it faces an opponent that one attack
kills: Attack, unless the same-position counter has reached 3 and a neighbouring
cell is a valid move. -/
theorem ScoutAI.adjacent_kill (s : ScoutAIState) (g : Game) (ai p : RobotId)
    (hdir : isInDirection ((g.robot p).position.x - (g.robot ai).position.x)
      ((g.robot p).position.y - (g.robot ai).position.y) (g.robot ai).direction = true)
    (hkill : (g.robot p).health ≤ (g.robot ai).attackDamage) :
    ((s.samePositionCounter < 3 ∨ boxedIn g (g.robot ai).position) →
      ScoutAI.vsScoutAdjacent s g ai p = Command.Attack ∧
      ScoutAI.vsSniperAdjacent s g ai p = Command.Attack ∧
      ScoutAI.vsTankAdjacent s g ai p = Command.Attack) ∧
    (3 ≤ s.samePositionCounter → ∀ d, firstValidDirection g (g.robot ai).position d →
      ScoutAI.vsScoutAdjacent s g ai p =
        (if d = (g.robot ai).direction then Command.MoveForward
          else getTurnCommand (g.robot ai).direction d) ∧
      ScoutAI.vsSniperAdjacent s g ai p =
        (if d = (g.robot ai).direction then Command.MoveForward
          else getTurnCommand (g.robot ai).direction d) ∧
      ScoutAI.vsTankAdjacent s g ai p =
        (if d = (g.robot ai).direction then Command.MoveForward
          else getTurnCommand (g.robot ai).direction d)) := by
  have hk : decide ((g.robot p).health ≤ (g.robot ai).attackDamage) = true :=
    decide_eq_true hkill
  constructor
  · intro h
    by_cases hc : s.samePositionCounter ≥ 3
    · have hb : boxedIn g (g.robot ai).position := by
        rcases h with h | h
        · omega
        · exact h
      have hf := (boxedIn_iff g _).2 hb
      refine ⟨?_, ?_, ?_⟩
      · unfold ScoutAI.vsScoutAdjacent
        dsimp only
        rw [if_pos hc, hf]
        dsimp only
        rw [if_pos hdir]
      · unfold ScoutAI.vsSniperAdjacent
        dsimp only
        rw [if_pos hc, hf]
        dsimp only
        rw [if_pos hdir]
      · unfold ScoutAI.vsTankAdjacent
        dsimp only
        rw [if_pos hc, hf]
        dsimp only
        rw [if_pos hdir]
    · refine ⟨?_, ?_, ?_⟩
      · unfold ScoutAI.vsScoutAdjacent
        dsimp only
        rw [if_neg hc, hdir, hk]
        rfl
      · unfold ScoutAI.vsSniperAdjacent
        dsimp only
        rw [if_neg hc, hdir, hk]
        rfl
      · unfold ScoutAI.vsTankAdjacent
        dsimp only
        rw [if_neg hc, hdir, hk]
        rfl
  · intro hc d hd
    have hc1 : s.samePositionCounter ≥ 3 := hc
    have hf := (firstValidDirection_iff g _ d).2 hd
    have e : (if (g.robot ai).direction ≠ d then getTurnCommand (g.robot ai).direction d
        else Command.MoveForward) =
        (if d = (g.robot ai).direction then Command.MoveForward
          else getTurnCommand (g.robot ai).direction d) := by
      by_cases k : d = (g.robot ai).direction
      · rw [if_pos k, if_neg (fun c => c k.symm)]
      · rw [if_neg k, if_pos (fun c => k c.symm)]
    refine ⟨?_, ?_, ?_⟩
    · unfold ScoutAI.vsScoutAdjacent
      dsimp only
      rw [if_pos hc1, hf]
      exact e
    · unfold ScoutAI.vsSniperAdjacent
      dsimp only
      rw [if_pos hc1, hf]
      exact e
    · unfold ScoutAI.vsTankAdjacent
      dsimp only
      rw [if_pos hc1, hf]
      exact e

/-- Outside the break-out branch, with the opponent at distance 1, the Scout's
`calculateMove` returns the command of the adjacency block for the opponent's
archetype, run on a state whose same-position counter is the one after the
stuck detection. -/
theorem ScoutAI.calculateMove_adjacent (s : ScoutAIState) (g : Game) (ai p : RobotId)
    (rng : List Nat)
    (hns : ¬ (ScoutAI.trackPosition s (g.robot ai).position).samePositionCounter > 5)
    (hd : |(g.robot p).position.x - (g.robot ai).position.x| +
      |(g.robot p).position.y - (g.robot ai).position.y| = 1) :
    ∃ s1 : ScoutAIState,
      s1.samePositionCounter =
        (ScoutAI.trackPosition s (g.robot ai).position).samePositionCounter ∧
      (ScoutAI.calculateMove s g ai p rng).1 =
        some (match (g.robot p).type with
          | RobotType.Scout => ScoutAI.vsScoutAdjacent s1 g ai p
          | RobotType.Tank => ScoutAI.vsTankAdjacent s1 g ai p
          | RobotType.Sniper => ScoutAI.vsSniperAdjacent s1 g ai p) := by
  have hs0 : ∃ s0 : ScoutAIState,
      (ScoutAI.trackPosition s0 (g.robot ai).position).samePositionCounter =
        (ScoutAI.trackPosition s (g.robot ai).position).samePositionCounter ∧
      ScoutAI.calculateMove s g ai p rng =
        if (ScoutAI.trackPosition s0 (g.robot ai).position).samePositionCounter > 5 then
          (ScoutAI.breakOut g ai rng,
            { ScoutAI.trackPosition s0 (g.robot ai).position with samePositionCounter := 0 })
        else ScoutAI.strategy (ScoutAI.trackPosition s0 (g.robot ai).position) g ai p rng := by
    by_cases hm : (g.robot ai).movesLeft = (g.robot ai).maxMovesPerTurn
    · refine ⟨{ s with turnCounter := 0 },
        (ScoutAI.trackPosition_turnCounter s _ 0).2, ?_⟩
      unfold ScoutAI.calculateMove
      dsimp only
      rw [if_pos hm]
    · refine ⟨s, rfl, ?_⟩
      unfold ScoutAI.calculateMove
      dsimp only
      rw [if_neg hm]
  obtain ⟨s0, h0, e0⟩ := hs0
  rw [e0, if_neg (by rw [h0]; exact hns)]
  unfold ScoutAI.strategy
  dsimp only
  by_cases hch : (g.robot p).position ≠
        (ScoutAI.trackPosition s0 (g.robot ai).position).lastPlayerPosition ∨
      (g.robot p).health ≠ (ScoutAI.trackPosition s0 (g.robot ai).position).lastPlayerHealth
  · rw [if_pos hch]
    refine ⟨{ ScoutAI.trackPosition s0 (g.robot ai).position with
      lastPlayerPosition := (g.robot p).position,
      lastPlayerHealth := (g.robot p).health }, h0, ?_⟩
    cases (g.robot p).type
    · dsimp only
      unfold ScoutAI.vsScout
      dsimp only
      rw [if_pos hd]
    · dsimp only
      unfold ScoutAI.vsTank
      dsimp only
      rw [if_pos hd]
    · dsimp only
      unfold ScoutAI.vsSniper
      dsimp only
      rw [if_pos hd]
  · rw [if_neg hch]
    refine ⟨ScoutAI.trackPosition s0 (g.robot ai).position, h0, ?_⟩
    cases (g.robot p).type
    · dsimp only
      unfold ScoutAI.vsScout
      dsimp only
      rw [if_pos hd]
    · dsimp only
      unfold ScoutAI.vsTank
      dsimp only
      rw [if_pos hd]
    · dsimp only
      unfold ScoutAI.vsSniper
      dsimp only
      rw [if_pos hd]

theorem RobotAI.calculateMove_tank (r : RobotAI) (g : Game) (ai player : RobotId)
    (rng : List Nat) (ht : (g.robot ai).type = RobotType.Tank) (hns : ¬ RobotAI.stuck r g ai) :
    (RobotAI.calculateMove r g ai player rng).1 = TankAI.strategy g ai player rng := by
  unfold RobotAI.stuck at hns
  rw [ht] at hns
  unfold RobotAI.calculateMove
  rw [ht]
  dsimp only
  unfold TankAI.calculateMove
  dsimp only
  rw [if_neg hns]

theorem RobotAI.calculateMove_sniper (r : RobotAI) (g : Game) (ai player : RobotId)
    (rng : List Nat) (ht : (g.robot ai).type = RobotType.Sniper)
    (hns : ¬ RobotAI.stuck r g ai) :
    (RobotAI.calculateMove r g ai player rng).1 = SniperAI.strategy g ai player rng := by
  unfold RobotAI.stuck at hns
  rw [ht] at hns
  unfold RobotAI.calculateMove
  rw [ht]
  dsimp only
  unfold SniperAI.calculateMove
  dsimp only
  rw [if_neg hns]

theorem exampleScoutVsSniper_reachable : Reachable exampleScoutVsSniper :=
  Reachable.init exampleStart RobotType.Scout RobotType.Sniper GameDifficulty.Easy MapType.Open
    exampleOpenDraws exampleScoutVsSniper exampleStart_reachable (eq_some_getD _ _ (by decide))

theorem exampleScoutVsTank_reachable : Reachable exampleScoutVsTank :=
  Reachable.init exampleStart RobotType.Scout RobotType.Tank GameDifficulty.Easy MapType.Open
    exampleOpenDraws exampleScoutVsTank exampleStart_reachable (eq_some_getD _ _ (by decide))

theorem exampleSniperHurt_reachable : Reachable exampleSniperHurt.1 :=
  runMatch_reachable _ (exampleScoutVsSniper, RobotAI.new) exampleSniperHurt
    exampleScoutVsSniper_reachable (eq_some_getD _ _ (by decide))

theorem exampleTankHurt_reachable : Reachable exampleTankHurt.1 :=
  runMatch_reachable _ (exampleScoutVsTank, RobotAI.new) exampleTankHurt
    exampleScoutVsTank_reachable (eq_some_getD _ _ (by decide))

theorem exampleScoutPinned_reachable : Reachable exampleScoutPinned.1 :=
  runMatch_reachable _ (exampleMaze, RobotAI.new) exampleScoutPinned
    exampleMaze_reachable (eq_some_getD _ _ (by decide))

theorem exampleSniperKill_reachable : Reachable exampleSniperKill.1 :=
  runMatch_reachable _ (exampleScoutVsSniper, RobotAI.new) exampleSniperKill
    exampleScoutVsSniper_reachable (eq_some_getD _ _ (by decide))

theorem canHit_ahead (g : Game) (a t : Robot) (h1 : cellAhead a = t.position) :
    canHit g a t := by
  have ex : t.position.x = (stepFrom a.position a.direction 1).x := by rw [← h1]; rfl
  have ey : t.position.y = (stepFrom a.position a.direction 1).y := by rw [← h1]; rfl
  have k1 := abs_cases (t.position.x - a.position.x)
  have k2 := abs_cases (t.position.y - a.position.y)
  have hr : 1 ≤ AttackRange a.type := by cases a.type <;> decide
  unfold canHit aheadOf manhattan strictlyBetween
  revert ex ey
  cases a.direction <;> simp only [stepFrom] <;> intro ex ey <;>
    refine ⟨⟨by omega, by omega⟩, by omega, ?_⟩ <;>
    intro q hq <;> exfalso <;>
    simp only [min_def, max_def] at hq <;> split_ifs at hq <;> omega

/-- C28 fails on the code, in three reachable matches in which the AI is not in
the break-out branch and the player's Scout stands on the cell ahead of the AI
robot with no more health than the AI's attack damage.  The Sniper at 35
health, below half of its `maxHealth` 80 (`exampleSniperHurt`), and the Tank at
9 health, below 30% of its `maxHealth` 150 (`exampleTankHurt`), each with a
health pickup nearby, turn right toward the pickup; the Scout asked for the
fourth time in a row on the same cell
(`exampleScoutPinned`) turns right toward a free neighbouring cell.  None of
the three attacks. -/
theorem C28_counterexample :
    (Reachable exampleSniperHurt.1 ∧ exampleSniperHurt.1.state = GameState.AiTurn ∧
      exampleSniperHurt.1.aiRobot.type = RobotType.Sniper ∧
      ¬ RobotAI.stuck exampleSniperHurt.2 exampleSniperHurt.1 RobotId.ai ∧
      canHit exampleSniperHurt.1 exampleSniperHurt.1.aiRobot exampleSniperHurt.1.playerRobot ∧
      exampleSniperHurt.1.playerRobot.health = 12 ∧
      exampleSniperHurt.1.aiRobot.attackDamage = 35 ∧
      exampleSniperHurt.1.aiRobot.health = 35 ∧
      (RobotAI.calculateMove exampleSniperHurt.2 exampleSniperHurt.1 RobotId.ai
        RobotId.player [0]).1 = some Command.TurnRight) ∧
    (Reachable exampleTankHurt.1 ∧ exampleTankHurt.1.state = GameState.AiTurn ∧
      exampleTankHurt.1.aiRobot.type = RobotType.Tank ∧
      ¬ RobotAI.stuck exampleTankHurt.2 exampleTankHurt.1 RobotId.ai ∧
      canHit exampleTankHurt.1 exampleTankHurt.1.aiRobot exampleTankHurt.1.playerRobot ∧
      exampleTankHurt.1.playerRobot.health = 23 ∧
      exampleTankHurt.1.aiRobot.attackDamage = 25 ∧
      exampleTankHurt.1.aiRobot.health = 9 ∧
      (RobotAI.calculateMove exampleTankHurt.2 exampleTankHurt.1 RobotId.ai
        RobotId.player [0]).1 = some Command.TurnRight) ∧
    (Reachable exampleScoutPinned.1 ∧ exampleScoutPinned.1.state = GameState.AiTurn ∧
      exampleScoutPinned.1.aiRobot.type = RobotType.Scout ∧
      ¬ RobotAI.stuck exampleScoutPinned.2 exampleScoutPinned.1 RobotId.ai ∧
      canHit exampleScoutPinned.1 exampleScoutPinned.1.aiRobot
        exampleScoutPinned.1.playerRobot ∧
      exampleScoutPinned.1.playerRobot.health = 10 ∧
      exampleScoutPinned.1.aiRobot.attackDamage = 15 ∧
      (RobotAI.calculateMove exampleScoutPinned.2 exampleScoutPinned.1 RobotId.ai
        RobotId.player [0]).1 = some Command.TurnRight) :=
  ⟨⟨exampleSniperHurt_reachable, by decide, by decide, by decide,
      canHit_ahead _ _ _ (by decide), by decide, by decide, by decide, by decide⟩,
    ⟨exampleTankHurt_reachable, by decide, by decide, by decide,
      canHit_ahead _ _ _ (by decide), by decide, by decide, by decide, by decide⟩,
    ⟨exampleScoutPinned_reachable, by decide, by decide, by decide,
      canHit_ahead _ _ _ (by decide), by decide, by decide, by decide⟩⟩

/-- C28, as the code has it.  Outside the stuck-breakout branch, when the
opponent's health is at most the AI's attack damage and the opponent is within
the AI's attack range in a clear straight line and faced by the AI:
the Tank returns Attack unless its health is below 30% of its `maxHealth`
(`getMaxHealth() * 0.3`, that is `maxHealth * 3 / 10`) and a HealthPickup lies
within 5 columns and 5 rows, in which case it returns the command of
`tryCollectPickup`; the Sniper does the same with the threshold 50% of its
`maxHealth` (`maxHealth * 5 / 10`); the Scout returns Attack when the
same-position counter of the call is below 3 or no neighbouring cell is a valid
move, and otherwise heads for the first neighbouring cell that is a valid move
(MoveForward when facing it, else the turn toward it).  The member `maxHealth`
is the archetype's MaxHealth, which no difficulty scales (unlike the AI robot's
health cap `healthCap`): for a well-formed robot the Tank's threshold is 45 and
the Sniper's is 40. -/
theorem C28_kill_in_reach (r : RobotAI) (g : Game) (ai player : RobotId) (rng : List Nat)
    (hns : ¬ RobotAI.stuck r g ai)
    (hkill : (g.robot player).health ≤ (g.robot ai).attackDamage)
    (hhit : canHit g (g.robot ai) (g.robot player)) :
    ((g.robot ai).type = RobotType.Tank →
      (¬ ((g.robot ai).health < (g.robot ai).maxHealth * 3 / 10 ∧
          healthPickupWithin g (g.robot ai).position 5) →
        (RobotAI.calculateMove r g ai player rng).1 = some Command.Attack) ∧
      (((g.robot ai).health < (g.robot ai).maxHealth * 3 / 10 ∧
          healthPickupWithin g (g.robot ai).position 5) →
        (RobotAI.calculateMove r g ai player rng).1 = TankAI.tryCollectPickup g ai true rng)) ∧
    ((g.robot ai).type = RobotType.Sniper →
      (¬ ((g.robot ai).health < (g.robot ai).maxHealth * 5 / 10 ∧
          healthPickupWithin g (g.robot ai).position 5) →
        (RobotAI.calculateMove r g ai player rng).1 = some Command.Attack) ∧
      (((g.robot ai).health < (g.robot ai).maxHealth * 5 / 10 ∧
          healthPickupWithin g (g.robot ai).position 5) →
        (RobotAI.calculateMove r g ai player rng).1 =
          SniperAI.tryCollectPickup g ai true rng)) ∧
    ((g.robot ai).type = RobotType.Scout →
      ((RobotAI.counterNow r g ai < 3 ∨ boxedIn g (g.robot ai).position) →
        (RobotAI.calculateMove r g ai player rng).1 = some Command.Attack) ∧
      (3 ≤ RobotAI.counterNow r g ai → ∀ d, firstValidDirection g (g.robot ai).position d →
        (RobotAI.calculateMove r g ai player rng).1 =
          some (if d = (g.robot ai).direction then Command.MoveForward
            else getTurnCommand (g.robot ai).direction d))) ∧
    ((g.robot ai).WellFormed →
      ((g.robot ai).type = RobotType.Tank → (g.robot ai).maxHealth * 3 / 10 = 45) ∧
      ((g.robot ai).type = RobotType.Sniper → (g.robot ai).maxHealth * 5 / 10 = 40)) := by
  have hfound := findNearestHealthPickup_found g (g.robot ai).position 5 (by decide) (by decide)
  refine ⟨?_, ?_, ?_, ?_⟩
  · intro ht
    rw [RobotAI.calculateMove_tank r g ai player rng ht hns,
      TankAI.tankStrategy_ahead g ai player rng hhit ht]
    exact ⟨fun h => if_neg (fun k => h ⟨k.1, hfound.1 k.2⟩),
      fun h => if_pos ⟨h.1, hfound.2 h.2⟩⟩
  · intro ht
    rw [RobotAI.calculateMove_sniper r g ai player rng ht hns,
      SniperAI.sniperStrategy_ahead g ai player rng hhit ht]
    exact ⟨fun h => if_neg (fun k => h ⟨k.1, hfound.1 k.2⟩),
      fun h => if_pos ⟨h.1, hfound.2 h.2⟩⟩
  · intro ht
    obtain ⟨ha, hm, _⟩ := hhit
    rw [ht] at hm
    obtain ⟨_, hdir, _, h1⟩ := aheadOf_towards _ _ _ ha
    have hd : |(g.robot player).position.x - (g.robot ai).position.x| +
        |(g.robot player).position.y - (g.robot ai).position.y| = 1 :=
      le_antisymm hm h1
    have hns1 : ¬ (ScoutAI.trackPosition r.scoutAI (g.robot ai).position).samePositionCounter
        > 5 := by
      unfold RobotAI.stuck at hns
      rw [ht] at hns
      exact hns
    have hcn : RobotAI.counterNow r g ai =
        (ScoutAI.trackPosition r.scoutAI (g.robot ai).position).samePositionCounter := by
      unfold RobotAI.counterNow
      rw [ht]
    obtain ⟨s1, hs1, hcmd⟩ := ScoutAI.calculateMove_adjacent r.scoutAI g ai player rng hns1 hd
    have hcmd1 : (RobotAI.calculateMove r g ai player rng).1 =
        (ScoutAI.calculateMove r.scoutAI g ai player rng).1 := by
      unfold RobotAI.calculateMove
      rw [ht]
    rw [hcmd1, hcmd, hcn, ← hs1]
    obtain ⟨k1, k2⟩ := ScoutAI.adjacent_kill s1 g ai player hdir hkill
    constructor
    · intro h
      obtain ⟨a1, a2, a3⟩ := k1 h
      cases (g.robot player).type
      · exact congrArg some a1
      · exact congrArg some a3
      · exact congrArg some a2
    · intro h d hd1
      obtain ⟨a1, a2, a3⟩ := k2 h d hd1
      cases (g.robot player).type
      · exact congrArg some a1
      · exact congrArg some a3
      · exact congrArg some a2
  · intro hw
    constructor <;> intro ht <;> rw [hw.1, ht] <;> rfl

/-- Witness for C28.  In `exampleSniperKill`, at Easy difficulty, the Sniper has
56 health, not below 40, half of its `maxHealth` 80; it faces the player's Scout
three cells ahead with a clear line, the Scout has 22 health, the Sniper's
attack damage is 35, and the call returns Attack.  In `exampleSniperHurt`, at
Easy difficulty, the Sniper has 35 health, below 40 although not below half of
its health cap 56, a HealthPickup lies nearby, and the call returns the command
of `tryCollectPickup`, a right turn. -/
theorem C28_kill_in_reach_witness :
    (¬ RobotAI.stuck exampleSniperKill.2 exampleSniperKill.1 RobotId.ai ∧
      (exampleSniperKill.1.robot RobotId.player).health ≤
        (exampleSniperKill.1.robot RobotId.ai).attackDamage ∧
      canHit exampleSniperKill.1 (exampleSniperKill.1.robot RobotId.ai)
        (exampleSniperKill.1.robot RobotId.player) ∧
      (exampleSniperKill.1.robot RobotId.ai).type = RobotType.Sniper ∧
      manhattan (exampleSniperKill.1.robot RobotId.ai).position
        (exampleSniperKill.1.robot RobotId.player).position = 3 ∧
      (exampleSniperKill.1.robot RobotId.ai).health = 56 ∧
      (exampleSniperKill.1.robot RobotId.ai).maxHealth * 5 / 10 = 40 ∧
      (RobotAI.calculateMove exampleSniperKill.2 exampleSniperKill.1 RobotId.ai RobotId.player
        [0]).1 = some Command.Attack) ∧
    (¬ RobotAI.stuck exampleSniperHurt.2 exampleSniperHurt.1 RobotId.ai ∧
      (exampleSniperHurt.1.robot RobotId.player).health ≤
        (exampleSniperHurt.1.robot RobotId.ai).attackDamage ∧
      canHit exampleSniperHurt.1 (exampleSniperHurt.1.robot RobotId.ai)
        (exampleSniperHurt.1.robot RobotId.player) ∧
      (exampleSniperHurt.1.robot RobotId.ai).type = RobotType.Sniper ∧
      exampleSniperHurt.1.difficulty = GameDifficulty.Easy ∧
      (exampleSniperHurt.1.robot RobotId.ai).health = 35 ∧
      (exampleSniperHurt.1.robot RobotId.ai).maxHealth = 80 ∧
      (exampleSniperHurt.1.robot RobotId.ai).maxHealth * 5 / 10 = 40 ∧
      healthCap exampleSniperHurt.1 RobotId.ai = 56 ∧
      (RobotAI.calculateMove exampleSniperHurt.2 exampleSniperHurt.1 RobotId.ai RobotId.player
        [0]).1 = SniperAI.tryCollectPickup exampleSniperHurt.1 RobotId.ai true [0] ∧
      SniperAI.tryCollectPickup exampleSniperHurt.1 RobotId.ai true [0] =
        some Command.TurnRight) :=
  have hk : canHit exampleSniperKill.1 (exampleSniperKill.1.robot RobotId.ai)
      (exampleSniperKill.1.robot RobotId.player) :=
    (canHit_iff _ _ _).2 ⟨by decide, by decide, by decide⟩
  have hh : canHit exampleSniperHurt.1 (exampleSniperHurt.1.robot RobotId.ai)
      (exampleSniperHurt.1.robot RobotId.player) :=
    canHit_ahead _ _ _ (by decide)
  have t1 := C28_kill_in_reach exampleSniperKill.2 exampleSniperKill.1 RobotId.ai
    RobotId.player [0] (by decide) (by decide) hk
  have t2 := C28_kill_in_reach exampleSniperHurt.2 exampleSniperHurt.1 RobotId.ai
    RobotId.player [0] (by decide) (by decide) hh
  have w1 : (exampleSniperKill.1.robot RobotId.ai).WellFormed :=
    exampleSniperKill_reachable.inv.grounded.wfAi
  have w2 : (exampleSniperHurt.1.robot RobotId.ai).WellFormed :=
    exampleSniperHurt_reachable.inv.grounded.wfAi
  ⟨⟨by decide, by decide, hk, by decide, by decide, by decide,
      (t1.2.2.2 w1).2 (by decide),
      (t1.2.1 (by decide)).1 (fun h => absurd h.1 (by decide))⟩,
    ⟨by decide, by decide, hh, by decide, by decide, by decide, by decide,
      (t2.2.2.2 w2).2 (by decide), by decide,
      (t2.2.1 (by decide)).2
        ⟨by decide, ⟨⟨2, 1⟩, by decide, abs_le.2 ⟨by decide, by decide⟩,
          abs_le.2 ⟨by decide, by decide⟩, by decide⟩⟩,
      by decide⟩⟩

/-! ## The Sniper's distance management -/

theorem exampleSniperDuel_reachable : Reachable exampleSniperDuel :=
  Reachable.init exampleStart RobotType.Sniper RobotType.Sniper GameDifficulty.Medium
    MapType.Open exampleOpenDraws exampleSniperDuel exampleStart_reachable
    (eq_some_getD _ _ (by decide))

theorem exampleSniperClose_reachable : Reachable exampleSniperClose.1 :=
  runMatch_reachable _ (exampleSniperDuel, RobotAI.new) exampleSniperClose
    exampleSniperDuel_reachable (eq_some_getD _ _ (by decide))

/-- C30 fails on the code: in the match `exampleSniperClose`, at Medium
difficulty, the AI's Sniper on (3,1) faces West at full health and the player's
Sniper stands on (2,3), at Manhattan distance 3 and in neither its row nor its
column, so the call is in none of the break-out, direct-line-attack and
low-health branches.  The direction away is North, so a retreat would be the
right turn; the call returns MoveForward, toward the pickup on (2,1). -/
theorem C30_counterexample :
    Reachable exampleSniperClose.1 ∧
    exampleSniperClose.1.state = GameState.AiTurn ∧
    exampleSniperClose.1.difficulty = GameDifficulty.Medium ∧
    exampleSniperClose.1.aiRobot.type = RobotType.Sniper ∧
    exampleSniperClose.1.playerRobot.type = RobotType.Sniper ∧
    exampleSniperClose.1.aiRobot.position = ⟨3, 1⟩ ∧
    exampleSniperClose.1.aiRobot.direction = Direction.West ∧
    exampleSniperClose.1.playerRobot.position = ⟨2, 3⟩ ∧
    ¬ RobotAI.stuck exampleSniperClose.2 exampleSniperClose.1 RobotId.ai ∧
    SniperAI.directLineAttack exampleSniperClose.1 RobotId.ai RobotId.player [0] =
      some Command.None ∧
    ¬ (exampleSniperClose.1.aiRobot.health < exampleSniperClose.1.aiRobot.maxHealth / 2) ∧
    getDirectionAway
      (exampleSniperClose.1.playerRobot.position.x - exampleSniperClose.1.aiRobot.position.x)
      (exampleSniperClose.1.playerRobot.position.y - exampleSniperClose.1.aiRobot.position.y) =
      Direction.North ∧
    getTurnCommand Direction.West Direction.North = Command.TurnRight ∧
    (RobotAI.calculateMove exampleSniperClose.2 exampleSniperClose.1 RobotId.ai RobotId.player
      [0]).1 = some Command.MoveForward :=
  ⟨exampleSniperClose_reachable, by decide, by decide, by decide, by decide, by decide,
    by decide, by decide, by decide, by decide, by decide, by decide, by decide, by decide⟩

/-- C30, as the code has it.  At Medium or Hard difficulty, when the Sniper AI
is not in the stuck-breakout branch, the opponent is not within distance 3 in
its row or column (the direct-line-attack branch) and the low-health pickup
branch is not taken: against a Scout or a Tank at Manhattan distance at most 3
it retreats, returning the turn toward directionAway(dx, dy) if it is not
facing that direction and otherwise the move-or-break-wall command; against
every archetype at distance 4 to 7 it does the same toward
directionTowards(dx, dy); against a Sniper at distance at most 3 it does not
retreat but returns the command of `tryCollectPickup` when that is not None and
otherwise advances toward directionTowards(dx, dy). -/
theorem C30_sniper_distance (r : RobotAI) (g : Game) (ai player : RobotId) (rng : List Nat)
    (hdiff : g.difficulty ≠ GameDifficulty.Easy)
    (ht : (g.robot ai).type = RobotType.Sniper)
    (hns : ¬ RobotAI.stuck r g ai)
    (hline : ¬ (manhattan (g.robot ai).position (g.robot player).position ≤ 3 ∧
      ((g.robot ai).position.x = (g.robot player).position.x ∨
        (g.robot ai).position.y = (g.robot player).position.y)))
    (hlow : ¬ ((g.robot ai).health < (g.robot ai).maxHealth / 2 ∧
      SniperAI.tryCollectPickup g ai true rng ≠ some Command.None)) :
    ((g.robot player).type ≠ RobotType.Sniper →
      manhattan (g.robot ai).position (g.robot player).position ≤ 3 →
      (RobotAI.calculateMove r g ai player rng).1 =
        if (g.robot ai).direction ≠
            getDirectionAway ((g.robot player).position.x - (g.robot ai).position.x)
              ((g.robot player).position.y - (g.robot ai).position.y) then
          some (getTurnCommand (g.robot ai).direction
            (getDirectionAway ((g.robot player).position.x - (g.robot ai).position.x)
              ((g.robot player).position.y - (g.robot ai).position.y)))
        else SniperAI.tryMoveOrBreakWall g ai rng) ∧
    (4 ≤ manhattan (g.robot ai).position (g.robot player).position →
      manhattan (g.robot ai).position (g.robot player).position ≤ 7 →
      (RobotAI.calculateMove r g ai player rng).1 =
        if (g.robot ai).direction ≠
            getDirectionTowards ((g.robot player).position.x - (g.robot ai).position.x)
              ((g.robot player).position.y - (g.robot ai).position.y) then
          some (getTurnCommand (g.robot ai).direction
            (getDirectionTowards ((g.robot player).position.x - (g.robot ai).position.x)
              ((g.robot player).position.y - (g.robot ai).position.y)))
        else SniperAI.tryMoveOrBreakWall g ai rng) ∧
    ((g.robot player).type = RobotType.Sniper →
      manhattan (g.robot ai).position (g.robot player).position ≤ 3 →
      (RobotAI.calculateMove r g ai player rng).1 =
        match SniperAI.tryCollectPickup g ai false rng with
        | none => none
        | some c =>
          if c ≠ Command.None then some c
          else if (g.robot ai).direction ≠
              getDirectionTowards ((g.robot player).position.x - (g.robot ai).position.x)
                ((g.robot player).position.y - (g.robot ai).position.y) then
            some (getTurnCommand (g.robot ai).direction
              (getDirectionTowards ((g.robot player).position.x - (g.robot ai).position.x)
                ((g.robot player).position.y - (g.robot ai).position.y)))
          else SniperAI.tryMoveOrBreakWall g ai rng) := by
  have hcmd := RobotAI.calculateMove_sniper r g ai player rng ht hns
  have hline1 : ¬ (|(g.robot player).position.x - (g.robot ai).position.x| +
      |(g.robot player).position.y - (g.robot ai).position.y| ≤ 3 ∧
      ((g.robot ai).position.x = (g.robot player).position.x ∨
        (g.robot ai).position.y = (g.robot player).position.y)) := hline
  have hdl : SniperAI.directLineAttack g ai player rng = some Command.None := by
    unfold SniperAI.directLineAttack
    dsimp only
    rw [if_neg hline1]
  have hstr : SniperAI.strategy g ai player rng =
      match (g.robot player).type with
      | RobotType.Scout => SniperAI.vsScout g ai player rng
      | RobotType.Tank => SniperAI.vsTank g ai player rng
      | RobotType.Sniper => SniperAI.vsSniper g ai player rng := by
    unfold SniperAI.strategy
    rw [hdl]
    dsimp only
    rw [if_neg (fun k => k rfl), if_neg hdiff]
  have e : (g.robot ai).health < (g.robot ai).maxHealth / 2 →
      SniperAI.tryCollectPickup g ai true rng = some Command.None := by
    intro hl
    by_contra k
    exact hlow ⟨hl, k⟩
  rw [hcmd, hstr]
  unfold manhattan
  refine ⟨?_, ?_, ?_⟩
  · intro hp h3
    cases hty : (g.robot player).type with
    | Sniper => exact absurd hty hp
    | Scout =>
        dsimp only
        unfold SniperAI.vsScout
        dsimp only
        by_cases hl : (g.robot ai).health < (g.robot ai).maxHealth / 2
        · rw [if_pos hl, e hl]
          dsimp only
          rw [if_neg (fun k => k rfl), if_pos h3]
        · rw [if_neg hl, if_pos h3]
    | Tank =>
        dsimp only
        unfold SniperAI.vsTank
        dsimp only
        by_cases hl : (g.robot ai).health < (g.robot ai).maxHealth / 2
        · rw [if_pos hl, e hl]
          dsimp only
          rw [if_neg (fun k => k rfl), if_pos h3]
        · rw [if_neg hl, if_pos h3]
  · intro h4 h7
    have hn3 : ¬ (|(g.robot player).position.x - (g.robot ai).position.x| +
        |(g.robot player).position.y - (g.robot ai).position.y| ≤ 3) := by omega
    have h47 : |(g.robot player).position.x - (g.robot ai).position.x| +
        |(g.robot player).position.y - (g.robot ai).position.y| ≥ 4 ∧
        |(g.robot player).position.x - (g.robot ai).position.x| +
        |(g.robot player).position.y - (g.robot ai).position.y| ≤ 7 := ⟨h4, h7⟩
    cases hty : (g.robot player).type with
    | Sniper =>
        dsimp only
        unfold SniperAI.vsSniper
        dsimp only
        by_cases hl : (g.robot ai).health < (g.robot ai).maxHealth / 2
        · rw [if_pos hl, e hl]
          dsimp only
          rw [if_neg (fun k => k rfl), if_pos h47]
        · rw [if_neg hl, if_pos h47]
    | Scout =>
        dsimp only
        unfold SniperAI.vsScout
        dsimp only
        by_cases hl : (g.robot ai).health < (g.robot ai).maxHealth / 2
        · rw [if_pos hl, e hl]
          dsimp only
          rw [if_neg (fun k => k rfl), if_neg hn3, if_pos h47]
        · rw [if_neg hl, if_neg hn3, if_pos h47]
    | Tank =>
        dsimp only
        unfold SniperAI.vsTank
        dsimp only
        by_cases hl : (g.robot ai).health < (g.robot ai).maxHealth / 2
        · rw [if_pos hl, e hl]
          dsimp only
          rw [if_neg (fun k => k rfl), if_neg hn3, if_pos h47]
        · rw [if_neg hl, if_neg hn3, if_pos h47]
  · intro hp h3
    have hn47 : ¬ (|(g.robot player).position.x - (g.robot ai).position.x| +
        |(g.robot player).position.y - (g.robot ai).position.y| ≥ 4 ∧
        |(g.robot player).position.x - (g.robot ai).position.x| +
        |(g.robot player).position.y - (g.robot ai).position.y| ≤ 7) := by omega
    rw [hp]
    dsimp only
    unfold SniperAI.vsSniper
    dsimp only
    by_cases hl : (g.robot ai).health < (g.robot ai).maxHealth / 2
    · rw [if_pos hl, e hl]
      dsimp only
      rw [if_neg (fun k => k rfl), if_neg hn47]
    · rw [if_neg hl, if_neg hn47]

/-- Witness for C30: against the player's Scout at distance 3
(`exampleSniperRetreat`) the Sniper, facing South with North the direction
away, returns the right turn; against the player's Sniper at distance 3
(`exampleSniperClose`) it returns MoveForward, the command of
`tryCollectPickup`. -/
theorem C30_sniper_distance_witness :
    (exampleSniperRetreat.1.difficulty ≠ GameDifficulty.Easy ∧
      (exampleSniperRetreat.1.robot RobotId.ai).type = RobotType.Sniper ∧
      (exampleSniperRetreat.1.robot RobotId.player).type = RobotType.Scout ∧
      ¬ RobotAI.stuck exampleSniperRetreat.2 exampleSniperRetreat.1 RobotId.ai ∧
      manhattan (exampleSniperRetreat.1.robot RobotId.ai).position
        (exampleSniperRetreat.1.robot RobotId.player).position = 3 ∧
      (RobotAI.calculateMove exampleSniperRetreat.2 exampleSniperRetreat.1 RobotId.ai
        RobotId.player [0]).1 = some Command.TurnRight) ∧
    (exampleSniperClose.1.difficulty ≠ GameDifficulty.Easy ∧
      (exampleSniperClose.1.robot RobotId.ai).type = RobotType.Sniper ∧
      (exampleSniperClose.1.robot RobotId.player).type = RobotType.Sniper ∧
      ¬ RobotAI.stuck exampleSniperClose.2 exampleSniperClose.1 RobotId.ai ∧
      manhattan (exampleSniperClose.1.robot RobotId.ai).position
        (exampleSniperClose.1.robot RobotId.player).position = 3 ∧
      (RobotAI.calculateMove exampleSniperClose.2 exampleSniperClose.1 RobotId.ai
        RobotId.player [0]).1 = some Command.MoveForward) :=
  ⟨⟨by decide, by decide, by decide, by decide, by decide,
      ((C30_sniper_distance exampleSniperRetreat.2 exampleSniperRetreat.1 RobotId.ai
        RobotId.player [0] (by decide) (by decide) (by decide) (by decide)
        (by decide)).1 (by decide) (by decide)).trans (by decide)⟩,
    ⟨by decide, by decide, by decide, by decide, by decide,
      ((C30_sniper_distance exampleSniperClose.2 exampleSniperClose.1 RobotId.ai
        RobotId.player [0] (by decide) (by decide) (by decide) (by decide)
        (by decide)).2.2 (by decide) (by decide)).trans (by decide)⟩⟩

/-! ## The Scout's last move -/

theorem getTurnCommand_ne_forward (c t : Direction) :
    some (getTurnCommand c t) ≠ some Command.MoveForward := by
  intro k
  rcases getTurnCommand_turn c t with e | e <;> rw [e] at k <;> cases k

theorem ScoutAI.scoutLoop_ne_forward (g : Game) (ai opp : RobotId) (aiPos : QPoint)
    (fuel : Nat) : ∀ (d : Direction) (rng : List Nat),
      ScoutAI.tryMoveOrBreakWallLoop g ai opp aiPos fuel d rng ≠ some Command.MoveForward := by
  induction fuel with
  | zero =>
      intro d rng h
      unfold ScoutAI.tryMoveOrBreakWallLoop at h
      split_ifs at h <;> cases h
  | succ n ih =>
      intro d rng h
      unfold ScoutAI.tryMoveOrBreakWallLoop at h
      dsimp only at h
      split_ifs at h
      · split at h
        · cases h
        · split_ifs at h <;> exact getTurnCommand_ne_forward _ _ h
      all_goals first
        | exact getTurnCommand_ne_forward _ _ h
        | exact ih _ _ h

/-- On the last move `tryMoveOrBreakWall` steps forward only onto a cell that
is not adjacent to the opponent. -/
theorem ScoutAI.tryMoveOrBreakWall_guard (g : Game) (ai : RobotId) (rng : List Nat)
    (hm : (g.robot ai).movesLeft = 1)
    (h : ScoutAI.tryMoveOrBreakWall g ai rng = some Command.MoveForward) :
    manhattanDistance (cellAhead (g.robot ai))
      (g.robot (ScoutAI.opponentOf g ai)).position ≠ 1 := by
  have hc : cellAhead (g.robot ai) =
      getPositionInDirection (g.robot ai).position (g.robot ai).direction 1 := by
    rw [getPositionInDirection_eq]; rfl
  rw [hc]
  unfold ScoutAI.tryMoveOrBreakWall at h
  dsimp only at h
  split_ifs at h with h1 h2
  all_goals first
    | exact absurd h (getTurnCommand_ne_forward _ _)
    | exact absurd h (ScoutAI.scoutLoop_ne_forward _ _ _ _ _ _ _)
    | (exfalso; omega)
    | (intro k
       apply h2
       unfold ScoutAI.wouldEndAdjacentToOpponent
       rw [if_neg (by omega)]
       exact decide_eq_true k)
    | (exfalso; cases h)

theorem ScoutAI.tryCollectPickup_guard (g : Game) (ai : RobotId) (b : Bool) (rng : List Nat)
    (hm : (g.robot ai).movesLeft = 1)
    (h : ScoutAI.tryCollectPickup g ai b rng = some Command.MoveForward) :
    manhattanDistance (cellAhead (g.robot ai))
      (g.robot (ScoutAI.opponentOf g ai)).position ≠ 1 := by
  unfold ScoutAI.tryCollectPickup at h
  dsimp only at h
  split_ifs at h
  all_goals first
    | exact absurd h (getTurnCommand_ne_forward _ _)
    | exact ScoutAI.tryMoveOrBreakWall_guard g ai rng hm h
    | (exfalso; cases h)

theorem ScoutAI.vsScout_low (s : ScoutAIState) (g : Game) (ai p : RobotId) (rng : List Nat)
    (hd : |(g.robot p).position.x - (g.robot ai).position.x| +
      |(g.robot p).position.y - (g.robot ai).position.y| ≠ 1)
    (hk : (g.robot p).health > (g.robot ai).attackDamage)
    (hl : (g.robot ai).health < (g.robot ai).maxHealth / 2)
    (hle : (g.robot ai).health ≤ (g.robot p).health)
    (hc : ScoutAI.tryCollectPickup g ai true rng ≠ some Command.None) :
    (ScoutAI.vsScout s g ai p rng).1 = ScoutAI.tryCollectPickup g ai true rng := by
  have hkd : decide ((g.robot p).health ≤ (g.robot ai).attackDamage) = false :=
    decide_eq_false (by omega)
  unfold ScoutAI.vsScout
  dsimp only
  rw [if_neg hd, if_pos ⟨hl, hle, hkd⟩]
  cases hcp : ScoutAI.tryCollectPickup g ai true rng with
  | none => rfl
  | some c =>
      dsimp only
      rw [if_pos (fun k => hc (by rw [hcp, k]))]

theorem ScoutAI.vsSniper_low (s : ScoutAIState) (g : Game) (ai p : RobotId) (rng : List Nat)
    (hd : |(g.robot p).position.x - (g.robot ai).position.x| +
      |(g.robot p).position.y - (g.robot ai).position.y| ≠ 1)
    (hk : (g.robot p).health > (g.robot ai).attackDamage)
    (hl : (g.robot ai).health < (g.robot ai).maxHealth / 2)
    (hc : ScoutAI.tryCollectPickup g ai true rng ≠ some Command.None) :
    (ScoutAI.vsSniper s g ai p rng).1 = ScoutAI.tryCollectPickup g ai true rng := by
  have hkd : decide ((g.robot p).health ≤ (g.robot ai).attackDamage) = false :=
    decide_eq_false (by omega)
  unfold ScoutAI.vsSniper
  dsimp only
  rw [if_neg hd, if_pos ⟨hl, hkd⟩]
  cases hcp : ScoutAI.tryCollectPickup g ai true rng with
  | none => rfl
  | some c =>
      dsimp only
      rw [if_pos (fun k => hc (by rw [hcp, k]))]

theorem ScoutAI.vsTank_low (s : ScoutAIState) (g : Game) (ai p : RobotId) (rng : List Nat)
    (hd : |(g.robot p).position.x - (g.robot ai).position.x| +
      |(g.robot p).position.y - (g.robot ai).position.y| ≠ 1)
    (hk : (g.robot p).health > (g.robot ai).attackDamage)
    (hl : (g.robot ai).health < (g.robot ai).maxHealth / 2)
    (hc : ScoutAI.tryCollectPickup g ai true rng ≠ some Command.None) :
    (ScoutAI.vsTank s g ai p rng).1 = ScoutAI.tryCollectPickup g ai true rng := by
  have hkd : decide ((g.robot p).health ≤ (g.robot ai).attackDamage) = false :=
    decide_eq_false (by omega)
  unfold ScoutAI.vsTank
  dsimp only
  rw [if_neg hd, if_pos ⟨hl, hkd⟩]
  cases hcp : ScoutAI.tryCollectPickup g ai true rng with
  | none => rfl
  | some c =>
      dsimp only
      rw [if_pos (fun k => hc (by rw [hcp, k]))]

/-- Outside the break-out branch, away from distance 1 and against an opponent
that one attack does not kill, the low-health pickup branch decides the
Scout's command. -/
theorem ScoutAI.calculateMove_low (s : ScoutAIState) (g : Game) (ai p : RobotId)
    (rng : List Nat)
    (hns : ¬ (ScoutAI.trackPosition s (g.robot ai).position).samePositionCounter > 5)
    (hd : |(g.robot p).position.x - (g.robot ai).position.x| +
      |(g.robot p).position.y - (g.robot ai).position.y| ≠ 1)
    (hk : (g.robot p).health > (g.robot ai).attackDamage)
    (hlow : ScoutAI.lowHealthPickup g ai p rng) :
    (ScoutAI.calculateMove s g ai p rng).1 = ScoutAI.tryCollectPickup g ai true rng := by
  obtain ⟨hl, hle, hc⟩ := hlow
  have hstr : ∀ s1 : ScoutAIState,
      (ScoutAI.strategy s1 g ai p rng).1 = ScoutAI.tryCollectPickup g ai true rng := by
    intro s1
    unfold ScoutAI.strategy
    dsimp only
    cases hty : (g.robot p).type with
    | Scout => exact ScoutAI.vsScout_low _ g ai p rng hd hk hl (hle hty) hc
    | Tank => exact ScoutAI.vsTank_low _ g ai p rng hd hk hl hc
    | Sniper => exact ScoutAI.vsSniper_low _ g ai p rng hd hk hl hc
  unfold ScoutAI.calculateMove
  dsimp only
  by_cases hm : (g.robot ai).movesLeft = (g.robot ai).maxMovesPerTurn
  · rw [if_pos hm, if_neg (by rw [(ScoutAI.trackPosition_turnCounter s _ 0).2]; exact hns)]
    exact hstr _
  · rw [if_neg hm, if_neg hns]
    exact hstr _

/-- A step from a cell at a Manhattan distance other than 0 and 2 does not end
next to the target. -/
theorem step_not_adjacent (a p : QPoint) (d : Direction) (h0 : a ≠ p)
    (h2 : manhattanDistance a p ≠ 2) : manhattanDistance (stepFrom a d 1) p ≠ 1 := by
  have hne : a.x ≠ p.x ∨ a.y ≠ p.y := by
    by_contra k
    push_neg at k
    exact h0 ((QPoint.eq_iff a p).2 k)
  unfold manhattanDistance at h2 ⊢
  have k1 := abs_cases (a.x - p.x)
  have k2 := abs_cases (a.y - p.y)
  cases d <;> simp only [stepFrom]
  · have k3 := abs_cases (a.y - 1 - p.y)
    omega
  · have k3 := abs_cases (a.x + 1 - p.x)
    omega
  · have k3 := abs_cases (a.y + 1 - p.y)
    omega
  · have k3 := abs_cases (a.x - 1 - p.x)
    omega

theorem exampleScoutMatch_reachable : Reachable exampleScoutMatch :=
  Reachable.init exampleStart RobotType.Scout RobotType.Scout GameDifficulty.Medium
    MapType.Open exampleOpenDraws exampleScoutMatch exampleStart_reachable
    (eq_some_getD _ _ (by decide))

theorem exampleScoutLow_reachable : Reachable exampleScoutLow.1 :=
  runMatch_reachable _ (exampleScoutMatch, RobotAI.new) exampleScoutLow
    exampleScoutMatch_reachable (eq_some_getD _ _ (by decide))

theorem exampleScoutStuck_reachable : Reachable exampleScoutStuck.1 :=
  runMatch_reachable _ exampleScoutLow exampleScoutStuck
    exampleScoutLow_reachable (eq_some_getD _ _ (by decide))

/-- C29 fails on the code: in the match `exampleScoutStuck` the AI's Scout
stands on (3,0) facing South with one move left, the player's Scout on (3,2)
has 40 health against an attack damage of 15, and the cell (2,0) to the West
is a valid move at distance 3 from the player.  The Scout has been asked six
times for a move on (3,0), so the call takes the break-out branch and returns
MoveForward, onto (3,1) next to the player. -/
theorem C29_counterexample :
    Reachable exampleScoutStuck.1 ∧
    exampleScoutStuck.1.state = GameState.AiTurn ∧
    exampleScoutStuck.1.aiRobot.type = RobotType.Scout ∧
    exampleScoutStuck.1.aiRobot.movesLeft = 1 ∧
    exampleScoutStuck.1.playerRobot.health > exampleScoutStuck.1.aiRobot.attackDamage ∧
    exampleScoutStuck.1.aiRobot.position = ⟨3, 0⟩ ∧
    exampleScoutStuck.1.playerRobot.position = ⟨3, 2⟩ ∧
    cellAhead exampleScoutStuck.1.aiRobot = ⟨3, 1⟩ ∧
    manhattanDistance (cellAhead exampleScoutStuck.1.aiRobot)
      exampleScoutStuck.1.playerRobot.position = 1 ∧
    stepFrom exampleScoutStuck.1.aiRobot.position Direction.West 1 = ⟨2, 0⟩ ∧
    isValidMove exampleScoutStuck.1 ⟨2, 0⟩ = true ∧
    manhattanDistance ⟨2, 0⟩ exampleScoutStuck.1.playerRobot.position = 3 ∧
    RobotAI.stuck exampleScoutStuck.2 exampleScoutStuck.1 RobotId.ai ∧
    (RobotAI.calculateMove exampleScoutStuck.2 exampleScoutStuck.1 RobotId.ai RobotId.player
      [0]).1 = some Command.MoveForward :=
  ⟨exampleScoutStuck_reachable, by decide, by decide, by decide, by decide, by decide,
    by decide, by decide, by decide, by decide, by decide, by decide, by decide, by decide⟩

/-- C29, as the code has it.  On the Scout AI's last move of a turn (moves-left
= 1), when the opponent cannot be killed in one hit and the call is not in the
stuck-breakout branch, `calculateMove` does not return MoveForward into a cell
adjacent to the opponent when the command is chosen by the low-health pickup
branch (`tryCollectPickup` and `tryMoveOrBreakWall`, which test
`wouldEndAdjacentToOpponent`), nor when the Scout is at a Manhattan distance
other than 2 from the opponent. -/
theorem C29_last_move_guard (r : RobotAI) (g : Game) (ai player : RobotId) (rng : List Nat)
    (ht : (g.robot ai).type = RobotType.Scout)
    (hm : (g.robot ai).movesLeft = 1)
    (hk : (g.robot player).health > (g.robot ai).attackDamage)
    (hns : ¬ RobotAI.stuck r g ai)
    (hopp : ScoutAI.opponentOf g ai = player)
    (hapart : (g.robot ai).position ≠ (g.robot player).position)
    (hbranch : ScoutAI.lowHealthPickup g ai player rng ∨
      manhattanDistance (g.robot ai).position (g.robot player).position ≠ 2) :
    (RobotAI.calculateMove r g ai player rng).1 = some Command.MoveForward →
      manhattanDistance (cellAhead (g.robot ai)) (g.robot player).position ≠ 1 := by
  intro hcmd
  by_cases h2 : manhattanDistance (g.robot ai).position (g.robot player).position = 2
  · have hlow : ScoutAI.lowHealthPickup g ai player rng := by
      rcases hbranch with h | h
      · exact h
      · exact absurd h2 h
    have hd : |(g.robot player).position.x - (g.robot ai).position.x| +
        |(g.robot player).position.y - (g.robot ai).position.y| ≠ 1 := by
      unfold manhattanDistance at h2
      rw [abs_sub_comm (g.robot ai).position.x, abs_sub_comm (g.robot ai).position.y] at h2
      omega
    have hns1 : ¬ (ScoutAI.trackPosition r.scoutAI (g.robot ai).position).samePositionCounter
        > 5 := by
      unfold RobotAI.stuck at hns
      rw [ht] at hns
      exact hns
    have hcmd1 : (RobotAI.calculateMove r g ai player rng).1 =
        (ScoutAI.calculateMove r.scoutAI g ai player rng).1 := by
      unfold RobotAI.calculateMove
      rw [ht]
    rw [hcmd1, ScoutAI.calculateMove_low r.scoutAI g ai player rng hns1 hd hk hlow] at hcmd
    have := ScoutAI.tryCollectPickup_guard g ai true rng hm hcmd
    rw [hopp] at this
    exact this
  · exact step_not_adjacent _ _ _ hapart h2

/-- Witness for C29: in `exampleScoutLow` the Scout, at 5 health and at
distance 2 from the player, faces the valid cell (3,1) next to the player with
one move left; the low-health pickup branch is taken and the call returns a
right turn, not MoveForward. -/
theorem C29_last_move_guard_witness :
    (exampleScoutLow.1.robot RobotId.ai).type = RobotType.Scout ∧
    (exampleScoutLow.1.robot RobotId.ai).movesLeft = 1 ∧
    (exampleScoutLow.1.robot RobotId.player).health >
      (exampleScoutLow.1.robot RobotId.ai).attackDamage ∧
    ¬ RobotAI.stuck exampleScoutLow.2 exampleScoutLow.1 RobotId.ai ∧
    ScoutAI.opponentOf exampleScoutLow.1 RobotId.ai = RobotId.player ∧
    (exampleScoutLow.1.robot RobotId.ai).position ≠
      (exampleScoutLow.1.robot RobotId.player).position ∧
    ScoutAI.lowHealthPickup exampleScoutLow.1 RobotId.ai RobotId.player [0] ∧
    manhattanDistance (exampleScoutLow.1.robot RobotId.ai).position
      (exampleScoutLow.1.robot RobotId.player).position = 2 ∧
    isValidMove exampleScoutLow.1 (cellAhead (exampleScoutLow.1.robot RobotId.ai)) = true ∧
    manhattanDistance (cellAhead (exampleScoutLow.1.robot RobotId.ai))
      (exampleScoutLow.1.robot RobotId.player).position = 1 ∧
    (RobotAI.calculateMove exampleScoutLow.2 exampleScoutLow.1 RobotId.ai RobotId.player
      [0]).1 = some Command.TurnRight ∧
    ((RobotAI.calculateMove exampleScoutLow.2 exampleScoutLow.1 RobotId.ai RobotId.player
      [0]).1 = some Command.MoveForward →
      manhattanDistance (cellAhead (exampleScoutLow.1.robot RobotId.ai))
        (exampleScoutLow.1.robot RobotId.player).position ≠ 1) :=
  ⟨by decide, by decide, by decide, by decide, by decide, by decide, by decide, by decide,
    by decide, by decide, by decide,
    C29_last_move_guard exampleScoutLow.2 exampleScoutLow.1 RobotId.ai RobotId.player [0]
      (by decide) (by decide) (by decide) (by decide) (by decide) (by decide)
      (Or.inl (by decide))⟩

/-- The fallback of `findSafePath` at distance 2: in the match
`exampleScoutNear` the AI's Scout, at full health with one move left and not in
the break-out branch, stands on (3,2) facing South at Manhattan distance 2 from
the player's Scout on (2,3); the cell (3,1) to the North is a valid move at
distance 3 from the player, and the call returns MoveForward, onto (3,3) next
to the player. -/
theorem exampleScoutNear_steps_adjacent :
    Reachable exampleScoutNear.1 ∧
    exampleScoutNear.1.state = GameState.AiTurn ∧
    exampleScoutNear.1.aiRobot.type = RobotType.Scout ∧
    exampleScoutNear.1.aiRobot.movesLeft = 1 ∧
    exampleScoutNear.1.playerRobot.health > exampleScoutNear.1.aiRobot.attackDamage ∧
    ¬ RobotAI.stuck exampleScoutNear.2 exampleScoutNear.1 RobotId.ai ∧
    ¬ ScoutAI.lowHealthPickup exampleScoutNear.1 RobotId.ai RobotId.player [0] ∧
    manhattanDistance exampleScoutNear.1.aiRobot.position
      exampleScoutNear.1.playerRobot.position = 2 ∧
    cellAhead exampleScoutNear.1.aiRobot = ⟨3, 3⟩ ∧
    manhattanDistance (cellAhead exampleScoutNear.1.aiRobot)
      exampleScoutNear.1.playerRobot.position = 1 ∧
    stepFrom exampleScoutNear.1.aiRobot.position Direction.North 1 = ⟨3, 1⟩ ∧
    isValidMove exampleScoutNear.1 ⟨3, 1⟩ = true ∧
    manhattanDistance ⟨3, 1⟩ exampleScoutNear.1.playerRobot.position = 3 ∧
    (RobotAI.calculateMove exampleScoutNear.2 exampleScoutNear.1 RobotId.ai RobotId.player
      [0]).1 = some Command.MoveForward :=
  ⟨runMatch_reachable _ (exampleScoutMatch, RobotAI.new) exampleScoutNear
      exampleScoutMatch_reachable (eq_some_getD _ _ (by decide)),
    by decide, by decide, by decide, by decide, by decide, by decide, by decide, by decide,
    by decide, by decide, by decide, by decide, by decide⟩

/-! ## Out-of-turn calls, turn commands, positions -/

/-- C40: commands issued out of turn are rejected without effect.
`executeCommand` returns the game unchanged, for every command, when the turn
state is AiTurn and when it is Player2Turn while multiplayer mode is off;
`executeAiTurn` returns the game unchanged, for every command of the strategy,
whenever the turn state is not AiTurn, and the call as a whole (`aiTurnStep`)
then leaves the strategy objects unchanged too, without consulting them. -/
theorem C40_out_of_turn_rejected (g : Game) (c : Command) :
    (g.state = GameState.AiTurn ∨
        (g.state = GameState.Player2Turn ∧ g.multiplayerMode = false) →
      executeCommand g c = g) ∧
    (g.state ≠ GameState.AiTurn → executeAiTurn g c = g) ∧
    (g.state ≠ GameState.AiTurn →
      ∀ (r : RobotAI) (rng : List Nat), aiTurnStep g r rng = some (g, r)) := by
  refine ⟨?_, ?_, ?_⟩
  · intro h
    unfold executeCommand
    rcases h with h | ⟨h, hm⟩
    · rw [if_neg (by rw [h]; decide), if_neg (by rw [h]; simp)]
    · rw [if_neg (by rw [h]; decide), if_neg (by rw [hm]; simp)]
  · intro h
    unfold executeAiTurn
    rw [if_pos h]
  · intro h r rng
    unfold aiTurnStep
    rw [if_pos h]

/-- Witness for C40: a MoveForward sent through `executeCommand` during the
AI's turn of `exampleAiTurn`, and an Attack sent through `executeAiTurn` during
the player's turn of `exampleStart`, both leave the game as it was; the whole
AI call during the player's turn leaves game and strategy objects as they
were. -/
theorem C40_out_of_turn_rejected_witness :
    exampleAiTurn.state = GameState.AiTurn ∧
    executeCommand exampleAiTurn Command.MoveForward = exampleAiTurn ∧
    exampleStart.state ≠ GameState.AiTurn ∧
    executeAiTurn exampleStart Command.Attack = exampleStart ∧
    aiTurnStep exampleStart RobotAI.new [] = some (exampleStart, RobotAI.new) :=
  ⟨by decide,
    (C40_out_of_turn_rejected exampleAiTurn Command.MoveForward).1 (Or.inl (by decide)),
    by decide,
    (C40_out_of_turn_rejected exampleStart Command.Attack).2.1 (by decide),
    (C40_out_of_turn_rejected exampleStart Command.Attack).2.2 (by decide) RobotAI.new []⟩

/-- C32: for facings current and target that differ, `getTurnCommand` returns
TurnRight when target is one or two clockwise quarter turns from current and
TurnLeft when it is three; carrying the command out and recomputing reaches the
target after exactly one turn when the difference is 1 or 3, and after exactly
two turns (not after one) when it is 2. -/
theorem C32_turn_command_reaches_target (r : Robot) (target : Direction)
    (h : r.direction ≠ target) :
    (clockwiseQuarterTurns r.direction target = 1 ∨
      clockwiseQuarterTurns r.direction target = 2 ∨
      clockwiseQuarterTurns r.direction target = 3) ∧
    (clockwiseQuarterTurns r.direction target = 1 ∨
        clockwiseQuarterTurns r.direction target = 2 →
      getTurnCommand r.direction target = Command.TurnRight) ∧
    (clockwiseQuarterTurns r.direction target = 3 →
      getTurnCommand r.direction target = Command.TurnLeft) ∧
    (clockwiseQuarterTurns r.direction target = 1 ∨
        clockwiseQuarterTurns r.direction target = 3 →
      (r.turnToward target).direction = target) ∧
    (clockwiseQuarterTurns r.direction target = 2 →
      (r.turnToward target).direction ≠ target ∧
      ((r.turnToward target).turnToward target).direction = target) := by
  obtain ⟨pos, dir, ty, hp, mh, ar, ad, mm, ml, pu⟩ := r
  dsimp only at h ⊢
  cases dir <;> cases target <;>
    first
      | exact absurd rfl h
      | (refine ⟨by decide, ?_, ?_, ?_, ?_⟩ <;> intro k <;>
          first
            | rfl
            | exact ⟨by simp [Robot.turnToward, getTurnCommand, Direction.toInt, Robot.turnRight,
                Robot.turnLeft], rfl⟩
            | (exfalso; revert k; decide))

/-- Witness for C32, for a Scout facing East (the facing of a new robot): the
target South, one clockwise quarter turn away, gets TurnRight and is reached
after one turn; the target North, three quarter turns away, gets TurnLeft and
is reached after one turn; the target West, two quarter turns away, gets
TurnRight, the Scout faces South after one turn and West after the second. -/
theorem C32_turn_command_reaches_target_witness :
    ((Robot.new RobotType.Scout).direction ≠ Direction.South ∧
      clockwiseQuarterTurns (Robot.new RobotType.Scout).direction Direction.South = 1 ∧
      getTurnCommand (Robot.new RobotType.Scout).direction Direction.South =
        Command.TurnRight ∧
      ((Robot.new RobotType.Scout).turnToward Direction.South).direction = Direction.South) ∧
    ((Robot.new RobotType.Scout).direction ≠ Direction.North ∧
      clockwiseQuarterTurns (Robot.new RobotType.Scout).direction Direction.North = 3 ∧
      getTurnCommand (Robot.new RobotType.Scout).direction Direction.North =
        Command.TurnLeft ∧
      ((Robot.new RobotType.Scout).turnToward Direction.North).direction = Direction.North) ∧
    ((Robot.new RobotType.Scout).direction ≠ Direction.West ∧
      clockwiseQuarterTurns (Robot.new RobotType.Scout).direction Direction.West = 2 ∧
      getTurnCommand (Robot.new RobotType.Scout).direction Direction.West =
        Command.TurnRight ∧
      ((Robot.new RobotType.Scout).turnToward Direction.West).direction ≠ Direction.West ∧
      (((Robot.new RobotType.Scout).turnToward Direction.West).turnToward
        Direction.West).direction = Direction.West) :=
  have h1 := C32_turn_command_reaches_target (Robot.new RobotType.Scout) Direction.South
    (by decide)
  have h3 := C32_turn_command_reaches_target (Robot.new RobotType.Scout) Direction.North
    (by decide)
  have h2 := C32_turn_command_reaches_target (Robot.new RobotType.Scout) Direction.West
    (by decide)
  ⟨⟨by decide, by decide, h1.2.1 (Or.inl (by decide)), h1.2.2.2.1 (Or.inl (by decide))⟩,
    ⟨by decide, by decide, h3.2.2.1 (by decide), h3.2.2.2.1 (Or.inr (by decide))⟩,
    ⟨by decide, by decide, h2.2.1 (Or.inr (by decide)), (h2.2.2.2.2 (by decide)).1,
      (h2.2.2.2.2 (by decide)).2⟩⟩

/-! ## The move budget -/

theorem MovesSound.movesSetRobot {g : Game} (h : MovesSound g) (a : RobotId) (r : Robot)
    (hr : 0 ≤ r.movesLeft ∧ r.movesLeft ≤ r.maxMovesPerTurn) : MovesSound (g.setRobot a r) := by
  intro id
  by_cases e : id = a
  · subst e
    rw [Game.robot_setRobot_same]
    exact hr
  · rw [Game.robot_setRobot_ne g a id r e]
    exact h id

theorem DamageOnly.movesAfter {g g1 : Game} (h : DamageOnly g g1) (hs : MovesSound g) :
    MovesSound g1 := by
  intro id
  rw [h.robot id]
  exact hs id

theorem Robot.useMove_movesSound (r : Robot)
    (hr : 0 ≤ r.movesLeft ∧ r.movesLeft ≤ r.maxMovesPerTurn) :
    0 ≤ r.useMove.movesLeft ∧ r.useMove.movesLeft ≤ r.useMove.maxMovesPerTurn := by
  unfold Robot.useMove
  split_ifs
  · dsimp only
    omega
  · exact hr

theorem attackCommand_movesSound (g : Game) (a t : RobotId) (hs : MovesSound g) :
    MovesSound (attackCommand g a t) := by
  obtain ⟨gd, hd, h | h⟩ := attackCommand_eq g a t <;> rw [h]
  · exact (hd.movesAfter hs).movesSetRobot a _ (Robot.useMove_movesSound _ (hd.movesAfter hs a))
  · exact (hd.movesAfter hs).movesSetRobot a _
      (Robot.useMove_movesSound _ (hd.movesAfter hs a))

theorem moveForwardCommand_movesSound (g : Game) (a : RobotId) (hs : MovesSound g) :
    MovesSound (moveForwardCommand g a).1 := by
  by_cases hv : isValidMove g (stepFrom (g.robot a).position (g.robot a).direction 1) = true
  · obtain ⟨_, hc⟩ := moveForwardCommand_eq g a hv
    intro id
    by_cases h : id = a
    · subst h
      rw [hc.robot, Game.robot_setRobot_same]
      exact Robot.useMove_movesSound ((g.robot id).setPosition _) (hs id)
    · rw [hc.others id h, Game.robot_setRobot_ne g a id _ h]
      exact hs id
  · unfold moveForwardCommand
    dsimp only
    rw [if_neg hv]
    exact hs

theorem finishCommand_movesSound (g : Game) (a : RobotId) (hs : MovesSound g) :
    MovesSound (finishCommand g a) := by
  have h1 := hs RobotId.player
  have h2 := hs RobotId.player2
  have h3 := hs RobotId.ai
  simp only [Game.robot] at h1 h2 h3
  intro id
  unfold finishCommand checkGameOver switchTurn
  dsimp only
  split_ifs <;> cases id <;> simp only [Game.robot, Robot.resetMoves] <;> omega

theorem executeFor_movesSound (g : Game) (a t : RobotId) (cmd : Command) (hs : MovesSound g) :
    MovesSound (executeFor g a t cmd) := by
  unfold executeFor
  cases cmd
  · dsimp only
    split_ifs
    · exact finishCommand_movesSound _ _ (moveForwardCommand_movesSound g a hs)
    · exact hs
  · refine finishCommand_movesSound _ _ (hs.movesSetRobot a _ ?_)
    rw [Robot.turnLeft_eq]
    exact hs a
  · refine finishCommand_movesSound _ _ (hs.movesSetRobot a _ ?_)
    rw [Robot.turnRight_eq]
    exact hs a
  · exact finishCommand_movesSound _ _ (attackCommand_movesSound g a t hs)
  · intro id
    rcases checkGameOver_eq g with h | h <;> rw [h]
    · exact hs id
    · have := hs id
      cases id <;> exact this

theorem executeCommand_movesSound (g : Game) (cmd : Command) (hs : MovesSound g) :
    MovesSound (executeCommand g cmd) := by
  unfold executeCommand
  split_ifs
  all_goals first
    | exact executeFor_movesSound _ _ _ _ hs
    | exact hs

theorem executeAiTurn_movesSound (g : Game) (aiMove : Command) (hs : MovesSound g) :
    MovesSound (executeAiTurn g aiMove) := by
  by_cases h1 : g.state = GameState.AiTurn
  · by_cases h2 : 0 < g.aiRobot.movesLeft
    · by_cases hn : aiMove = Command.None
      · subst hn
        unfold executeAiTurn
        rw [if_neg (by simpa using h1), if_pos (by simpa using h2)]
        exact hs
      · rw [executeAiTurn_eq g aiMove h1 h2 hn]
        exact executeFor_movesSound _ _ _ _ hs
    · unfold executeAiTurn
      rw [if_neg (by simpa using h1), if_neg (by simpa using h2)]
      exact hs
  · unfold executeAiTurn
    rw [if_pos (by simpa using h1)]
    exact hs

theorem Robot.new_movesSound (t : RobotType) :
    0 ≤ (Robot.new t).movesLeft ∧ (Robot.new t).movesLeft ≤ (Robot.new t).maxMovesPerTurn := by
  cases t <;> simp [Robot.new]

theorem initializeArena_movesSound (g : Game) (pt aiT : RobotType) (diff : GameDifficulty)
    (map : MapType) (rng : List Nat) (g1 : Game)
    (h : initializeArena g pt aiT diff map rng = some g1) (hs : MovesSound g) :
    MovesSound g1 := by
  obtain ⟨-, -, -, -, -, hp, ha, hp2, -, -, -, -⟩ :=
    initializeArena_spec g pt aiT diff map rng g1 h
  intro id
  cases id
  · show 0 ≤ g1.playerRobot.movesLeft ∧ g1.playerRobot.movesLeft ≤ g1.playerRobot.maxMovesPerTurn
    rw [hp]
    exact Robot.new_movesSound pt
  · show 0 ≤ g1.player2Robot.movesLeft ∧
      g1.player2Robot.movesLeft ≤ g1.player2Robot.maxMovesPerTurn
    rw [hp2]
    exact hs RobotId.player2
  · show 0 ≤ g1.aiRobot.movesLeft ∧ g1.aiRobot.movesLeft ≤ g1.aiRobot.maxMovesPerTurn
    rw [ha]
    cases diff <;> cases aiT <;> simp [applyDifficultySettings, Robot.new]

theorem initializeMultiplayerArena_movesSound (g : Game) (t1 t2 : RobotType)
    (map : MapType) (rng : List Nat) (g1 : Game)
    (h : initializeMultiplayerArena g t1 t2 map rng = some g1) (hs : MovesSound g) :
    MovesSound g1 := by
  obtain ⟨-, -, -, -, -, hp, hp2, ha, -, -, -, -⟩ :=
    initializeMultiplayerArena_spec g t1 t2 map rng g1 h
  intro id
  cases id
  · show 0 ≤ g1.playerRobot.movesLeft ∧ g1.playerRobot.movesLeft ≤ g1.playerRobot.maxMovesPerTurn
    rw [hp]
    exact Robot.new_movesSound t1
  · show 0 ≤ g1.player2Robot.movesLeft ∧
      g1.player2Robot.movesLeft ≤ g1.player2Robot.maxMovesPerTurn
    rw [hp2]
    exact Robot.new_movesSound t2
  · show 0 ≤ g1.aiRobot.movesLeft ∧ g1.aiRobot.movesLeft ≤ g1.aiRobot.maxMovesPerTurn
    rw [ha]
    exact hs RobotId.ai

theorem Game.blank_movesSound (size : Int) : MovesSound (Game.blank size) := by
  intro id
  cases id <;> simp [Game.blank, Robot.new]

/-- In every reachable state every robot has between 0 and `maxMovesPerTurn`
moves left. -/
theorem Reachable.movesSound {g : Game} (h : Reachable g) : MovesSound g := by
  induction h with
  | construct size rng g _ hnew =>
    exact initializeArena_movesSound _ _ _ _ _ rng g hnew (Game.blank_movesSound size)
  | init g0 pt aiT diff map rng g _ hinit ih =>
    exact initializeArena_movesSound g0 pt aiT diff map rng g hinit ih
  | initMulti g0 t1 t2 map rng g _ hinit ih =>
    exact initializeMultiplayerArena_movesSound g0 t1 t2 map rng g hinit ih
  | command g cmd _ ih => exact executeCommand_movesSound g cmd ih
  | aiTurn g aiMove _ ih => exact executeAiTurn_movesSound g aiMove ih

/-- C34: in every reachable state the robot whose turn it is has at least one
move left (the player's robot in PlayerTurn, the second player's in
Player2Turn, the AI's in AiTurn; in GameOver it is no robot's turn), and every
robot has between 0 and its archetype's MovesPerTurn moves left (Scout 3, Tank
2, Sniper 2). -/
theorem C34_moves_left_bounds (g : Game) (h : Reachable g) :
    (g.state = GameState.PlayerTurn → 1 ≤ g.playerRobot.movesLeft) ∧
    (g.state = GameState.Player2Turn → 1 ≤ g.player2Robot.movesLeft) ∧
    (g.state = GameState.AiTurn → 1 ≤ g.aiRobot.movesLeft) ∧
    (∀ id : RobotId, 0 ≤ (g.robot id).movesLeft ∧
      (g.robot id).movesLeft ≤ MovesPerTurn (g.robot id).type) := by
  have hi := h.inv
  refine ⟨hi.turnPlayer, fun k => (hi.turnPlayer2 k).2, fun k => (hi.turnAi k).2, ?_⟩
  intro id
  have hw : (g.robot id).WellFormed := by
    cases id
    · exact hi.grounded.wfPlayer
    · exact hi.grounded.wfPlayer2
    · exact hi.grounded.wfAi
  rw [← hw.movesPerTurn]
  exact h.movesSound id

/-- Witness for C34: in `exampleStart` it is the player's turn and the player's
Scout has a move left; in `exampleBombShot`, a two-player game, it is the
second player's turn and its Scout has a move left; in `exampleAiTurn` the
player's Scout spent its three moves and the turn went to the AI's Scout, which
has a move left, while the player's robot has between 0 and 3 moves left. -/
theorem C34_moves_left_bounds_witness :
    (Reachable exampleStart ∧ exampleStart.state = GameState.PlayerTurn ∧
      1 ≤ exampleStart.playerRobot.movesLeft) ∧
    (Reachable exampleBombShot ∧ exampleBombShot.state = GameState.Player2Turn ∧
      1 ≤ exampleBombShot.player2Robot.movesLeft) ∧
    (Reachable exampleAiTurn ∧
      exampleAiTurn.state = GameState.AiTurn ∧
      1 ≤ exampleAiTurn.aiRobot.movesLeft ∧
      (0 ≤ (exampleAiTurn.robot RobotId.player).movesLeft ∧
        (exampleAiTurn.robot RobotId.player).movesLeft ≤
          MovesPerTurn (exampleAiTurn.robot RobotId.player).type)) :=
  ⟨⟨exampleStart_reachable, by decide,
      (C34_moves_left_bounds exampleStart exampleStart_reachable).1 (by decide)⟩,
    ⟨exampleBombShot_reachable, by decide,
      (C34_moves_left_bounds exampleBombShot exampleBombShot_reachable).2.1 (by decide)⟩,
    ⟨exampleAiTurn_reachable, by decide,
      (C34_moves_left_bounds exampleAiTurn exampleAiTurn_reachable).2.2.1 (by decide),
      (C34_moves_left_bounds exampleAiTurn exampleAiTurn_reachable).2.2.2 RobotId.player⟩⟩

/-- C35: in every reachable state the two robots taking part in the match, the
player's robot and the AI's robot in single-player mode, the two players'
robots in multiplayer mode, stand on different cells. -/
theorem C35_robots_on_distinct_cells (g : Game) (h : Reachable g) :
    g.playerRobot.position ≠ (g.robot g.opponent).position ∧
    (g.multiplayerMode = false → g.playerRobot.position ≠ g.aiRobot.position) ∧
    (g.multiplayerMode = true → g.playerRobot.position ≠ g.player2Robot.position) := by
  have ha : g.playerRobot.position ≠ (g.robot g.opponent).position := h.apart
  refine ⟨ha, ?_, ?_⟩
  · intro hm
    unfold Game.opponent at ha
    rw [hm] at ha
    exact ha
  · intro hm
    unfold Game.opponent at ha
    rw [hm] at ha
    exact ha

/-- Witness for C35: in `exampleAiTurn`, a single-player game, the player's
robot stands on (0,3) and the AI's on (3,0); in `exampleBombShot`, a two-player
game, the first player's robot stands on (2,3) and the second player's on
(3,2). -/
theorem C35_robots_on_distinct_cells_witness :
    (Reachable exampleAiTurn ∧ exampleAiTurn.multiplayerMode = false ∧
      exampleAiTurn.playerRobot.position = ⟨0, 3⟩ ∧
      exampleAiTurn.aiRobot.position = ⟨3, 0⟩ ∧
      exampleAiTurn.playerRobot.position ≠ exampleAiTurn.aiRobot.position) ∧
    (Reachable exampleBombShot ∧ exampleBombShot.multiplayerMode = true ∧
      exampleBombShot.playerRobot.position = ⟨2, 3⟩ ∧
      exampleBombShot.player2Robot.position = ⟨3, 2⟩ ∧
      exampleBombShot.playerRobot.position ≠ exampleBombShot.player2Robot.position) :=
  ⟨⟨exampleAiTurn_reachable, by decide, by decide, by decide,
      (C35_robots_on_distinct_cells exampleAiTurn exampleAiTurn_reachable).2.1 (by decide)⟩,
    ⟨exampleBombShot_reachable, by decide, by decide, by decide,
      (C35_robots_on_distinct_cells exampleBombShot exampleBombShot_reachable).2.2
        (by decide)⟩⟩

/-! ## MoveForward commands of the Tank and the Sniper -/

theorem forwardIsValid_turn (g : Game) (ai : RobotId) (c t : Direction) :
    forwardIsValid g ai (some (getTurnCommand c t)) :=
  fun h => absurd h (getTurnCommand_ne_forward c t)

theorem forwardIsValid_attack (g : Game) (ai : RobotId) :
    forwardIsValid g ai (some Command.Attack) :=
  fun h => by cases h

theorem forwardIsValid_noCommand (g : Game) (ai : RobotId) :
    forwardIsValid g ai (some Command.None) :=
  fun h => by cases h

theorem forwardIsValid_none (g : Game) (ai : RobotId) : forwardIsValid g ai none :=
  fun h => by cases h

theorem TankAI.tankLoop_forward (g : Game) (aiPos : QPoint) (fuel : Nat) :
    ∀ (d : Direction) (rng : List Nat),
      TankAI.tryMoveOrBreakWallLoop g aiPos fuel d rng ≠ some Command.MoveForward := by
  induction fuel with
  | zero => intro d rng h; unfold TankAI.tryMoveOrBreakWallLoop at h; cases h
  | succ n ih =>
      intro d rng h
      unfold TankAI.tryMoveOrBreakWallLoop at h
      dsimp only at h
      split_ifs at h
      · split at h
        · cases h
        · split_ifs at h <;> exact getTurnCommand_ne_forward _ _ h
      all_goals first
        | exact getTurnCommand_ne_forward _ _ h
        | exact ih _ _ h

theorem TankAI.tankMoveOrBreak_forward (g : Game) (ai : RobotId) (rng : List Nat) :
    forwardIsValid g ai (TankAI.tryMoveOrBreakWall g ai rng) := by
  intro h
  have hc : cellAhead (g.robot ai) =
      getPositionInDirection (g.robot ai).position (g.robot ai).direction 1 := by
    rw [getPositionInDirection_eq]; rfl
  rw [hc]
  unfold TankAI.tryMoveOrBreakWall at h
  dsimp only at h
  split_ifs at h with h1
  · exact h1
  · cases h
  · exact absurd h (TankAI.tankLoop_forward _ _ _ _ _)

theorem TankAI.tankCollect_forward (g : Game) (ai : RobotId) (b : Bool) (rng : List Nat) :
    forwardIsValid g ai (TankAI.tryCollectPickup g ai b rng) := by
  unfold TankAI.tryCollectPickup
  dsimp only
  split_ifs
  all_goals first
    | exact forwardIsValid_turn g ai _ _
    | exact forwardIsValid_noCommand g ai
    | exact TankAI.tankMoveOrBreak_forward g ai rng

theorem forwardIsValid_of_eq {g : Game} {ai : RobotId} {o : Option Command} {c : Command}
    (h : forwardIsValid g ai o) (e : o = some c) : forwardIsValid g ai (some c) := by
  rw [← e]
  exact h

theorem TankAI.tankDirect_forward (g : Game) (ai player : RobotId) (rng : List Nat) :
    forwardIsValid g ai (TankAI.directLineAttack g ai player rng) := by
  unfold TankAI.directLineAttack
  dsimp only
  split_ifs
  all_goals first
    | exact forwardIsValid_turn g ai _ _
    | exact forwardIsValid_noCommand g ai
    | exact forwardIsValid_attack g ai
    | exact TankAI.tankCollect_forward g ai _ rng

theorem TankAI.tankNormal_forward (g : Game) (ai player : RobotId) (rng : List Nat) :
    forwardIsValid g ai (TankAI.calculateTankNormal g ai player rng) := by
  unfold TankAI.calculateTankNormal
  dsimp only
  split_ifs
  · exact forwardIsValid_turn g ai _ _
  · exact TankAI.tankMoveOrBreak_forward g ai rng

theorem TankAI.tankVsScout_forward (g : Game) (ai player : RobotId) (rng : List Nat) :
    forwardIsValid g ai (TankAI.vsScout g ai player rng) := by
  unfold TankAI.vsScout
  dsimp only
  repeat' split
  all_goals first
    | exact forwardIsValid_turn g ai _ _
    | exact forwardIsValid_none g ai
    | exact TankAI.tankMoveOrBreak_forward g ai rng
    | exact forwardIsValid_of_eq (TankAI.tankCollect_forward g ai _ rng) (by assumption)

theorem TankAI.tankVsSniper_forward (g : Game) (ai player : RobotId) (rng : List Nat) :
    forwardIsValid g ai (TankAI.vsSniper g ai player rng) := by
  unfold TankAI.vsSniper
  dsimp only
  repeat' split
  all_goals first
    | exact forwardIsValid_turn g ai _ _
    | exact forwardIsValid_none g ai
    | exact TankAI.tankMoveOrBreak_forward g ai rng
    | exact forwardIsValid_of_eq (TankAI.tankCollect_forward g ai _ rng) (by assumption)

theorem TankAI.tankVsTank_forward (g : Game) (ai player : RobotId) (rng : List Nat) :
    forwardIsValid g ai (TankAI.vsTank g ai player rng) := by
  unfold TankAI.vsTank
  dsimp only
  repeat' split
  all_goals first
    | exact forwardIsValid_turn g ai _ _
    | exact forwardIsValid_none g ai
    | exact TankAI.tankMoveOrBreak_forward g ai rng
    | exact forwardIsValid_of_eq (TankAI.tankCollect_forward g ai _ rng) (by assumption)

theorem TankAI.tankStrategy_forward (g : Game) (ai player : RobotId) (rng : List Nat) :
    forwardIsValid g ai (TankAI.strategy g ai player rng) := by
  unfold TankAI.strategy
  repeat' split
  all_goals first
    | exact forwardIsValid_none g ai
    | exact TankAI.tankNormal_forward g ai player rng
    | exact TankAI.tankVsScout_forward g ai player rng
    | exact TankAI.tankVsSniper_forward g ai player rng
    | exact TankAI.tankVsTank_forward g ai player rng
    | exact forwardIsValid_of_eq (TankAI.tankDirect_forward g ai player rng) (by assumption)

theorem TankAI.tankBreakOut_forward (g : Game) (ai player : RobotId) :
    forwardIsValid g ai (some (TankAI.breakOut g ai player)) := by
  intro h
  have hc : cellAhead (g.robot ai) =
      getPositionInDirection (g.robot ai).position (g.robot ai).direction 1 := by
    rw [getPositionInDirection_eq]; rfl
  rw [hc]
  unfold TankAI.breakOut at h
  dsimp only at h
  split_ifs at h with h1 h2 h3
  all_goals first
    | exact h3
    | (exfalso; cases h)

theorem TankAI.tankMove_forward (s : AIState) (g : Game) (ai player : RobotId)
    (rng : List Nat) : forwardIsValid g ai (TankAI.calculateMove s g ai player rng).1 := by
  unfold TankAI.calculateMove
  dsimp only
  split_ifs
  · exact TankAI.tankBreakOut_forward g ai player
  · exact TankAI.tankStrategy_forward g ai player rng

theorem SniperAI.sniperLoop_forward (g : Game) (aiPos : QPoint) (fuel : Nat) :
    ∀ (d : Direction) (rng : List Nat),
      SniperAI.tryMoveOrBreakWallLoop g aiPos fuel d rng ≠ some Command.MoveForward := by
  induction fuel with
  | zero => intro d rng h; unfold SniperAI.tryMoveOrBreakWallLoop at h; cases h
  | succ n ih =>
      intro d rng h
      unfold SniperAI.tryMoveOrBreakWallLoop at h
      dsimp only at h
      split_ifs at h
      · split at h
        · cases h
        · split_ifs at h <;> exact getTurnCommand_ne_forward _ _ h
      all_goals first
        | exact getTurnCommand_ne_forward _ _ h
        | exact ih _ _ h

theorem SniperAI.sniperMoveOrBreak_forward (g : Game) (ai : RobotId) (rng : List Nat) :
    forwardIsValid g ai (SniperAI.tryMoveOrBreakWall g ai rng) := by
  intro h
  have hc : cellAhead (g.robot ai) =
      getPositionInDirection (g.robot ai).position (g.robot ai).direction 1 := by
    rw [getPositionInDirection_eq]; rfl
  rw [hc]
  unfold SniperAI.tryMoveOrBreakWall at h
  dsimp only at h
  split_ifs at h with h1
  · exact h1
  · cases h
  · exact absurd h (SniperAI.sniperLoop_forward _ _ _ _ _)

theorem SniperAI.sniperCollect_forward (g : Game) (ai : RobotId) (b : Bool) (rng : List Nat) :
    forwardIsValid g ai (SniperAI.tryCollectPickup g ai b rng) := by
  unfold SniperAI.tryCollectPickup
  dsimp only
  split_ifs
  all_goals first
    | exact forwardIsValid_turn g ai _ _
    | exact forwardIsValid_noCommand g ai
    | exact SniperAI.sniperMoveOrBreak_forward g ai rng

theorem SniperAI.sniperDirect_forward (g : Game) (ai player : RobotId) (rng : List Nat) :
    forwardIsValid g ai (SniperAI.directLineAttack g ai player rng) := by
  unfold SniperAI.directLineAttack
  dsimp only
  split_ifs
  all_goals first
    | exact forwardIsValid_turn g ai _ _
    | exact forwardIsValid_noCommand g ai
    | exact forwardIsValid_attack g ai
    | exact SniperAI.sniperCollect_forward g ai _ rng

theorem SniperAI.sniperNormal_forward (g : Game) (ai player : RobotId) (rng : List Nat) :
    forwardIsValid g ai (SniperAI.calculateSniperNormal g ai player rng) := by
  unfold SniperAI.calculateSniperNormal
  dsimp only
  split_ifs
  · exact forwardIsValid_turn g ai _ _
  · exact SniperAI.sniperMoveOrBreak_forward g ai rng

theorem SniperAI.sniperVsScout_forward (g : Game) (ai player : RobotId) (rng : List Nat) :
    forwardIsValid g ai (SniperAI.vsScout g ai player rng) := by
  unfold SniperAI.vsScout
  dsimp only
  repeat' split
  all_goals first
    | exact forwardIsValid_turn g ai _ _
    | exact forwardIsValid_none g ai
    | exact SniperAI.sniperMoveOrBreak_forward g ai rng
    | exact forwardIsValid_of_eq (SniperAI.sniperCollect_forward g ai _ rng) (by assumption)

theorem SniperAI.sniperVsSniper_forward (g : Game) (ai player : RobotId) (rng : List Nat) :
    forwardIsValid g ai (SniperAI.vsSniper g ai player rng) := by
  unfold SniperAI.vsSniper
  dsimp only
  repeat' split
  all_goals first
    | exact forwardIsValid_turn g ai _ _
    | exact forwardIsValid_none g ai
    | exact SniperAI.sniperMoveOrBreak_forward g ai rng
    | exact forwardIsValid_of_eq (SniperAI.sniperCollect_forward g ai _ rng) (by assumption)

theorem SniperAI.sniperVsTank_forward (g : Game) (ai player : RobotId) (rng : List Nat) :
    forwardIsValid g ai (SniperAI.vsTank g ai player rng) := by
  unfold SniperAI.vsTank
  dsimp only
  repeat' split
  all_goals first
    | exact forwardIsValid_turn g ai _ _
    | exact forwardIsValid_none g ai
    | exact SniperAI.sniperMoveOrBreak_forward g ai rng
    | exact forwardIsValid_of_eq (SniperAI.sniperCollect_forward g ai _ rng) (by assumption)

theorem SniperAI.sniperStrategy_forward (g : Game) (ai player : RobotId) (rng : List Nat) :
    forwardIsValid g ai (SniperAI.strategy g ai player rng) := by
  unfold SniperAI.strategy
  repeat' split
  all_goals first
    | exact forwardIsValid_none g ai
    | exact SniperAI.sniperNormal_forward g ai player rng
    | exact SniperAI.sniperVsScout_forward g ai player rng
    | exact SniperAI.sniperVsSniper_forward g ai player rng
    | exact SniperAI.sniperVsTank_forward g ai player rng
    | exact forwardIsValid_of_eq (SniperAI.sniperDirect_forward g ai player rng) (by assumption)

theorem SniperAI.sniperBreakOut_forward (g : Game) (ai player : RobotId) :
    forwardIsValid g ai (some (SniperAI.breakOut g ai player)) := by
  intro h
  have hc : cellAhead (g.robot ai) =
      getPositionInDirection (g.robot ai).position (g.robot ai).direction 1 := by
    rw [getPositionInDirection_eq]; rfl
  rw [hc]
  unfold SniperAI.breakOut at h
  dsimp only at h
  split_ifs at h with h1 h2 h3
  all_goals first
    | exact h3
    | (exfalso; cases h)

theorem SniperAI.sniperMove_forward (s : AIState) (g : Game) (ai player : RobotId)
    (rng : List Nat) : forwardIsValid g ai (SniperAI.calculateMove s g ai player rng).1 := by
  unfold SniperAI.calculateMove
  dsimp only
  split_ifs
  · exact SniperAI.sniperBreakOut_forward g ai player
  · exact SniperAI.sniperStrategy_forward g ai player rng

/-- C38: whenever `TankAI::calculateMove` or `SniperAI::calculateMove` returns
MoveForward, the cell directly ahead of the AI robot passes `Game::isValidMove`
(it is in bounds, not a Wall and not occupied by a robot of the match), so the
move routine of the engine accepts the move. -/
theorem C38_tank_sniper_forward_valid (s : AIState) (g : Game) (ai player : RobotId)
    (rng : List Nat) :
    ((TankAI.calculateMove s g ai player rng).1 = some Command.MoveForward →
      isValidMove g (cellAhead (g.robot ai)) = true ∧ (moveForwardCommand g ai).2 = true) ∧
    ((SniperAI.calculateMove s g ai player rng).1 = some Command.MoveForward →
      isValidMove g (cellAhead (g.robot ai)) = true ∧ (moveForwardCommand g ai).2 = true) := by
  have hmove : isValidMove g (cellAhead (g.robot ai)) = true →
      (moveForwardCommand g ai).2 = true := by
    intro hv
    exact (moveForwardCommand_eq g ai hv).1
  exact ⟨fun h => ⟨TankAI.tankMove_forward s g ai player rng h,
      hmove (TankAI.tankMove_forward s g ai player rng h)⟩,
    fun h => ⟨SniperAI.sniperMove_forward s g ai player rng h,
      hmove (SniperAI.sniperMove_forward s g ai player rng h)⟩⟩

/-- Witness for C38: in `exampleTankAdvance` the Tank's call returns MoveForward
and the cell ahead, (3,1), is a valid move; in `exampleSniperClose` the Sniper's
call returns MoveForward and the cell ahead, (2,1), is a valid move. -/
theorem C38_tank_sniper_forward_valid_witness :
    ((TankAI.calculateMove exampleTankAdvance.2.tankAI exampleTankAdvance.1 RobotId.ai
        RobotId.player [0]).1 = some Command.MoveForward ∧
      cellAhead (exampleTankAdvance.1.robot RobotId.ai) = ⟨3, 1⟩ ∧
      isValidMove exampleTankAdvance.1 (cellAhead (exampleTankAdvance.1.robot RobotId.ai))
        = true ∧
      (moveForwardCommand exampleTankAdvance.1 RobotId.ai).2 = true) ∧
    ((SniperAI.calculateMove exampleSniperClose.2.sniperAI exampleSniperClose.1 RobotId.ai
        RobotId.player [0]).1 = some Command.MoveForward ∧
      cellAhead (exampleSniperClose.1.robot RobotId.ai) = ⟨2, 1⟩ ∧
      isValidMove exampleSniperClose.1 (cellAhead (exampleSniperClose.1.robot RobotId.ai))
        = true ∧
      (moveForwardCommand exampleSniperClose.1 RobotId.ai).2 = true) :=
  ⟨⟨by decide, by decide,
      ((C38_tank_sniper_forward_valid exampleTankAdvance.2.tankAI exampleTankAdvance.1
        RobotId.ai RobotId.player [0]).1 (by decide)).1,
      ((C38_tank_sniper_forward_valid exampleTankAdvance.2.tankAI exampleTankAdvance.1
        RobotId.ai RobotId.player [0]).1 (by decide)).2⟩,
    ⟨by decide, by decide,
      ((C38_tank_sniper_forward_valid exampleSniperClose.2.sniperAI exampleSniperClose.1
        RobotId.ai RobotId.player [0]).2 (by decide)).1,
      ((C38_tank_sniper_forward_valid exampleSniperClose.2.sniperAI exampleSniperClose.1
        RobotId.ai RobotId.player [0]).2 (by decide)).2⟩⟩

/-! ## Power-up damage by robot hit; the Bomb and its attacker -/

theorem bomb_health {g : Game} (hi : Inv g) {a t : RobotId} (ht : TurnOf g a t)
    (hp : (g.robot a).currentPowerUp = RobotPowerUp.Bomb) (c : QPoint)
    (hc : detonationCell g a c) (id : RobotId) (hpart : isParticipant g id)
    (hb : inBlock c (g.robot id).position) :
    ((engineStep g Command.Attack).robot id).health =
      max 0 ((g.robot id).health - powerUpDamageTo g id 30) := by
  obtain ⟨-, -, v3⟩ := engineStep_bomb_view hi ht hp
  have hva := (hi.floor_of_turn ht).1.1
  rw [(detonationCell_rayScan g a hva).2 c hc] at v3
  have hf := hi.floor_of_participant hpart
  rw [v3, blast_health 30 _ g (blockCells_nodup c),
    if_pos ⟨(mem_blockCells c _).2 hb, hf.1, hf.2, hpart⟩]

/-- A normal attack that can hit takes the attacker's damage from the target,
multiplied by the AI damage multiplier when the attacker is the AI robot. -/
theorem normalAttack_hit (g : Game) (a t : RobotId)
    (hpa : isValidPosition g (g.robot a).position = true) (hpt : standsOnFloor g t)
    (hc : canHit g (g.robot a) (g.robot t)) :
    (normalAttack g a t).robot t =
      (g.robot t).setHealth (max 0 ((g.robot t).health -
        (if a = RobotId.ai then scaleByModifier (g.robot a).attackDamage g.aiDamageModifier
         else (g.robot a).attackDamage))) := by
  have hc1 := hc
  rw [canHit_iff] at hc1
  obtain ⟨hlos, hf, hd⟩ := hc1
  unfold normalAttack
  dsimp only
  have hscan : normalScan g (g.robot a).position (g.robot a).direction (g.robot t).position
      (if (g.robot a).type = RobotType.Sniper then (3 : Int) else 1).toNat 1
      (g.robot a).position = (g.robot t).position := by
    apply normalScan_hits g _ _ _ hpa hpt.1 hc.1 hc.2.2 hpt.2
    · omega
    · exact aheadOf_manhattan_pos hc.1
    · split_ifs at hd ⊢ <;> omega
  have hn1 : ¬ ((isValidPosition g (g.robot t).position &&
      decide (g.arena (g.robot t).position.y (g.robot t).position.x = CellType.Wall))
      = true) := by
    rw [Bool.and_eq_true, decide_eq_true_eq]; exact fun h => hpt.2 h.2
  have hp2 : (hasLineOfSight g (g.robot a).position (g.robot t).position &&
      facesTarget (g.robot a) (g.robot t)) = true := by
    rw [hlos, hf]; rfl
  rw [hscan, if_neg hn1, if_pos hp2, attack_eq, if_pos ⟨hd, hlos⟩]
  exact Game.robot_setRobot_same _ _ _

theorem detonationCell_obstacle_ahead {g : Game} (a : RobotId)
    (hv : isValidPosition g (cellAhead (g.robot a)) = true)
    (ho : obstacleAt g (cellAhead (g.robot a))) :
    detonationCell g a (cellAhead (g.robot a)) := by
  left
  have e : cellAhead (g.robot a) = nextCell (g.robot a).position (g.robot a).direction := by
    rw [nextCell_eq_stepFrom]; rfl
  refine ⟨⟨hv, ?_⟩, ho, ?_⟩
  · rw [e]
    exact aheadOf_nextCell _ _
  · intro q hq hq2 _
    rw [e] at hq2
    exact not_between_next hq.2 hq2

theorem detonationCell_edge_ahead {g : Game} (a : RobotId)
    (hva : isValidPosition g (g.robot a).position = true)
    (hv : isValidPosition g (cellAhead (g.robot a)) = false) :
    detonationCell g a (g.robot a).position := by
  right
  refine ⟨?_, Or.inl rfl, hv⟩
  intro q hq _
  have h1 := (isValidPosition_iff g q).1 hq.1
  have h2 := (isValidPosition_iff g _).1 hva
  have h3 : ¬ (0 ≤ (cellAhead (g.robot a)).x ∧ (cellAhead (g.robot a)).x < g.gridSize ∧
      0 ≤ (cellAhead (g.robot a)).y ∧ (cellAhead (g.robot a)).y < g.gridSize) := by
    intro k
    rw [(isValidPosition_iff g _).2 k] at hv
    cases hv
  have h4 := hq.2
  revert h3 h4
  unfold cellAhead stepFrom aheadOf
  cases (g.robot a).direction <;> dsimp only <;> intro h3 h4 <;> omega

theorem inBlock_ahead (r : Robot) : inBlock (cellAhead r) r.position ∧ inBlock r.position r.position := by
  unfold inBlock cellAhead stepFrom
  have k1 : |(1 : Int)| ≤ 1 := by rw [abs_one]
  have k2 : |(-1 : Int)| ≤ 1 := by rw [abs_neg, abs_one]
  have k3 : |(0 : Int)| ≤ 1 := by rw [abs_zero]; decide
  cases r.direction <;>
    simp only [sub_self, sub_sub_cancel_left, sub_add_cancel_left, sub_sub_cancel] <;>
    exact ⟨⟨by first | exact k1 | exact k2 | exact k3, by first | exact k1 | exact k2 | exact k3⟩,
      ⟨k3, k3⟩⟩

theorem TurnOf.active_participant {g : Game} {a t : RobotId} (h : TurnOf g a t) :
    isParticipant g a ∧ isParticipant g t := by
  rcases h.participants with ⟨rfl, rfl⟩ | ⟨rfl, rfl⟩
  · exact ⟨Or.inl rfl, Or.inr rfl⟩
  · exact ⟨Or.inr rfl, Or.inl rfl⟩

theorem powerUpDamageTo_single {g : Game} (hc : Calibrated g) (hm : g.multiplayerMode = false)
    (id : RobotId) (base : Int) :
    powerUpDamageTo g id base =
      if id = RobotId.ai then scaleByModifier base (modifierTenths g.difficulty) else base := by
  by_cases h : id = RobotId.ai
  · subst h
    rw [if_pos rfl]
    exact powerUpDamageTo_ai hc base hm
  · rw [if_neg h]
    exact powerUpDamageTo_human g id base (Or.inr h)

/-- C36: in a reachable single-player state, when the robot whose turn it is
(the player or the AI) attacks, the multiplier of the difficulty (7, 10 or 13
tenths) scales power-up damage by the robot hit: the player robot crossed by a
Laser, hit by a Missile or standing in a Bomb block loses exactly 15, 20 or 30
health, floored at 0, whoever fired, and the AI robot loses 15, 20 or 30 times
the multiplier, truncated (10/14/21 on Easy, 15/20/30 on Medium, 19/26/39 on
Hard).  A normal attack that hits takes the attacker's damage times the
multiplier when the attacker is the AI robot and the attacker's plain damage
when it is the player, so the damage the AI robot receives is never scaled. -/
theorem C36_multiplier_by_robot_hit (g : Game) (active target : RobotId) (hr : Reachable g)
    (ht : TurnOf g active target) (hm : g.multiplayerMode = false) :
    ((g.robot active).currentPowerUp = RobotPowerUp.Laser →
      ∀ id, isParticipant g id → onRay g active (g.robot id).position →
        ((engineStep g Command.Attack).robot id).health =
          max 0 ((g.robot id).health -
            (if id = RobotId.ai then scaleByModifier 15 (modifierTenths g.difficulty)
             else 15))) ∧
    ((g.robot active).currentPowerUp = RobotPowerUp.Missile →
      ∀ p, firstObstacle g active p → g.arena p.y p.x ≠ CellType.Wall →
        (g.robot target).position = p ∧
        ((engineStep g Command.Attack).robot target).health =
          max 0 ((g.robot target).health -
            (if target = RobotId.ai then scaleByModifier 20 (modifierTenths g.difficulty)
             else 20))) ∧
    ((g.robot active).currentPowerUp = RobotPowerUp.Bomb →
      ∀ c, detonationCell g active c →
        ∀ id, isParticipant g id → inBlock c (g.robot id).position →
          ((engineStep g Command.Attack).robot id).health =
            max 0 ((g.robot id).health -
              (if id = RobotId.ai then scaleByModifier 30 (modifierTenths g.difficulty)
               else 30))) ∧
    ((g.robot active).currentPowerUp = RobotPowerUp.None →
      canHit g (g.robot active) (g.robot target) →
        ((engineStep g Command.Attack).robot target).health =
          max 0 ((g.robot target).health -
            (if active = RobotId.ai then
               scaleByModifier (g.robot active).attackDamage (modifierTenths g.difficulty)
             else (g.robot active).attackDamage))) ∧
    (scaleByModifier 15 (modifierTenths GameDifficulty.Easy) = 10 ∧
      scaleByModifier 20 (modifierTenths GameDifficulty.Easy) = 14 ∧
      scaleByModifier 30 (modifierTenths GameDifficulty.Easy) = 21 ∧
      scaleByModifier 15 (modifierTenths GameDifficulty.Medium) = 15 ∧
      scaleByModifier 20 (modifierTenths GameDifficulty.Medium) = 20 ∧
      scaleByModifier 30 (modifierTenths GameDifficulty.Medium) = 30 ∧
      scaleByModifier 15 (modifierTenths GameDifficulty.Hard) = 19 ∧
      scaleByModifier 20 (modifierTenths GameDifficulty.Hard) = 26 ∧
      scaleByModifier 30 (modifierTenths GameDifficulty.Hard) = 39) := by
  have hi := hr.inv
  have hc := hr.calibrated
  refine ⟨?_, ?_, ?_, ?_, by decide, by decide, by decide, by decide, by decide, by decide,
    by decide, by decide, by decide⟩
  · intro hp id hpart hray
    rw [← powerUpDamageTo_single hc hm id 15]
    exact laser_health hi ht hp id hpart hray
  · intro hp p hfo hw
    rw [← powerUpDamageTo_single hc hm target 20]
    exact missile_health hi ht hp p hfo hw
  · intro hp c hdc id hpart hb
    rw [← powerUpDamageTo_single hc hm id 30]
    exact bomb_health hi ht hp c hdc id hpart hb
  · intro hp hcan
    rw [(engineStep_normal_view hi ht hp).2.2 target,
      normalAttack_hit g active target (hi.floor_of_turn ht).1.1 (hi.floor_of_turn ht).2 hcan,
      hc.1]
    rfl

/-- C37: in a reachable state, when the robot whose turn it is (human or AI)
fires a Bomb with the grid edge, a Wall or the opposing robot on the cell
directly ahead, the Bomb detonates on the attacker's own cell (edge) or on the
cell ahead (Wall or robot), the attacker's cell lies in the 3 x 3 block of the
detonation cell, and the attacker's health becomes
max(0, health - powerUpDamageTo .. 30): exactly 30 less, floored at 0, for a
human-controlled robot, and 0 when the attacker had at most 30. -/
theorem C37_bomb_hits_attacker (g : Game) (active target : RobotId) (hr : Reachable g)
    (ht : TurnOf g active target)
    (hp : (g.robot active).currentPowerUp = RobotPowerUp.Bomb)
    (hahead : isValidPosition g (cellAhead (g.robot active)) = false ∨
      (isValidPosition g (cellAhead (g.robot active)) = true ∧
        g.arena (cellAhead (g.robot active)).y (cellAhead (g.robot active)).x = CellType.Wall) ∨
      (g.robot target).position = cellAhead (g.robot active)) :
    (∃ c, detonationCell g active c ∧
      (c = (g.robot active).position ∨ c = cellAhead (g.robot active)) ∧
      inBlock c (g.robot active).position) ∧
    ((engineStep g Command.Attack).robot active).health =
      max 0 ((g.robot active).health - powerUpDamageTo g active 30) ∧
    (g.multiplayerMode = true ∨ active ≠ RobotId.ai →
      ((engineStep g Command.Attack).robot active).health =
        max 0 ((g.robot active).health - 30) ∧
      ((g.robot active).health ≤ 30 →
        ((engineStep g Command.Attack).robot active).health = 0)) := by
  have hi := hr.inv
  have hfa := (hi.floor_of_turn ht).1
  have hft := (hi.floor_of_turn ht).2
  have hex : ∃ c, detonationCell g active c ∧
      (c = (g.robot active).position ∨ c = cellAhead (g.robot active)) ∧
      inBlock c (g.robot active).position := by
    rcases hahead with h | ⟨hv, hw⟩ | h
    · exact ⟨_, detonationCell_edge_ahead active hfa.1 h, Or.inl rfl, (inBlock_ahead _).2⟩
    · exact ⟨_, detonationCell_obstacle_ahead active hv (Or.inl hw), Or.inr rfl,
        (inBlock_ahead _).1⟩
    · have hv : isValidPosition g (cellAhead (g.robot active)) = true := by
        rw [← h]; exact hft.1
      exact ⟨_, detonationCell_obstacle_ahead active hv
        (Or.inr ⟨target, ht.active_participant.2, h⟩), Or.inr rfl, (inBlock_ahead _).1⟩
  obtain ⟨c, hdc, hc2, hb⟩ := hex
  have hh := bomb_health hi ht hp c hdc active ht.active_participant.1 hb
  refine ⟨⟨c, hdc, hc2, hb⟩, hh, ?_⟩
  intro hhum
  rw [powerUpDamageTo_human g active 30 hhum] at hh
  refine ⟨hh, fun hle => ?_⟩
  rw [hh]
  exact max_eq_left (by omega)

theorem exampleHardAiShot_reachable : Reachable exampleHardAiShot.1 :=
  runMatch_reachable _ (exampleHard, RobotAI.new) exampleHardAiShot
    exampleHard_reachable (eq_some_getD _ _ (by decide))

theorem exampleBombEdge_reachable : Reachable exampleBombEdge :=
  runCommands_reachable _ _ exampleBombShot_reachable

theorem exampleBombWall_reachable : Reachable exampleBombWall :=
  runCommands_reachable _ _ exampleBombEdge_reachable

theorem exampleBombFacing_reachable : Reachable exampleBombFacing :=
  runCommands_reachable _ _ exampleBombEdge_reachable

/-- Witness for C36.  In `exampleHardAiShot`, at Hard difficulty, the AI's Scout
holds the Bomb and faces the player's Scout on (2,3), its strategy returns
Attack, and the Bomb detonates on (2,3): the player's Scout loses exactly 30
(70 to 40) and the AI's own Scout loses 39 (46 to 7).  In `exampleHardLaserShot`
and `exampleHardMissileShot`, at Hard difficulty, the player's Laser takes 19
and the player's Missile takes 26 from the AI's Scout (91 to 72 and to 65).  In
`exampleTankHurt`, at Easy difficulty, the AI's Tank (attack damage 25) hits the
player's Scout with a normal attack and takes 17 = 25 * 7 / 10 from it
(23 to 6). -/
theorem C36_multiplier_by_robot_hit_witness :
    (Reachable exampleHardAiShot.1 ∧
      TurnOf exampleHardAiShot.1 RobotId.ai RobotId.player ∧
      exampleHardAiShot.1.multiplayerMode = false ∧
      exampleHardAiShot.1.difficulty = GameDifficulty.Hard ∧
      (exampleHardAiShot.1.robot RobotId.ai).currentPowerUp = RobotPowerUp.Bomb ∧
      (RobotAI.calculateMove exampleHardAiShot.2 exampleHardAiShot.1 RobotId.ai RobotId.player
        [0]).1 = some Command.Attack ∧
      detonationCell exampleHardAiShot.1 RobotId.ai ⟨2, 3⟩ ∧
      (exampleHardAiShot.1.robot RobotId.player).position = ⟨2, 3⟩ ∧
      (exampleHardAiShot.1.robot RobotId.player).health = 70 ∧
      ((engineStep exampleHardAiShot.1 Command.Attack).robot RobotId.player).health = 40 ∧
      (exampleHardAiShot.1.robot RobotId.ai).position = ⟨3, 3⟩ ∧
      (exampleHardAiShot.1.robot RobotId.ai).health = 46 ∧
      ((engineStep exampleHardAiShot.1 Command.Attack).robot RobotId.ai).health = 7) ∧
    (Reachable exampleHardLaserShot ∧
      TurnOf exampleHardLaserShot RobotId.player RobotId.ai ∧
      exampleHardLaserShot.difficulty = GameDifficulty.Hard ∧
      (exampleHardLaserShot.robot RobotId.player).currentPowerUp = RobotPowerUp.Laser ∧
      (exampleHardLaserShot.robot RobotId.ai).health = 91 ∧
      ((engineStep exampleHardLaserShot Command.Attack).robot RobotId.ai).health = 72) ∧
    (Reachable exampleHardMissileShot ∧
      TurnOf exampleHardMissileShot RobotId.player RobotId.ai ∧
      exampleHardMissileShot.difficulty = GameDifficulty.Hard ∧
      (exampleHardMissileShot.robot RobotId.player).currentPowerUp = RobotPowerUp.Missile ∧
      (exampleHardMissileShot.robot RobotId.ai).health = 91 ∧
      ((engineStep exampleHardMissileShot Command.Attack).robot RobotId.ai).health = 65) ∧
    (Reachable exampleTankHurt.1 ∧
      TurnOf exampleTankHurt.1 RobotId.ai RobotId.player ∧
      exampleTankHurt.1.multiplayerMode = false ∧
      exampleTankHurt.1.difficulty = GameDifficulty.Easy ∧
      (exampleTankHurt.1.robot RobotId.ai).currentPowerUp = RobotPowerUp.None ∧
      (exampleTankHurt.1.robot RobotId.ai).attackDamage = 25 ∧
      canHit exampleTankHurt.1 (exampleTankHurt.1.robot RobotId.ai)
        (exampleTankHurt.1.robot RobotId.player) ∧
      (exampleTankHurt.1.robot RobotId.player).health = 23 ∧
      ((engineStep exampleTankHurt.1 Command.Attack).robot RobotId.player).health = 6) :=
  have h1 := C36_multiplier_by_robot_hit exampleHardAiShot.1 RobotId.ai RobotId.player
    exampleHardAiShot_reachable (by decide) (by decide)
  have h2 := C36_multiplier_by_robot_hit exampleTankHurt.1 RobotId.ai RobotId.player
    exampleTankHurt_reachable (by decide) (by decide)
  have h3 := C36_multiplier_by_robot_hit exampleHardLaserShot RobotId.player RobotId.ai
    exampleHardLaserShot_reachable (by decide) (by decide)
  have h4 := C36_multiplier_by_robot_hit exampleHardMissileShot RobotId.player RobotId.ai
    exampleHardMissileShot_reachable (by decide) (by decide)
  have hd : detonationCell exampleHardAiShot.1 RobotId.ai ⟨2, 3⟩ :=
    detonationCell_of_scan _ _ _ (by decide) (by decide)
  have hb1 : inBlock ⟨2, 3⟩ (exampleHardAiShot.1.robot RobotId.player).position :=
    ⟨abs_le.2 ⟨by decide, by decide⟩, abs_le.2 ⟨by decide, by decide⟩⟩
  have hb2 : inBlock ⟨2, 3⟩ (exampleHardAiShot.1.robot RobotId.ai).position :=
    ⟨abs_le.2 ⟨by decide, by decide⟩, abs_le.2 ⟨by decide, by decide⟩⟩
  have hk : canHit exampleTankHurt.1 (exampleTankHurt.1.robot RobotId.ai)
      (exampleTankHurt.1.robot RobotId.player) :=
    (canHit_iff _ _ _).2 ⟨by decide, by decide, by decide⟩
  ⟨⟨exampleHardAiShot_reachable, by decide, by decide, by decide, by decide, by decide, hd,
      by decide, by decide,
      (h1.2.2.1 (by decide) ⟨2, 3⟩ hd RobotId.player (by decide) hb1).trans (by decide),
      by decide, by decide,
      (h1.2.2.1 (by decide) ⟨2, 3⟩ hd RobotId.ai (by decide) hb2).trans (by decide)⟩,
    ⟨exampleHardLaserShot_reachable, by decide, by decide, by decide, by decide,
      (h3.1 (by decide) RobotId.ai (by decide) (by decide)).trans (by decide)⟩,
    ⟨exampleHardMissileShot_reachable, by decide, by decide, by decide, by decide,
      ((h4.2.1 (by decide) (exampleHardMissileShot.robot RobotId.ai).position
        (firstObstacle_of_scan _ _ _ (by decide) (by decide)) (by decide)).2).trans
        (by decide)⟩,
    ⟨exampleTankHurt_reachable, by decide, by decide, by decide, by decide, by decide, hk,
      by decide, (h2.2.2.2.1 (by decide) hk).trans (by decide)⟩⟩

/-- Witness for C37, in the two-player game: the Scout at 25 health fires the
Bomb from (3,3) facing the bottom edge (`exampleBombEdge`), from (3,2) facing
the wall at (2,2) (`exampleBombWall`), and from (3,3) facing the Tank on (2,3)
(`exampleBombFacing`); each time its own health drops to 0. -/
theorem C37_bomb_hits_attacker_witness :
    (Reachable exampleBombEdge ∧ TurnOf exampleBombEdge RobotId.player2 RobotId.player ∧
      (exampleBombEdge.robot RobotId.player2).currentPowerUp = RobotPowerUp.Bomb ∧
      (exampleBombEdge.robot RobotId.player2).position = ⟨3, 3⟩ ∧
      isValidPosition exampleBombEdge (cellAhead (exampleBombEdge.robot RobotId.player2)) = false ∧
      (exampleBombEdge.robot RobotId.player2).health = 25 ∧
      ((engineStep exampleBombEdge Command.Attack).robot RobotId.player2).health = 0) ∧
    (Reachable exampleBombWall ∧ TurnOf exampleBombWall RobotId.player2 RobotId.player ∧
      (exampleBombWall.robot RobotId.player2).currentPowerUp = RobotPowerUp.Bomb ∧
      (exampleBombWall.robot RobotId.player2).position = ⟨3, 2⟩ ∧
      cellAhead (exampleBombWall.robot RobotId.player2) = ⟨2, 2⟩ ∧
      exampleBombWall.arena 2 2 = CellType.Wall ∧
      (exampleBombWall.robot RobotId.player2).health = 25 ∧
      ((engineStep exampleBombWall Command.Attack).robot RobotId.player2).health = 0) ∧
    (Reachable exampleBombFacing ∧ TurnOf exampleBombFacing RobotId.player2 RobotId.player ∧
      (exampleBombFacing.robot RobotId.player2).currentPowerUp = RobotPowerUp.Bomb ∧
      (exampleBombFacing.robot RobotId.player).position =
        cellAhead (exampleBombFacing.robot RobotId.player2) ∧
      (exampleBombFacing.robot RobotId.player2).health = 25 ∧
      ((engineStep exampleBombFacing Command.Attack).robot RobotId.player2).health = 0) :=
  have h1 := C37_bomb_hits_attacker exampleBombEdge RobotId.player2 RobotId.player
    exampleBombEdge_reachable (by decide) (by decide) (Or.inl (by decide))
  have h2 := C37_bomb_hits_attacker exampleBombWall RobotId.player2 RobotId.player
    exampleBombWall_reachable (by decide) (by decide) (Or.inr (Or.inl ⟨by decide, by decide⟩))
  have h3 := C37_bomb_hits_attacker exampleBombFacing RobotId.player2 RobotId.player
    exampleBombFacing_reachable (by decide) (by decide) (Or.inr (Or.inr (by decide)))
  ⟨⟨exampleBombEdge_reachable, by decide, by decide, by decide, by decide, by decide,
      (h1.2.2 (Or.inl (by decide))).2 (by decide)⟩,
    ⟨exampleBombWall_reachable, by decide, by decide, by decide, by decide, by decide, by decide,
      (h2.2.2 (Or.inl (by decide))).2 (by decide)⟩,
    ⟨exampleBombFacing_reachable, by decide, by decide, by decide, by decide,
      (h3.2.2 (Or.inl (by decide))).2 (by decide)⟩⟩

/-! ## The Maze template and the start corners -/

theorem mazeExtraWallsLoop_keeps_wall (y x : Int) (n : Nat) :
    ∀ (g : Game) (rng : List Nat) (g1 : Game) (rng1 : List Nat),
      mazeExtraWallsLoop n g rng = some (g1, rng1) → g.arena y x = CellType.Wall →
        g1.arena y x = CellType.Wall := by
  induction n with
  | zero =>
    intro g rng g1 rng1 h hw
    simp only [mazeExtraWallsLoop, Option.some.injEq, Prod.mk.injEq] at h
    rw [← h.1]; exact hw
  | succ n ih =>
    intro g rng g1 rng1 h hw
    match rng, h with
    | rx :: ry :: rest, h =>
      simp only [mazeExtraWallsLoop] at h
      split_ifs at h
      · exact ih _ _ _ _ h hw
      · refine ih _ _ _ _ h ?_
        show (if _ then CellType.Wall else g.arena y x) = CellType.Wall
        split_ifs
        · rfl
        · exact hw
      · exact ih _ _ _ _ h hw
    | [], h => simp [mazeExtraWallsLoop] at h
    | [_], h => simp [mazeExtraWallsLoop] at h

theorem mazeZigzagLoop_off_band (y x : Int) (hyx : x + 2 ≤ y) (n : Nat) :
    ∀ (i : Int) (g : Game), (mazeZigzagLoop n i g).arena y x = g.arena y x := by
  induction n with
  | zero => intro i g; rfl
  | succ n ih =>
    intro i g
    simp only [mazeZigzagLoop]
    rw [ih]
    split_ifs
    · show (if y = i ∧ x = i + 1 then CellType.Empty
        else if y = i ∧ x = i then CellType.Empty else g.arena y x) = _
      rw [if_neg (by omega), if_neg (by omega)]
    · show (if y = i + 1 ∧ x = i then CellType.Empty
        else if y = i ∧ x = i then CellType.Empty else g.arena y x) = _
      rw [if_neg (by omega), if_neg (by omega)]

theorem PickupsOnly.keeps_wall {g g1 : Game} (h : PickupsOnly g g1) {y x : Int}
    (hw : g.arena y x = CellType.Wall) : g1.arena y x = CellType.Wall := by
  rcases h.arena y x with h1 | ⟨h2, _⟩
  · rw [h1]; exact hw
  · rw [hw] at h2; cases h2

theorem generateMap_maze (g : Game) (rng : List Nat) (hm : g.mapType = MapType.Maze) :
    generateMap g rng = generateMazeMap g rng := by
  unfold generateMap
  rw [hm]

/-- After `initializeArena` with the Maze template every grid cell of the
checkerboard pattern that lies at least two rows below the main diagonal, the
player's start corner apart, is a wall. -/
theorem initializeArena_maze_wall (g : Game) (pt aiT : RobotType) (diff : GameDifficulty)
    (rng : List Nat) (g1 : Game)
    (h : initializeArena g pt aiT diff MapType.Maze rng = some g1) (x y : Int)
    (hx : 0 ≤ x) (hy : y < g.gridSize) (hyx : x + 2 ≤ y) (hpar : (x + y) % 2 = 0)
    (hc : ¬ (x = 0 ∧ y = g.gridSize - 1)) : g1.arena y x = CellType.Wall := by
  unfold initializeArena at h
  dsimp only at h
  split at h
  · cases h
  · rename_i g2 rng2 hmap
    have hn : g2.gridSize = g.gridSize := (generateMap_arenaOnly _ _ _ _ hmap).gridSize
    have hw2 : g2.arena y x = CellType.Wall := by
      rw [generateMap_maze _ _ rfl] at hmap
      unfold generateMazeMap at hmap
      split at hmap
      · cases hmap
      · rename_i g3 rng3 heq
        simp only [Option.some.injEq, Prod.mk.injEq] at hmap
        rw [← hmap.1, mazeZigzagLoop_off_band y x hyx]
        refine mazeExtraWallsLoop_keeps_wall y x _ _ _ _ _ heq ?_
        show (if _ then CellType.Wall else _) = CellType.Wall
        rw [if_pos]
        refine ⟨by omega, ?_, hx, ?_, ?_⟩
        · show y < g.gridSize
          exact hy
        · show x < g.gridSize
          omega
        · omega
    split at h
    · cases h
    · rename_i g6 rng3 hhp
      have f6 := placeHealthPickupsLoop_pickupsOnly _ _ _ _ _ _ hhp
      split at h
      · cases h
      · rename_i g7 rng4 hsp
        have f7 := placeSpecialPickups_pickupsOnly _ _ _ _ hsp
        simp only [Option.some.injEq] at h
        subst h
        show g7.arena y x = CellType.Wall
        refine (f6.pickTrans f7).keeps_wall ?_
        have hsz : (applyDifficultySettings
            { g2 with playerRobot := Robot.new pt, aiRobot := Robot.new aiT }).gridSize
            = g.gridSize := by
          rw [applyDifficultySettings_gridSize]; exact hn
        show (if y = 0 ∧ x = _ - 1 then CellType.Empty
          else if y = _ - 1 ∧ x = 0 then CellType.Empty else _) = CellType.Wall
        rw [if_neg (by omega), if_neg (by rw [hsz]; omega)]
        show (applyDifficultySettings _).arena y x = _
        rw [(applyDifficultySettings_arena _).1]
        exact hw2

/-- After `initializeArena` with the Maze template on a grid of side at least
4, every path of non-Wall cells from the player's corner (0, N-1) stays on that
corner (even N) or on the corner and its two neighbours (odd N): the cells
around them are walls of the checkerboard pattern that the zigzag loop, which
runs along the main diagonal, never clears. -/
theorem maze_corner_enclosed (g : Game) (pt aiT : RobotType) (diff : GameDifficulty)
    (rng : List Nat) (g1 : Game)
    (h : initializeArena g pt aiT diff MapType.Maze rng = some g1) (hN : 4 ≤ g.gridSize)
    (q : QPoint) (hp : PathBetween g1 ⟨0, g.gridSize - 1⟩ q) :
    (q.x = 0 ∧ q.y = g.gridSize - 1) ∨
    (g.gridSize % 2 = 1 ∧ ((q.x = 1 ∧ q.y = g.gridSize - 1) ∨
      (q.x = 0 ∧ q.y = g.gridSize - 2))) := by
  have hsz : g1.gridSize = g.gridSize := (initializeArena_spec _ _ _ _ _ _ _ h).1
  have wall := initializeArena_maze_wall g pt aiT diff rng g1 h
  induction hp with
  | start _ => exact Or.inl ⟨rfl, rfl⟩
  | step q r _ hadj hopen ih =>
    obtain ⟨hv, hnw⟩ := hopen
    rw [isValidPosition_iff, hsz] at hv
    have hw : ¬ (r.x + 2 ≤ r.y ∧ (r.x + r.y) % 2 = 0 ∧ ¬ (r.x = 0 ∧ r.y = g.gridSize - 1)) :=
      fun k => hnw (wall r.x r.y hv.1 hv.2.2.2 k.1 k.2.1 k.2.2)
    unfold orthAdjacent at hadj
    omega

/-- After `initializeArena` with the Maze template on a grid of side at least
4, whatever the draws, no path of orthogonally adjacent non-Wall cells joins the
two start corners. -/
theorem maze_corners_separated (g : Game) (pt aiT : RobotType) (diff : GameDifficulty)
    (rng : List Nat) (g1 : Game)
    (h : initializeArena g pt aiT diff MapType.Maze rng = some g1) (hN : 4 ≤ g.gridSize) :
    ¬ PathBetween g1 ⟨0, g.gridSize - 1⟩ ⟨g.gridSize - 1, 0⟩ := by
  intro hp
  have := maze_corner_enclosed g pt aiT diff rng g1 h hN _ hp
  dsimp only at this
  omega

set_option maxRecDepth 1000000 in
theorem exampleGridStart_init : Game.new 12 exampleGridDraws = some exampleGridStart :=
  eq_some_getD _ _ (by decide)

theorem exampleGridStart_reachable : Reachable exampleGridStart :=
  Reachable.construct 12 exampleGridDraws exampleGridStart (by decide) exampleGridStart_init

theorem exampleGridStart_gridSize : exampleGridStart.gridSize = 12 :=
  (initializeArena_spec _ _ _ _ _ _ _ exampleGridStart_init).1

set_option maxRecDepth 1000000 in
theorem exampleGridMaze_init :
    initializeArena exampleGridStart RobotType.Scout RobotType.Tank GameDifficulty.Medium
      MapType.Maze exampleGridMazeDraws = some exampleGridMaze :=
  eq_some_getD _ _ (by decide)

theorem exampleGridMaze_reachable : Reachable exampleGridMaze :=
  Reachable.init exampleGridStart RobotType.Scout RobotType.Tank GameDifficulty.Medium
    MapType.Maze exampleGridMazeDraws exampleGridMaze exampleGridStart_reachable
    exampleGridMaze_init

/-- C33 fails on the code.  In `exampleMaze`, the state `initializeArena`
leaves on a 4 x 4 grid with the Maze template, the player's robot starts on
(0,3) and the AI's on (3,0); the two grid neighbours (1,3) and (0,2) of the
player's corner are walls, and no path of orthogonally adjacent non-Wall cells
leads from one start corner to the other.  The same holds in `exampleGridMaze`,
on the 12 x 12 grid of the application, with the corners (0,11) and (11,0) and
the walls (1,11) and (0,10). -/
theorem C33_maze_corners_separated :
    (Reachable exampleMaze ∧
      exampleMaze.mapType = MapType.Maze ∧
      exampleMaze.gridSize = 4 ∧
      exampleMaze.playerRobot.position = ⟨0, 3⟩ ∧
      exampleMaze.aiRobot.position = ⟨3, 0⟩ ∧
      exampleMaze.arena 3 1 = CellType.Wall ∧
      exampleMaze.arena 2 0 = CellType.Wall ∧
      ¬ PathBetween exampleMaze ⟨0, 3⟩ ⟨3, 0⟩) ∧
    (Reachable exampleGridMaze ∧
      exampleGridMaze.mapType = MapType.Maze ∧
      exampleGridMaze.gridSize = 12 ∧
      exampleGridMaze.playerRobot.position = ⟨0, 11⟩ ∧
      exampleGridMaze.aiRobot.position = ⟨11, 0⟩ ∧
      exampleGridMaze.arena 11 1 = CellType.Wall ∧
      exampleGridMaze.arena 10 0 = CellType.Wall ∧
      ¬ PathBetween exampleGridMaze ⟨0, 11⟩ ⟨11, 0⟩) := by
  have hn := exampleGridStart_gridSize
  obtain ⟨s1, -, -, -, s5, s6, s7, -⟩ := initializeArena_spec _ _ _ _ _ _ _ exampleGridMaze_init
  have hsep := maze_corners_separated _ _ _ _ _ _ exampleGridMaze_init (by rw [hn]; decide)
  have hwall := initializeArena_maze_wall _ _ _ _ _ _ exampleGridMaze_init
  rw [hn] at s1 s6 s7 hsep hwall
  refine ⟨⟨exampleMaze_reachable, by decide, by decide, by decide, by decide, by decide,
    by decide,
    maze_corners_separated exampleStart RobotType.Scout RobotType.Scout GameDifficulty.Medium
      exampleMazeDraws exampleMaze (eq_some_getD _ _ (by decide)) (by decide)⟩,
    ⟨exampleGridMaze_reachable, s5, s1, ?_, ?_, ?_, ?_, hsep⟩⟩
  · rw [s6]; rfl
  · rw [s7]; rfl
  · exact hwall 1 11 (by decide) (by decide) (by decide) (by decide) (by decide)
  · exact hwall 0 10 (by decide) (by decide) (by decide) (by decide) (by decide)

/-! ## The nearest-pickup searches -/

/-- A fold whose steps each add a set of items to the items seen so far keeps
an invariant that relates the accumulator to the set seen. -/
theorem foldl_seen {α β γ : Type} (f : β → α → β) (C : α → γ → Prop)
    (Q : (γ → Prop) → β → Prop) (l : List α)
    (hstep : ∀ S b a, a ∈ l → Q S b → Q (fun z => S z ∨ C a z) (f b a)) :
    ∀ (S0 : γ → Prop) (b0 : β), Q S0 b0 →
      Q (fun z => S0 z ∨ ∃ a ∈ l, C a z) (l.foldl f b0) := by
  induction l with
  | nil =>
      intro S0 b0 h0
      have e : (fun z => S0 z ∨ ∃ a ∈ ([] : List α), C a z) = S0 := by
        funext z
        simp
      rw [e]
      exact h0
  | cons a as ih =>
      intro S0 b0 h0
      have h1 := ih (fun S1 b1 a1 h1 => hstep S1 b1 a1 (List.mem_cons_of_mem _ h1))
        (fun z => S0 z ∨ C a z) (f b0 a) (hstep S0 b0 a (List.mem_cons_self _ _) h0)
      have e : (fun z => (S0 z ∨ C a z) ∨ ∃ a1 ∈ as, C a1 z) =
          (fun z => S0 z ∨ ∃ a1 ∈ a :: as, C a1 z) := by
        funext z
        simp [or_assoc]
      rw [e] at h1
      exact h1

theorem scanInv_step (M : QPoint → Prop) [DecidablePred M] (pos : QPoint)
    (S : QPoint → Prop) (acc : QPoint × Int) (c : QPoint)
    (hd : manhattanDistance pos c < 999999) (h : scanInv M pos S acc) :
    scanInv M pos (fun z => S z ∨ z = c)
      (if M c then
        if manhattanDistance pos c < acc.2 then (c, manhattanDistance pos c) else acc
       else acc) := by
  by_cases hm : M c
  · rw [if_pos hm]
    by_cases hlt : manhattanDistance pos c < acc.2
    · rw [if_pos hlt]
      right
      refine ⟨Or.inr rfl, hm, rfl, ?_⟩
      rintro p (hp | rfl) hmp
      · rcases h with ⟨_, h2⟩ | ⟨_, _, _, h4⟩
        · exact absurd hmp (h2 p hp)
        · exact le_of_lt (lt_of_lt_of_le hlt (h4 p hp hmp))
      · exact le_refl _
    · rw [if_neg hlt]
      rcases h with ⟨h1, _⟩ | ⟨h1, h2, h3, h4⟩
      · rw [h1] at hlt
        exact absurd hd hlt
      · right
        refine ⟨Or.inl h1, h2, h3, ?_⟩
        rintro p (hp | rfl) hmp
        · exact h4 p hp hmp
        · exact not_lt.1 hlt
  · rw [if_neg hm]
    rcases h with ⟨h1, h2⟩ | ⟨h1, h2, h3, h4⟩
    · left
      refine ⟨h1, ?_⟩
      rintro p (hp | rfl)
      · exact h2 p hp
      · exact hm
    · right
      refine ⟨Or.inl h1, h2, h3, ?_⟩
      rintro p (hp | rfl) hmp
      · exact h4 p hp hmp
      · exact absurd hmp hm

/-- The two nested loops of a nearest-pickup search, over rows `ys` and
columns `xs`, establish the invariant for the set of all cells visited. -/
theorem nearest_scan (M : QPoint → Prop) [DecidablePred M] (pos : QPoint) (ys xs : List Int)
    (hd : ∀ y ∈ ys, ∀ x ∈ xs, manhattanDistance pos ⟨x, y⟩ < 999999) :
    scanInv M pos (fun z => ∃ y ∈ ys, ∃ x ∈ xs, z = ⟨x, y⟩)
      (ys.foldl
        (fun acc y =>
          xs.foldl
            (fun (acc1 : QPoint × Int) x =>
              if M ⟨x, y⟩ then
                if manhattanDistance pos ⟨x, y⟩ < acc1.2 then
                  ((⟨x, y⟩ : QPoint), manhattanDistance pos ⟨x, y⟩)
                else acc1
              else acc1)
            acc)
        ((⟨-1, -1⟩ : QPoint), (999999 : Int))) := by
  have key := foldl_seen
    (fun (acc : QPoint × Int) y =>
      xs.foldl
        (fun (acc1 : QPoint × Int) x =>
          if M ⟨x, y⟩ then
            if manhattanDistance pos ⟨x, y⟩ < acc1.2 then
              ((⟨x, y⟩ : QPoint), manhattanDistance pos ⟨x, y⟩)
            else acc1
          else acc1)
        acc)
    (fun (y : Int) (z : QPoint) => ∃ x ∈ xs, z = ⟨x, y⟩)
    (scanInv M pos) ys
    (by
      intro S b y hy hb
      exact foldl_seen
        (fun (acc1 : QPoint × Int) x =>
          if M ⟨x, y⟩ then
            if manhattanDistance pos ⟨x, y⟩ < acc1.2 then
              ((⟨x, y⟩ : QPoint), manhattanDistance pos ⟨x, y⟩)
            else acc1
          else acc1)
        (fun (x : Int) (z : QPoint) => z = ⟨x, y⟩)
        (scanInv M pos) xs
        (fun S1 b1 x hx hb1 => scanInv_step M pos S1 b1 ⟨x, y⟩ (hd y hy x hx) hb1)
        S b hb)
    (fun _ => False) ((⟨-1, -1⟩ : QPoint), (999999 : Int))
    (Or.inl ⟨rfl, fun _ hp => hp.elim⟩)
  have e : (fun z => False ∨ ∃ y ∈ ys, ∃ x ∈ xs, z = (⟨x, y⟩ : QPoint)) =
      (fun z => ∃ y ∈ ys, ∃ x ∈ xs, z = (⟨x, y⟩ : QPoint)) := by
    funext z
    simp
  rw [e] at key
  exact key

theorem mem_searchWindow (g : Game) (pos : QPoint) (radius : Int) :
    (fun z => ∃ y ∈ loopRange (max 0 (pos.y - radius)) (min (g.gridSize - 1) (pos.y + radius)),
      ∃ x ∈ loopRange (max 0 (pos.x - radius)) (min (g.gridSize - 1) (pos.x + radius)),
        z = (⟨x, y⟩ : QPoint)) = inSearchWindow g pos radius := by
  funext z
  apply propext
  unfold inSearchWindow
  rw [isValidPosition_iff, abs_le, abs_le]
  constructor
  · rintro ⟨y, hy, x, hx, rfl⟩
    rw [mem_loopRange] at hx hy
    dsimp only
    omega
  · intro h
    refine ⟨z.y, ?_, z.x, ?_, rfl⟩
    · rw [mem_loopRange]; omega
    · rw [mem_loopRange]; omega

theorem nearestInWindow_of_scan (g : Game) (pos : QPoint) (radius : Int) (M : QPoint → Prop)
    (acc : QPoint × Int)
    (h : scanInv M pos (inSearchWindow g pos radius) acc) :
    nearestInWindow g pos radius M acc.1 := by
  have hwin : ∀ p, inSearchWindow g pos radius p → p ≠ ⟨-1, -1⟩ ∧
      manhattanDistance pos p ≤ 2 * radius := by
    intro p hp
    unfold inSearchWindow at hp
    rw [isValidPosition_iff, abs_le, abs_le] at hp
    constructor
    · intro e
      rw [e] at hp
      have := hp.1.1
      dsimp only at this
      omega
    · unfold manhattanDistance
      rw [abs_sub_comm pos.x, abs_sub_comm pos.y]
      have h1 := abs_le.2 hp.2.1
      have h2 := abs_le.2 hp.2.2
      omega
  rcases h with ⟨h1, h2⟩ | ⟨h1, h2, h3, h4⟩
  · rw [h1]
    refine ⟨⟨fun _ k => ?_, fun _ => rfl⟩, fun k => absurd rfl k⟩
    obtain ⟨p, hp, hm⟩ := k
    exact h2 p hp hm
  · refine ⟨⟨fun e => absurd e (hwin _ h1).1, fun k => absurd ⟨_, h1, h2⟩ k⟩, fun _ => ?_⟩
    refine ⟨h1, h2, (hwin _ h1).2, fun p hp hm => ?_⟩
    rw [← h3]
    exact h4 p hp hm

theorem scanInv_congr (M M1 : QPoint → Prop) (pos : QPoint) (S : QPoint → Prop)
    (acc : QPoint × Int) (hM : ∀ p, S p → (M p ↔ M1 p)) (h : scanInv M pos S acc) :
    scanInv M1 pos S acc := by
  rcases h with ⟨h1, h2⟩ | ⟨h1, h2, h3, h4⟩
  · exact Or.inl ⟨h1, fun p hp k => h2 p hp ((hM p hp).2 k)⟩
  · exact Or.inr ⟨h1, (hM _ h1).1 h2, h3, fun p hp k => h4 p hp ((hM p hp).2 k)⟩

theorem searchWindow_distance (g : Game) (pos : QPoint) (radius : Int) (hr : radius ≤ 499999) :
    ∀ y ∈ loopRange (max 0 (pos.y - radius)) (min (g.gridSize - 1) (pos.y + radius)),
      ∀ x ∈ loopRange (max 0 (pos.x - radius)) (min (g.gridSize - 1) (pos.x + radius)),
        manhattanDistance pos ⟨x, y⟩ < 999999 := by
  intro y hy x hx
  rw [mem_loopRange] at hx hy
  unfold manhattanDistance
  have h1 : |pos.x - x| ≤ radius := abs_le.2 ⟨by omega, by omega⟩
  have h2 : |pos.y - y| ≤ radius := abs_le.2 ⟨by omega, by omega⟩
  dsimp only
  omega

theorem getCellType_window (g : Game) (pos : QPoint) (radius : Int) (p : QPoint)
    (h : inSearchWindow g pos radius p) : getCellType g p = g.arena p.y p.x := by
  unfold getCellType
  rw [h.1]
  rfl

/-- The search `findNearestHealthPickup` answers for the square window. -/
theorem findNearestHealthPickup_nearest (g : Game) (pos : QPoint) (radius : Int)
    (hr : radius ≤ 499999) :
    nearestInWindow g pos radius (fun p => g.arena p.y p.x = CellType.HealthPickup)
      (findNearestHealthPickup g pos radius) := by
  have key := nearest_scan (fun p => getCellType g p = CellType.HealthPickup) pos
    (loopRange (max 0 (pos.y - radius)) (min (g.gridSize - 1) (pos.y + radius)))
    (loopRange (max 0 (pos.x - radius)) (min (g.gridSize - 1) (pos.x + radius)))
    (searchWindow_distance g pos radius hr)
  rw [mem_searchWindow] at key
  exact nearestInWindow_of_scan g pos radius _ _
    (scanInv_congr _ _ pos _ _
      (fun p hp => by rw [getCellType_window g pos radius p hp]) key)

/-- The search `findNearestPowerUp` answers for the square window. -/
theorem findNearestPowerUp_nearest (g : Game) (pos : QPoint) (radius : Int)
    (hr : radius ≤ 499999) :
    nearestInWindow g pos radius (holdsPowerUp g) (findNearestPowerUp g pos radius) := by
  have key := nearest_scan
    (fun p => getCellType g p = CellType.LaserPowerUp ∨
      getCellType g p = CellType.MissilePowerUp ∨ getCellType g p = CellType.BombPowerUp) pos
    (loopRange (max 0 (pos.y - radius)) (min (g.gridSize - 1) (pos.y + radius)))
    (loopRange (max 0 (pos.x - radius)) (min (g.gridSize - 1) (pos.x + radius)))
    (searchWindow_distance g pos radius hr)
  rw [mem_searchWindow] at key
  exact nearestInWindow_of_scan g pos radius _ _
    (scanInv_congr _ _ pos _ _
      (fun p hp => by unfold holdsPowerUp; rw [getCellType_window g pos radius p hp]) key)

set_option maxRecDepth 1000000 in
theorem exampleGridMaze_nearestHealth :
    findNearestHealthPickup exampleGridMaze ⟨11, 0⟩ 5 = ⟨8, 5⟩ := by decide

set_option maxRecDepth 1000000 in
theorem exampleGridMaze_nearestPowerUp :
    findNearestPowerUp exampleGridMaze ⟨11, 0⟩ 5 = ⟨7, 2⟩ := by decide

set_option maxRecDepth 1000000 in
theorem exampleGridMaze_nothingNear :
    findNearestHealthPickup exampleGridMaze ⟨11, 0⟩ 1 = ⟨-1, -1⟩ := by decide

theorem exampleGridMaze_aiPosition : exampleGridMaze.aiRobot.position = ⟨11, 0⟩ := by
  rw [(initializeArena_spec _ _ _ _ _ _ _ exampleGridMaze_init).2.2.2.2.2.2.1,
    exampleGridStart_gridSize]
  rfl

/-- Counterexample for C31: in `exampleGridMaze`, on the 12 x 12 grid, the
searches from the AI robot's cell (11,0) with radius 5 (the call of
`tryCollectPickup`) do not answer (-1,-1): they return the HealthPickup at
(8,5), at Manhattan distance 8, and the power-up at (7,2), at Manhattan
distance 6, both farther than the radius. -/
theorem C31_counterexample :
    Reachable exampleGridMaze ∧
    exampleGridMaze.aiRobot.position = ⟨11, 0⟩ ∧
    findNearestHealthPickup exampleGridMaze ⟨11, 0⟩ 5 = ⟨8, 5⟩ ∧
    findNearestHealthPickup exampleGridMaze ⟨11, 0⟩ 5 ≠ ⟨-1, -1⟩ ∧
    manhattanDistance ⟨11, 0⟩ (findNearestHealthPickup exampleGridMaze ⟨11, 0⟩ 5) = 8 ∧
    ¬ manhattanDistance ⟨11, 0⟩ (findNearestHealthPickup exampleGridMaze ⟨11, 0⟩ 5) ≤ 5 ∧
    findNearestPowerUp exampleGridMaze ⟨11, 0⟩ 5 = ⟨7, 2⟩ ∧
    findNearestPowerUp exampleGridMaze ⟨11, 0⟩ 5 ≠ ⟨-1, -1⟩ ∧
    manhattanDistance ⟨11, 0⟩ (findNearestPowerUp exampleGridMaze ⟨11, 0⟩ 5) = 6 ∧
    ¬ manhattanDistance ⟨11, 0⟩ (findNearestPowerUp exampleGridMaze ⟨11, 0⟩ 5) ≤ 5 := by
  rw [exampleGridMaze_nearestHealth, exampleGridMaze_nearestPowerUp]
  exact ⟨exampleGridMaze_reachable, exampleGridMaze_aiPosition, rfl, by decide, by decide,
    by decide, rfl, by decide, by decide, by decide⟩

/-- C31 as amended: for every radius up to 499999 (the loops start from the
sentinel distance 999999), `findNearestHealthPickup(pos, r)` and
`findNearestPowerUp(pos, r)`, which are the same code in the three strategy
classes, return (-1,-1) if and only if no matching pickup cell of the grid lies
in the square window of at most r columns and at most r rows around `pos`, and
otherwise return a matching pickup cell of that window whose Manhattan distance
from `pos` is at most 2r and minimal among the matching pickup cells of the
window. -/
theorem C31_nearest_in_search_window (g : Game) (pos : QPoint) (radius : Int)
    (hr : radius ≤ 499999) :
    ((findNearestHealthPickup g pos radius = ⟨-1, -1⟩ ↔
        ¬ ∃ p, inSearchWindow g pos radius p ∧ g.arena p.y p.x = CellType.HealthPickup) ∧
      (findNearestHealthPickup g pos radius ≠ ⟨-1, -1⟩ →
        inSearchWindow g pos radius (findNearestHealthPickup g pos radius) ∧
        g.arena (findNearestHealthPickup g pos radius).y
          (findNearestHealthPickup g pos radius).x = CellType.HealthPickup ∧
        manhattanDistance pos (findNearestHealthPickup g pos radius) ≤ 2 * radius ∧
        ∀ p, inSearchWindow g pos radius p → g.arena p.y p.x = CellType.HealthPickup →
          manhattanDistance pos (findNearestHealthPickup g pos radius) ≤
            manhattanDistance pos p)) ∧
    ((findNearestPowerUp g pos radius = ⟨-1, -1⟩ ↔
        ¬ ∃ p, inSearchWindow g pos radius p ∧ holdsPowerUp g p) ∧
      (findNearestPowerUp g pos radius ≠ ⟨-1, -1⟩ →
        inSearchWindow g pos radius (findNearestPowerUp g pos radius) ∧
        holdsPowerUp g (findNearestPowerUp g pos radius) ∧
        manhattanDistance pos (findNearestPowerUp g pos radius) ≤ 2 * radius ∧
        ∀ p, inSearchWindow g pos radius p → holdsPowerUp g p →
          manhattanDistance pos (findNearestPowerUp g pos radius) ≤
            manhattanDistance pos p)) :=
  ⟨findNearestHealthPickup_nearest g pos radius hr, findNearestPowerUp_nearest g pos radius hr⟩

/-- Witness for the amended C31, in `exampleGridMaze` from the AI robot's cell
(11,0): with radius 5 the HealthPickup search returns (8,5), a HealthPickup of
the window, and every HealthPickup of the window is at Manhattan distance at
least 8; the power-up search returns (7,2), a power-up of the window; with
radius 1 the HealthPickup search returns (-1,-1) and the window holds no
HealthPickup. -/
theorem C31_nearest_in_search_window_witness :
    (5 : Int) ≤ 499999 ∧
    findNearestHealthPickup exampleGridMaze ⟨11, 0⟩ 5 = ⟨8, 5⟩ ∧
    inSearchWindow exampleGridMaze ⟨11, 0⟩ 5 ⟨8, 5⟩ ∧
    exampleGridMaze.arena 5 8 = CellType.HealthPickup ∧
    (∀ p, inSearchWindow exampleGridMaze ⟨11, 0⟩ 5 p →
      exampleGridMaze.arena p.y p.x = CellType.HealthPickup →
        8 ≤ manhattanDistance ⟨11, 0⟩ p) ∧
    findNearestPowerUp exampleGridMaze ⟨11, 0⟩ 5 = ⟨7, 2⟩ ∧
    inSearchWindow exampleGridMaze ⟨11, 0⟩ 5 ⟨7, 2⟩ ∧
    holdsPowerUp exampleGridMaze ⟨7, 2⟩ ∧
    (∀ p, inSearchWindow exampleGridMaze ⟨11, 0⟩ 5 p → holdsPowerUp exampleGridMaze p →
      6 ≤ manhattanDistance ⟨11, 0⟩ p) ∧
    findNearestHealthPickup exampleGridMaze ⟨11, 0⟩ 1 = ⟨-1, -1⟩ ∧
    ¬ ∃ p, inSearchWindow exampleGridMaze ⟨11, 0⟩ 1 p ∧
      exampleGridMaze.arena p.y p.x = CellType.HealthPickup := by
  have h5 := (C31_nearest_in_search_window exampleGridMaze ⟨11, 0⟩ 5 (by decide)).1.2
  have p5 := (C31_nearest_in_search_window exampleGridMaze ⟨11, 0⟩ 5 (by decide)).2.2
  have h1 := (C31_nearest_in_search_window exampleGridMaze ⟨11, 0⟩ 1 (by decide)).1.1
  rw [exampleGridMaze_nearestHealth] at h5
  rw [exampleGridMaze_nearestPowerUp] at p5
  obtain ⟨k1, k2, -, k4⟩ := h5 (by decide)
  obtain ⟨q1, q2, -, q4⟩ := p5 (by decide)
  dsimp only at k2
  have he : manhattanDistance ⟨11, 0⟩ ⟨8, 5⟩ = 8 := by decide
  have hd : (8 : Int) ≤ manhattanDistance ⟨11, 0⟩ ⟨8, 5⟩ := le_of_eq he.symm
  have he2 : manhattanDistance ⟨11, 0⟩ ⟨7, 2⟩ = 6 := by decide
  have hd2 : (6 : Int) ≤ manhattanDistance ⟨11, 0⟩ ⟨7, 2⟩ := le_of_eq he2.symm
  exact ⟨by decide, exampleGridMaze_nearestHealth, k1, k2,
    fun p hp hm => le_trans hd (k4 p hp hm), exampleGridMaze_nearestPowerUp, q1, q2,
    fun p hp hm => le_trans hd2 (q4 p hp hm), exampleGridMaze_nothingNear,
    h1.1 exampleGridMaze_nothingNear⟩

/-! ## MoveForward commands of the Scout -/

theorem forwardIsValid_of_valid {g : Game} {ai : RobotId}
    (h : isValidMove g (getPositionInDirection (g.robot ai).position (g.robot ai).direction 1)
      = true) (c : Option Command) : forwardIsValid g ai c := by
  intro _
  have hc : cellAhead (g.robot ai) =
      getPositionInDirection (g.robot ai).position (g.robot ai).direction 1 := by
    rw [getPositionInDirection_eq]; rfl
  rw [hc]
  exact h

theorem forwardIsValid_found {g : Game} {ai : RobotId} {f : Direction → Bool} {d : Direction}
    (hf : ∀ t, f t = true →
      isValidMove g (getPositionInDirection (g.robot ai).position t 1) = true)
    (h : loopDirections.find? f = some d) (hd : ¬ (g.robot ai).direction ≠ d)
    (c : Option Command) : forwardIsValid g ai c := by
  have hd1 : (g.robot ai).direction = d := not_not.1 hd
  have := hf d (List.find?_some h)
  rw [← hd1] at this
  exact forwardIsValid_of_valid this c

theorem isInDirection_ne_away (dx dy : Int) (d : Direction)
    (h : isInDirection dx dy d = true) : d ≠ getDirectionAway dx dy := by
  intro k
  rw [k] at h
  unfold getDirectionAway at h
  split_ifs at h with h1 h2 h3 <;>
    simp only [isInDirection, Bool.and_eq_true, decide_eq_true_eq] at h <;> omega

theorem ScoutAI.scoutMoveOrBreak_forward (g : Game) (ai : RobotId) (rng : List Nat) :
    forwardIsValid g ai (ScoutAI.tryMoveOrBreakWall g ai rng) := by
  unfold ScoutAI.tryMoveOrBreakWall
  dsimp only
  split_ifs with h1
  all_goals first
    | exact forwardIsValid_of_valid h1 _
    | exact forwardIsValid_turn g ai _ _
    | exact forwardIsValid_attack g ai
    | exact forwardIsValid_noCommand g ai
    | exact fun h => absurd h (ScoutAI.scoutLoop_ne_forward _ _ _ _ _ _ _)

theorem ScoutAI.scoutCollect_forward (g : Game) (ai : RobotId) (b : Bool) (rng : List Nat) :
    forwardIsValid g ai (ScoutAI.tryCollectPickup g ai b rng) := by
  unfold ScoutAI.tryCollectPickup
  dsimp only
  split_ifs
  all_goals first
    | exact forwardIsValid_turn g ai _ _
    | exact forwardIsValid_noCommand g ai
    | exact ScoutAI.scoutMoveOrBreak_forward g ai rng

theorem ScoutAI.scoutNormal_forward (g : Game) (ai player : RobotId) (rng : List Nat) :
    forwardIsValid g ai (ScoutAI.calculateScoutNormal g ai player rng) := by
  unfold ScoutAI.calculateScoutNormal
  dsimp only
  split_ifs
  · exact forwardIsValid_turn g ai _ _
  · exact ScoutAI.scoutMoveOrBreak_forward g ai rng

theorem ScoutAI.scoutFallback_forward (s : ScoutAIState) (g : Game) (ai : RobotId) :
    forwardIsValid g ai (some (ScoutAI.findSafePathFallback s g ai).1) := by
  unfold ScoutAI.findSafePathFallback
  dsimp only
  split_ifs with h1
  · exact forwardIsValid_of_valid h1 _
  · split
    · exact forwardIsValid_turn g ai _ _
    · exact forwardIsValid_noCommand g ai

theorem ScoutAI.scoutLastMove_forward (s : ScoutAIState) (g : Game) (ai opponent : RobotId) :
    forwardIsValid g ai (some (ScoutAI.findSafePathLastMove s g ai opponent).1) := by
  unfold ScoutAI.findSafePathLastMove
  dsimp only
  repeat' split
  all_goals first
    | exact forwardIsValid_turn g ai _ _
    | exact ScoutAI.scoutFallback_forward s g ai
    | (rename_i h; exact forwardIsValid_of_valid h.2.1 _)
    | (rename_i h
       have hv := h.2.2
       rw [← h.2.1] at hv
       exact forwardIsValid_of_valid hv _)

theorem ScoutAI.scoutApproach_forward (s : ScoutAIState) (g : Game) (ai opponent : RobotId) :
    forwardIsValid g ai (some (ScoutAI.findSafePathApproach s g ai opponent).1) := by
  unfold ScoutAI.findSafePathApproach
  dsimp only
  split_ifs with h1 h2
  · exact forwardIsValid_turn g ai _ _
  · exact forwardIsValid_of_valid h2.2 _
  · exact ScoutAI.scoutLastMove_forward s g ai opponent

theorem ScoutAI.scoutForced_forward (s : ScoutAIState) (g : Game) (ai opponent : RobotId) :
    forwardIsValid g ai (some (ScoutAI.findSafePathForced s g ai opponent).1) := by
  unfold ScoutAI.findSafePathForced
  dsimp only
  repeat' split
  all_goals first
    | exact forwardIsValid_turn g ai _ _
    | exact forwardIsValid_attack g ai
    | exact ScoutAI.scoutApproach_forward _ g ai opponent
    | (apply forwardIsValid_of_valid; assumption)

theorem ScoutAI.scoutPath_forward (s : ScoutAIState) (g : Game) (ai opponent : RobotId) :
    forwardIsValid g ai (some (ScoutAI.findSafePath s g ai opponent).1) := by
  unfold ScoutAI.findSafePath
  dsimp only
  split_ifs with h1 h2
  · exact forwardIsValid_of_valid h2 _
  · exact ScoutAI.scoutForced_forward _ g ai opponent
  · exact ScoutAI.scoutForced_forward _ g ai opponent

theorem forwardIsValid_first {g : Game} {ai : RobotId} {d : Direction} {c : Option Command}
    (h : loopDirections.find? (fun testDir =>
      isValidMove g (getPositionInDirection (g.robot ai).position testDir 1)) = some d)
    (hd : ¬ (g.robot ai).direction ≠ d) : forwardIsValid g ai c :=
  forwardIsValid_found (fun _ k => k) h hd c

theorem forwardIsValid_other {g : Game} {ai : RobotId} {d x : Direction} {c : Option Command}
    (h : loopDirections.find? (fun testDir =>
      decide (testDir ≠ x) &&
        isValidMove g (getPositionInDirection (g.robot ai).position testDir 1)) = some d)
    (hd : ¬ (g.robot ai).direction ≠ d) : forwardIsValid g ai c :=
  forwardIsValid_found (fun _ k => ((Bool.and_eq_true _ _).mp k).2) h hd c

theorem forwardIsValid_retreat {g : Game} {ai : RobotId} {away : Direction}
    {c : Option Command}
    (hv : ¬ (!isValidMove g (getPositionInDirection (g.robot ai).position away 1)) = true)
    (hd : ¬ (g.robot ai).direction ≠ away) : forwardIsValid g ai c := by
  have hd1 : (g.robot ai).direction = away := not_not.1 hd
  rw [← hd1] at hv
  refine forwardIsValid_of_valid ?_ c
  cases hk : isValidMove g
    (getPositionInDirection (g.robot ai).position (g.robot ai).direction 1)
  · rw [hk] at hv
    exact absurd rfl hv
  · rfl

theorem forwardIsValid_facing {g : Game} {ai : RobotId} {dx dy : Int} {c : Option Command}
    (hin : ¬ (!isInDirection dx dy (g.robot ai).direction) = true)
    (hd : ¬ (g.robot ai).direction ≠ getDirectionAway dx dy) : forwardIsValid g ai c := by
  exfalso
  apply hd
  apply isInDirection_ne_away
  cases hk : isInDirection dx dy (g.robot ai).direction
  · rw [hk] at hin
    exact absurd rfl hin
  · rfl

theorem ScoutAI.scoutBreakOut_forward (g : Game) (ai : RobotId) (rng : List Nat) :
    forwardIsValid g ai (ScoutAI.breakOut g ai rng) := by
  unfold ScoutAI.breakOut
  dsimp only
  repeat' split
  all_goals first
    | exact forwardIsValid_turn g ai _ _
    | exact forwardIsValid_attack g ai
    | exact forwardIsValid_none g ai
    | (apply forwardIsValid_first <;> assumption)

theorem forwardIsValid_ite {g : Game} {ai : RobotId} {c : Prop} [Decidable c]
    {a b : Command} (ha : c → forwardIsValid g ai (some a))
    (hb : ¬ c → forwardIsValid g ai (some b)) :
    forwardIsValid g ai (some (if c then a else b)) := by
  split_ifs with h
  · exact ha h
  · exact hb h

theorem ScoutAI.scoutVsScoutAdjacent_forward (s : ScoutAIState) (g : Game)
    (ai p : RobotId) : forwardIsValid g ai (some (ScoutAI.vsScoutAdjacent s g ai p)) := by
  unfold ScoutAI.vsScoutAdjacent
  dsimp only
  repeat' first
    | exact forwardIsValid_turn g ai _ _
    | exact forwardIsValid_attack g ai
    | (apply forwardIsValid_first <;> assumption)
    | (apply forwardIsValid_other <;> assumption)
    | (apply forwardIsValid_retreat <;> assumption)
    | (apply forwardIsValid_facing <;> assumption)
    | refine forwardIsValid_ite (fun _ => ?_) (fun _ => ?_)
    | split

theorem ScoutAI.scoutVsSniperAdjacent_forward (s : ScoutAIState) (g : Game)
    (ai p : RobotId) : forwardIsValid g ai (some (ScoutAI.vsSniperAdjacent s g ai p)) := by
  unfold ScoutAI.vsSniperAdjacent
  dsimp only
  repeat' first
    | exact forwardIsValid_turn g ai _ _
    | exact forwardIsValid_attack g ai
    | (apply forwardIsValid_first <;> assumption)
    | (apply forwardIsValid_other <;> assumption)
    | (apply forwardIsValid_retreat <;> assumption)
    | (apply forwardIsValid_facing <;> assumption)
    | refine forwardIsValid_ite (fun _ => ?_) (fun _ => ?_)
    | split

theorem ScoutAI.scoutVsTankAdjacent_forward (s : ScoutAIState) (g : Game)
    (ai p : RobotId) : forwardIsValid g ai (some (ScoutAI.vsTankAdjacent s g ai p)) := by
  unfold ScoutAI.vsTankAdjacent
  dsimp only
  repeat' first
    | exact forwardIsValid_turn g ai _ _
    | exact forwardIsValid_attack g ai
    | (apply forwardIsValid_first <;> assumption)
    | (apply forwardIsValid_other <;> assumption)
    | (apply forwardIsValid_retreat <;> assumption)
    | refine forwardIsValid_ite (fun _ => ?_) (fun _ => ?_)
    | split

theorem ScoutAI.scoutVsScout_forward (s : ScoutAIState) (g : Game) (ai p : RobotId)
    (rng : List Nat) : forwardIsValid g ai (ScoutAI.vsScout s g ai p rng).1 := by
  unfold ScoutAI.vsScout
  dsimp only
  repeat' split
  all_goals first
    | exact forwardIsValid_turn g ai _ _
    | exact forwardIsValid_none g ai
    | exact ScoutAI.scoutVsScoutAdjacent_forward s g ai p
    | exact ScoutAI.scoutMoveOrBreak_forward g ai rng
    | exact ScoutAI.scoutNormal_forward g ai p rng
    | exact ScoutAI.scoutPath_forward s g ai p
    | exact forwardIsValid_of_eq (ScoutAI.scoutCollect_forward g ai _ rng) (by assumption)

theorem ScoutAI.scoutVsSniper_forward (s : ScoutAIState) (g : Game) (ai p : RobotId)
    (rng : List Nat) : forwardIsValid g ai (ScoutAI.vsSniper s g ai p rng).1 := by
  unfold ScoutAI.vsSniper
  dsimp only
  repeat' split
  all_goals first
    | exact forwardIsValid_turn g ai _ _
    | exact forwardIsValid_none g ai
    | exact ScoutAI.scoutVsSniperAdjacent_forward s g ai p
    | exact ScoutAI.scoutMoveOrBreak_forward g ai rng
    | exact ScoutAI.scoutPath_forward s g ai p
    | exact forwardIsValid_of_eq (ScoutAI.scoutCollect_forward g ai _ rng) (by assumption)

theorem ScoutAI.scoutVsTank_forward (s : ScoutAIState) (g : Game) (ai p : RobotId)
    (rng : List Nat) (hk : ¬ ScoutAI.killApproach g ai p) :
    forwardIsValid g ai (ScoutAI.vsTank s g ai p rng).1 := by
  unfold ScoutAI.killApproach at hk
  unfold ScoutAI.vsTank
  dsimp only
  repeat' split
  all_goals first
    | exact forwardIsValid_turn g ai _ _
    | exact forwardIsValid_none g ai
    | exact ScoutAI.scoutVsTankAdjacent_forward s g ai p
    | exact ScoutAI.scoutMoveOrBreak_forward g ai rng
    | exact ScoutAI.scoutPath_forward s g ai p
    | exact forwardIsValid_of_eq (ScoutAI.scoutCollect_forward g ai _ rng) (by assumption)
    | (exfalso
       rename_i h1 h2
       exact hk ⟨h1.2, of_decide_eq_true h1.1, not_not.1 h2⟩)

theorem ScoutAI.scoutStrategy_forward (s : ScoutAIState) (g : Game) (ai p : RobotId)
    (rng : List Nat)
    (hk : ¬ ((g.robot p).type = RobotType.Tank ∧ ScoutAI.killApproach g ai p)) :
    forwardIsValid g ai (ScoutAI.strategy s g ai p rng).1 := by
  unfold ScoutAI.strategy
  dsimp only
  split
  · exact ScoutAI.scoutVsScout_forward _ g ai p rng
  · rename_i ht
    exact ScoutAI.scoutVsTank_forward _ g ai p rng (fun k => hk ⟨ht, k⟩)
  · exact ScoutAI.scoutVsSniper_forward _ g ai p rng

/-- Every MoveForward of `ScoutAI::calculateMove` has a valid cell ahead,
except in the kill approach of `vsTank`. -/
theorem ScoutAI.scoutMove_forward (s : ScoutAIState) (g : Game) (ai p : RobotId)
    (rng : List Nat)
    (hk : ¬ ((g.robot p).type = RobotType.Tank ∧ ScoutAI.killApproach g ai p)) :
    forwardIsValid g ai (ScoutAI.calculateMove s g ai p rng).1 := by
  unfold ScoutAI.calculateMove
  dsimp only
  split_ifs
  all_goals first
    | exact ScoutAI.scoutBreakOut_forward g ai rng
    | exact ScoutAI.scoutStrategy_forward _ g ai p rng hk

/-! ## The Scout's unchecked step towards a Tank -/

theorem exampleTankVsScout_reachable : Reachable exampleTankVsScout :=
  Reachable.init exampleStart RobotType.Tank RobotType.Scout GameDifficulty.Medium
    MapType.Random exampleDraws exampleTankVsScout exampleStart_reachable
    (eq_some_getD _ _ (by decide))

theorem exampleScoutBlocked_reachable : Reachable exampleScoutBlocked.1 :=
  runMatch_reachable _ (exampleTankVsScout, RobotAI.new) exampleScoutBlocked
    exampleTankVsScout_reachable (eq_some_getD _ _ (by decide))

/-- C39 fails on the code.  In the reachable state `exampleScoutBlocked` it is
the turn of the AI's Scout, which stands on (1,2) facing North with the wall
(1,1) on the cell ahead; the player's Tank stands on (2,1), at Manhattan
distance 2, with 15 health, the Scout's attack damage, so the state is in the
kill approach of `vsTank`.  The Scout is not stuck, `ScoutAI::calculateMove`
returns MoveForward (whatever the random draws, none is consumed), the cell
ahead fails `isValidMove`, and `executeAiTurn` rejects the move: the Scout
keeps its cell and its moves. -/
theorem C39_unchecked_forward :
    Reachable exampleScoutBlocked.1 ∧
    ScoutAI.killApproach exampleScoutBlocked.1 RobotId.ai RobotId.player ∧
    exampleScoutBlocked.1.state = GameState.AiTurn ∧
    (exampleScoutBlocked.1.robot RobotId.ai).type = RobotType.Scout ∧
    (exampleScoutBlocked.1.robot RobotId.player).type = RobotType.Tank ∧
    (exampleScoutBlocked.1.robot RobotId.ai).position = ⟨1, 2⟩ ∧
    (exampleScoutBlocked.1.robot RobotId.ai).direction = Direction.North ∧
    (exampleScoutBlocked.1.robot RobotId.ai).movesLeft = 2 ∧
    (exampleScoutBlocked.1.robot RobotId.ai).attackDamage = 15 ∧
    (exampleScoutBlocked.1.robot RobotId.player).position = ⟨2, 1⟩ ∧
    (exampleScoutBlocked.1.robot RobotId.player).health = 15 ∧
    cellAhead (exampleScoutBlocked.1.robot RobotId.ai) = ⟨1, 1⟩ ∧
    exampleScoutBlocked.1.arena 1 1 = CellType.Wall ∧
    ¬ RobotAI.stuck exampleScoutBlocked.2 exampleScoutBlocked.1 RobotId.ai ∧
    (ScoutAI.calculateMove exampleScoutBlocked.2.scoutAI exampleScoutBlocked.1 RobotId.ai
      RobotId.player []).1 = some Command.MoveForward ∧
    (RobotAI.calculateMove exampleScoutBlocked.2 exampleScoutBlocked.1 RobotId.ai
      RobotId.player []).1 = some Command.MoveForward ∧
    isValidMove exampleScoutBlocked.1 (cellAhead (exampleScoutBlocked.1.robot RobotId.ai))
      = false ∧
    (moveForwardCommand exampleScoutBlocked.1 RobotId.ai).2 = false ∧
    ((executeAiTurn exampleScoutBlocked.1 Command.MoveForward).robot RobotId.ai).position =
      ⟨1, 2⟩ ∧
    ((executeAiTurn exampleScoutBlocked.1 Command.MoveForward).robot RobotId.ai).movesLeft =
      2 :=
  ⟨exampleScoutBlocked_reachable, ⟨by decide, by decide, by decide⟩, by decide⟩

end RobotArena
